import Mathlib

/-!
# Derived-insight pipeline of the NASA weather dashboard

A shallow embedding of the statistics and rule-based text functions of
`nasa-weather-app/src/components`:

* `calculateStats` (WeatherStats.js),
* `fetchLocationData`, `generateBasicRecommendation` and `compareLocations`
  (LocationComparison.js), the parts after the HTTP responses,
* `generateSmartFallback` and `generateGeminiResponse` (Chatbot.js),
* `generateLocalSummary` and `fetchSummary` (WeatherSummary.js).

The outcome of a remote call is a parameter of the function that awaits it.
String literals are those of the source, character by character.

Arithmetic comes in two readings. The functions named after the source
(`calculateStats`, `generateSmartFallback`, `generateLocalSummary`, ...)
compute with exact rationals; they carry the facts that do not depend on
rounding. Their counterparts with the suffix `With` take a rounding rule `A`,
which stores the result of every addition, subtraction, multiplication and
division: `binary64` is double precision (round to nearest, ties to even), the
arithmetic of the program, and `unrounded` gives back the exact functions
(`calculateStatsWith_unrounded`, `generateSmartFallbackWith_unrounded`,
`generateLocalSummaryWith_unrounded`). A fact stated for every `A` holds of the
program; evaluations of concrete inputs are stated for `binary64`. `NaN` and
the infinities are separate values of `JSNum`; the sign of zero is not
modelled. Rows come from JSON, so a cell is a number or `null` (`Reading`).
Text produced by `toFixed` is kept as a `Figure` (sign, scaled integer,
fraction digits) together with its rendering `Figure.text`, so that both the
characters shown and the number they denote are available.
-/

set_option maxRecDepth 100000

namespace NasaWeather

/-! ## JavaScript values -/

/-- A cell of a data row as JSON delivers it: a number or `null`. -/
inductive Reading where
  | num (x : ℚ)
  | null
  deriving DecidableEq

/-- Numbers the arithmetic of the dashboard can produce: finite values, `NaN`,
`Infinity` and `-Infinity`. -/
inductive JSNum where
  | fin (x : ℚ)
  | nan
  | posInf
  | negInf
  deriving DecidableEq

/-- The coercion `ToNumber` on a cell: `null` counts as `0` in arithmetic. -/
def Reading.toNumber : Reading → ℚ
  | .num x => x
  | .null => 0

/-- The global `isNaN(v)`: it coerces with `ToNumber`, so it is false on numbers and on `null`. -/
def isNaN : Reading → Bool
  | .num _ => false
  | .null => false

/-- Truthiness of a cell: `null` and the number `0` are falsy. -/
def Reading.truthy : Reading → Bool
  | .num x => decide (x ≠ 0)
  | .null => false

/-- The expression `v || d` for a cell `v` and a numeric default `d`. -/
def Reading.orDefault (v : Reading) (d : ℚ) : ℚ :=
  if v.truthy then v.toNumber else d

/-- The quotient `a / b` of two finite numbers: `0/0` is `NaN`, a non-zero
number over `0` is an infinity. -/
def jsDiv (a b : ℚ) : JSNum :=
  if b = 0 then (if a = 0 then .nan else if 0 < a then .posInf else .negInf)
  else .fin (a / b)

/-- The product of a number with a positive finite constant. -/
def JSNum.scale (x : JSNum) (c : ℚ) : JSNum :=
  match x with
  | .fin a => .fin (a * c)
  | .nan => .nan
  | .posInf => if 0 < c then .posInf else if c = 0 then .nan else .negInf
  | .negInf => if 0 < c then .negInf else if c = 0 then .nan else .posInf

/-- The comparison `x < y`; every comparison with `NaN` is false. -/
def JSNum.lt : JSNum → JSNum → Bool
  | .fin a, .fin b => decide (a < b)
  | .fin _, .posInf => true
  | .negInf, .fin _ => true
  | .negInf, .posInf => true
  | _, _ => false

/-- One step of `Math.min`: the accumulator starts at `Infinity`. -/
def minStep (acc : JSNum) (x : ℚ) : JSNum :=
  match acc with
  | .fin m => .fin (min m x)
  | .posInf => .fin x
  | .negInf => .negInf
  | .nan => .nan

/-- One step of `Math.max`: the accumulator starts at `-Infinity`. -/
def maxStep (acc : JSNum) (x : ℚ) : JSNum :=
  match acc with
  | .fin m => .fin (max m x)
  | .negInf => .fin x
  | .posInf => .posInf
  | .nan => .nan

/-- The call `Math.min(...xs)`: `Infinity` on no arguments. -/
def mathMin (xs : List ℚ) : JSNum := xs.foldl minStep .posInf

/-- The call `Math.max(...xs)`: `-Infinity` on no arguments. -/
def mathMax (xs : List ℚ) : JSNum := xs.foldl maxStep .negInf

/-- The call `xs.reduce((a, b) => a + b, 0)` on cells. -/
def reduceSum (xs : List Reading) : ℚ := xs.foldl (fun a b => a + b.toNumber) 0

/-! ## `toFixed` -/

/-- A displayed figure: the text `toFixed` returns, kept as sign, integer `n`
and number of fraction digits `f` (the text denotes `n / 10 ^ f`), or one of
the literal texts `NaN`, `Infinity`, `-Infinity`, `N/A`. -/
inductive Figure where
  | dec (neg : Bool) (n f : ℕ)
  | nan
  | inf (neg : Bool)
  | na
  deriving DecidableEq

/-- The integer `n` of `x.toFixed(f)`: `n / 10 ^ f` is as close to `|x|` as
possible, the larger `n` on a tie. -/
def toFixedDigits (f : ℕ) (x : ℚ) : ℕ := (Int.floor (|x| * 10 ^ f + 1 / 2)).toNat

/-- The method `x.toFixed(f)` (for `|x| < 10 ^ 21`, the range in which the
result is plain decimal text). -/
def JSNum.toFixed (f : ℕ) : JSNum → Figure
  | .fin x => .dec (decide (x < 0)) (toFixedDigits f x) f
  | .nan => .nan
  | .posInf => .inf false
  | .negInf => .inf true

/-- The decimal text of sign, integer and fraction digits, zero-padded to
`f + 1` digits as `toFixed` does. -/
def decText (neg : Bool) (n f : ℕ) : String :=
  let m := Nat.repr n
  let m := if m.length ≤ f then String.mk (List.replicate (f + 1 - m.length) '0') ++ m else m
  let k := m.length
  (if neg then "-" else "") ++ (if f ≠ 0 then m.take (k - f) ++ "." ++ m.drop (k - f) else m)

/-- The text of a displayed figure. -/
def Figure.text : Figure → String
  | .dec neg n f => decText neg n f
  | .nan => "NaN"
  | .inf false => "Infinity"
  | .inf true => "-Infinity"
  | .na => "N/A"

/-- The number a displayed figure denotes, when it denotes a finite one. -/
def Figure.value : Figure → Option ℚ
  | .dec neg n f => some ((if neg then -1 else 1) * (n : ℚ) / 10 ^ f)
  | _ => none

/-- The number denoted by `x.toFixed(f)`. -/
def roundValue (f : ℕ) (x : ℚ) : ℚ :=
  (if x < 0 then -1 else 1) * (toFixedDigits f x : ℚ) / 10 ^ f

/-! ## WeatherStats.js -/

/-- The object `{ mean, min, max }` returned by `calculateStats`. -/
structure Stats where
  mean : Figure
  min : Figure
  max : Figure
  deriving DecidableEq

/-- The function `calculateStats` of WeatherStats.js. -/
def calculateStats (values : List Reading) : Stats :=
  let validValues := values.filter (fun v => decide (v ≠ Reading.null) && !isNaN v)
  if validValues.length = 0 then { mean := .na, min := .na, max := .na }
  else
    let sum := reduceSum validValues
    { mean := (jsDiv sum validValues.length).toFixed 2
      min := (mathMin (validValues.map Reading.toNumber)).toFixed 2
      max := (mathMax (validValues.map Reading.toNumber)).toFixed 2 }

/-- The present values of a sequence, in order: the numbers, without the `null` entries. -/
def presentValues (values : List Reading) : List ℚ :=
  values.filterMap (fun v => match v with
    | .num x => some x
    | .null => none)

/-! ## LocationComparison.js -/

/-- The object `response.data.properties.parameter`: for each requested
parameter the values of its date-to-reading map, in date order. -/
structure ParameterData where
  T2M : List ℚ
  PRECTOTCORR : List ℚ
  WS2M : List ℚ

/-- The aggregates `fetchLocationData` returns for one location. -/
structure LocationData where
  avgTemp : JSNum
  hotDays : JSNum
  avgPrecip : JSNum
  rainyDays : JSNum
  avgWind : JSNum
  deriving DecidableEq

/-- The call `xs.reduce((a, b) => a + b, 0)` on numbers. -/
def reduceNumbers (xs : List ℚ) : ℚ := xs.foldl (fun a b => a + b) 0

/-- The function `fetchLocationData` of LocationComparison.js, from the
response of the weather data source on. -/
def fetchLocationData (paramData : ParameterData) : LocationData :=
  let temps := paramData.T2M.filter (fun v => decide (v ≠ -999))
  let precip := paramData.PRECTOTCORR.filter (fun v => decide (v ≠ -999))
  let wind := paramData.WS2M.filter (fun v => decide (v ≠ -999))
  { avgTemp := jsDiv (reduceNumbers temps) temps.length
    hotDays := (jsDiv (temps.filter (fun t => decide (t > 30))).length temps.length).scale 100
    avgPrecip := jsDiv (reduceNumbers precip) precip.length
    rainyDays := (jsDiv (precip.filter (fun p => decide (p > 1))).length precip.length).scale 100
    avgWind := jsDiv (reduceNumbers wind) wind.length }

/-- The series with every `-999` reading removed. -/
def ParameterData.withoutMissing (pd : ParameterData) : ParameterData :=
  { T2M := pd.T2M.filter (fun v => decide (v ≠ -999))
    PRECTOTCORR := pd.PRECTOTCORR.filter (fun v => decide (v ≠ -999))
    WS2M := pd.WS2M.filter (fun v => decide (v ≠ -999)) }

/-! ## Chatbot.js -/

/-- One row of `weatherData.data`. -/
structure Observation where
  date : String
  T2M : Reading
  PRECTOTCORR : Reading
  WS2M : Reading
  RH2M : Reading
  SNODP : Reading

/-- The first entry of one parameter's forecast: predicted value and confidence. -/
structure ForecastPoint where
  value : ℚ
  confidence : ℚ

/-- The coordinates of the query, as the text their interpolation gives. -/
structure Location where
  lat : String
  lon : String

/-- The prop `weatherData` of the chat component. -/
structure WeatherData where
  data : List Observation
  parameters : List String
  forecasts : Option (List (String × List ForecastPoint))
  location : Location

/-- A thrown JavaScript exception. -/
inductive JSError where
  | typeError
  deriving DecidableEq

/-- The method `s.includes(sub)`. -/
def includes (s sub : String) : Bool :=
  s.data.tails.any (fun t => sub.data.isPrefixOf t)

/-- The method `s.toLowerCase()`, on the letters `A` to `Z`. -/
def toLowerCase (s : String) : String := String.mk (s.data.map Char.toLower)

/-- The number a displayed figure converts to in arithmetic and comparisons. -/
def Figure.toNumber : Figure → JSNum
  | .dec neg n f => .fin ((if neg then -1 else 1) * (n : ℚ) / 10 ^ f)
  | .nan => .nan
  | .inf false => .posInf
  | .inf true => .negInf
  | .na => .nan

/-- The quotient of a number by the length of an array. -/
def JSNum.divNat (x : JSNum) (n : ℕ) : JSNum :=
  match x with
  | .fin a => jsDiv a n
  | .nan => .nan
  | .posInf => .posInf
  | .negInf => .negInf

/-- The condition of the outdoor-activity branch. -/
def isOutdoorQuestion (q : String) : Bool :=
  includes q "outside" || includes q "go out" || includes q "outdoor" || includes q "should i"

/-- The condition of the temperature branch. -/
def isTemperatureQuestion (q : String) : Bool :=
  includes q "temperature" || includes q "temp" || includes q "hot" || includes q "cold"

/-- The condition of the precipitation branch. -/
def isPrecipitationQuestion (q : String) : Bool :=
  includes q "rain" || includes q "precipitation" || includes q "wet" || includes q "dry"

/-- The condition of the forecast branch. -/
def isForecastQuestion (q : String) : Bool :=
  includes q "forecast" || includes q "predict" || includes q "future" || includes q "tomorrow"

/-- The condition of the wind branch. -/
def isWindQuestion (q : String) : Bool :=
  includes q "wind" || includes q "windy" || includes q "breeze"

/-- The condition of the trend branch. -/
def isTrendQuestion (q : String) : Bool :=
  includes q "trend" || includes q "changing" || includes q "pattern"

/-- The condition of the general branch. -/
def isGeneralQuestion (q : String) : Bool :=
  includes q "summary" || includes q "overview" || includes q "tell me"

/-- The temperature band sentence of the outdoor advice. -/
def temperatureAdvice (temp : ℚ) : String :=
  if temp > 30 then "Hot! Stay hydrated and seek shade.\n"
  else if temp > 20 then "Pleasant for outdoor activities.\n"
  else if temp > 10 then "Cool, consider a light jacket.\n"
  else "Cold, dress warmly.\n"

/-- The precipitation band sentence of the outdoor advice. -/
def precipitationAdvice (precip : ℚ) : String :=
  if precip > 5 then "Rainy, bring an umbrella!\n"
  else if precip > 0.1 then "Light rain possible.\n"
  else "No rain expected.\n"

/-- The wind band sentence of the outdoor advice. -/
def windAdvice (wind : ℚ) : String :=
  if wind > 10 then "Very windy, secure loose items.\n"
  else if wind > 5 then "Breezy conditions.\n"
  else "Calm winds.\n"

/-- The text added under `if (latest.T2M !== null)`. -/
def temperatureLine : Reading → String
  | .null => ""
  | .num temp =>
    "🌡️ Temperature: " ++ ((JSNum.fin temp).toFixed 1).text ++ "°C - " ++ temperatureAdvice temp

/-- The text added under `if (latest.PRECTOTCORR !== null)`. -/
def precipitationLine : Reading → String
  | .null => ""
  | .num precip =>
    "🌧️ Precipitation: " ++ ((JSNum.fin precip).toFixed 1).text ++ "mm - "
      ++ precipitationAdvice precip

/-- The text added under `if (latest.WS2M !== null)`. -/
def windLine : Reading → String
  | .null => ""
  | .num wind =>
    "💨 Wind: " ++ ((JSNum.fin wind).toFixed 1).text ++ " m/s - " ++ windAdvice wind

/-- The overall recommendation of the outdoor advice, chosen by precedence. -/
def overallRecommendation (latest : Observation) : String :=
  let temp := latest.T2M.orDefault 20
  let precip := latest.PRECTOTCORR.orDefault 0
  let wind := latest.WS2M.orDefault 3
  if precip > 5 then "\n🏠 Recommendation: Stay indoors due to rain."
  else if temp < 5 ∨ temp > 35 then
    "\n⚠️ Recommendation: Extreme temperature, limit outdoor time."
  else if wind > 15 then "\n💨 Recommendation: Very windy, be cautious outdoors."
  else "\n✅ Recommendation: Good conditions for outdoor activities!"

/-- The advice text of the outdoor branch for the latest observation. -/
def outdoorAdvice (latest : Observation) : String :=
  "🌤️ Outdoor Conditions Assessment:\n\n" ++ temperatureLine latest.T2M
    ++ precipitationLine latest.PRECTOTCORR ++ windLine latest.WS2M
    ++ overallRecommendation latest

/-- The array `data.map(d => d.T2M).filter(t => t !== null)`. -/
def tempDataOf (data : List Observation) : List Reading :=
  (data.map (fun d => d.T2M)).filter (fun t => decide (t ≠ Reading.null))

/-- The array `data.map(d => d.PRECTOTCORR).filter(p => p !== null)`. -/
def precipDataOf (data : List Observation) : List Reading :=
  (data.map (fun d => d.PRECTOTCORR)).filter (fun p => decide (p ≠ Reading.null))

/-- The array `data.map(d => d.WS2M).filter(w => w !== null)`. -/
def windDataOf (data : List Observation) : List Reading :=
  (data.map (fun d => d.WS2M)).filter (fun w => decide (w ≠ Reading.null))

/-- The reply of the temperature branch. -/
def temperatureAnswer (tempData : List Reading) : String :=
  let avg := (jsDiv (reduceSum tempData) tempData.length).toFixed 1
  let max := (mathMax (tempData.map Reading.toNumber)).toFixed 1
  let min := (mathMin (tempData.map Reading.toNumber)).toFixed 1
  let latest := (JSNum.fin (tempData.getLastD Reading.null).toNumber).toFixed 1
  "🌡️ Temperature Analysis:\n• Current: " ++ latest.text ++ "°C\n• Average: " ++ avg.text
    ++ "°C\n• Range: " ++ min.text ++ "°C to " ++ max.text ++ "°C\n\nThe location shows "
    ++ (if JSNum.lt (.fin 25) avg.toNumber then "warm"
        else if JSNum.lt (.fin 15) avg.toNumber then "moderate" else "cool")
    ++ " temperatures overall."

/-- The reply of the precipitation branch; `n` is `data.length`. -/
def precipitationAnswer (precipData : List Reading) (n : ℕ) : String :=
  let total := (JSNum.fin (reduceSum precipData)).toFixed 1
  let avg := (total.toNumber.divNat precipData.length).toFixed 2
  let rainyDays := (precipData.filter (fun p => decide (p.toNumber > 0.1))).length
  let latest := (JSNum.fin (precipData.getLastD Reading.null).toNumber).toFixed 2
  "🌧️ Precipitation Analysis:\n• Latest: " ++ latest.text ++ "mm\n• Total: " ++ total.text
    ++ "mm\n• Daily average: " ++ avg.text ++ "mm\n• Rainy days: " ++ Nat.repr rainyDays
    ++ "\n\nThis location is "
    ++ (if (rainyDays : ℚ) > (n : ℚ) * 0.3 then "quite wet" else "relatively dry") ++ "."

/-- The line the forecast branch adds for one entry of `forecasts`. -/
def forecastEntryLine (entry : String × List ForecastPoint) : String :=
  match entry.2 with
  | [] => ""
  | first :: _ =>
    let nextValue := (JSNum.fin first.value).toFixed 1
    let confidence := (JSNum.fin (first.confidence * 100)).toFixed 0
    let paramName :=
      if entry.1 = "T2M" then "Temperature"
      else if entry.1 = "PRECTOTCORR" then "Precipitation" else entry.1
    "• " ++ paramName ++ ": " ++ nextValue.text ++ " (" ++ confidence.text ++ "% confidence)\n"

/-- The reply of the forecast branch. -/
def forecastAnswer (forecasts : Option (List (String × List ForecastPoint))) : String :=
  match forecasts with
  | some (e :: es) =>
    (e :: es).foldl (fun response entry => response ++ forecastEntryLine entry)
      "🔮 ML Forecast Summary:\n"
  | _ => "No forecast data available. The ML model needs more data to make predictions! 🤖"

/-- The reply of the wind branch. -/
def windAnswer (windData : List Reading) : String :=
  let avg := (jsDiv (reduceSum windData) windData.length).toFixed 1
  let max := (mathMax (windData.map Reading.toNumber)).toFixed 1
  let latest := (JSNum.fin (windData.getLastD Reading.null).toNumber).toFixed 1
  "💨 Wind Analysis:\n• Current: " ++ latest.text ++ " m/s\n• Average: " ++ avg.text
    ++ " m/s\n• Maximum: " ++ max.text ++ " m/s\n\nWind conditions are "
    ++ (if JSNum.lt (.fin 5) avg.toNumber then "breezy"
        else if JSNum.lt (.fin 2) avg.toNumber then "light" else "calm")
    ++ "."

/-- The mean of the last seven values, `tempData.slice(-7).reduce(...) / 7`. -/
def recentMean (tempData : List Reading) : ℚ :=
  reduceSum (tempData.drop (tempData.length - 7)) / 7

/-- The mean of the first seven values, `tempData.slice(0, 7).reduce(...) / 7`. -/
def earlierMean (tempData : List Reading) : ℚ :=
  reduceSum (tempData.take 7) / 7

/-- The trend label chosen from the two window means. -/
def trendLabel (recent earlier : ℚ) : String :=
  if recent > earlier then "increasing"
  else if recent < earlier then "decreasing" else "stable"

/-- The closing sentence of the trend reply; `insights.slice(0, 200)` is
taken on characters. -/
def insightsNote (insights : Option String) : String :=
  match insights with
  | some s =>
    if s ≠ "" then "AI Insights: " ++ String.mk (s.data.take 200) ++ "..."
    else "Run AI analysis for more detailed insights!"
  | none => "Run AI analysis for more detailed insights!"

/-- The reply of the trend branch. -/
def trendAnswer (tempData : List Reading) (insights : Option String) : String :=
  let recent := recentMean tempData
  let earlier := earlierMean tempData
  let trend := trendLabel recent earlier
  let change := (JSNum.fin |recent - earlier|).toFixed 1
  "📈 Trend Analysis:\nTemperature is " ++ trend ++ " over the data period (" ++ change.text
    ++ "°C change).\n\n" ++ insightsNote insights

/-- The reply of the general branch. -/
def overviewAnswer (wd : WeatherData) : String :=
  "📊 Data Overview:\n• Location: " ++ wd.location.lat ++ "°, " ++ wd.location.lon
    ++ "°\n• Parameters: " ++ Nat.repr wd.parameters.length
    ++ " weather variables\n• Data points: " ++ Nat.repr wd.data.length
    ++ " days\n• ML forecasts: " ++ (if wd.forecasts.isSome then "Available" else "Not available")
    ++ "\n\nAsk me about temperature, rain, wind, or forecasts!"

/-- The reply when no branch applies. -/
def defaultAnswer (question : String) : String :=
  "🤖 I understand you're asking about \"" ++ question
    ++ "\". I can help with:\n• Outdoor activity advice (\"Should I go outside?\")\n• Temperature analysis\n• Precipitation data\n• Wind conditions\n• Weather forecasts\n• Trend analysis\n\nNote: Gemini AI quota exceeded, using smart fallback responses."

/-- The function `generateSmartFallback` of Chatbot.js; `insights` is the
component's prop of that name. Reading a property of the missing last row
throws a `TypeError`. -/
def generateSmartFallback (weatherData : WeatherData) (insights : Option String)
    (question : String) : Except JSError String :=
  let q := toLowerCase question
  let data := weatherData.data
  if isOutdoorQuestion q then
    match data.getLast? with
    | none => .error .typeError
    | some latest => .ok (outdoorAdvice latest)
  else if isTemperatureQuestion q ∧ (tempDataOf data).length > 0 then
    .ok (temperatureAnswer (tempDataOf data))
  else if isPrecipitationQuestion q ∧ (precipDataOf data).length > 0 then
    .ok (precipitationAnswer (precipDataOf data) data.length)
  else if isForecastQuestion q then
    .ok (forecastAnswer weatherData.forecasts)
  else if isWindQuestion q ∧ (windDataOf data).length > 0 then
    .ok (windAnswer (windDataOf data))
  else if isTrendQuestion q ∧ (tempDataOf data).length > 7 then
    .ok (trendAnswer (tempDataOf data) insights)
  else if isGeneralQuestion q then
    .ok (overviewAnswer weatherData)
  else .ok (defaultAnswer question)

/-! ## Chatbot.js: the remote call -/

/-- The weather prop as a component receives it: absent (`null` or
`undefined`), an object without its `data` field, or an object with a series. -/
inductive WeatherProp where
  | absent
  | noSeries
  | loaded (wd : WeatherData)

/-- How the awaited call to the assist service ends: it throws (timeout,
non-2xx status, network error), or it resolves with a body whose `response`
field holds a text or is missing. -/
inductive AssistOutcome where
  | failed
  | replied (response : Option String)

/-- The function `generateGeminiResponse` of Chatbot.js, given how the call to
the assist service ends. The context object built before the call is only sent
along with the request. -/
def generateGeminiResponse (weatherData : WeatherProp) (insights : Option String)
    (outcome : AssistOutcome) (question : String) : Except JSError String :=
  match weatherData with
  | .absent => .ok "I need weather data to answer your questions. Please fetch some data first! 🛰️"
  | .noSeries => .ok "I need weather data to answer your questions. Please fetch some data first! 🛰️"
  | .loaded wd =>
    match outcome with
    | .replied (some response) =>
      if response ≠ "" then .ok response
      else .ok "I received an empty response. Please try rephrasing your question! 🤖"
    | .replied none => .ok "I received an empty response. Please try rephrasing your question! 🤖"
    | .failed => generateSmartFallback wd insights question

/-! ## WeatherSummary.js -/

/-- The method `s.slice(i, j)` for `0 ≤ i ≤ j`, on characters. -/
def sliceStr (s : String) (i j : ℕ) : String := String.mk ((s.data.drop i).take (j - i))

/-- The date `YYYYMMDD` rewritten as `DD/MM/YYYY`. -/
def formatDate (date : String) : String :=
  sliceStr date 6 8 ++ "/" ++ sliceStr date 4 6 ++ "/" ++ sliceStr date 0 4

/-- The array `xs.filter(v => v !== null && !isNaN(v))`. -/
def validReadings (xs : List Reading) : List Reading :=
  xs.filter (fun v => decide (v ≠ Reading.null) && !isNaN v)

/-- The sum `x + c` of a number and a finite constant. -/
def JSNum.addRat (x : JSNum) (c : ℚ) : JSNum :=
  match x with
  | .fin a => .fin (a + c)
  | .nan => .nan
  | .posInf => .posInf
  | .negInf => .negInf

/-- Truthiness of a number: `0` and `NaN` are falsy. -/
def JSNum.truthy : JSNum → Bool
  | .fin x => decide (x ≠ 0)
  | .nan => false
  | .posInf => true
  | .negInf => true

/-- The first forecast point of a parameter, when
`forecasts && forecasts[param] && forecasts[param].length > 0`. -/
def firstForecast (forecasts : Option (List (String × List ForecastPoint))) (param : String) :
    Option ForecastPoint :=
  match forecasts with
  | none => none
  | some fs =>
    match fs.lookup param with
    | some (first :: _) => some first
    | _ => none

/-- The opening paragraph of the summary. -/
def summaryHeader (first last : Observation) (location : Location) : String :=
  "This weather analysis covers the period from " ++ formatDate first.date ++ " to "
    ++ formatDate last.date ++ " for the location at " ++ location.lat ++ "¬∞N, "
    ++ location.lon ++ "¬∞E.\n\n"

/-- The word the temperature section chooses for the average. -/
def summaryTemperatureWord (avg : JSNum) : String :=
  if JSNum.lt (.fin 25) avg then "warm"
  else if JSNum.lt (.fin 15) avg then "moderate" else "cool"

/-- The trend sentence of the temperature section. -/
def summaryTrendSentence (values : List Reading) : String :=
  let recent := values.drop (values.length - 7)
  let earlier := values.take 7
  if recent.length > 0 ∧ earlier.length > 0 then
    let recentAvg := jsDiv (reduceSum recent) recent.length
    let earlierAvg := jsDiv (reduceSum earlier) earlier.length
    if JSNum.lt (earlierAvg.addRat 1) recentAvg then
      "Recently, temperatures have been trending upward. "
    else if JSNum.lt recentAvg (earlierAvg.addRat (-1)) then
      "Recently, temperatures have been cooling down. "
    else "Temperature patterns have remained relatively stable. "
  else ""

/-- The forecast sentence that closes the temperature section. -/
def temperatureForecast (forecasts : Option (List (String × List ForecastPoint))) : String :=
  match firstForecast forecasts "T2M" with
  | some point =>
    "Looking ahead, our ML model predicts temperatures around "
      ++ ((JSNum.fin point.value).toFixed 1).text ++ "¬∞C with "
      ++ ((JSNum.fin (point.confidence * 100)).toFixed 0).text ++ "% confidence.\n\n"
  | none => "\n\n"

/-- The temperature analysis of the summary. -/
def temperatureSection (wd : WeatherData) : String :=
  if "T2M" ∈ wd.parameters then
    let values := validReadings (wd.data.map (fun d => d.T2M))
    if values.length > 0 then
      let avg := jsDiv (reduceSum values) values.length
      let min := mathMin (values.map Reading.toNumber)
      let max := mathMax (values.map Reading.toNumber)
      "The temperature during this period has been quite " ++ summaryTemperatureWord avg
        ++ ", averaging " ++ (avg.toFixed 1).text ++ "¬∞C. "
        ++ "The warmest day reached " ++ (max.toFixed 1).text
        ++ "¬∞C, while the coolest dropped to " ++ (min.toFixed 1).text ++ "¬∞C. "
        ++ summaryTrendSentence values ++ temperatureForecast wd.forecasts
    else ""
  else ""

/-- The sentence the precipitation section chooses for the total. -/
def rainfallSentence (total : ℚ) : String :=
  if total < 10 then
    "This has been a relatively dry period with only " ++ ((JSNum.fin total).toFixed 1).text
      ++ "mm of total rainfall. "
  else if total < 50 then
    "Rainfall has been moderate during this period, totaling "
      ++ ((JSNum.fin total).toFixed 1).text ++ "mm. "
  else
    "This has been quite a wet period with " ++ ((JSNum.fin total).toFixed 1).text
      ++ "mm of total precipitation. "

/-- The forecast sentence of the precipitation section. -/
def precipitationForecast (forecasts : Option (List (String × List ForecastPoint))) : String :=
  match firstForecast forecasts "PRECTOTCORR" with
  | some point =>
    if point.value > 5 then "Rain is expected in the coming days. "
    else if point.value > 0.1 then "Light precipitation is possible in the forecast. "
    else "Dry conditions are expected to continue. "
  | none => ""

/-- The precipitation analysis of the summary. -/
def precipitationSection (wd : WeatherData) : String :=
  if "PRECTOTCORR" ∈ wd.parameters then
    let values := validReadings (wd.data.map (fun d => d.PRECTOTCORR))
    if values.length > 0 then
      let total := reduceSum values
      let rainyDays := (values.filter (fun v => decide (v.toNumber > 0.1))).length
      let maxRain := mathMax (values.map Reading.toNumber)
      rainfallSentence total ++ "There were " ++ Nat.repr rainyDays
        ++ " days with measurable rainfall, "
        ++ (if JSNum.lt (.fin 20) maxRain then
              "including one particularly heavy day with " ++ (maxRain.toFixed 1).text ++ "mm. "
            else "with the heaviest day receiving " ++ (maxRain.toFixed 1).text ++ "mm. ")
        ++ precipitationForecast wd.forecasts ++ "\n\n"
    else ""
  else ""

/-- The wind analysis of the summary. -/
def windSection (wd : WeatherData) : String :=
  if "WS2M" ∈ wd.parameters then
    let values := validReadings (wd.data.map (fun d => d.WS2M))
    if values.length > 0 then
      let avg := jsDiv (reduceSum values) values.length
      let max := mathMax (values.map Reading.toNumber)
      (if JSNum.lt avg (.fin 2) then
          "Wind conditions have been generally calm, averaging " ++ (avg.toFixed 1).text
            ++ " m/s. "
        else if JSNum.lt avg (.fin 5) then
          "There's been a light breeze throughout the period, with average wind speeds of "
            ++ (avg.toFixed 1).text ++ " m/s. "
        else
          "It's been quite breezy, with average wind speeds reaching " ++ (avg.toFixed 1).text
            ++ " m/s. ")
        ++ (if JSNum.lt (.fin 10) max then
              "The windiest moment peaked at " ++ (max.toFixed 1).text ++ " m/s. "
            else "")
        ++ "\n\n"
    else ""
  else ""

/-- The value `tempAvg` of the overall assessment; `none` is `null`. -/
def overallTempAvg (wd : WeatherData) : Option JSNum :=
  if "T2M" ∈ wd.parameters then
    some (jsDiv
      (reduceSum ((wd.data.map (fun d => d.T2M)).filter (fun v => decide (v ≠ Reading.null))))
      (wd.data.filter (fun d => decide (d.T2M ≠ Reading.null))).length)
  else none

/-- The value `rainTotal` of the overall assessment; `none` is `null`. -/
def overallRainTotal (wd : WeatherData) : Option ℚ :=
  if "PRECTOTCORR" ∈ wd.parameters then
    some (reduceSum
      ((wd.data.map (fun d => d.PRECTOTCORR)).filter (fun v => decide (v ≠ Reading.null))))
  else none

/-- The test `tempAvg && p(tempAvg)`. -/
def tempAvgAnd (tempAvg : Option JSNum) (p : JSNum → Bool) : Bool :=
  match tempAvg with
  | some t => t.truthy && p t
  | none => false

/-- The test `rainTotal && p(rainTotal)`. -/
def rainTotalAnd (rainTotal : Option ℚ) (p : ℚ → Bool) : Bool :=
  match rainTotal with
  | some r => decide (r ≠ 0) && p r
  | none => false

/-- The sentence that completes the overall assessment. -/
def overallSentence (tempAvg : Option JSNum) (rainTotal : Option ℚ) : String :=
  if tempAvgAnd tempAvg (fun t => JSNum.lt (.fin 25) t)
      && rainTotalAnd rainTotal (fun r => decide (r < 20)) then
    "warm and dry conditions, ideal for outdoor activities."
  else if tempAvgAnd tempAvg (fun t => JSNum.lt (.fin 25) t)
      && rainTotalAnd rainTotal (fun r => decide (r > 50)) then
    "warm and humid conditions with significant rainfall."
  else if tempAvgAnd tempAvg (fun t => JSNum.lt t (.fin 15))
      && rainTotalAnd rainTotal (fun r => decide (r > 30)) then
    "cool and wet weather patterns."
  else if tempAvgAnd tempAvg (fun t => JSNum.lt t (.fin 15)) then
    "cooler weather conditions."
  else "typical seasonal weather patterns for this geographic region."

/-- The narrative for a prop with a non-empty series, whose first and last
rows are given. -/
def summaryText (wd : WeatherData) (first last : Observation) : String :=
  summaryHeader first last wd.location ++ temperatureSection wd ++ precipitationSection wd
    ++ windSection wd ++ "Overall, this location has experienced "
    ++ overallSentence (overallTempAvg wd) (overallRainTotal wd)

/-- The function `generateLocalSummary` of WeatherSummary.js; `data` is the
component's prop. -/
def generateLocalSummary (data : WeatherProp) : String :=
  match data with
  | .absent => "No weather data available for summary generation."
  | .noSeries => "No weather data available for summary generation."
  | .loaded wd =>
    match wd.data.head?, wd.data.getLast? with
    | some first, some last => summaryText wd first last
    | _, _ => "No weather data available for summary generation."

/-- How the awaited call to the summary service ends: it throws, or it
resolves with a body whose `summary` field holds a text or is missing. -/
inductive SummaryOutcome where
  | failed
  | replied (summary : Option String)

/-- The value `fetchSummary` stores with `setSummary`; `none` is `undefined`. -/
def fetchSummary (data : WeatherProp) (outcome : SummaryOutcome) : Option String :=
  match outcome with
  | .replied summary => summary
  | .failed => some (generateLocalSummary data)

/-! ## LocationComparison.js: recommendation and winner -/

/-- The condition of the vacation branch of the recommendation. -/
def isVacationPurpose (p : String) : Bool :=
  includes p "vacation" || includes p "holiday" || includes p "tourism"

/-- The condition of the work branch of the recommendation. -/
def isWorkPurpose (p : String) : Bool :=
  includes p "work" || includes p "job" || includes p "business"

/-- The condition of the health branch of the recommendation. -/
def isHealthPurpose (p : String) : Bool :=
  includes p "health" || includes p "medical"

/-- The text `🏆 WINNER: ${winner}\n\nREASON: ${reason}`. -/
def recommendationText (winner reason : String) : String :=
  "🏆 WINNER: " ++ winner ++ "\n\nREASON: " ++ reason

/-- The function `generateBasicRecommendation` of LocationComparison.js;
`name1` and `name2` are `location1.name` and `location2.name`. -/
def generateBasicRecommendation (name1 name2 : String) (data1 data2 : LocationData)
    (userPurpose : String) : String :=
  let p := toLowerCase userPurpose
  if isVacationPurpose p then
    let winner :=
      if JSNum.lt (.fin 20) data1.avgTemp && JSNum.lt data1.avgTemp (.fin 30)
          && JSNum.lt data1.rainyDays (.fin 30) then name1 else name2
    recommendationText winner
      (winner ++ " offers better vacation weather with comfortable temperatures and fewer rainy days, ideal for outdoor sightseeing and activities.")
  else if isWorkPurpose p then
    let winner := if JSNum.lt data1.avgTemp data2.avgTemp then name1 else name2
    recommendationText winner
      (winner ++ " has more comfortable temperatures that enhance productivity and reduce heat-related stress during work hours.")
  else if isHealthPurpose p then
    let winner :=
      if JSNum.lt (.fin 15) data1.avgTemp && JSNum.lt data1.avgTemp (.fin 28) then name1
      else name2
    recommendationText winner
      (winner ++ " offers moderate temperatures that are generally better for health and well-being, avoiding extreme heat or cold.")
  else
    let winner := if JSNum.lt data1.hotDays data2.hotDays then name1 else name2
    recommendationText winner
      (winner ++ " has fewer extremely hot days, providing more comfortable overall weather conditions.")

/-- The object `compareLocations` stores with `setComparison`. -/
structure Comparison where
  data1 : LocationData
  data2 : LocationData
  winner : String
  recommendation : String

/-- The characters `trim()` strips, by code point: the white space of
ECMAScript (tab, vertical tab, form feed, space, no-break space, the byte
order mark and the space separators of Unicode) and its line terminators
(line feed, carriage return, line and paragraph separator). -/
def isTrimmed (c : Char) : Bool :=
  let n := c.toNat
  (9 ≤ n && n ≤ 13) || n == 32 || n == 160 || n == 5760 || (8192 ≤ n && n ≤ 8202)
    || n == 8232 || n == 8233 || n == 8239 || n == 8287 || n == 12288 || n == 65279

/-- The test `!purpose.trim()`: the purpose is empty or consists of characters
that `trim()` strips. -/
def isBlank (purpose : String) : Bool := purpose.data.all isTrimmed

/-- The function `compareLocations` of LocationComparison.js, from the two
fetched aggregates on: the comparison it stores, or `none` when it returns
early on a blank purpose. -/
def compareLocations (name1 name2 purpose : String) (data1 data2 : LocationData) :
    Option Comparison :=
  if isBlank purpose then none
  else
    some
      { data1 := data1
        data2 := data2
        winner := if JSNum.lt data1.hotDays data2.hotDays then name1 else name2
        recommendation :=
          if JSNum.lt data1.hotDays data2.hotDays then
            name1 ++ " is cooler with " ++ (data1.hotDays.toFixed 0).text ++ "% hot days vs "
              ++ (data2.hotDays.toFixed 0).text ++ "%"
          else
            name2 ++ " is cooler with " ++ (data2.hotDays.toFixed 0).text ++ "% hot days vs "
              ++ (data1.hotDays.toFixed 0).text ++ "%" }

/-! ## Forecasts in the words of the specification -/

/-- The same prop with no forecasts supplied. -/
def WeatherData.withoutForecasts (wd : WeatherData) : WeatherData :=
  { data := wd.data, parameters := wd.parameters, forecasts := none, location := wd.location }

/-! ## The trend policy in the words of the specification -/

/-- The present T2M values of a series, in order. -/
def presentT2M (data : List Observation) : List ℚ :=
  presentValues (data.map (fun d => d.T2M))

/-- The mean of the last-7 window of a sequence of present values. -/
def lastSevenMean (xs : List ℚ) : ℚ := (xs.drop (xs.length - 7)).sum / 7

/-- The mean of the first-7 window of a sequence of present values. -/
def firstSevenMean (xs : List ℚ) : ℚ := (xs.take 7).sum / 7

/-- The temperature band of an average: warm above 25, moderate above 15,
cool otherwise. -/
def temperatureBand (avg : ℚ) : String :=
  if 25 < avg then "warm" else if 15 < avg then "moderate" else "cool"

/-- The present PRECTOTCORR values of a series, in order. -/
def presentPrecip (data : List Observation) : List ℚ :=
  presentValues (data.map (fun d => d.PRECTOTCORR))

/-- The decision table of the overall assessment, on the average temperature
and the rainfall total. -/
def overallTable (avg total : ℚ) : String :=
  if 25 < avg ∧ total < 20 then "warm and dry conditions, ideal for outdoor activities."
  else if 25 < avg ∧ 50 < total then "warm and humid conditions with significant rainfall."
  else if avg < 15 ∧ 30 < total then "cool and wet weather patterns."
  else if avg < 15 then "cooler weather conditions."
  else "typical seasonal weather patterns for this geographic region."

/-- The band of a rainfall total as the precipitation section words it: dry
below 10, moderate below 50, wet otherwise. -/
def rainfallBand (total : ℚ) : String :=
  if total < 10 then "dry" else if total < 50 then "moderate" else "wet"

/-- The present WS2M values of a series, in order. -/
def presentWind (data : List Observation) : List ℚ :=
  presentValues (data.map (fun d => d.WS2M))

/-! ## Double-precision arithmetic -/

/-- The integer nearest to `y`; on a tie, the even one. -/
def roundHalfEven (y : ℚ) : ℤ :=
  let f := Int.floor y
  if y - f < 1 / 2 then f
  else if 1 / 2 < y - f then f + 1
  else if f % 2 = 0 then f else f + 1

/-- The exponent of the last place of a binary64 number of the size of `x`:
52 places below the leading bit, and never below the subnormal spacing
`2 ^ (-1074)`. -/
def ulpExponent (x : ℚ) : ℤ := max (Int.log 2 |x| - 52) (-1074)

/-- The binary64 number that stores an exact result `x`: round to nearest, ties
to even, an infinity once the rounded magnitude reaches `2 ^ 1024`. The sign
of zero is not modelled. -/
def roundDouble (x : ℚ) : JSNum :=
  if x = 0 then .fin 0
  else
    let q := ulpExponent x
    let y := (roundHalfEven (x / 2 ^ q) : ℚ) * 2 ^ q
    if (2 : ℚ) ^ (1024 : ℤ) ≤ |y| then (if 0 < x then .posInf else .negInf) else .fin y

/-- A rounding rule: how the exact result of one addition, subtraction,
multiplication or division, or the value of a decimal literal, is stored. -/
structure Rounding where
  rnd : ℚ → JSNum

/-- The rounding rule of JavaScript numbers. -/
def binary64 : Rounding := { rnd := roundDouble }

/-- The rounding rule that stores every result as it is. -/
def unrounded : Rounding := { rnd := JSNum.fin }

/-- A rounding rule that stores as it is every number with at most 53
significant bits and at most 1074 binary places, as binary64 does. -/
def Rounding.ExactOnDyadics (A : Rounding) : Prop :=
  ∀ m k : ℕ, m < 2 ^ 53 → k ≤ 1074 → A.rnd ((m : ℚ) / 2 ^ k) = .fin ((m : ℚ) / 2 ^ k)

/-- The negation `-x`. -/
def JSNum.neg : JSNum → JSNum
  | .fin a => .fin (-a)
  | .nan => .nan
  | .posInf => .negInf
  | .negInf => .posInf

/-- The call `Math.abs(x)`. -/
def JSNum.abs : JSNum → JSNum
  | .fin a => .fin |a|
  | .nan => .nan
  | .posInf => .posInf
  | .negInf => .posInf

/-- The sum `x + y`: rounded on finite numbers, `NaN` on opposite infinities. -/
def Rounding.add (A : Rounding) (x y : JSNum) : JSNum :=
  match x, y with
  | .fin a, .fin b => A.rnd (a + b)
  | .fin _, .posInf => .posInf
  | .fin _, .negInf => .negInf
  | .posInf, .fin _ => .posInf
  | .posInf, .posInf => .posInf
  | .negInf, .fin _ => .negInf
  | .negInf, .negInf => .negInf
  | _, _ => .nan

/-- The difference `x - y`. -/
def Rounding.sub (A : Rounding) (x y : JSNum) : JSNum := A.add x y.neg

/-- The product of an infinity of the given sign with a finite number. -/
def infTimes (positive : Bool) (b : ℚ) : JSNum :=
  if b = 0 then .nan
  else if decide (0 < b) = positive then .posInf else .negInf

/-- The product `x * y`: rounded on finite numbers, `NaN` for zero times an
infinity. -/
def Rounding.mul (A : Rounding) (x y : JSNum) : JSNum :=
  match x, y with
  | .fin a, .fin b => A.rnd (a * b)
  | .fin a, .posInf => infTimes true a
  | .fin a, .negInf => infTimes false a
  | .posInf, .fin b => infTimes true b
  | .negInf, .fin b => infTimes false b
  | .posInf, .posInf => .posInf
  | .posInf, .negInf => .negInf
  | .negInf, .posInf => .negInf
  | .negInf, .negInf => .posInf
  | _, _ => .nan

/-- The quotient of a number by the length of an array (or by the literal 7). -/
def Rounding.divNat (A : Rounding) (x : JSNum) (n : ℕ) : JSNum :=
  match x with
  | .fin a => if n = 0 then jsDiv a 0 else A.rnd (a / n)
  | .nan => .nan
  | .posInf => .posInf
  | .negInf => .negInf

/-- The number a displayed figure converts to when it enters arithmetic: the
stored value of its decimal text. -/
def Rounding.parse (A : Rounding) : Figure → JSNum
  | .dec neg n f => A.rnd ((if neg then -1 else 1) * (n : ℚ) / 10 ^ f)
  | .nan => .nan
  | .inf false => .posInf
  | .inf true => .negInf
  | .na => .nan

/-- The call `xs.reduce((a, b) => a + b, 0)` on cells, every addition rounded. -/
def reduceSumWith (A : Rounding) (xs : List Reading) : JSNum :=
  xs.foldl (fun a b => A.add a (.fin b.toNumber)) (.fin 0)

/-! ## WeatherStats.js in double-precision arithmetic -/

/-- The function `calculateStats` of WeatherStats.js, its sum and quotient
rounded by `A`. -/
def calculateStatsWith (A : Rounding) (values : List Reading) : Stats :=
  let validValues := values.filter (fun v => decide (v ≠ Reading.null) && !isNaN v)
  if validValues.length = 0 then { mean := .na, min := .na, max := .na }
  else
    let sum := reduceSumWith A validValues
    { mean := (A.divNat sum validValues.length).toFixed 2
      min := (mathMin (validValues.map Reading.toNumber)).toFixed 2
      max := (mathMax (validValues.map Reading.toNumber)).toFixed 2 }

/-! ## Chatbot.js in double-precision arithmetic -/

/-- The precipitation band sentence of the outdoor advice; the literal `0.1`
is the stored value of one tenth. -/
def precipitationAdviceWith (A : Rounding) (precip : ℚ) : String :=
  if precip > 5 then "Rainy, bring an umbrella!\n"
  else if JSNum.lt (A.rnd (1 / 10)) (.fin precip) then "Light rain possible.\n"
  else "No rain expected.\n"

/-- The text added under `if (latest.PRECTOTCORR !== null)`. -/
def precipitationLineWith (A : Rounding) : Reading → String
  | .null => ""
  | .num precip =>
    "🌧️ Precipitation: " ++ ((JSNum.fin precip).toFixed 1).text ++ "mm - "
      ++ precipitationAdviceWith A precip

/-- The advice text of the outdoor branch for the latest observation. -/
def outdoorAdviceWith (A : Rounding) (latest : Observation) : String :=
  "🌤️ Outdoor Conditions Assessment:\n\n" ++ temperatureLine latest.T2M
    ++ precipitationLineWith A latest.PRECTOTCORR ++ windLine latest.WS2M
    ++ overallRecommendation latest

/-- The word of the temperature reply. The average is the text of
`toFixed(1)`, compared as the number it denotes: an integer threshold separates
two one-decimal figures as it separates their stored values. -/
def chatTemperatureWord (avg : Figure) : String :=
  if JSNum.lt (.fin 25) avg.toNumber then "warm"
  else if JSNum.lt (.fin 15) avg.toNumber then "moderate" else "cool"

/-- The reply of the temperature branch. -/
def temperatureAnswerWith (A : Rounding) (tempData : List Reading) : String :=
  let avg := (A.divNat (reduceSumWith A tempData) tempData.length).toFixed 1
  let max := (mathMax (tempData.map Reading.toNumber)).toFixed 1
  let min := (mathMin (tempData.map Reading.toNumber)).toFixed 1
  let latest := (JSNum.fin (tempData.getLastD Reading.null).toNumber).toFixed 1
  "🌡️ Temperature Analysis:\n• Current: " ++ latest.text ++ "°C\n• Average: " ++ avg.text
    ++ "°C\n• Range: " ++ min.text ++ "°C to " ++ max.text ++ "°C\n\nThe location shows "
    ++ chatTemperatureWord avg ++ " temperatures overall."

/-- The reply of the precipitation branch; `n` is `data.length`. -/
def precipitationAnswerWith (A : Rounding) (precipData : List Reading) (n : ℕ) : String :=
  let total := (reduceSumWith A precipData).toFixed 1
  let avg := (A.divNat (A.parse total) precipData.length).toFixed 2
  let rainyDays :=
    (precipData.filter (fun p => JSNum.lt (A.rnd (1 / 10)) (.fin p.toNumber))).length
  let latest := (JSNum.fin (precipData.getLastD Reading.null).toNumber).toFixed 2
  "🌧️ Precipitation Analysis:\n• Latest: " ++ latest.text ++ "mm\n• Total: " ++ total.text
    ++ "mm\n• Daily average: " ++ avg.text ++ "mm\n• Rainy days: " ++ Nat.repr rainyDays
    ++ "\n\nThis location is "
    ++ (if JSNum.lt (A.mul (.fin n) (A.rnd (3 / 10))) (.fin rainyDays) then "quite wet"
        else "relatively dry")
    ++ "."

/-- The line the forecast branch adds for one entry of `forecasts`. -/
def forecastEntryLineWith (A : Rounding) (entry : String × List ForecastPoint) : String :=
  match entry.2 with
  | [] => ""
  | first :: _ =>
    let nextValue := (JSNum.fin first.value).toFixed 1
    let confidence := (A.mul (.fin first.confidence) (.fin 100)).toFixed 0
    let paramName :=
      if entry.1 = "T2M" then "Temperature"
      else if entry.1 = "PRECTOTCORR" then "Precipitation" else entry.1
    "• " ++ paramName ++ ": " ++ nextValue.text ++ " (" ++ confidence.text ++ "% confidence)\n"

/-- The reply of the forecast branch. -/
def forecastAnswerWith (A : Rounding)
    (forecasts : Option (List (String × List ForecastPoint))) : String :=
  match forecasts with
  | some (e :: es) =>
    (e :: es).foldl (fun response entry => response ++ forecastEntryLineWith A entry)
      "🔮 ML Forecast Summary:\n"
  | _ => "No forecast data available. The ML model needs more data to make predictions! 🤖"

/-- The reply of the wind branch. -/
def windAnswerWith (A : Rounding) (windData : List Reading) : String :=
  let avg := (A.divNat (reduceSumWith A windData) windData.length).toFixed 1
  let max := (mathMax (windData.map Reading.toNumber)).toFixed 1
  let latest := (JSNum.fin (windData.getLastD Reading.null).toNumber).toFixed 1
  "💨 Wind Analysis:\n• Current: " ++ latest.text ++ " m/s\n• Average: " ++ avg.text
    ++ " m/s\n• Maximum: " ++ max.text ++ " m/s\n\nWind conditions are "
    ++ (if JSNum.lt (.fin 5) avg.toNumber then "breezy"
        else if JSNum.lt (.fin 2) avg.toNumber then "light" else "calm")
    ++ "."

/-- The mean of the last seven values, `tempData.slice(-7).reduce(...) / 7`. -/
def recentMeanWith (A : Rounding) (tempData : List Reading) : JSNum :=
  A.divNat (reduceSumWith A (tempData.drop (tempData.length - 7))) 7

/-- The mean of the first seven values, `tempData.slice(0, 7).reduce(...) / 7`. -/
def earlierMeanWith (A : Rounding) (tempData : List Reading) : JSNum :=
  A.divNat (reduceSumWith A (tempData.take 7)) 7

/-- The trend label chosen from the two computed window means. -/
def trendLabelOf (recent earlier : JSNum) : String :=
  if JSNum.lt earlier recent then "increasing"
  else if JSNum.lt recent earlier then "decreasing" else "stable"

/-- The reply of the trend branch. -/
def trendAnswerWith (A : Rounding) (tempData : List Reading) (insights : Option String) :
    String :=
  let recent := recentMeanWith A tempData
  let earlier := earlierMeanWith A tempData
  let trend := trendLabelOf recent earlier
  let change := (A.sub recent earlier).abs.toFixed 1
  "📈 Trend Analysis:\nTemperature is " ++ trend ++ " over the data period (" ++ change.text
    ++ "°C change).\n\n" ++ insightsNote insights

/-- The function `generateSmartFallback` of Chatbot.js, its arithmetic rounded
by `A`. -/
def generateSmartFallbackWith (A : Rounding) (weatherData : WeatherData)
    (insights : Option String) (question : String) : Except JSError String :=
  let q := toLowerCase question
  let data := weatherData.data
  if isOutdoorQuestion q then
    match data.getLast? with
    | none => .error .typeError
    | some latest => .ok (outdoorAdviceWith A latest)
  else if isTemperatureQuestion q ∧ (tempDataOf data).length > 0 then
    .ok (temperatureAnswerWith A (tempDataOf data))
  else if isPrecipitationQuestion q ∧ (precipDataOf data).length > 0 then
    .ok (precipitationAnswerWith A (precipDataOf data) data.length)
  else if isForecastQuestion q then
    .ok (forecastAnswerWith A weatherData.forecasts)
  else if isWindQuestion q ∧ (windDataOf data).length > 0 then
    .ok (windAnswerWith A (windDataOf data))
  else if isTrendQuestion q ∧ (tempDataOf data).length > 7 then
    .ok (trendAnswerWith A (tempDataOf data) insights)
  else if isGeneralQuestion q then
    .ok (overviewAnswer weatherData)
  else .ok (defaultAnswer question)

/-! ## WeatherSummary.js in double-precision arithmetic -/

/-- The trend sentence of the temperature section. -/
def summaryTrendSentenceWith (A : Rounding) (values : List Reading) : String :=
  let recent := values.drop (values.length - 7)
  let earlier := values.take 7
  if recent.length > 0 ∧ earlier.length > 0 then
    let recentAvg := A.divNat (reduceSumWith A recent) recent.length
    let earlierAvg := A.divNat (reduceSumWith A earlier) earlier.length
    if JSNum.lt (A.add earlierAvg (.fin 1)) recentAvg then
      "Recently, temperatures have been trending upward. "
    else if JSNum.lt recentAvg (A.sub earlierAvg (.fin 1)) then
      "Recently, temperatures have been cooling down. "
    else "Temperature patterns have remained relatively stable. "
  else ""

/-- The forecast sentence that closes the temperature section. -/
def temperatureForecastWith (A : Rounding)
    (forecasts : Option (List (String × List ForecastPoint))) : String :=
  match firstForecast forecasts "T2M" with
  | some point =>
    "Looking ahead, our ML model predicts temperatures around "
      ++ ((JSNum.fin point.value).toFixed 1).text ++ "¬∞C with "
      ++ ((A.mul (.fin point.confidence) (.fin 100)).toFixed 0).text ++ "% confidence.\n\n"
  | none => "\n\n"

/-- The temperature analysis of the summary. -/
def temperatureSectionWith (A : Rounding) (wd : WeatherData) : String :=
  if "T2M" ∈ wd.parameters then
    let values := validReadings (wd.data.map (fun d => d.T2M))
    if values.length > 0 then
      let avg := A.divNat (reduceSumWith A values) values.length
      let min := mathMin (values.map Reading.toNumber)
      let max := mathMax (values.map Reading.toNumber)
      "The temperature during this period has been quite " ++ summaryTemperatureWord avg
        ++ ", averaging " ++ (avg.toFixed 1).text ++ "¬∞C. "
        ++ "The warmest day reached " ++ (max.toFixed 1).text
        ++ "¬∞C, while the coolest dropped to " ++ (min.toFixed 1).text ++ "¬∞C. "
        ++ summaryTrendSentenceWith A values ++ temperatureForecastWith A wd.forecasts
    else ""
  else ""

/-- The sentence the precipitation section chooses for the computed total. -/
def rainfallSentenceOf (total : JSNum) : String :=
  if JSNum.lt total (.fin 10) then
    "This has been a relatively dry period with only " ++ (total.toFixed 1).text
      ++ "mm of total rainfall. "
  else if JSNum.lt total (.fin 50) then
    "Rainfall has been moderate during this period, totaling "
      ++ (total.toFixed 1).text ++ "mm. "
  else
    "This has been quite a wet period with " ++ (total.toFixed 1).text
      ++ "mm of total precipitation. "

/-- The forecast sentence of the precipitation section; the literal `0.1` is
the stored value of one tenth. -/
def precipitationForecastWith (A : Rounding)
    (forecasts : Option (List (String × List ForecastPoint))) : String :=
  match firstForecast forecasts "PRECTOTCORR" with
  | some point =>
    if point.value > 5 then "Rain is expected in the coming days. "
    else if JSNum.lt (A.rnd (1 / 10)) (.fin point.value) then
      "Light precipitation is possible in the forecast. "
    else "Dry conditions are expected to continue. "
  | none => ""

/-- The precipitation analysis of the summary. -/
def precipitationSectionWith (A : Rounding) (wd : WeatherData) : String :=
  if "PRECTOTCORR" ∈ wd.parameters then
    let values := validReadings (wd.data.map (fun d => d.PRECTOTCORR))
    if values.length > 0 then
      let total := reduceSumWith A values
      let rainyDays :=
        (values.filter (fun v => JSNum.lt (A.rnd (1 / 10)) (.fin v.toNumber))).length
      let maxRain := mathMax (values.map Reading.toNumber)
      rainfallSentenceOf total ++ "There were " ++ Nat.repr rainyDays
        ++ " days with measurable rainfall, "
        ++ (if JSNum.lt (.fin 20) maxRain then
              "including one particularly heavy day with " ++ (maxRain.toFixed 1).text ++ "mm. "
            else "with the heaviest day receiving " ++ (maxRain.toFixed 1).text ++ "mm. ")
        ++ precipitationForecastWith A wd.forecasts ++ "\n\n"
    else ""
  else ""

/-- The wind analysis of the summary. -/
def windSectionWith (A : Rounding) (wd : WeatherData) : String :=
  if "WS2M" ∈ wd.parameters then
    let values := validReadings (wd.data.map (fun d => d.WS2M))
    if values.length > 0 then
      let avg := A.divNat (reduceSumWith A values) values.length
      let max := mathMax (values.map Reading.toNumber)
      (if JSNum.lt avg (.fin 2) then
          "Wind conditions have been generally calm, averaging " ++ (avg.toFixed 1).text
            ++ " m/s. "
        else if JSNum.lt avg (.fin 5) then
          "There's been a light breeze throughout the period, with average wind speeds of "
            ++ (avg.toFixed 1).text ++ " m/s. "
        else
          "It's been quite breezy, with average wind speeds reaching " ++ (avg.toFixed 1).text
            ++ " m/s. ")
        ++ (if JSNum.lt (.fin 10) max then
              "The windiest moment peaked at " ++ (max.toFixed 1).text ++ " m/s. "
            else "")
        ++ "\n\n"
    else ""
  else ""

/-- The value `tempAvg` of the overall assessment; `none` is `null`. -/
def overallTempAvgWith (A : Rounding) (wd : WeatherData) : Option JSNum :=
  if "T2M" ∈ wd.parameters then
    some (A.divNat
      (reduceSumWith A
        ((wd.data.map (fun d => d.T2M)).filter (fun v => decide (v ≠ Reading.null))))
      (wd.data.filter (fun d => decide (d.T2M ≠ Reading.null))).length)
  else none

/-- The value `rainTotal` of the overall assessment; `none` is `null`. -/
def overallRainTotalWith (A : Rounding) (wd : WeatherData) : Option JSNum :=
  if "PRECTOTCORR" ∈ wd.parameters then
    some (reduceSumWith A
      ((wd.data.map (fun d => d.PRECTOTCORR)).filter (fun v => decide (v ≠ Reading.null))))
  else none

/-- The sentence that completes the overall assessment, from the computed
average and total. -/
def overallSentenceOf (tempAvg rainTotal : Option JSNum) : String :=
  if tempAvgAnd tempAvg (fun t => JSNum.lt (.fin 25) t)
      && tempAvgAnd rainTotal (fun r => JSNum.lt r (.fin 20)) then
    "warm and dry conditions, ideal for outdoor activities."
  else if tempAvgAnd tempAvg (fun t => JSNum.lt (.fin 25) t)
      && tempAvgAnd rainTotal (fun r => JSNum.lt (.fin 50) r) then
    "warm and humid conditions with significant rainfall."
  else if tempAvgAnd tempAvg (fun t => JSNum.lt t (.fin 15))
      && tempAvgAnd rainTotal (fun r => JSNum.lt (.fin 30) r) then
    "cool and wet weather patterns."
  else if tempAvgAnd tempAvg (fun t => JSNum.lt t (.fin 15)) then
    "cooler weather conditions."
  else "typical seasonal weather patterns for this geographic region."

/-- The narrative for a prop with a non-empty series, whose first and last
rows are given. -/
def summaryTextWith (A : Rounding) (wd : WeatherData) (first last : Observation) : String :=
  summaryHeader first last wd.location ++ temperatureSectionWith A wd
    ++ precipitationSectionWith A wd ++ windSectionWith A wd
    ++ "Overall, this location has experienced "
    ++ overallSentenceOf (overallTempAvgWith A wd) (overallRainTotalWith A wd)

/-- The function `generateLocalSummary` of WeatherSummary.js, its arithmetic
rounded by `A`; `data` is the component's prop. -/
def generateLocalSummaryWith (A : Rounding) (data : WeatherProp) : String :=
  match data with
  | .absent => "No weather data available for summary generation."
  | .noSeries => "No weather data available for summary generation."
  | .loaded wd =>
    match wd.data.head?, wd.data.getLast? with
    | some first, some last => summaryTextWith A wd first last
    | _, _ => "No weather data available for summary generation."

/-! ## Computed sums and means of a sequence of numbers -/

/-- The sum of a sequence as `reduce` accumulates it from 0, left to right,
every addition rounded. -/
def Rounding.sum (A : Rounding) (xs : List ℚ) : JSNum :=
  xs.foldl (fun a x => A.add a (.fin x)) (.fin 0)

/-- The computed average of a sequence: its computed sum over its length. -/
def Rounding.average (A : Rounding) (xs : List ℚ) : JSNum := A.divNat (A.sum xs) xs.length

/-- The computed mean of the last-7 window of a sequence of present values. -/
def Rounding.lastSeven (A : Rounding) (xs : List ℚ) : JSNum :=
  A.divNat (A.sum (xs.drop (xs.length - 7))) 7

/-- The computed mean of the first-7 window of a sequence of present values. -/
def Rounding.firstSeven (A : Rounding) (xs : List ℚ) : JSNum :=
  A.divNat (A.sum (xs.take 7)) 7

/-- The trend sentence of the summary chosen from two computed window means,
with its margin of one degree on either side. -/
def summaryTrendOf (A : Rounding) (recent earlier : JSNum) : String :=
  if JSNum.lt (A.add earlier (.fin 1)) recent then
    "Recently, temperatures have been trending upward. "
  else if JSNum.lt recent (A.sub earlier (.fin 1)) then
    "Recently, temperatures have been cooling down. "
  else "Temperature patterns have remained relatively stable. "

/-- The trend sentence of the summary's temperature section for a series, in
double-precision arithmetic. -/
def summaryTrendWith (A : Rounding) (data : List Observation) : String :=
  summaryTrendSentenceWith A (validReadings (data.map (fun d => d.T2M)))

/-! ## Order of the computed numbers -/

/-- The comparison `x <= y`; every comparison with `NaN` is false. -/
def JSNum.le : JSNum → JSNum → Bool
  | .fin a, .fin b => decide (a ≤ b)
  | .fin _, .posInf => true
  | .negInf, .fin _ => true
  | .negInf, .posInf => true
  | .negInf, .negInf => true
  | .posInf, .posInf => true
  | _, _ => false

/-- A rounding rule that keeps the order of the exact results. -/
def Rounding.Monotone (A : Rounding) : Prop :=
  ∀ x y : ℚ, x ≤ y → JSNum.le (A.rnd x) (A.rnd y) = true

/-- The number `roundDouble` stores for `x` before the overflow test: `x`
rounded to a multiple of its last place. -/
def roundedValue (x : ℚ) : ℚ := (roundHalfEven (x / 2 ^ ulpExponent x) : ℚ) * 2 ^ ulpExponent x

/-! ## Concrete inputs -/

/-- The daily temperatures of the end-to-end scenario. -/
def scenarioT2M : List Reading :=
  [.num 28, .num 29, .num 30, .num 31, .num 30, .num 29, .num 28, .num 32, .num 33, .num 34]

/-- A response in which two readings are the missing sentinel. -/
def gappyResponse : ParameterData :=
  { T2M := [31, -999, 29], PRECTOTCORR := [-999, 2, 0], WS2M := [3, 4] }

/-- A response in which every reading is the missing sentinel. -/
def missingResponse : ParameterData :=
  { T2M := [-999, -999], PRECTOTCORR := [-999, -999], WS2M := [-999, -999] }

/-- One row with the given temperature, precipitation and wind readings. -/
def dayWith (t p w : Reading) : Observation :=
  { date := "20250101", T2M := t, PRECTOTCORR := p, WS2M := w, RH2M := .null, SNODP := .null }

/-- Weather data whose rows are the given ones. -/
def weatherOf (rows : List Observation) : WeatherData :=
  { data := rows, parameters := ["T2M", "PRECTOTCORR", "WS2M"], forecasts := none,
    location := { lat := "28.6", lon := "77.2" } }

/-- Rows that carry the given temperatures and no other reading. -/
def rowsOf (ts : List ℚ) : List Observation :=
  ts.map (fun t => dayWith (.num t) .null .null)

/-- A strictly increasing 14-day temperature series. -/
def risingSeries : WeatherData :=
  weatherOf (rowsOf [1, 2, 3, 4, 5, 6, 7, 8, 9, 10, 11, 12, 13, 14])

/-- A series with exactly seven present temperatures. -/
def sevenDays : WeatherData := weatherOf (rowsOf [1, 2, 3, 4, 5, 6, 7])

/-- A series with two present temperatures. -/
def twoDays : WeatherData := weatherOf (rowsOf [20, 30])

/-- Eight days whose last-7 mean is exactly one degree above the first-7 mean. -/
def stepSeries : WeatherData := weatherOf (rowsOf [10, 10, 10, 10, 10, 10, 10, 17])

/-- Weather data with an empty series. -/
def emptySeries : WeatherData := weatherOf []

/-- One warm day with 15 mm of rain. -/
def warmDay15 : WeatherData := weatherOf [dayWith (.num 30) (.num 15) .null]

/-- One warm day with 25 mm of rain. -/
def warmDay25 : WeatherData := weatherOf [dayWith (.num 30) (.num 25) .null]

/-- One warm day without rain. -/
def warmDryDay : WeatherData := weatherOf [dayWith (.num 30) (.num 0) .null]

/-- The daily precipitation of the end-to-end scenario. -/
def scenarioPrecip : List Reading :=
  [.num 0, .num 0, .num (2 / 10), .num 0, .num 0, .num 0, .num 0, .num 0, .num 0, .num 0]

/-- The 10-day series of the end-to-end scenario, with T2M and PRECTOTCORR
requested and no forecasts. -/
def scenarioData : WeatherData :=
  { data := [
      { date := "20250101", T2M := .num 28, PRECTOTCORR := .num 0, WS2M := .null, RH2M := .null,
        SNODP := .null },
      { date := "20250102", T2M := .num 29, PRECTOTCORR := .num 0, WS2M := .null, RH2M := .null,
        SNODP := .null },
      { date := "20250103", T2M := .num 30, PRECTOTCORR := .num (2 / 10), WS2M := .null, RH2M := .null,
        SNODP := .null },
      { date := "20250104", T2M := .num 31, PRECTOTCORR := .num 0, WS2M := .null, RH2M := .null,
        SNODP := .null },
      { date := "20250105", T2M := .num 30, PRECTOTCORR := .num 0, WS2M := .null, RH2M := .null,
        SNODP := .null },
      { date := "20250106", T2M := .num 29, PRECTOTCORR := .num 0, WS2M := .null, RH2M := .null,
        SNODP := .null },
      { date := "20250107", T2M := .num 28, PRECTOTCORR := .num 0, WS2M := .null, RH2M := .null,
        SNODP := .null },
      { date := "20250108", T2M := .num 32, PRECTOTCORR := .num 0, WS2M := .null, RH2M := .null,
        SNODP := .null },
      { date := "20250109", T2M := .num 33, PRECTOTCORR := .num 0, WS2M := .null, RH2M := .null,
        SNODP := .null },
      { date := "20250110", T2M := .num 34, PRECTOTCORR := .num 0, WS2M := .null, RH2M := .null,
        SNODP := .null } ]
    parameters := ["T2M", "PRECTOTCORR"]
    forecasts := none
    location := { lat := "28.6", lon := "77.2" } }

/-- Aggregates of a location with the given average temperature, hot-day
percentage and rainy-day percentage. -/
def aggregatesOf (avgTemp hotDays rainyDays : ℚ) : LocationData :=
  { avgTemp := .fin avgTemp, hotDays := .fin hotDays, avgPrecip := .fin 1,
    rainyDays := .fin rainyDays, avgWind := .fin 3 }

/-- One day with all three readings and a forecast point for each parameter. -/
def forecastDay : WeatherData :=
  { data := [dayWith (.num 25) (.num 2) (.num 4)]
    parameters := ["T2M", "PRECTOTCORR", "WS2M"]
    forecasts := some
      [("T2M", [{ value := 265 / 10, confidence := 87 / 100 }]),
       ("PRECTOTCORR", [{ value := 8, confidence := 9 / 10 }]),
       ("WS2M", [{ value := 12, confidence := 9 / 10 }])]
    location := { lat := "28.6", lon := "77.2" } }

/-- Two readings of which the smaller is lost in the double-precision sum. -/
def absorbedPair : List Reading := [.num 9007199254740992, .num 1]

/-- Six equal readings whose double-precision sum is rounded twice. -/
def sixEqualReadings : List Reading :=
  [.num 4503599627370498, .num 4503599627370498, .num 4503599627370498,
   .num 4503599627370498, .num 4503599627370498, .num 4503599627370498]

/-- Eight days whose first seven and last seven temperatures are the same
numbers in a different order. -/
def reorderedSeries : WeatherData :=
  weatherOf (rowsOf [1, 1, 9007199254740992, 0, 0, 0, 0, 1])

/-- A number just below the largest binary64 number: `(2 ^ 52 + i) * 2 ^ 971`. -/
def hugeReading (i : ℚ) : ℚ := (4503599627370496 + i) * 2 ^ 971

/-- A strictly increasing 14-day series of numbers whose sums exceed the
binary64 range. -/
def overflowSeries : WeatherData :=
  weatherOf (rowsOf [hugeReading 0, hugeReading 1, hugeReading 2, hugeReading 3, hugeReading 4,
    hugeReading 5, hugeReading 6, hugeReading 7, hugeReading 8, hugeReading 9, hugeReading 10,
    hugeReading 11, hugeReading 12, hugeReading 13])

/-- One day at 25.03125 degrees, a binary64 number between 25 and 25.05. -/
def borderlineDyadicDay : WeatherData := weatherOf (rowsOf [801 / 32])

/-- The binary64 numbers nearest to 1.48 and 7.45. -/
def everydayPair : List Reading :=
  [.num (3332663724254167 / 2251799813685248), .num (8387954305977549 / 1125899906842624)]

/-- Ten readings of the binary64 number nearest to 4.785. -/
def everydayReadings : List Reading :=
  List.replicate 10 (.num (1346857763560489 / 281474976710656))

/-- Eight days with the temperatures 30.77, 16.88, 15.57, 31.72, 23.66, 30.25,
15.04 and 30.77, as the binary64 numbers that JSON delivers for them: the first
seven and the last seven are the same numbers in a different order. -/
def everydaySeries : WeatherData :=
  weatherOf (rowsOf [8660985033386885 / 281474976710656,
    4751297606875873 / 281474976710656,
    2191282693692457 / 140737488355328,
    1116048282657751 / 35184372088832,
    6659697948974121 / 281474976710656,
    121 / 4,
    2116691824864133 / 140737488355328,
    8660985033386885 / 281474976710656])

/-- Fourteen strictly increasing temperatures of a cold spell, -26.91, -26.9,
-26.4, -25.9, -24.9, -24.89, -24.86, -24.84, -24.82, -24.72, -24.71, -24.61,
-24.51 and -24.5, as the binary64 numbers that JSON delivers for them. -/
def coldSpell : WeatherData :=
  weatherOf (rowsOf [-(7574491623283753 / 281474976710656),
    -(3785838436758323 / 140737488355328),
    -(3715469692580659 / 140737488355328),
    -(3645100948402995 / 140737488355328),
    -(3504363460047667 / 140737488355328),
    -(1751478042582057 / 70368744177664),
    -(1749366980256727 / 70368744177664),
    -(6991838421492695 / 281474976710656),
    -(3493104460979241 / 140737488355328),
    -(869757678035927 / 35184372088832),
    -(3477623337260155 / 140737488355328),
    -(1731774794212311 / 70368744177664),
    -(6898951679178179 / 281474976710656),
    -(49 / 2)])

/-- Eight days with the temperatures 20.75, 24.85, 18.64, 32.1, 15.52, 26.78,
21.73 and 27.75, as the binary64 numbers that JSON delivers for them: the mean
of the last seven is exactly one degree above the mean of the first seven. -/
def marginSeries : WeatherData :=
  weatherOf (rowsOf [83 / 4,
    3497326585629901 / 140737488355328,
    1311673391471657 / 70368744177664,
    4517673376206029 / 140737488355328,
    4368491638549381 / 281474976710656,
    942237484538921 / 35184372088832,
    6116451243922555 / 281474976710656,
    111 / 4])

/-- Four days with the temperatures 26.52, 27.57, 22.71 and 23.2, as the
binary64 numbers that JSON delivers for them: their average is exactly 25. -/
def thresholdDays : WeatherData :=
  weatherOf (rowsOf [7464716382366597 / 281474976710656,
    3880132553956393 / 140737488355328,
    3196148360549499 / 140737488355328,
    6530219459687219 / 281474976710656])

/-- Four days at 30 degrees with 4.9, 12.0, 1.2 and 1.9 mm of rain, as the
binary64 numbers that JSON delivers for them: the four amounts add up to a
little more than 20 mm. -/
def showeryDays : WeatherData :=
  weatherOf [dayWith (.num 30) (.num (2758454771764429 / 562949953421312)) .null,
    dayWith (.num 30) (.num 12) .null,
    dayWith (.num 30) (.num (5404319552844595 / 4503599627370496)) .null,
    dayWith (.num 30) (.num (4278419646001971 / 2251799813685248)) .null]

/-! ## Basic facts -/

theorem toFixedDigits_eq_of {f : ℕ} {x : ℚ} {n : ℕ}
    (h1 : (n : ℚ) ≤ |x| * 10 ^ f + 1 / 2) (h2 : |x| * 10 ^ f + 1 / 2 < n + 1) :
    toFixedDigits f x = n := by
  unfold toFixedDigits
  have : Int.floor (|x| * 10 ^ f + 1 / 2) = (n : ℤ) := by
    rw [Int.floor_eq_iff]
    constructor
    · exact_mod_cast h1
    · exact_mod_cast h2
  rw [this]
  simp

theorem toFixedDigits_cast (f : ℕ) (x : ℚ) :
    ((toFixedDigits f x : ℕ) : ℚ) = ((Int.floor (|x| * 10 ^ f + 1 / 2) : ℤ) : ℚ) := by
  unfold toFixedDigits
  have h : (0 : ℤ) ≤ Int.floor (|x| * 10 ^ f + 1 / 2) := by
    apply Int.floor_nonneg.mpr
    positivity
  have h2 : ((Int.floor (|x| * 10 ^ f + 1 / 2)).toNat : ℤ) = Int.floor (|x| * 10 ^ f + 1 / 2) :=
    Int.toNat_of_nonneg h
  exact_mod_cast congrArg (fun z : ℤ => (z : ℚ)) h2

theorem toFixedDigits_mono (f : ℕ) {x y : ℚ} (h : |x| ≤ |y|) :
    toFixedDigits f x ≤ toFixedDigits f y := by
  unfold toFixedDigits
  apply Int.toNat_le_toNat
  apply Int.floor_mono
  have : (0 : ℚ) < 10 ^ f := by positivity
  nlinarith

theorem roundValue_mono (f : ℕ) {x y : ℚ} (h : x ≤ y) : roundValue f x ≤ roundValue f y := by
  unfold roundValue
  have hp : (0 : ℚ) < 10 ^ f := by positivity
  have hx0 : (0 : ℚ) ≤ (toFixedDigits f x : ℚ) := by positivity
  have hy0 : (0 : ℚ) ≤ (toFixedDigits f y : ℚ) := by positivity
  by_cases hx : x < 0
  · by_cases hy : y < 0
    · have habs : |y| ≤ |x| := by
        rw [abs_of_neg hx, abs_of_neg hy]; linarith
      have hm : (toFixedDigits f y : ℚ) ≤ (toFixedDigits f x : ℚ) := by
        exact_mod_cast toFixedDigits_mono f habs
      simp only [hx, hy, if_true]
      apply div_le_div_of_nonneg_right _ hp.le
      linarith
    · simp only [hx, hy, if_true, if_false]
      apply div_le_div_of_nonneg_right _ hp.le
      linarith
  · have hy : ¬ y < 0 := by linarith
    have habs : |x| ≤ |y| := by
      rw [abs_of_nonneg (not_lt.mp hx), abs_of_nonneg (not_lt.mp hy)]; exact h
    have hm : (toFixedDigits f x : ℚ) ≤ (toFixedDigits f y : ℚ) := by
      exact_mod_cast toFixedDigits_mono f habs
    simp only [hx, hy, if_false]
    apply div_le_div_of_nonneg_right _ hp.le
    linarith

theorem toFixed_value (f : ℕ) (x : ℚ) :
    ((JSNum.fin x).toFixed f).value = some (roundValue f x) := by
  simp only [JSNum.toFixed, Figure.value, roundValue, decide_eq_true_eq]

/-! ## Facts about `calculateStats` -/

theorem filter_valid_map (values : List Reading) :
    (values.filter (fun v => decide (v ≠ Reading.null) && !isNaN v)).map Reading.toNumber
      = presentValues values := by
  induction values with
  | nil => rfl
  | cons v vs ih =>
    cases v with
    | num x => simpa [presentValues, isNaN, Reading.toNumber, List.filter_cons] using ih
    | null => simpa [presentValues, isNaN, List.filter_cons] using ih

theorem reduceSum_foldl (xs : List Reading) (a : ℚ) :
    xs.foldl (fun a b => a + b.toNumber) a = a + (xs.map Reading.toNumber).sum := by
  induction xs generalizing a with
  | nil => simp
  | cons v vs ih => simp [List.foldl_cons, ih, add_assoc]

theorem reduceSum_eq (xs : List Reading) : reduceSum xs = (xs.map Reading.toNumber).sum := by
  simp [reduceSum, reduceSum_foldl]

theorem foldl_minStep (xs : List ℚ) (a : ℚ) :
    ∃ m, xs.foldl minStep (.fin a) = .fin m ∧ (m = a ∨ m ∈ xs) ∧ m ≤ a ∧ ∀ x ∈ xs, m ≤ x := by
  induction xs generalizing a with
  | nil => exact ⟨a, rfl, Or.inl rfl, le_refl _, by simp⟩
  | cons y ys ih =>
    obtain ⟨m, hm, hmem, hle, hall⟩ := ih (min a y)
    refine ⟨m, by simpa [List.foldl_cons, minStep] using hm, ?_, ?_, ?_⟩
    · rcases hmem with h | h
      · rcases min_choice a y with h2 | h2
        · left; rw [h, h2]
        · right; rw [h, h2]; simp
      · right; simp [h]
    · exact le_trans hle (min_le_left _ _)
    · intro x hx
      rcases List.mem_cons.mp hx with h | h
      · rw [h]; exact le_trans hle (min_le_right _ _)
      · exact hall x h

theorem foldl_maxStep (xs : List ℚ) (a : ℚ) :
    ∃ m, xs.foldl maxStep (.fin a) = .fin m ∧ (m = a ∨ m ∈ xs) ∧ a ≤ m ∧ ∀ x ∈ xs, x ≤ m := by
  induction xs generalizing a with
  | nil => exact ⟨a, rfl, Or.inl rfl, le_refl _, by simp⟩
  | cons y ys ih =>
    obtain ⟨m, hm, hmem, hle, hall⟩ := ih (max a y)
    refine ⟨m, by simpa [List.foldl_cons, maxStep] using hm, ?_, ?_, ?_⟩
    · rcases hmem with h | h
      · rcases max_choice a y with h2 | h2
        · left; rw [h, h2]
        · right; rw [h, h2]; simp
      · right; simp [h]
    · exact le_trans (le_max_left _ _) hle
    · intro x hx
      rcases List.mem_cons.mp hx with h | h
      · rw [h]; exact le_trans (le_max_right _ _) hle
      · exact hall x h

theorem mathMin_spec (xs : List ℚ) (h : xs ≠ []) :
    ∃ m, mathMin xs = .fin m ∧ m ∈ xs ∧ ∀ x ∈ xs, m ≤ x := by
  cases xs with
  | nil => exact absurd rfl h
  | cons y ys =>
    obtain ⟨m, hm, hmem, hle, hall⟩ := foldl_minStep ys y
    refine ⟨m, by simpa [mathMin, List.foldl_cons, minStep] using hm, ?_, ?_⟩
    · rcases hmem with h1 | h1
      · simp [h1]
      · simp [h1]
    · intro x hx
      rcases List.mem_cons.mp hx with h1 | h1
      · rw [h1]; exact hle
      · exact hall x h1

theorem mathMax_spec (xs : List ℚ) (h : xs ≠ []) :
    ∃ m, mathMax xs = .fin m ∧ m ∈ xs ∧ ∀ x ∈ xs, x ≤ m := by
  cases xs with
  | nil => exact absurd rfl h
  | cons y ys =>
    obtain ⟨m, hm, hmem, hle, hall⟩ := foldl_maxStep ys y
    refine ⟨m, by simpa [mathMax, List.foldl_cons, maxStep] using hm, ?_, ?_⟩
    · rcases hmem with h1 | h1
      · simp [h1]
      · simp [h1]
    · intro x hx
      rcases List.mem_cons.mp hx with h1 | h1
      · rw [h1]; exact hle
      · exact hall x h1

theorem calculateStats_absent (values : List Reading) (h : presentValues values = []) :
    calculateStats values = { mean := .na, min := .na, max := .na } := by
  have hmap := filter_valid_map values
  have hlen : (values.filter (fun v => decide (v ≠ Reading.null) && !isNaN v)).length = 0 := by
    have := congrArg List.length hmap
    rw [List.length_map, h] at this
    simpa using this
  unfold calculateStats
  simp only [hlen, if_true]

theorem presentValues_eq_nil_iff (values : List Reading) :
    presentValues values = [] ↔ ∀ v ∈ values, v = Reading.null := by
  induction values with
  | nil => simp [presentValues]
  | cons v vs ih =>
    cases v with
    | num x => simp [presentValues]
    | null =>
      have : presentValues (Reading.null :: vs) = presentValues vs := by simp [presentValues]
      rw [this, ih]; simp

theorem sum_le_card_mul_max (xs : List ℚ) (M : ℚ) (h : ∀ x ∈ xs, x ≤ M) :
    xs.sum ≤ xs.length * M := by
  induction xs with
  | nil => simp
  | cons y ys ih =>
    have h1 := h y (by simp)
    have h2 := ih (fun x hx => h x (by simp [hx]))
    simp only [List.sum_cons, List.length_cons, Nat.cast_add, Nat.cast_one]
    linarith

theorem card_mul_min_le_sum (xs : List ℚ) (m : ℚ) (h : ∀ x ∈ xs, m ≤ x) :
    xs.length * m ≤ xs.sum := by
  induction xs with
  | nil => simp
  | cons y ys ih =>
    have h1 := h y (by simp)
    have h2 := ih (fun x hx => h x (by simp [hx]))
    simp only [List.sum_cons, List.length_cons, Nat.cast_add, Nat.cast_one]
    linarith

theorem toFixed_fin_nonneg {f : ℕ} {x : ℚ} {n : ℕ} (hx : 0 ≤ x)
    (h1 : (n : ℚ) ≤ x * 10 ^ f + 1 / 2) (h2 : x * 10 ^ f + 1 / 2 < n + 1) :
    (JSNum.fin x).toFixed f = .dec false n f := by
  have hb : decide (x < 0) = false := by simpa using hx
  have h := toFixedDigits_eq_of (f := f) (x := x) (n := n)
    (by rw [abs_of_nonneg hx]; exact h1) (by rw [abs_of_nonneg hx]; exact h2)
  simp only [JSNum.toFixed, h, hb]

theorem presentValues_filter (values : List Reading) :
    presentValues (values.filter (fun v => decide (v ≠ Reading.null))) = presentValues values := by
  induction values with
  | nil => rfl
  | cons v vs ih =>
    cases v with
    | num x => simpa [presentValues, List.filter_cons] using ih
    | null => simpa [presentValues, List.filter_cons] using ih

/-! ## Statistics (WeatherStats.js) -/

/-- C2: when every entry is absent (the empty sequence included),
`calculateStats` shows the text N/A for mean, min and max: no figure is a
number (in particular none is 0) and none is NaN. -/
theorem calculateStats_all_absent (values : List Reading)
    (h : ∀ v ∈ values, v = Reading.null) :
    calculateStats values = { mean := .na, min := .na, max := .na } ∧
    (calculateStats values).mean.text = "N/A" ∧
    (calculateStats values).min.text = "N/A" ∧
    (calculateStats values).max.text = "N/A" ∧
    (calculateStats values).mean.value = none ∧
    (calculateStats values).min.value = none ∧
    (calculateStats values).max.value = none ∧
    (calculateStats values).mean ≠ Figure.nan ∧
    (calculateStats values).min ≠ Figure.nan ∧
    (calculateStats values).max ≠ Figure.nan := by
  have hs := calculateStats_absent values ((presentValues_eq_nil_iff values).mpr h)
  rw [hs]
  refine ⟨rfl, rfl, rfl, rfl, rfl, rfl, rfl, ?_, ?_, ?_⟩ <;> simp

/-- C2 at a sequence of three absent entries. -/
theorem calculateStats_all_absent_witness :
    (∀ v ∈ [Reading.null, Reading.null, Reading.null], v = Reading.null) ∧
    calculateStats [Reading.null, Reading.null, Reading.null]
      = { mean := .na, min := .na, max := .na } :=
  ⟨by simp, (calculateStats_all_absent [Reading.null, Reading.null, Reading.null]
    (by simp)).1⟩

/-! ## Comparison aggregates (LocationComparison.js) -/

theorem reduceNumbers_foldl (xs : List ℚ) (a : ℚ) :
    xs.foldl (fun a b => a + b) a = a + xs.sum := by
  induction xs generalizing a with
  | nil => simp
  | cons v vs ih => simp [List.foldl_cons, ih, add_assoc]

theorem reduceNumbers_eq (xs : List ℚ) : reduceNumbers xs = xs.sum := by
  simp [reduceNumbers, reduceNumbers_foldl]

theorem fetchLocationData_withoutMissing (pd : ParameterData) :
    fetchLocationData pd.withoutMissing = fetchLocationData pd := by
  simp only [fetchLocationData, ParameterData.withoutMissing, List.filter_filter, Bool.and_self]

theorem jsDiv_length {xs : List ℚ} (a : ℚ) (h : xs ≠ []) :
    jsDiv a xs.length = .fin (a / xs.length) := by
  have hpos : xs.length ≠ 0 := fun h0 => h (List.length_eq_zero.mp h0)
  have hq : ((xs.length : ℕ) : ℚ) ≠ 0 := by exact_mod_cast hpos
  simp only [jsDiv, hq, if_false]

theorem filter_replicate_missing (k : ℕ) :
    (List.replicate k (-999 : ℚ)).filter (fun v => decide (v ≠ -999)) = [] := by
  induction k with
  | zero => rfl
  | succ n ih => simp [List.replicate_succ, List.filter_cons]

/-- C4: the comparison aggregates depend on the non-missing readings only.
For series that each have a reading other than `-999`, `fetchLocationData`
returns what it returns on the series with every `-999` removed, two
responses with the same non-missing readings get the same aggregates,
inserting any number of `-999` readings anywhere in the three series changes
nothing, and each aggregate is the
average, or the percentage of days over the threshold, taken over the
non-missing readings alone. -/
theorem fetchLocationData_excludes_missing (pd : ParameterData)
    (hT : pd.withoutMissing.T2M ≠ []) (hP : pd.withoutMissing.PRECTOTCORR ≠ [])
    (hW : pd.withoutMissing.WS2M ≠ []) :
    fetchLocationData pd = fetchLocationData pd.withoutMissing ∧
    (∀ pd2 : ParameterData, pd2.withoutMissing = pd.withoutMissing →
      fetchLocationData pd2 = fetchLocationData pd) ∧
    (∀ (a b c d e g : List ℚ) (i j k : ℕ),
      pd = { T2M := a ++ b, PRECTOTCORR := c ++ d, WS2M := e ++ g } →
      fetchLocationData
          { T2M := a ++ List.replicate i (-999) ++ b
            PRECTOTCORR := c ++ List.replicate j (-999) ++ d
            WS2M := e ++ List.replicate k (-999) ++ g }
        = fetchLocationData pd) ∧
    (fetchLocationData pd).avgTemp
      = .fin (pd.withoutMissing.T2M.sum / pd.withoutMissing.T2M.length) ∧
    (fetchLocationData pd).hotDays
      = .fin ((pd.withoutMissing.T2M.filter (fun t => decide (t > 30))).length
          / pd.withoutMissing.T2M.length * 100) ∧
    (fetchLocationData pd).avgPrecip
      = .fin (pd.withoutMissing.PRECTOTCORR.sum / pd.withoutMissing.PRECTOTCORR.length) ∧
    (fetchLocationData pd).rainyDays
      = .fin ((pd.withoutMissing.PRECTOTCORR.filter (fun p => decide (p > 1))).length
          / pd.withoutMissing.PRECTOTCORR.length * 100) ∧
    (fetchLocationData pd).avgWind
      = .fin (pd.withoutMissing.WS2M.sum / pd.withoutMissing.WS2M.length) := by
  refine ⟨(fetchLocationData_withoutMissing pd).symm, ?_, ?_, ?_, ?_, ?_, ?_, ?_⟩
  · intro pd2 h2
    rw [← fetchLocationData_withoutMissing pd2, h2, fetchLocationData_withoutMissing]
  · intro a b c d e g i j k hpd
    rw [← fetchLocationData_withoutMissing, ← fetchLocationData_withoutMissing pd, hpd]
    simp only [ParameterData.withoutMissing, List.filter_append, filter_replicate_missing,
      List.append_nil]
  · simp only [fetchLocationData, reduceNumbers_eq]
    exact jsDiv_length _ hT
  · have h := jsDiv_length
      ((pd.withoutMissing.T2M.filter (fun t => decide (t > 30))).length : ℚ) hT
    simp only [ParameterData.withoutMissing] at h
    simp only [fetchLocationData, ParameterData.withoutMissing, h, JSNum.scale]
  · simp only [fetchLocationData, reduceNumbers_eq]
    exact jsDiv_length _ hP
  · have h := jsDiv_length
      ((pd.withoutMissing.PRECTOTCORR.filter (fun p => decide (p > 1))).length : ℚ) hP
    simp only [ParameterData.withoutMissing] at h
    simp only [fetchLocationData, ParameterData.withoutMissing, h, JSNum.scale]
  · simp only [fetchLocationData, reduceNumbers_eq]
    exact jsDiv_length _ hW

/-- C4 at a response with two missing readings: the averages are taken over
the two, respectively two and two, remaining readings. -/
theorem fetchLocationData_excludes_missing_witness :
    gappyResponse.withoutMissing.T2M ≠ [] ∧
    gappyResponse.withoutMissing.PRECTOTCORR ≠ [] ∧
    gappyResponse.withoutMissing.WS2M ≠ [] ∧
    fetchLocationData gappyResponse = fetchLocationData gappyResponse.withoutMissing ∧
    (fetchLocationData gappyResponse).avgTemp = .fin 30 ∧
    (fetchLocationData gappyResponse).hotDays = .fin 50 ∧
    (fetchLocationData gappyResponse).avgPrecip = .fin 1 := by
  have hT : gappyResponse.withoutMissing.T2M = [31, 29] := by
    norm_num [gappyResponse, ParameterData.withoutMissing, List.filter_cons]
  have hP : gappyResponse.withoutMissing.PRECTOTCORR = [2, 0] := by
    norm_num [gappyResponse, ParameterData.withoutMissing, List.filter_cons]
  have hW : gappyResponse.withoutMissing.WS2M = [3, 4] := by
    norm_num [gappyResponse, ParameterData.withoutMissing, List.filter_cons]
  have h := fetchLocationData_excludes_missing gappyResponse
    (by rw [hT]; simp) (by rw [hP]; simp) (by rw [hW]; simp)
  obtain ⟨h1, _, _, h3, h4, h5, _, _⟩ := h
  refine ⟨by rw [hT]; simp, by rw [hP]; simp, by rw [hW]; simp, h1, ?_, ?_, ?_⟩
  · rw [h3, hT]; norm_num
  · rw [h4, hT]; norm_num [List.filter_cons]
  · rw [h5, hP]; norm_num

/-- C5, the code at the failing input: when every reading is `-999` the
divisions are `0 / 0`, every aggregate is `NaN`, and the comparison card
shows the text NaN. -/
theorem fetchLocationData_all_missing :
    fetchLocationData missingResponse
      = { avgTemp := .nan, hotDays := .nan, avgPrecip := .nan, rainyDays := .nan,
          avgWind := .nan } ∧
    (((fetchLocationData missingResponse).avgTemp).toFixed 1).text = "NaN" ∧
    (((fetchLocationData missingResponse).hotDays).toFixed 0).text = "NaN" := by
  have h : fetchLocationData missingResponse
      = { avgTemp := .nan, hotDays := .nan, avgPrecip := .nan, rainyDays := .nan,
          avgWind := .nan } := by
    simp [fetchLocationData, missingResponse, List.filter_cons, reduceNumbers, jsDiv,
      JSNum.scale]
  rw [h]
  exact ⟨rfl, rfl, rfl⟩

/-! ## Outdoor advice (Chatbot.js) -/

theorem generateSmartFallback_outdoor (wd : WeatherData) (insights : Option String)
    (question : String) (latest : Observation)
    (hq : isOutdoorQuestion (toLowerCase question) = true)
    (hl : wd.data.getLast? = some latest) :
    generateSmartFallback wd insights question = .ok (outdoorAdvice latest) := by
  simp only [generateSmartFallback, hq, if_true, hl]

theorem toFixed_text_30 : ((JSNum.fin 30).toFixed 1).text = "30.0" := by
  rw [toFixed_fin_nonneg (f := 1) (x := 30) (n := 300) (by norm_num) (by norm_num)
    (by norm_num)]
  decide

theorem toFixed_text_0 : ((JSNum.fin 0).toFixed 1).text = "0.0" := by
  rw [toFixed_fin_nonneg (f := 1) (x := 0) (n := 0) (by norm_num) (by norm_num)
    (by norm_num)]
  decide

theorem toFixed_text_3 : ((JSNum.fin 3).toFixed 1).text = "3.0" := by
  rw [toFixed_fin_nonneg (f := 1) (x := 3) (n := 30) (by norm_num) (by norm_num)
    (by norm_num)]
  decide

theorem toFixed_text_6 : ((JSNum.fin 6).toFixed 1).text = "6.0" := by
  rw [toFixed_fin_nonneg (f := 1) (x := 6) (n := 60) (by norm_num) (by norm_num)
    (by norm_num)]
  decide

theorem toFixed_text_20 : ((JSNum.fin 20).toFixed 1).text = "20.0" := by
  rw [toFixed_fin_nonneg (f := 1) (x := 20) (n := 200) (by norm_num) (by norm_num)
    (by norm_num)]
  decide

/-- C6, the claim as stated fails at the boundary: for a latest observation
with T2M = 30 the outdoor advice says pleasant, not hot. -/
theorem outdoor_advice_at_30_is_pleasant :
    generateSmartFallback (weatherOf [dayWith (.num 30) (.num 0) (.num 3)]) none
        "Should I go outside?"
      = .ok "🌤️ Outdoor Conditions Assessment:\n\n🌡️ Temperature: 30.0°C - Pleasant for outdoor activities.\n🌧️ Precipitation: 0.0mm - No rain expected.\n💨 Wind: 3.0 m/s - Calm winds.\n\n✅ Recommendation: Good conditions for outdoor activities!" ∧
    temperatureAdvice 30 ≠ "Hot! Stay hydrated and seek shade.\n" := by
  have hadv : temperatureAdvice 30 = "Pleasant for outdoor activities.\n" := by
    norm_num [temperatureAdvice]
  constructor
  · rw [generateSmartFallback_outdoor (weatherOf [dayWith (.num 30) (.num 0) (.num 3)]) none
      "Should I go outside?" (dayWith (.num 30) (.num 0) (.num 3)) (by decide) rfl]
    have hp : precipitationAdvice 0 = "No rain expected.\n" := by
      norm_num [precipitationAdvice]
    have hw : windAdvice 3 = "Calm winds.\n" := by norm_num [windAdvice]
    have hr : overallRecommendation (dayWith (.num 30) (.num 0) (.num 3))
        = "\n✅ Recommendation: Good conditions for outdoor activities!" := by
      norm_num [overallRecommendation, dayWith, Reading.orDefault, Reading.truthy,
        Reading.toNumber]
    simp only [outdoorAdvice, hr]
    simp only [dayWith, temperatureLine, precipitationLine, windLine, hadv, hp, hw,
      toFixed_text_30, toFixed_text_0, toFixed_text_3]
    exact congrArg Except.ok (by decide)
  · rw [hadv]; decide

/-- C6 as amended: for a latest observation with a present T2M reading `t`
the outdoor advice carries the temperature line with the band sentence of
`t`, and the bands have exclusive lower bounds: hot exactly when `t > 30`,
pleasant when `20 < t ≤ 30`, cool when `10 < t ≤ 20`, cold when `t ≤ 10`. -/
theorem outdoor_temperature_bands (wd : WeatherData) (insights : Option String)
    (question : String) (latest : Observation) (t : ℚ)
    (hq : isOutdoorQuestion (toLowerCase question) = true)
    (hl : wd.data.getLast? = some latest) (ht : latest.T2M = .num t) :
    generateSmartFallback wd insights question
      = .ok ("🌤️ Outdoor Conditions Assessment:\n\n"
          ++ ("🌡️ Temperature: " ++ ((JSNum.fin t).toFixed 1).text ++ "°C - "
            ++ temperatureAdvice t)
          ++ precipitationLine latest.PRECTOTCORR ++ windLine latest.WS2M
          ++ overallRecommendation latest) ∧
    (temperatureAdvice t = "Hot! Stay hydrated and seek shade.\n" ↔ 30 < t) ∧
    (temperatureAdvice t = "Pleasant for outdoor activities.\n" ↔ 20 < t ∧ t ≤ 30) ∧
    (temperatureAdvice t = "Cool, consider a light jacket.\n" ↔ 10 < t ∧ t ≤ 20) ∧
    (temperatureAdvice t = "Cold, dress warmly.\n" ↔ t ≤ 10) := by
  refine ⟨?_, ?_, ?_, ?_, ?_⟩
  · rw [generateSmartFallback_outdoor wd insights question latest hq hl]
    simp only [outdoorAdvice, ht, temperatureLine]
  all_goals
    unfold temperatureAdvice
    split_ifs with h1 h2 h3
    all_goals
      constructor
      · intro h
        first
          | exact absurd h (by decide)
          | (constructor <;> linarith)
          | linarith
      · intro h
        first
          | rfl
          | (exfalso; linarith)

/-- C6 as amended, at T2M = 30: the band sentence is the pleasant one. -/
theorem outdoor_temperature_bands_witness :
    isOutdoorQuestion (toLowerCase "Should I go outside?") = true ∧
    (temperatureAdvice 30 = "Pleasant for outdoor activities.\n" ↔ (20 : ℚ) < 30 ∧ (30 : ℚ) ≤ 30) :=
  ⟨by decide,
   (outdoor_temperature_bands (weatherOf [dayWith (.num 30) (.num 0) (.num 3)]) none
      "Should I go outside?" (dayWith (.num 30) (.num 0) (.num 3)) 30 (by decide) rfl rfl).2.2.1⟩

/-- C7: when the latest observation has more than 5 mm of precipitation the
outdoor advice ends with the stay-indoors recommendation, whatever the
temperature and wind cells hold (a number of any size, or `null`). -/
theorem heavy_rain_takes_precedence (wd : WeatherData) (insights : Option String)
    (question : String) (latest : Observation) (p : ℚ)
    (hq : isOutdoorQuestion (toLowerCase question) = true)
    (hl : wd.data.getLast? = some latest) (hp : latest.PRECTOTCORR = .num p) (h5 : 5 < p) :
    generateSmartFallback wd insights question
      = .ok ("🌤️ Outdoor Conditions Assessment:\n\n" ++ temperatureLine latest.T2M
          ++ precipitationLine latest.PRECTOTCORR ++ windLine latest.WS2M
          ++ "\n🏠 Recommendation: Stay indoors due to rain.") := by
  rw [generateSmartFallback_outdoor wd insights question latest hq hl]
  have hne : p ≠ 0 := by linarith
  have hrec : overallRecommendation latest
      = "\n🏠 Recommendation: Stay indoors due to rain." := by
    simp only [overallRecommendation, hp, Reading.orDefault, Reading.truthy, Reading.toNumber,
      hne, ne_eq, not_false_eq_true, decide_True, if_true, gt_iff_lt, h5]
  simp only [outdoorAdvice, hrec]

/-- C7 at precipitation 6 mm, wind 20 m/s and no temperature reading: the
recommendation is the stay-indoors one, not the wind-based one. -/
theorem heavy_rain_takes_precedence_witness :
    isOutdoorQuestion (toLowerCase "Should I go outside?") = true ∧ (5 : ℚ) < 6 ∧
    generateSmartFallback (weatherOf [dayWith .null (.num 6) (.num 20)]) none
        "Should I go outside?"
      = .ok "🌤️ Outdoor Conditions Assessment:\n\n🌧️ Precipitation: 6.0mm - Rainy, bring an umbrella!\n💨 Wind: 20.0 m/s - Very windy, secure loose items.\n\n🏠 Recommendation: Stay indoors due to rain." := by
  refine ⟨by decide, by norm_num, ?_⟩
  rw [heavy_rain_takes_precedence (weatherOf [dayWith .null (.num 6) (.num 20)]) none
    "Should I go outside?" (dayWith .null (.num 6) (.num 20)) 6 (by decide) rfl rfl
    (by norm_num)]
  have hp : precipitationAdvice 6 = "Rainy, bring an umbrella!\n" := by
    norm_num [precipitationAdvice]
  have hw : windAdvice 20 = "Very windy, secure loose items.\n" := by norm_num [windAdvice]
  simp only [dayWith, temperatureLine, precipitationLine, windLine, hp, hw, toFixed_text_6,
    toFixed_text_20]
  exact congrArg Except.ok (by decide)

/-- The extreme-temperature rule on a non-zero reading: with precipitation
absent or at most 5 mm and a T2M reading other than 0 that is below 5 or above
35, the recommendation is the limit-outdoor-time one, whatever the wind. -/
theorem extreme_temperature_when_nonzero (latest : Observation) (t : ℚ)
    (ht : latest.T2M = .num t) (h0 : t ≠ 0) (hext : t < 5 ∨ 35 < t)
    (hp : latest.PRECTOTCORR.orDefault 0 ≤ 5) :
    overallRecommendation latest
      = "\n⚠️ Recommendation: Extreme temperature, limit outdoor time." := by
  have hnp : ¬ latest.PRECTOTCORR.orDefault 0 > 5 := not_lt.mpr hp
  have htemp : latest.T2M.orDefault 20 = t := by
    simp [ht, Reading.orDefault, Reading.truthy, Reading.toNumber, h0]
  simp only [overallRecommendation, hnp, if_false, htemp, gt_iff_lt, hext, if_true]

/-- C8, the code at the failing input: for a latest observation with T2M = 0,
no rain and light wind, the advice prints the cold band for 0.0°C and then
recommends good conditions, not limited outdoor time: `latest.T2M || 20`
replaces the reading 0 by 20. -/
theorem outdoor_advice_at_zero_degrees :
    generateSmartFallback (weatherOf [dayWith (.num 0) (.num 0) (.num 3)]) none
        "Should I go outside?"
      = .ok "🌤️ Outdoor Conditions Assessment:\n\n🌡️ Temperature: 0.0°C - Cold, dress warmly.\n🌧️ Precipitation: 0.0mm - No rain expected.\n💨 Wind: 3.0 m/s - Calm winds.\n\n✅ Recommendation: Good conditions for outdoor activities!" ∧
    (dayWith (.num 0) (.num 0) (.num 3)).T2M.orDefault 20 = 20 := by
  have hdef : (dayWith (.num 0) (.num 0) (.num 3)).T2M.orDefault 20 = 20 := by
    simp [dayWith, Reading.orDefault, Reading.truthy]
  refine ⟨?_, hdef⟩
  rw [generateSmartFallback_outdoor (weatherOf [dayWith (.num 0) (.num 0) (.num 3)]) none
    "Should I go outside?" (dayWith (.num 0) (.num 0) (.num 3)) (by decide) rfl]
  have ht : temperatureAdvice 0 = "Cold, dress warmly.\n" := by norm_num [temperatureAdvice]
  have hp : precipitationAdvice 0 = "No rain expected.\n" := by
    norm_num [precipitationAdvice]
  have hw : windAdvice 3 = "Calm winds.\n" := by norm_num [windAdvice]
  have hr : overallRecommendation (dayWith (.num 0) (.num 0) (.num 3))
      = "\n✅ Recommendation: Good conditions for outdoor activities!" := by
    norm_num [overallRecommendation, dayWith, Reading.orDefault, Reading.truthy,
      Reading.toNumber]
  simp only [outdoorAdvice, hr]
  simp only [dayWith, temperatureLine, precipitationLine, windLine, ht, hp, hw,
    toFixed_text_0, toFixed_text_3]
  exact congrArg Except.ok (by decide)

/-! ## Trend (Chatbot.js) -/

theorem filter_present_map (vs : List Reading) :
    (vs.filter (fun t => decide (t ≠ Reading.null))).map Reading.toNumber
      = presentValues vs := by
  induction vs with
  | nil => rfl
  | cons v vs ih =>
    cases v with
    | num x => simpa [presentValues, Reading.toNumber, List.filter_cons] using ih
    | null => simpa [presentValues, List.filter_cons] using ih

theorem tempDataOf_map (data : List Observation) :
    (tempDataOf data).map Reading.toNumber = presentT2M data :=
  filter_present_map _

theorem tempDataOf_length (data : List Observation) :
    (tempDataOf data).length = (presentT2M data).length := by
  rw [← tempDataOf_map, List.length_map]

theorem recentMean_eq (data : List Observation) :
    recentMean (tempDataOf data) = lastSevenMean (presentT2M data) := by
  unfold recentMean lastSevenMean
  rw [reduceSum_eq, List.map_drop, tempDataOf_map, tempDataOf_length]

theorem earlierMean_eq (data : List Observation) :
    earlierMean (tempDataOf data) = firstSevenMean (presentT2M data) := by
  unfold earlierMean firstSevenMean
  rw [reduceSum_eq, List.map_take, tempDataOf_map]

theorem generateSmartFallback_trend (wd : WeatherData) (insights : Option String)
    (question : String)
    (hO : isOutdoorQuestion (toLowerCase question) = false)
    (hT : isTemperatureQuestion (toLowerCase question) = false)
    (hP : isPrecipitationQuestion (toLowerCase question) = false ∨ precipDataOf wd.data = [])
    (hF : isForecastQuestion (toLowerCase question) = false)
    (hW : isWindQuestion (toLowerCase question) = false ∨ windDataOf wd.data = [])
    (hTr : isTrendQuestion (toLowerCase question) = true)
    (hlen : 7 < (tempDataOf wd.data).length) :
    generateSmartFallback wd insights question
      = .ok (trendAnswer (tempDataOf wd.data) insights) := by
  have hP2 : ¬ (isPrecipitationQuestion (toLowerCase question) = true
      ∧ (precipDataOf wd.data).length > 0) := by
    rcases hP with h | h <;> simp [h]
  have hW2 : ¬ (isWindQuestion (toLowerCase question) = true
      ∧ (windDataOf wd.data).length > 0) := by
    rcases hW with h | h <;> simp [h]
  simp only [generateSmartFallback, hO, hT, hP2, hF, hW2, hTr, hlen, Bool.false_eq_true,
    false_and, if_false, true_and, gt_iff_lt, if_true]

theorem trendAnswer_eq (data : List Observation) (insights : Option String) :
    trendAnswer (tempDataOf data) insights
      = "📈 Trend Analysis:\nTemperature is "
          ++ trendLabel (lastSevenMean (presentT2M data)) (firstSevenMean (presentT2M data))
          ++ " over the data period ("
          ++ ((JSNum.fin |lastSevenMean (presentT2M data)
                - firstSevenMean (presentT2M data)|).toFixed 1).text
          ++ "°C change).\n\n" ++ insightsNote insights := by
  simp only [trendAnswer, recentMean_eq, earlierMean_eq]

theorem risingSeries_present :
    presentT2M risingSeries.data = [1, 2, 3, 4, 5, 6, 7, 8, 9, 10, 11, 12, 13, 14] := rfl

theorem risingSeries_windows :
    lastSevenMean (presentT2M risingSeries.data) = 11 ∧
    firstSevenMean (presentT2M risingSeries.data) = 4 := by
  rw [risingSeries_present]
  constructor
  · norm_num [lastSevenMean]
  · norm_num [firstSevenMean]

theorem toFixed_text_7 : ((JSNum.fin 7).toFixed 1).text = "7.0" := by
  rw [toFixed_fin_nonneg (f := 1) (x := 7) (n := 70) (by norm_num) (by norm_num)
    (by norm_num)]
  decide

theorem risingSeries_trend_text :
    "📈 Trend Analysis:\nTemperature is "
        ++ trendLabel (lastSevenMean (presentT2M risingSeries.data))
            (firstSevenMean (presentT2M risingSeries.data))
        ++ " over the data period ("
        ++ ((JSNum.fin |lastSevenMean (presentT2M risingSeries.data)
              - firstSevenMean (presentT2M risingSeries.data)|).toFixed 1).text
        ++ "°C change).\n\n" ++ insightsNote none
      = "📈 Trend Analysis:\nTemperature is increasing over the data period (7.0°C change).\n\nRun AI analysis for more detailed insights!" := by
  rw [risingSeries_windows.1, risingSeries_windows.2]
  have hl : trendLabel 11 4 = "increasing" := by norm_num [trendLabel]
  have ha : |(11 : ℚ) - 4| = 7 := by norm_num
  rw [hl, ha, toFixed_text_7]
  decide

/-! ## Rounding error and increasing series -/

theorem roundValue_one_error {x : ℚ} (hx : 0 ≤ x) : |roundValue 1 x - x| ≤ 1 / 20 := by
  have hnot : ¬ x < 0 := not_lt.mpr hx
  have hcast := toFixedDigits_cast 1 x
  rw [abs_of_nonneg hx] at hcast
  have hlo := Int.floor_le (x * 10 ^ 1 + 1 / 2)
  have hhi := Int.lt_floor_add_one (x * 10 ^ 1 + 1 / 2)
  rw [← hcast] at hlo hhi
  simp only [roundValue, hnot, if_false]
  rw [abs_le]
  constructor
  · have : x - 1 / 20 ≤ (toFixedDigits 1 x : ℚ) / 10 ^ 1 := by
      rw [le_div_iff₀ (by norm_num)]
      linarith
    linarith
  · have : (toFixedDigits 1 x : ℚ) / 10 ^ 1 ≤ x + 1 / 20 := by
      rw [div_le_iff₀ (by norm_num)]
      linarith
    linarith

theorem increasing_windows (xs : List ℚ) (h14 : xs.length = 14)
    (hinc : xs.Pairwise (fun a b => a < b)) : firstSevenMean xs < lastSevenMean xs := by
  rcases xs with _ | ⟨a0, _ | ⟨a1, _ | ⟨a2, _ | ⟨a3, _ | ⟨a4, _ | ⟨a5, _ | ⟨a6, _ | ⟨a7,
    _ | ⟨a8, _ | ⟨a9, _ | ⟨a10, _ | ⟨a11, _ | ⟨a12, _ | ⟨a13, _ | ⟨a14, xs⟩⟩⟩⟩⟩⟩⟩⟩⟩⟩⟩⟩⟩⟩⟩
  all_goals simp only [List.length_cons, List.length_nil] at h14
  all_goals first
    | omega
    | skip
  simp only [List.pairwise_cons, List.mem_cons, List.mem_singleton, forall_eq_or_imp,
    forall_eq, List.not_mem_nil, false_imp_iff, implies_true, List.Pairwise.nil, and_true] at hinc
  simp only [firstSevenMean, lastSevenMean, List.length_cons, List.length_nil]
  norm_num
  linarith [hinc.1.2.2.2.2.2.2.1, hinc.2.1.2.2.2.2.2.2.1, hinc.2.2.1.2.2.2.2.2.2.1]

/-! ## When the chat fallback reports a trend -/

theorem generateSmartFallback_after_wind (wd : WeatherData) (insights : Option String)
    (question : String)
    (hO : isOutdoorQuestion (toLowerCase question) = false)
    (hT : isTemperatureQuestion (toLowerCase question) = false ∨ tempDataOf wd.data = [])
    (hP : isPrecipitationQuestion (toLowerCase question) = false ∨ precipDataOf wd.data = [])
    (hF : isForecastQuestion (toLowerCase question) = false)
    (hW : isWindQuestion (toLowerCase question) = false ∨ windDataOf wd.data = []) :
    generateSmartFallback wd insights question
      = if isTrendQuestion (toLowerCase question) = true ∧ (tempDataOf wd.data).length > 7 then
          .ok (trendAnswer (tempDataOf wd.data) insights)
        else if isGeneralQuestion (toLowerCase question) = true then .ok (overviewAnswer wd)
        else .ok (defaultAnswer question) := by
  have hT2 : ¬ (isTemperatureQuestion (toLowerCase question) = true
      ∧ (tempDataOf wd.data).length > 0) := by
    rcases hT with h | h <;> simp [h]
  have hP2 : ¬ (isPrecipitationQuestion (toLowerCase question) = true
      ∧ (precipDataOf wd.data).length > 0) := by
    rcases hP with h | h <;> simp [h]
  have hW2 : ¬ (isWindQuestion (toLowerCase question) = true
      ∧ (windDataOf wd.data).length > 0) := by
    rcases hW with h | h <;> simp [h]
  simp only [generateSmartFallback, hO, hT2, hP2, hF, hW2, Bool.false_eq_true, if_false]

theorem head_append_of_ne (a b : String) (h : a.data ≠ []) :
    (a ++ b).data.head? = a.data.head? := by
  rw [String.data_append]
  cases hd : a.data with
  | nil => exact absurd hd h
  | cons c cs => rfl

theorem trendAnswer_head (td : List Reading) (insights : Option String) :
    (trendAnswer td insights).data.head? = "📈".data.head? := by
  simp only [trendAnswer, String.append_assoc]
  rw [head_append_of_ne _ _ (by decide)]
  decide

theorem overviewAnswer_head (wd : WeatherData) :
    (overviewAnswer wd).data.head? = "📊".data.head? := by
  simp only [overviewAnswer, String.append_assoc]
  rw [head_append_of_ne _ _ (by decide)]
  decide

theorem defaultAnswer_head (question : String) :
    (defaultAnswer question).data.head? = "🤖".data.head? := by
  simp only [defaultAnswer, String.append_assoc]
  rw [head_append_of_ne _ _ (by decide)]
  decide

/-- C11, the claim as stated fails at n = 7: with exactly seven present T2M
values the trend question gets the help text, not a trend label. -/
theorem no_trend_at_seven_values :
    (presentT2M sevenDays.data).length = 7 ∧
    isTrendQuestion (toLowerCase "What is the trend?") = true ∧
    generateSmartFallback sevenDays none "What is the trend?"
      = .ok "🤖 I understand you're asking about \"What is the trend?\". I can help with:\n• Outdoor activity advice (\"Should I go outside?\")\n• Temperature analysis\n• Precipitation data\n• Wind conditions\n• Weather forecasts\n• Trend analysis\n\nNote: Gemini AI quota exceeded, using smart fallback responses." := by
  refine ⟨rfl, by decide, ?_⟩
  rw [generateSmartFallback_after_wind sevenDays none "What is the trend?" (by decide)
    (Or.inl (by decide)) (Or.inl (by decide)) (by decide) (Or.inl (by decide))]
  have hlen : ¬ ((tempDataOf sevenDays.data).length > 7) := by decide
  have hg : isGeneralQuestion (toLowerCase "What is the trend?") = false := by decide
  simp only [hlen, and_false, if_false, hg, Bool.false_eq_true]
  exact congrArg Except.ok (by decide)

/-- C11 as amended: for a trend question that no earlier branch answers, a
trend label is produced exactly when the number n of present T2M values
satisfies n > 7. For n ≤ 7 (n = 7 included) the reply is the data overview or
the help text, which is never the trend reply; for every n > 7 (so for
8 ≤ n < 14 too) the reply carries the label computed from the first-7 and
last-7 windows. -/
theorem trend_reported_iff_more_than_seven (wd : WeatherData) (insights : Option String)
    (question : String)
    (hO : isOutdoorQuestion (toLowerCase question) = false)
    (hT : isTemperatureQuestion (toLowerCase question) = false ∨ tempDataOf wd.data = [])
    (hP : isPrecipitationQuestion (toLowerCase question) = false ∨ precipDataOf wd.data = [])
    (hF : isForecastQuestion (toLowerCase question) = false)
    (hW : isWindQuestion (toLowerCase question) = false ∨ windDataOf wd.data = [])
    (hTr : isTrendQuestion (toLowerCase question) = true) :
    (7 < (presentT2M wd.data).length →
      generateSmartFallback wd insights question
        = .ok ("📈 Trend Analysis:\nTemperature is "
            ++ trendLabel (lastSevenMean (presentT2M wd.data))
                (firstSevenMean (presentT2M wd.data))
            ++ " over the data period ("
            ++ ((JSNum.fin |lastSevenMean (presentT2M wd.data)
                  - firstSevenMean (presentT2M wd.data)|).toFixed 1).text
            ++ "°C change).\n\n" ++ insightsNote insights)) ∧
    ((presentT2M wd.data).length ≤ 7 →
      (generateSmartFallback wd insights question = .ok (overviewAnswer wd) ∨
        generateSmartFallback wd insights question = .ok (defaultAnswer question)) ∧
      ∀ (td : List Reading) (note : Option String),
        generateSmartFallback wd insights question ≠ .ok (trendAnswer td note)) := by
  have hroute := generateSmartFallback_after_wind wd insights question hO hT hP hF hW
  constructor
  · intro hlen
    have hlen2 : (tempDataOf wd.data).length > 7 := by rw [tempDataOf_length]; exact hlen
    rw [hroute]
    simp only [hTr, hlen2, and_self, if_true, trendAnswer_eq]
  · intro hlen
    have hlen2 : ¬ ((tempDataOf wd.data).length > 7) := by
      rw [tempDataOf_length]; exact not_lt.mpr hlen
    rw [hroute]
    simp only [hlen2, and_false, if_false]
    by_cases hg : isGeneralQuestion (toLowerCase question) = true
    · rw [if_pos hg]
      refine ⟨Or.inl rfl, ?_⟩
      intro td note h
      have h2 : overviewAnswer wd = trendAnswer td note := Except.ok.inj h
      have h3 := overviewAnswer_head wd
      rw [h2, trendAnswer_head] at h3
      exact absurd h3 (by decide)
    · rw [if_neg hg]
      refine ⟨Or.inr rfl, ?_⟩
      intro td note h
      have h2 : defaultAnswer question = trendAnswer td note := Except.ok.inj h
      have h3 := defaultAnswer_head question
      rw [h2, trendAnswer_head] at h3
      exact absurd h3 (by decide)

/-- C11 as amended, at the 14-day series (a label is reported) and at the
series with exactly seven present values (no trend reply). -/
theorem trend_reported_iff_more_than_seven_witness :
    isTrendQuestion (toLowerCase "What is the trend?") = true ∧
    7 < (presentT2M risingSeries.data).length ∧
    generateSmartFallback risingSeries none "What is the trend?"
      = .ok "📈 Trend Analysis:\nTemperature is increasing over the data period (7.0°C change).\n\nRun AI analysis for more detailed insights!" ∧
    (presentT2M sevenDays.data).length ≤ 7 ∧
    (∀ (td : List Reading) (note : Option String),
      generateSmartFallback sevenDays none "What is the trend?" ≠ .ok (trendAnswer td note)) := by
  have h14 := trend_reported_iff_more_than_seven risingSeries none "What is the trend?"
    (by decide) (Or.inl (by decide)) (Or.inl (by decide)) (by decide) (Or.inl (by decide))
    (by decide)
  have h7 := trend_reported_iff_more_than_seven sevenDays none "What is the trend?"
    (by decide) (Or.inl (by decide)) (Or.inl (by decide)) (by decide) (Or.inl (by decide))
    (by decide)
  have hlen14 : 7 < (presentT2M risingSeries.data).length := by
    rw [risingSeries_present]; decide
  have hlen7 : (presentT2M sevenDays.data).length ≤ 7 := by
    have : presentT2M sevenDays.data = [1, 2, 3, 4, 5, 6, 7] := rfl
    rw [this]; decide
  refine ⟨by decide, hlen14, ?_, hlen7, (h7.2 hlen7).2⟩
  rw [h14.1 hlen14, risingSeries_trend_text]

/-! ## Structure of the local summary (WeatherSummary.js) -/

theorem generateLocalSummary_loaded (wd : WeatherData) (first last : Observation)
    (hh : wd.data.head? = some first) (hl : wd.data.getLast? = some last) :
    generateLocalSummary (.loaded wd) = summaryText wd first last := by
  simp only [generateLocalSummary, hh, hl]

theorem generateLocalSummary_empty (wd : WeatherData) (h : wd.data = []) :
    generateLocalSummary (.loaded wd) = "No weather data available for summary generation." := by
  simp only [generateLocalSummary, h, List.head?_nil]

theorem exists_first_last (wd : WeatherData) (h : wd.data ≠ []) :
    ∃ first last, wd.data.head? = some first ∧ wd.data.getLast? = some last := by
  cases hd : wd.data with
  | nil => exact absurd hd h
  | cons a as =>
    refine ⟨a, (a :: as).getLast (by simp), rfl, ?_⟩
    exact List.getLast?_eq_getLast _ _

theorem validReadings_map (vs : List Reading) :
    (validReadings vs).map Reading.toNumber = presentValues vs :=
  filter_valid_map vs

theorem validReadings_length (vs : List Reading) :
    (validReadings vs).length = (presentValues vs).length := by
  rw [← validReadings_map, List.length_map]

theorem jsDiv_nat {a : ℚ} {n : ℕ} (h : n ≠ 0) : jsDiv a n = .fin (a / n) := by
  have hq : ((n : ℕ) : ℚ) ≠ 0 := by exact_mod_cast h
  simp only [jsDiv, hq, if_false]

theorem summaryTrendSentence_short (values : List Reading) (h1 : 0 < values.length)
    (h7 : values.length ≤ 7) :
    summaryTrendSentence values = "Temperature patterns have remained relatively stable. " := by
  have hdrop : values.drop (values.length - 7) = values := by
    rw [Nat.sub_eq_zero_of_le h7]; rfl
  have htake : values.take 7 = values := List.take_of_length_le h7
  have hne : values.length ≠ 0 := Nat.pos_iff_ne_zero.mp h1
  simp only [summaryTrendSentence, hdrop, htake, h1, gt_iff_lt, and_self, if_true,
    jsDiv_nat hne, JSNum.addRat, JSNum.lt]
  have ha : ¬ (reduceSum values / values.length + 1 < reduceSum values / values.length) := by
    linarith
  have hb : ¬ (reduceSum values / values.length
      < reduceSum values / values.length + -1) := by linarith
  simp only [ha, hb, decide_False, Bool.false_eq_true, if_false]

theorem summaryTrendSentence_long (values : List Reading) (h : 7 < values.length) :
    summaryTrendSentence values
      = if firstSevenMean (values.map Reading.toNumber) + 1
            < lastSevenMean (values.map Reading.toNumber) then
          "Recently, temperatures have been trending upward. "
        else if lastSevenMean (values.map Reading.toNumber)
            < firstSevenMean (values.map Reading.toNumber) - 1 then
          "Recently, temperatures have been cooling down. "
        else "Temperature patterns have remained relatively stable. " := by
  have hdrop : (values.drop (values.length - 7)).length = 7 := by
    rw [List.length_drop]; omega
  have htake : (values.take 7).length = 7 := by
    rw [List.length_take]; omega
  have hj : ∀ a : ℚ, jsDiv a 7 = .fin (a / 7) := by
    intro a
    have h7 : (7 : ℚ) ≠ 0 := by norm_num
    simp only [jsDiv, h7, if_false]
  simp only [summaryTrendSentence, hdrop, htake, gt_iff_lt, Nat.lt_add_one, Nat.ofNat_pos,
    and_self, if_true, reduceSum_eq, List.map_drop,
    List.map_take, firstSevenMean, lastSevenMean, List.length_map,
    Nat.cast_ofNat, sub_eq_add_neg, hj, JSNum.addRat, JSNum.lt, decide_eq_true_eq]

theorem summaryTrendSentence_cases (values : List Reading) (h1 : 0 < values.length) :
    summaryTrendSentence values = "Recently, temperatures have been trending upward. " ∨
    summaryTrendSentence values = "Recently, temperatures have been cooling down. " ∨
    summaryTrendSentence values = "Temperature patterns have remained relatively stable. " := by
  by_cases h7 : values.length ≤ 7
  · exact Or.inr (Or.inr (summaryTrendSentence_short values h1 h7))
  · rw [summaryTrendSentence_long values (not_le.mp h7)]
    split_ifs
    · exact Or.inl rfl
    · exact Or.inr (Or.inl rfl)
    · exact Or.inr (Or.inr rfl)

theorem temperatureSection_present (wd : WeatherData) (hT : "T2M" ∈ wd.parameters)
    (hn : presentT2M wd.data ≠ []) :
    temperatureSection wd
      = "The temperature during this period has been quite "
          ++ summaryTemperatureWord
              (.fin ((presentT2M wd.data).sum / (presentT2M wd.data).length))
          ++ ", averaging "
          ++ ((JSNum.fin ((presentT2M wd.data).sum / (presentT2M wd.data).length)).toFixed 1).text
          ++ "¬∞C. " ++ "The warmest day reached "
          ++ ((mathMax (presentT2M wd.data)).toFixed 1).text
          ++ "¬∞C, while the coolest dropped to "
          ++ ((mathMin (presentT2M wd.data)).toFixed 1).text ++ "¬∞C. "
          ++ summaryTrendSentence (validReadings (wd.data.map (fun d => d.T2M)))
          ++ temperatureForecast wd.forecasts := by
  have hlen : (validReadings (wd.data.map (fun d => d.T2M))).length
      = (presentT2M wd.data).length := validReadings_length _
  have hpos : (presentT2M wd.data).length ≠ 0 := fun h0 => hn (List.length_eq_zero.mp h0)
  have hgt : (presentT2M wd.data).length > 0 := Nat.pos_of_ne_zero hpos
  have hmap : (validReadings (wd.data.map (fun d => d.T2M))).map Reading.toNumber
      = presentT2M wd.data := validReadings_map _
  simp only [temperatureSection, hT, if_true, hlen, hgt, reduceSum_eq, hmap, jsDiv_nat hpos]

theorem temperatureSection_absent (wd : WeatherData) (hn : presentT2M wd.data = []) :
    temperatureSection wd = "" := by
  have hlen : (validReadings (wd.data.map (fun d => d.T2M))).length = 0 := by
    rw [validReadings_length]; exact List.length_eq_zero.mpr hn
  simp only [temperatureSection, hlen, gt_iff_lt, lt_self_iff_false, if_false, ite_self]

/-! ## Trend statement of the local summary -/

theorem toFixed_text_25 : ((JSNum.fin 25).toFixed 1).text = "25.0" := by
  rw [toFixed_fin_nonneg (f := 1) (x := 25) (n := 250) (by norm_num) (by norm_num)
    (by norm_num)]
  decide

theorem twoDays_temperatureSection :
    temperatureSection twoDays
      = "The temperature during this period has been quite moderate, averaging 25.0¬∞C. The warmest day reached 30.0¬∞C, while the coolest dropped to 20.0¬∞C. Temperature patterns have remained relatively stable. \n\n" := by
  have hp : presentT2M twoDays.data = [20, 30] := rfl
  rw [temperatureSection_present twoDays (by decide) (by rw [hp]; simp), hp]
  have havg : (([20, 30] : List ℚ).sum / (([20, 30] : List ℚ).length : ℚ)) = 25 := by
    norm_num
  have hmin : mathMin [20, 30] = .fin 20 := by norm_num [mathMin, minStep]
  have hmax : mathMax [20, 30] = .fin 30 := by norm_num [mathMax, maxStep]
  have hword : summaryTemperatureWord (.fin 25) = "moderate" := by
    norm_num [summaryTemperatureWord, JSNum.lt]
  have htrend : summaryTrendSentence (validReadings (twoDays.data.map (fun d => d.T2M)))
      = "Temperature patterns have remained relatively stable. " :=
    summaryTrendSentence_short _ (by decide) (by decide)
  have hf : temperatureForecast twoDays.forecasts = "\n\n" := rfl
  rw [havg, hmin, hmax, hword, htrend, hf, toFixed_text_25, toFixed_text_30, toFixed_text_20]
  decide

theorem overallTempAvg_eq (wd : WeatherData) :
    overallTempAvg wd
      = if "T2M" ∈ wd.parameters then
          some (jsDiv (presentT2M wd.data).sum (presentT2M wd.data).length)
        else none := by
  have hlen : (wd.data.filter (fun d => decide (d.T2M ≠ Reading.null))).length
      = (presentT2M wd.data).length := by
    rw [← tempDataOf_length, tempDataOf, List.filter_map, List.length_map]
    rfl
  have hsum : reduceSum ((wd.data.map (fun d => d.T2M)).filter
      (fun v => decide (v ≠ Reading.null))) = (presentT2M wd.data).sum := by
    rw [reduceSum_eq, filter_present_map]; rfl
  simp only [overallTempAvg, hlen, hsum]

theorem overallRainTotal_eq (wd : WeatherData) :
    overallRainTotal wd
      = if "PRECTOTCORR" ∈ wd.parameters then
          some (presentValues (wd.data.map (fun d => d.PRECTOTCORR))).sum
        else none := by
  simp only [overallRainTotal, reduceSum_eq, filter_present_map]

theorem twoDays_overall :
    overallSentence (overallTempAvg twoDays) (overallRainTotal twoDays)
      = "typical seasonal weather patterns for this geographic region." := by
  have hp : presentT2M twoDays.data = [20, 30] := rfl
  have hq : presentValues (twoDays.data.map (fun d => d.PRECTOTCORR)) = [] := rfl
  have ht : overallTempAvg twoDays = some (.fin 25) := by
    rw [overallTempAvg_eq, if_pos (by decide), hp]
    norm_num [jsDiv]
  have hr : overallRainTotal twoDays = some 0 := by
    rw [overallRainTotal_eq, if_pos (by decide), hq]
    rfl
  rw [ht, hr]
  norm_num [overallSentence, tempAvgAnd, rainTotalAnd, JSNum.truthy, JSNum.lt]

/-- C12, the claim as stated fails: with two present T2M values the summary
states that the temperature patterns have remained relatively stable. -/
theorem summary_states_trend_from_two_values :
    (presentT2M twoDays.data).length = 2 ∧
    generateLocalSummary (.loaded twoDays)
      = "This weather analysis covers the period from 01/01/2025 to 01/01/2025 for the location at 28.6¬∞N, 77.2¬∞E.\n\nThe temperature during this period has been quite moderate, averaging 25.0¬∞C. The warmest day reached 30.0¬∞C, while the coolest dropped to 20.0¬∞C. Temperature patterns have remained relatively stable. \n\nOverall, this location has experienced typical seasonal weather patterns for this geographic region." ∧
    includes (generateLocalSummary (.loaded twoDays)) "remained relatively stable" = true := by
  have h : generateLocalSummary (.loaded twoDays)
      = "This weather analysis covers the period from 01/01/2025 to 01/01/2025 for the location at 28.6¬∞N, 77.2¬∞E.\n\nThe temperature during this period has been quite moderate, averaging 25.0¬∞C. The warmest day reached 30.0¬∞C, while the coolest dropped to 20.0¬∞C. Temperature patterns have remained relatively stable. \n\nOverall, this location has experienced typical seasonal weather patterns for this geographic region." := by
    rw [generateLocalSummary_loaded twoDays (dayWith (.num 20) .null .null)
      (dayWith (.num 30) .null .null) rfl rfl]
    have hp : precipitationSection twoDays = "" := by decide
    have hw : windSection twoDays = "" := by decide
    have hh : summaryHeader (dayWith (.num 20) .null .null) (dayWith (.num 30) .null .null)
        twoDays.location
        = "This weather analysis covers the period from 01/01/2025 to 01/01/2025 for the location at 28.6¬∞N, 77.2¬∞E.\n\n" := by
      decide
    rw [summaryText, hh, twoDays_temperatureSection, hp, hw, twoDays_overall]
    decide
  refine ⟨rfl, h, ?_⟩
  rw [h]
  decide

/-- C12 as amended: the summary of a non-empty series with T2M requested is
the header, the temperature, precipitation and wind sections and the overall
assessment; its temperature section is empty exactly when no T2M value is
present, and otherwise carries one trend statement, also for fewer than 7
present values; with at most 7 present values both windows are the whole
sequence and the statement is the stable one. -/
theorem summary_trend_statement (wd : WeatherData) (first last : Observation)
    (hh : wd.data.head? = some first) (hl : wd.data.getLast? = some last)
    (hT : "T2M" ∈ wd.parameters) :
    generateLocalSummary (.loaded wd)
      = summaryHeader first last wd.location ++ temperatureSection wd
          ++ precipitationSection wd ++ windSection wd
          ++ "Overall, this location has experienced "
          ++ overallSentence (overallTempAvg wd) (overallRainTotal wd) ∧
    (presentT2M wd.data = [] → temperatureSection wd = "") ∧
    (presentT2M wd.data ≠ [] →
      temperatureSection wd
        = "The temperature during this period has been quite "
            ++ summaryTemperatureWord
                (.fin ((presentT2M wd.data).sum / (presentT2M wd.data).length))
            ++ ", averaging "
            ++ ((JSNum.fin
                  ((presentT2M wd.data).sum / (presentT2M wd.data).length)).toFixed 1).text
            ++ "¬∞C. " ++ "The warmest day reached "
            ++ ((mathMax (presentT2M wd.data)).toFixed 1).text
            ++ "¬∞C, while the coolest dropped to "
            ++ ((mathMin (presentT2M wd.data)).toFixed 1).text ++ "¬∞C. "
            ++ summaryTrendSentence (validReadings (wd.data.map (fun d => d.T2M)))
            ++ temperatureForecast wd.forecasts ∧
      (summaryTrendSentence (validReadings (wd.data.map (fun d => d.T2M)))
          = "Recently, temperatures have been trending upward. " ∨
        summaryTrendSentence (validReadings (wd.data.map (fun d => d.T2M)))
          = "Recently, temperatures have been cooling down. " ∨
        summaryTrendSentence (validReadings (wd.data.map (fun d => d.T2M)))
          = "Temperature patterns have remained relatively stable. ") ∧
      ((presentT2M wd.data).length ≤ 7 →
        summaryTrendSentence (validReadings (wd.data.map (fun d => d.T2M)))
          = "Temperature patterns have remained relatively stable. ")) := by
  refine ⟨?_, temperatureSection_absent wd, ?_⟩
  · rw [generateLocalSummary_loaded wd first last hh hl, summaryText]
  · intro hn
    have hlen : (validReadings (wd.data.map (fun d => d.T2M))).length
        = (presentT2M wd.data).length := validReadings_length _
    have hpos : 0 < (validReadings (wd.data.map (fun d => d.T2M))).length := by
      rw [hlen]; exact List.length_pos.mpr hn
    refine ⟨temperatureSection_present wd hT hn, summaryTrendSentence_cases _ hpos, ?_⟩
    intro h7
    exact summaryTrendSentence_short _ hpos (by rw [hlen]; exact h7)

/-- C12 as amended, at the series with two present values: the trend
statement is the stable one. -/
theorem summary_trend_statement_witness :
    "T2M" ∈ twoDays.parameters ∧ presentT2M twoDays.data ≠ [] ∧
    (presentT2M twoDays.data).length ≤ 7 ∧
    summaryTrendSentence (validReadings (twoDays.data.map (fun d => d.T2M)))
      = "Temperature patterns have remained relatively stable. " := by
  have hne : presentT2M twoDays.data ≠ [] := by
    have hp : presentT2M twoDays.data = [20, 30] := rfl
    rw [hp]; simp
  have hle : (presentT2M twoDays.data).length ≤ 7 := by
    have hp : presentT2M twoDays.data = [20, 30] := rfl
    rw [hp]; decide
  exact ⟨by decide, hne, hle,
    ((summary_trend_statement twoDays (dayWith (.num 20) .null .null)
      (dayWith (.num 30) .null .null) rfl rfl (by decide)).2.2 hne).2.2 hle⟩

/-! ## Trend: chat fallback against local summary -/

theorem toFixed_text_1 : ((JSNum.fin 1).toFixed 1).text = "1.0" := by
  rw [toFixed_fin_nonneg (f := 1) (x := 1) (n := 10) (by norm_num) (by norm_num)
    (by norm_num)]
  decide

theorem toFixed_text_10 : ((JSNum.fin 10).toFixed 1).text = "10.0" := by
  rw [toFixed_fin_nonneg (f := 1) (x := 10) (n := 100) (by norm_num) (by norm_num)
    (by norm_num)]
  decide

theorem toFixed_text_17 : ((JSNum.fin 17).toFixed 1).text = "17.0" := by
  rw [toFixed_fin_nonneg (f := 1) (x := 17) (n := 170) (by norm_num) (by norm_num)
    (by norm_num)]
  decide

theorem toFixed_text_10_875 : ((JSNum.fin (87 / 8)).toFixed 1).text = "10.9" := by
  rw [toFixed_fin_nonneg (f := 1) (x := 87 / 8) (n := 109) (by norm_num) (by norm_num)
    (by norm_num)]
  decide

theorem stepSeries_present :
    presentT2M stepSeries.data = [10, 10, 10, 10, 10, 10, 10, 17] := rfl

/-! ## Temperature band: chat fallback against local summary -/

theorem toFixed_toNumber (f : ℕ) (x : ℚ) :
    ((JSNum.fin x).toFixed f).toNumber = .fin (roundValue f x) := by
  simp only [JSNum.toFixed, Figure.toNumber, roundValue, decide_eq_true_eq]

theorem lt_roundValue_one_iff (k : ℕ) (x : ℚ) :
    (k : ℚ) < roundValue 1 x ↔ (k : ℚ) + 1 / 20 ≤ x := by
  have hk : (0 : ℚ) ≤ k := Nat.cast_nonneg k
  by_cases hx : x < 0
  · have hn : (0 : ℚ) ≤ (toFixedDigits 1 x : ℚ) := Nat.cast_nonneg _
    have hr : roundValue 1 x ≤ 0 := by
      simp only [roundValue, hx, if_true]
      have : (-1 : ℚ) * (toFixedDigits 1 x : ℚ) / 10 ^ 1 = -((toFixedDigits 1 x : ℚ) / 10) := by
        ring
      rw [this]
      have : (0 : ℚ) ≤ (toFixedDigits 1 x : ℚ) / 10 := by positivity
      linarith
    constructor
    · intro h; linarith
    · intro h; linarith
  · have hx0 : 0 ≤ x := not_lt.mp hx
    have hcast := toFixedDigits_cast 1 x
    rw [abs_of_nonneg hx0] at hcast
    have hval : roundValue 1 x = (toFixedDigits 1 x : ℚ) / 10 := by
      simp only [roundValue, hx, if_false]; ring
    rw [hval, lt_div_iff₀ (by norm_num : (0 : ℚ) < 10)]
    constructor
    · intro h
      have h1 : k * 10 < toFixedDigits 1 x := by exact_mod_cast h
      have h2 : ((k * 10 + 1 : ℕ) : ℚ) ≤ (toFixedDigits 1 x : ℚ) := by
        exact_mod_cast Nat.succ_le_of_lt h1
      rw [hcast] at h2
      have h3 := Int.floor_le (x * 10 ^ 1 + 1 / 2)
      have h4 : ((k * 10 + 1 : ℕ) : ℚ) ≤ x * 10 ^ 1 + 1 / 2 := le_trans h2 h3
      push_cast at h4
      linarith
    · intro h
      have h1 : ((k * 10 + 1 : ℕ) : ℤ) ≤ Int.floor (x * 10 ^ 1 + 1 / 2) := by
        apply Int.le_floor.mpr
        push_cast
        linarith
      have h2 : ((k * 10 + 1 : ℕ) : ℚ) ≤ (toFixedDigits 1 x : ℚ) := by
        rw [hcast]; exact_mod_cast h1
      push_cast at h2
      linarith

theorem temperatureBand_round_iff (a : ℚ) :
    temperatureBand (roundValue 1 a) = temperatureBand a
      ↔ ¬ (25 < a ∧ a < 25 + 1 / 20) ∧ ¬ (15 < a ∧ a < 15 + 1 / 20) := by
  have h25 := lt_roundValue_one_iff 25 a
  have h15 := lt_roundValue_one_iff 15 a
  simp only [Nat.cast_ofNat] at h25 h15
  unfold temperatureBand
  by_cases c1 : (25 : ℚ) < roundValue 1 a
  · have f1 := h25.mp c1
    have d1 : (25 : ℚ) < a := by linarith
    rw [if_pos c1, if_pos d1]
    constructor
    · intro _
      exact ⟨fun h => by linarith [h.2], fun h => by linarith [h.2]⟩
    · intro _; rfl
  · have e1 : ¬ ((25 : ℚ) + 1 / 20 ≤ a) := fun h => c1 (h25.mpr h)
    by_cases c2 : (15 : ℚ) < roundValue 1 a
    · have f2 := h15.mp c2
      have d2 : (15 : ℚ) < a := by linarith
      by_cases d1 : (25 : ℚ) < a
      · rw [if_neg c1, if_pos c2, if_pos d1]
        constructor
        · intro h; exact absurd h (by decide)
        · intro h; exact absurd ⟨d1, not_le.mp e1⟩ h.1
      · rw [if_neg c1, if_pos c2, if_neg d1, if_pos d2]
        constructor
        · intro _
          exact ⟨fun h => d1 h.1, fun h => by linarith [h.2]⟩
        · intro _; rfl
    · have e2 : ¬ ((15 : ℚ) + 1 / 20 ≤ a) := fun h => c2 (h15.mpr h)
      have d1 : ¬ ((25 : ℚ) < a) := fun h => e2 (by linarith)
      by_cases d2 : (15 : ℚ) < a
      · rw [if_neg c1, if_neg c2, if_neg d1, if_pos d2]
        constructor
        · intro h; exact absurd h (by decide)
        · intro h; exact absurd ⟨d2, not_le.mp e2⟩ h.2
      · rw [if_neg c1, if_neg c2, if_neg d1, if_neg d2]
        constructor
        · intro _
          exact ⟨fun h => d1 h.1, fun h => d2 h.1⟩
        · intro _; rfl

theorem summaryTemperatureWord_fin (a : ℚ) :
    summaryTemperatureWord (.fin a) = temperatureBand a := by
  simp only [summaryTemperatureWord, JSNum.lt, decide_eq_true_eq, temperatureBand]

theorem roundValue_nonneg_eq {f : ℕ} {x : ℚ} {n : ℕ} (hx : 0 ≤ x)
    (h1 : (n : ℚ) ≤ x * 10 ^ f + 1 / 2) (h2 : x * 10 ^ f + 1 / 2 < n + 1) :
    roundValue f x = (n : ℚ) / 10 ^ f := by
  have h := toFixedDigits_eq_of (f := f) (x := x) (n := n)
    (by rw [abs_of_nonneg hx]; exact h1) (by rw [abs_of_nonneg hx]; exact h2)
  have hnot : ¬ x < 0 := not_lt.mpr hx
  simp only [roundValue, hnot, if_false, h, one_mul]

/-! ## Overall assessment of the local summary -/

theorem precipitationSection_present (wd : WeatherData) (hP : "PRECTOTCORR" ∈ wd.parameters)
    (hn : presentPrecip wd.data ≠ []) :
    precipitationSection wd
      = rainfallSentence (presentPrecip wd.data).sum ++ "There were "
          ++ Nat.repr ((presentPrecip wd.data).filter (fun v => decide (v > 0.1))).length
          ++ " days with measurable rainfall, "
          ++ (if JSNum.lt (.fin 20) (mathMax (presentPrecip wd.data)) then
                "including one particularly heavy day with "
                  ++ ((mathMax (presentPrecip wd.data)).toFixed 1).text ++ "mm. "
              else "with the heaviest day receiving "
                  ++ ((mathMax (presentPrecip wd.data)).toFixed 1).text ++ "mm. ")
          ++ precipitationForecast wd.forecasts ++ "\n\n" := by
  have hlen : (validReadings (wd.data.map (fun d => d.PRECTOTCORR))).length
      = (presentPrecip wd.data).length := validReadings_length _
  have hpos : (presentPrecip wd.data).length ≠ 0 := fun h0 => hn (List.length_eq_zero.mp h0)
  have hgt : (presentPrecip wd.data).length > 0 := Nat.pos_of_ne_zero hpos
  have hmap : (validReadings (wd.data.map (fun d => d.PRECTOTCORR))).map Reading.toNumber
      = presentPrecip wd.data := validReadings_map _
  have hrain : ((validReadings (wd.data.map (fun d => d.PRECTOTCORR))).filter
      (fun v => decide (v.toNumber > 0.1))).length
      = ((presentPrecip wd.data).filter (fun v => decide (v > 0.1))).length := by
    rw [← hmap, List.filter_map, List.length_map]
    rfl
  simp only [precipitationSection, hP, if_true, hlen, hgt, reduceSum_eq, hmap, hrain]

theorem overallSentence_table (avg total : ℚ) (h0 : avg ≠ 0) (hr : total ≠ 0) :
    overallSentence (some (.fin avg)) (some total) = overallTable avg total := by
  simp only [overallSentence, tempAvgAnd, rainTotalAnd, JSNum.truthy, JSNum.lt, h0, hr, ne_eq,
    not_false_eq_true, decide_True, Bool.true_and, Bool.and_eq_true, decide_eq_true_eq,
    gt_iff_lt, overallTable]

theorem overall_when_both_requested (wd : WeatherData) (hT : "T2M" ∈ wd.parameters)
    (hP : "PRECTOTCORR" ∈ wd.parameters) (hn : presentT2M wd.data ≠ []) :
    overallSentence (overallTempAvg wd) (overallRainTotal wd)
      = overallSentence
          (some (.fin ((presentT2M wd.data).sum / (presentT2M wd.data).length)))
          (some (presentPrecip wd.data).sum) := by
  have hpos : (presentT2M wd.data).length ≠ 0 := fun h0 => hn (List.length_eq_zero.mp h0)
  rw [overallTempAvg_eq, overallRainTotal_eq, if_pos hT, if_pos hP, jsDiv_nat hpos]
  rfl

theorem toFixed_text_15 : ((JSNum.fin 15).toFixed 1).text = "15.0" := by
  rw [toFixed_fin_nonneg (f := 1) (x := 15) (n := 150) (by norm_num) (by norm_num)
    (by norm_num)]
  decide

theorem warmDay_header (p : Reading) :
    summaryHeader (dayWith (.num 30) p .null) (dayWith (.num 30) p .null)
        (weatherOf [dayWith (.num 30) p .null]).location
      = "This weather analysis covers the period from 01/01/2025 to 01/01/2025 for the location at 28.6¬∞N, 77.2¬∞E.\n\n" := by
  simp only [summaryHeader, dayWith, weatherOf]
  decide

theorem summary_with_table (wd : WeatherData) (first last : Observation)
    (hh : wd.data.head? = some first) (hl : wd.data.getLast? = some last)
    (hT : "T2M" ∈ wd.parameters) (hP : "PRECTOTCORR" ∈ wd.parameters)
    (hn : presentT2M wd.data ≠ [])
    (h0 : (presentT2M wd.data).sum / (presentT2M wd.data).length ≠ 0)
    (hr : (presentPrecip wd.data).sum ≠ 0) :
    generateLocalSummary (.loaded wd)
      = summaryHeader first last wd.location ++ temperatureSection wd
          ++ precipitationSection wd ++ windSection wd
          ++ "Overall, this location has experienced "
          ++ overallTable ((presentT2M wd.data).sum / (presentT2M wd.data).length)
              (presentPrecip wd.data).sum := by
  rw [generateLocalSummary_loaded wd first last hh hl, summaryText,
    overall_when_both_requested wd hT hP hn, overallSentence_table _ _ h0 hr]

/-- The overall assessment of a warm day without rain: the total 0 is falsy
in `rainTotal && rainTotal < 20`, so the sentence is the typical-patterns one
although the precipitation section calls the period relatively dry. -/
theorem warm_day_without_rain_overall :
    summaryTemperatureWord (.fin 30) = "warm" ∧
    rainfallSentence 0
      = "This has been a relatively dry period with only 0.0mm of total rainfall. " ∧
    overallSentence (overallTempAvg warmDryDay) (overallRainTotal warmDryDay)
      = "typical seasonal weather patterns for this geographic region." := by
  refine ⟨by norm_num [summaryTemperatureWord, JSNum.lt], ?_, ?_⟩
  · have h1 : (0 : ℚ) < 10 := by norm_num
    simp only [rainfallSentence, h1, if_true, toFixed_text_0]
    decide
  · have ht : presentT2M warmDryDay.data = [30] := rfl
    have hq : presentPrecip warmDryDay.data = [0] := rfl
    rw [overall_when_both_requested warmDryDay (by decide) (by decide) (by rw [ht]; simp),
      ht, hq]
    norm_num [overallSentence, tempAvgAnd, rainTotalAnd, JSNum.truthy, JSNum.lt]

/-! ## End-to-end scenario of the local summary -/

theorem toFixed_text_30_4 : ((JSNum.fin (152 / 5)).toFixed 1).text = "30.4" := by
  rw [toFixed_fin_nonneg (f := 1) (x := 152 / 5) (n := 304) (by norm_num) (by norm_num)
    (by norm_num)]
  decide

theorem toFixed_text_34 : ((JSNum.fin 34).toFixed 1).text = "34.0" := by
  rw [toFixed_fin_nonneg (f := 1) (x := 34) (n := 340) (by norm_num) (by norm_num)
    (by norm_num)]
  decide

theorem toFixed_text_28 : ((JSNum.fin 28).toFixed 1).text = "28.0" := by
  rw [toFixed_fin_nonneg (f := 1) (x := 28) (n := 280) (by norm_num) (by norm_num)
    (by norm_num)]
  decide

theorem toFixed_text_0_2 : ((JSNum.fin (1 / 5)).toFixed 1).text = "0.2" := by
  rw [toFixed_fin_nonneg (f := 1) (x := 1 / 5) (n := 2) (by norm_num) (by norm_num)
    (by norm_num)]
  decide

theorem scenario_temperatureSection (wd : WeatherData)
    (hT2M : wd.data.map (fun d => d.T2M) = scenarioT2M)
    (hpar : wd.parameters = ["T2M", "PRECTOTCORR"]) (hfc : wd.forecasts = none) :
    temperatureSection wd
      = "The temperature during this period has been quite warm, averaging 30.4¬∞C. The warmest day reached 34.0¬∞C, while the coolest dropped to 28.0¬∞C. Recently, temperatures have been trending upward. \n\n" := by
  have hp : presentT2M wd.data = [28, 29, 30, 31, 30, 29, 28, 32, 33, 34] := by
    rw [presentT2M, hT2M]; rfl
  have hT : "T2M" ∈ wd.parameters := by rw [hpar]; decide
  rw [temperatureSection_present wd hT (by rw [hp]; simp)]
  have htrend : summaryTrendSentence (validReadings (wd.data.map (fun d => d.T2M)))
      = "Recently, temperatures have been trending upward. " := by
    have hlen : 7 < (validReadings (wd.data.map (fun d => d.T2M))).length := by
      rw [validReadings_length]
      have : (presentValues (wd.data.map (fun d => d.T2M))).length = 10 :=
        congrArg List.length hp
      omega
    rw [summaryTrendSentence_long _ hlen, validReadings_map]
    have hp2 : presentValues (wd.data.map (fun d => d.T2M))
        = [28, 29, 30, 31, 30, 29, 28, 32, 33, 34] := hp
    rw [hp2]
    have hl : lastSevenMean ([28, 29, 30, 31, 30, 29, 28, 32, 33, 34] : List ℚ) = 31 := by
      norm_num [lastSevenMean]
    have hf : firstSevenMean ([28, 29, 30, 31, 30, 29, 28, 32, 33, 34] : List ℚ) = 205 / 7 := by
      norm_num [firstSevenMean]
    rw [hl, hf]
    norm_num
  rw [htrend, hp, hfc]
  have havg : (([28, 29, 30, 31, 30, 29, 28, 32, 33, 34] : List ℚ).sum
      / (([28, 29, 30, 31, 30, 29, 28, 32, 33, 34] : List ℚ).length : ℚ)) = 152 / 5 := by
    norm_num
  have hmin : mathMin [28, 29, 30, 31, 30, 29, 28, 32, 33, 34] = .fin 28 := by
    norm_num [mathMin, minStep]
  have hmax : mathMax [28, 29, 30, 31, 30, 29, 28, 32, 33, 34] = .fin 34 := by
    norm_num [mathMax, maxStep]
  have hword : summaryTemperatureWord (.fin (152 / 5)) = "warm" := by
    norm_num [summaryTemperatureWord, JSNum.lt]
  have hfo : temperatureForecast none = "\n\n" := rfl
  rw [havg, hmin, hmax, hword, hfo, toFixed_text_30_4, toFixed_text_34, toFixed_text_28]
  decide

theorem scenario_precipitationSection (wd : WeatherData)
    (hPre : wd.data.map (fun d => d.PRECTOTCORR) = scenarioPrecip)
    (hpar : wd.parameters = ["T2M", "PRECTOTCORR"]) (hfc : wd.forecasts = none) :
    precipitationSection wd
      = "This has been a relatively dry period with only 0.2mm of total rainfall. There were 1 days with measurable rainfall, with the heaviest day receiving 0.2mm. \n\n" := by
  have hq : presentPrecip wd.data = [0, 0, 2 / 10, 0, 0, 0, 0, 0, 0, 0] := by
    rw [presentPrecip, hPre]; rfl
  have hP : "PRECTOTCORR" ∈ wd.parameters := by rw [hpar]; decide
  rw [precipitationSection_present wd hP (by rw [hq]; simp), hq, hfc]
  have hsum : ([0, 0, 2 / 10, 0, 0, 0, 0, 0, 0, 0] : List ℚ).sum = 1 / 5 := by norm_num
  have hmax : mathMax [0, 0, 2 / 10, 0, 0, 0, 0, 0, 0, 0] = .fin (1 / 5) := by
    norm_num [mathMax, maxStep]
  have hcount : (([0, 0, 2 / 10, 0, 0, 0, 0, 0, 0, 0] : List ℚ).filter
      (fun v => decide (v > 0.1))).length = 1 := by
    norm_num [List.filter_cons]
  have hrain : rainfallSentence (1 / 5)
      = "This has been a relatively dry period with only 0.2mm of total rainfall. " := by
    have h1 : ((1 : ℚ) / 5) < 10 := by norm_num
    simp only [rainfallSentence, h1, if_true, toFixed_text_0_2]
    decide
  have hlt : JSNum.lt (.fin 20) (.fin (1 / 5)) = false := by norm_num [JSNum.lt]
  have hfo : precipitationForecast none = "" := rfl
  rw [hsum, hmax, hcount, hrain, hlt, hfo, toFixed_text_0_2]
  decide

/-- C16: for every 10-day series whose T2M column is 28, 29, 30, 31, 30, 29,
28, 32, 33, 34 and whose PRECTOTCORR column is 0, 0, 0.2, 0, ..., 0, with T2M
and PRECTOTCORR requested and no forecasts, the summary is the header followed
by: average 30.4, warmest 34.0, coolest 28.0, trending upward, a relatively dry
period with 0.2mm of total rainfall, and the overall assessment warm and dry. -/
theorem scenario_summary (wd : WeatherData) (first last : Observation)
    (hh : wd.data.head? = some first) (hl : wd.data.getLast? = some last)
    (hT2M : wd.data.map (fun d => d.T2M) = scenarioT2M)
    (hPre : wd.data.map (fun d => d.PRECTOTCORR) = scenarioPrecip)
    (hpar : wd.parameters = ["T2M", "PRECTOTCORR"]) (hfc : wd.forecasts = none) :
    generateLocalSummary (.loaded wd)
      = summaryHeader first last wd.location
          ++ "The temperature during this period has been quite warm, averaging 30.4¬∞C. The warmest day reached 34.0¬∞C, while the coolest dropped to 28.0¬∞C. Recently, temperatures have been trending upward. \n\nThis has been a relatively dry period with only 0.2mm of total rainfall. There were 1 days with measurable rainfall, with the heaviest day receiving 0.2mm. \n\nOverall, this location has experienced warm and dry conditions, ideal for outdoor activities." := by
  have hp : presentT2M wd.data = [28, 29, 30, 31, 30, 29, 28, 32, 33, 34] := by
    rw [presentT2M, hT2M]; rfl
  have hq : presentPrecip wd.data = [0, 0, 2 / 10, 0, 0, 0, 0, 0, 0, 0] := by
    rw [presentPrecip, hPre]; rfl
  have hT : "T2M" ∈ wd.parameters := by rw [hpar]; decide
  have hP : "PRECTOTCORR" ∈ wd.parameters := by rw [hpar]; decide
  have hne : presentT2M wd.data ≠ [] := by rw [hp]; simp
  have h0 : (presentT2M wd.data).sum / (presentT2M wd.data).length ≠ 0 := by
    rw [hp]; norm_num
  have hr : (presentPrecip wd.data).sum ≠ 0 := by rw [hq]; norm_num
  have hwind : windSection wd = "" := by
    have hW : "WS2M" ∉ wd.parameters := by rw [hpar]; decide
    simp only [windSection, hW, if_false]
  have htable : overallTable ((presentT2M wd.data).sum / (presentT2M wd.data).length)
      (presentPrecip wd.data).sum
      = "warm and dry conditions, ideal for outdoor activities." := by
    rw [hp, hq]; norm_num [overallTable]
  rw [summary_with_table wd first last hh hl hT hP hne h0 hr,
    scenario_temperatureSection wd hT2M hpar hfc,
    scenario_precipitationSection wd hPre hpar hfc, hwind, htable]
  simp only [String.append_assoc]
  congr 1

/-- C16 at the series dated 1 to 10 January 2025: the whole narrative. -/
theorem scenario_summary_witness :
    scenarioData.data.map (fun d => d.T2M) = scenarioT2M ∧
    scenarioData.data.map (fun d => d.PRECTOTCORR) = scenarioPrecip ∧
    generateLocalSummary (.loaded scenarioData)
      = "This weather analysis covers the period from 01/01/2025 to 10/01/2025 for the location at 28.6¬∞N, 77.2¬∞E.\n\nThe temperature during this period has been quite warm, averaging 30.4¬∞C. The warmest day reached 34.0¬∞C, while the coolest dropped to 28.0¬∞C. Recently, temperatures have been trending upward. \n\nThis has been a relatively dry period with only 0.2mm of total rainfall. There were 1 days with measurable rainfall, with the heaviest day receiving 0.2mm. \n\nOverall, this location has experienced warm and dry conditions, ideal for outdoor activities." := by
  refine ⟨rfl, rfl, ?_⟩
  rw [scenario_summary scenarioData
    { date := "20250101", T2M := .num 28, PRECTOTCORR := .num 0, WS2M := .null, RH2M := .null,
      SNODP := .null }
    { date := "20250110", T2M := .num 34, PRECTOTCORR := .num 0, WS2M := .null, RH2M := .null,
      SNODP := .null } rfl rfl rfl rfl rfl rfl]
  decide

/-! ## The local summary is never empty -/

theorem ne_empty_of_length_pos (s : String) (h : 0 < s.length) : s ≠ "" := by
  intro h0
  rw [h0] at h
  exact absurd h (by decide)

theorem overallSentence_cases (tempAvg : Option JSNum) (rainTotal : Option ℚ) :
    overallSentence tempAvg rainTotal
      ∈ ["warm and dry conditions, ideal for outdoor activities.",
         "warm and humid conditions with significant rainfall.",
         "cool and wet weather patterns.",
         "cooler weather conditions.",
         "typical seasonal weather patterns for this geographic region."] := by
  unfold overallSentence
  split_ifs <;> simp

theorem summaryText_length_pos (wd : WeatherData) (first last : Observation) :
    0 < (summaryText wd first last).length := by
  simp only [summaryText, String.length_append]
  have h : ("Overall, this location has experienced ").length = 39 := by decide
  omega

/-- C17: `generateLocalSummary` never returns the empty string. For a
non-empty series the narrative ends with the overall-assessment sentence, one
of the five sentences of the assessment; for an absent prop, a prop without a
series and an empty series it is the designated no-data message. -/
theorem generateLocalSummary_never_empty :
    (∀ data : WeatherProp, generateLocalSummary data ≠ "") ∧
    (∀ wd : WeatherData, wd.data ≠ [] →
      ∃ body sentence : String,
        generateLocalSummary (.loaded wd)
          = body ++ "Overall, this location has experienced " ++ sentence ∧
        sentence ∈ ["warm and dry conditions, ideal for outdoor activities.",
          "warm and humid conditions with significant rainfall.",
          "cool and wet weather patterns.",
          "cooler weather conditions.",
          "typical seasonal weather patterns for this geographic region."]) ∧
    generateLocalSummary .absent = "No weather data available for summary generation." ∧
    generateLocalSummary .noSeries = "No weather data available for summary generation." ∧
    (∀ wd : WeatherData, wd.data = [] →
      generateLocalSummary (.loaded wd)
        = "No weather data available for summary generation.") := by
  refine ⟨?_, ?_, rfl, rfl, generateLocalSummary_empty⟩
  · intro data
    cases data with
    | absent => exact ne_empty_of_length_pos _ (by decide)
    | noSeries => exact ne_empty_of_length_pos _ (by decide)
    | loaded wd =>
      by_cases h : wd.data = []
      · rw [generateLocalSummary_empty wd h]
        exact ne_empty_of_length_pos _ (by decide)
      · obtain ⟨first, last, hh, hl⟩ := exists_first_last wd h
        rw [generateLocalSummary_loaded wd first last hh hl]
        exact ne_empty_of_length_pos _ (summaryText_length_pos wd first last)
  · intro wd h
    obtain ⟨first, last, hh, hl⟩ := exists_first_last wd h
    refine ⟨summaryHeader first last wd.location ++ temperatureSection wd
        ++ precipitationSection wd ++ windSection wd,
      overallSentence (overallTempAvg wd) (overallRainTotal wd), ?_,
      overallSentence_cases _ _⟩
    rw [generateLocalSummary_loaded wd first last hh hl, summaryText]

/-- C17 at the two-day series and at the empty series. -/
theorem generateLocalSummary_never_empty_witness :
    twoDays.data ≠ [] ∧ generateLocalSummary (.loaded twoDays) ≠ "" ∧
    emptySeries.data = [] ∧
    generateLocalSummary (.loaded emptySeries)
      = "No weather data available for summary generation." :=
  ⟨by simp [twoDays, weatherOf, rowsOf], generateLocalSummary_never_empty.1 (.loaded twoDays),
    rfl,
    generateLocalSummary_never_empty.2.2.2.2 emptySeries rfl⟩

/-! ## Totality of the chat fallback -/

theorem outdoorAdvice_length_pos (latest : Observation) : 0 < (outdoorAdvice latest).length := by
  simp only [outdoorAdvice, String.length_append]
  have h : 0 < ("🌤️ Outdoor Conditions Assessment:\n\n").length := by decide
  omega

theorem temperatureAnswer_length_pos (td : List Reading) :
    0 < (temperatureAnswer td).length := by
  simp only [temperatureAnswer, String.length_append]
  have h : 0 < ("🌡️ Temperature Analysis:\n• Current: ").length := by decide
  omega

theorem precipitationAnswer_length_pos (pd : List Reading) (n : ℕ) :
    0 < (precipitationAnswer pd n).length := by
  simp only [precipitationAnswer, String.length_append]
  have h : 0 < ("🌧️ Precipitation Analysis:\n• Latest: ").length := by decide
  omega

theorem forecast_foldl_length (es : List (String × List ForecastPoint)) (init : String) :
    init.length
      ≤ (es.foldl (fun response entry => response ++ forecastEntryLine entry) init).length := by
  induction es generalizing init with
  | nil => exact le_refl _
  | cons e es ih =>
    rw [List.foldl_cons]
    have h := ih (init ++ forecastEntryLine e)
    rw [String.length_append] at h
    omega

theorem forecastAnswer_length_pos (forecasts : Option (List (String × List ForecastPoint))) :
    0 < (forecastAnswer forecasts).length := by
  have hlit : 0 < ("🔮 ML Forecast Summary:\n").length := by decide
  cases forecasts with
  | none => simp only [forecastAnswer]; decide
  | some fs =>
    cases fs with
    | nil => simp only [forecastAnswer]; decide
    | cons e es =>
      simp only [forecastAnswer]
      have h := forecast_foldl_length (e :: es) "🔮 ML Forecast Summary:\n"
      omega

theorem windAnswer_length_pos (wdata : List Reading) : 0 < (windAnswer wdata).length := by
  simp only [windAnswer, String.length_append]
  have h : 0 < ("💨 Wind Analysis:\n• Current: ").length := by decide
  omega

theorem trendAnswer_length_pos (td : List Reading) (insights : Option String) :
    0 < (trendAnswer td insights).length := by
  simp only [trendAnswer, String.length_append]
  have h : 0 < ("📈 Trend Analysis:\nTemperature is ").length := by decide
  omega

theorem overviewAnswer_length_pos (wd : WeatherData) : 0 < (overviewAnswer wd).length := by
  simp only [overviewAnswer, String.length_append]
  have h : 0 < ("📊 Data Overview:\n• Location: ").length := by decide
  omega

theorem defaultAnswer_length_pos (question : String) : 0 < (defaultAnswer question).length := by
  simp only [defaultAnswer, String.length_append]
  have h : 0 < ("🤖 I understand you're asking about \"").length := by decide
  omega

theorem generateSmartFallback_nonempty (wd : WeatherData) (insights : Option String)
    (question : String) (h : wd.data ≠ []) :
    ∃ s : String, generateSmartFallback wd insights question = .ok s ∧ s ≠ "" := by
  obtain ⟨first, last, _, hl⟩ := exists_first_last wd h
  unfold generateSmartFallback
  simp only [hl]
  split_ifs
  · exact ⟨_, rfl, ne_empty_of_length_pos _ (outdoorAdvice_length_pos last)⟩
  · exact ⟨_, rfl, ne_empty_of_length_pos _ (temperatureAnswer_length_pos _)⟩
  · exact ⟨_, rfl, ne_empty_of_length_pos _ (precipitationAnswer_length_pos _ _)⟩
  · exact ⟨_, rfl, ne_empty_of_length_pos _ (forecastAnswer_length_pos _)⟩
  · exact ⟨_, rfl, ne_empty_of_length_pos _ (windAnswer_length_pos _)⟩
  · exact ⟨_, rfl, ne_empty_of_length_pos _ (trendAnswer_length_pos _ _)⟩
  · exact ⟨_, rfl, ne_empty_of_length_pos _ (overviewAnswer_length_pos _)⟩
  · exact ⟨_, rfl, ne_empty_of_length_pos _ (defaultAnswer_length_pos _)⟩

/-- C18, the code at the failing input: with an empty series the guard of
`generateGeminiResponse` lets the call through (an empty array is truthy),
and when the assist call fails on an outdoor question the fallback reads
`latest.T2M` of the missing last row and throws a `TypeError`; on a
temperature question it returns the help text, not a no-data message. The
summary generator returns its no-data message on the same series, and the
chat returns one when the series is missing altogether. -/
theorem fallback_on_empty_series :
    generateSmartFallback emptySeries none "Should I go outside?" = .error .typeError ∧
    generateGeminiResponse (.loaded emptySeries) none .failed "Should I go outside?"
      = .error .typeError ∧
    generateGeminiResponse (.loaded emptySeries) none .failed "What is the temperature?"
      = .ok "🤖 I understand you're asking about \"What is the temperature?\". I can help with:\n• Outdoor activity advice (\"Should I go outside?\")\n• Temperature analysis\n• Precipitation data\n• Wind conditions\n• Weather forecasts\n• Trend analysis\n\nNote: Gemini AI quota exceeded, using smart fallback responses." ∧
    generateGeminiResponse .noSeries none .failed "Should I go outside?"
      = .ok "I need weather data to answer your questions. Please fetch some data first! 🛰️" ∧
    generateLocalSummary (.loaded emptySeries)
      = "No weather data available for summary generation." := by
  have h1 : generateSmartFallback emptySeries none "Should I go outside?"
      = .error .typeError := by
    have hq : isOutdoorQuestion (toLowerCase "Should I go outside?") = true := by decide
    simp only [generateSmartFallback, hq, if_true]
    rfl
  refine ⟨h1, h1, ?_, rfl, rfl⟩
  show generateSmartFallback emptySeries none "What is the temperature?" = _
  rw [generateSmartFallback_after_wind emptySeries none "What is the temperature?" (by decide)
    (Or.inr rfl) (Or.inr rfl) (by decide) (Or.inr rfl)]
  have ht : isTrendQuestion (toLowerCase "What is the temperature?") = false := by decide
  have hg : isGeneralQuestion (toLowerCase "What is the temperature?") = false := by decide
  simp only [ht, hg, Bool.false_eq_true, false_and, if_false]
  exact congrArg Except.ok (by decide)

/-! ## Remote-assist facade -/

/-- C19: for a non-empty series, when the call to the assist service fails,
`generateGeminiResponse` returns exactly what `generateSmartFallback` returns
on the same question and data, a non-empty text; and after a failed summary
call the summary stored is `generateLocalSummary` of the same data, a
non-empty text too. -/
theorem assist_failure_falls_back (wd : WeatherData) (insights : Option String)
    (question : String) (h : wd.data ≠ []) :
    generateGeminiResponse (.loaded wd) insights .failed question
      = generateSmartFallback wd insights question ∧
    (∃ s : String,
      generateGeminiResponse (.loaded wd) insights .failed question = .ok s ∧ s ≠ "") ∧
    fetchSummary (.loaded wd) .failed = some (generateLocalSummary (.loaded wd)) ∧
    generateLocalSummary (.loaded wd) ≠ "" := by
  refine ⟨rfl, generateSmartFallback_nonempty wd insights question h, rfl, ?_⟩
  obtain ⟨first, last, hh, hl⟩ := exists_first_last wd h
  rw [generateLocalSummary_loaded wd first last hh hl]
  exact ne_empty_of_length_pos _ (summaryText_length_pos wd first last)

/-- C19 at the 14-day series and the trend question: the answer after a
failed call is the fallback's trend reply. -/
theorem assist_failure_falls_back_witness :
    risingSeries.data ≠ [] ∧
    generateGeminiResponse (.loaded risingSeries) none .failed "What is the trend?"
      = generateSmartFallback risingSeries none "What is the trend?" ∧
    generateSmartFallback risingSeries none "What is the trend?"
      = .ok "📈 Trend Analysis:\nTemperature is increasing over the data period (7.0°C change).\n\nRun AI analysis for more detailed insights!" := by
  have hne : risingSeries.data ≠ [] := by simp [risingSeries, weatherOf, rowsOf]
  refine ⟨hne, (assist_failure_falls_back risingSeries none "What is the trend?" hne).1, ?_⟩
  rw [generateSmartFallback_trend risingSeries none "What is the trend?" (by decide)
    (by decide) (Or.inl (by decide)) (by decide) (Or.inl (by decide)) (by decide) (by decide),
    trendAnswer_eq, risingSeries_trend_text]

/-- C20, the claim as stated fails: when the call succeeds with an empty
response text, `generateGeminiResponse` returns a fixed notice, which is not
what `generateSmartFallback` answers to the same question. -/
theorem empty_response_is_not_a_fallback :
    generateGeminiResponse (.loaded risingSeries) none (.replied (some ""))
        "What is the trend?"
      = .ok "I received an empty response. Please try rephrasing your question! 🤖" ∧
    generateSmartFallback risingSeries none "What is the trend?"
      = .ok "📈 Trend Analysis:\nTemperature is increasing over the data period (7.0°C change).\n\nRun AI analysis for more detailed insights!" ∧
    generateGeminiResponse (.loaded risingSeries) none (.replied (some ""))
        "What is the trend?"
      ≠ generateSmartFallback risingSeries none "What is the trend?" := by
  have h1 : generateGeminiResponse (.loaded risingSeries) none (.replied (some ""))
      "What is the trend?"
      = .ok "I received an empty response. Please try rephrasing your question! 🤖" := rfl
  have h2 : generateSmartFallback risingSeries none "What is the trend?"
      = .ok "📈 Trend Analysis:\nTemperature is increasing over the data period (7.0°C change).\n\nRun AI analysis for more detailed insights!" := by
    rw [generateSmartFallback_trend risingSeries none "What is the trend?" (by decide)
      (by decide) (Or.inl (by decide)) (by decide) (Or.inl (by decide)) (by decide)
      (by decide), trendAnswer_eq, risingSeries_trend_text]
  refine ⟨h1, h2, ?_⟩
  rw [h1, h2]
  intro h
  exact absurd (Except.ok.inj h) (by decide)

/-- C20 as amended: when the series is present and the call to the assist
service succeeds, a non-empty response text is returned as it is, and an
empty or missing response text yields the fixed notice that an empty
response was received; `generateSmartFallback` is not consulted. -/
theorem empty_response_notice (wd : WeatherData) (insights : Option String)
    (question : String) (response : Option String) :
    ((response = none ∨ response = some "") →
      generateGeminiResponse (.loaded wd) insights (.replied response) question
        = .ok "I received an empty response. Please try rephrasing your question! 🤖") ∧
    (∀ text : String, response = some text → text ≠ "" →
      generateGeminiResponse (.loaded wd) insights (.replied response) question
        = .ok text) := by
  constructor
  · intro h
    rcases h with h | h
    · rw [h]; rfl
    · rw [h]; rfl
  · intro text h hne
    rw [h]
    simp only [generateGeminiResponse, hne, ne_eq, not_false_eq_true, if_true]

/-- C20 as amended, at an empty response text for the trend question. -/
theorem empty_response_notice_witness :
    generateGeminiResponse (.loaded risingSeries) none (.replied (some ""))
        "What is the trend?"
      = .ok "I received an empty response. Please try rephrasing your question! 🤖" ∧
    generateGeminiResponse (.loaded risingSeries) none (.replied none) "What is the trend?"
      = .ok "I received an empty response. Please try rephrasing your question! 🤖" :=
  ⟨(empty_response_notice risingSeries none "What is the trend?" (some "")).1 (Or.inr rfl),
   (empty_response_notice risingSeries none "What is the trend?" none).1 (Or.inl rfl)⟩

/-! ## Recommendation and comparison winner (LocationComparison.js) -/

/-- C22: when the purpose, not blank, contains none of the keywords of the
vacation, work and health branches, `generateBasicRecommendation` names the
winner that `compareLocations` stores: location 1 exactly when its hot-day
percentage is strictly lower than that of location 2, location 2 otherwise,
ties included. -/
theorem basic_recommendation_names_comparison_winner (name1 name2 purpose : String)
    (data1 data2 : LocationData)
    (hV : isVacationPurpose (toLowerCase purpose) = false)
    (hW : isWorkPurpose (toLowerCase purpose) = false)
    (hH : isHealthPurpose (toLowerCase purpose) = false)
    (hB : isBlank purpose = false) :
    ∃ c : Comparison,
      compareLocations name1 name2 purpose data1 data2 = some c ∧
      generateBasicRecommendation name1 name2 data1 data2 purpose
        = "🏆 WINNER: " ++ c.winner ++ "\n\nREASON: "
            ++ (c.winner ++ " has fewer extremely hot days, providing more comfortable overall weather conditions.") ∧
      (JSNum.lt data1.hotDays data2.hotDays = true → c.winner = name1) ∧
      (JSNum.lt data1.hotDays data2.hotDays = false → c.winner = name2) ∧
      (∀ a b : ℚ, data1.hotDays = .fin a → data2.hotDays = .fin b →
        c.winner = if a < b then name1 else name2) := by
  have hc : compareLocations name1 name2 purpose data1 data2
      = some
          { data1 := data1
            data2 := data2
            winner := if JSNum.lt data1.hotDays data2.hotDays then name1 else name2
            recommendation :=
              if JSNum.lt data1.hotDays data2.hotDays then
                name1 ++ " is cooler with " ++ (data1.hotDays.toFixed 0).text
                  ++ "% hot days vs " ++ (data2.hotDays.toFixed 0).text ++ "%"
              else
                name2 ++ " is cooler with " ++ (data2.hotDays.toFixed 0).text
                  ++ "% hot days vs " ++ (data1.hotDays.toFixed 0).text ++ "%" } := by
    simp only [compareLocations, hB, Bool.false_eq_true, if_false]
  refine ⟨_, hc, ?_, ?_, ?_, ?_⟩
  · simp only [generateBasicRecommendation, hV, hW, hH, Bool.false_eq_true, if_false,
      recommendationText]
  · intro h; simp only [h, if_true]
  · intro h; simp only [h, Bool.false_eq_true, if_false]
  · intro a b ha hb
    simp only [ha, hb, JSNum.lt, decide_eq_true_eq]

/-- C22 at a tie of 10 percent hot days and the purpose retirement: both
name the second location. -/
theorem basic_recommendation_names_comparison_winner_witness :
    isVacationPurpose (toLowerCase "Retirement") = false ∧
    isWorkPurpose (toLowerCase "Retirement") = false ∧
    isHealthPurpose (toLowerCase "Retirement") = false ∧
    isBlank "Retirement" = false ∧
    ∃ c : Comparison,
      compareLocations "New Delhi" "Shimla" "Retirement" (aggregatesOf 31 10 20)
        (aggregatesOf 18 10 40) = some c ∧
      generateBasicRecommendation "New Delhi" "Shimla" (aggregatesOf 31 10 20)
          (aggregatesOf 18 10 40) "Retirement"
        = "🏆 WINNER: " ++ c.winner ++ "\n\nREASON: "
            ++ (c.winner ++ " has fewer extremely hot days, providing more comfortable overall weather conditions.") ∧
      c.winner = "Shimla" := by
  obtain ⟨c, h1, h2, _, _, h5⟩ := basic_recommendation_names_comparison_winner "New Delhi"
    "Shimla" "Retirement" (aggregatesOf 31 10 20) (aggregatesOf 18 10 40) (by decide)
    (by decide) (by decide) (by decide)
  refine ⟨by decide, by decide, by decide, by decide, c, h1, h2, ?_⟩
  rw [h5 10 10 rfl rfl]
  norm_num

/-- A purpose made of a no-break space and a byte order mark is blank, as it
is for `trim()`: `compareLocations` returns early and stores no comparison. -/
theorem blank_purpose_stores_no_comparison (name1 name2 : String) (data1 data2 : LocationData) :
    isBlank (String.mk [Char.ofNat 160, Char.ofNat 65279]) = true ∧
    compareLocations name1 name2 (String.mk [Char.ofNat 160, Char.ofNat 65279]) data1 data2
      = none := by
  have hb : isBlank (String.mk [Char.ofNat 160, Char.ofNat 65279]) = true := by decide
  exact ⟨hb, by simp only [compareLocations, hb, if_true]⟩

/-- C23: for a purpose containing vacation, holiday or tourism the
recommendation is the same for every aggregate of the second location: the
first location wins exactly when its average temperature is above 20 and
below 30 and its rainy-day percentage is below 30, and the second location
wins otherwise. -/
theorem vacation_recommendation_ignores_second_location (name1 name2 purpose : String)
    (data1 data2 data2b : LocationData)
    (hV : isVacationPurpose (toLowerCase purpose) = true) :
    generateBasicRecommendation name1 name2 data1 data2 purpose
      = generateBasicRecommendation name1 name2 data1 data2b purpose ∧
    (∀ t r : ℚ, data1.avgTemp = .fin t → data1.rainyDays = .fin r →
      generateBasicRecommendation name1 name2 data1 data2 purpose
        = "🏆 WINNER: " ++ (if 20 < t ∧ t < 30 ∧ r < 30 then name1 else name2)
            ++ "\n\nREASON: "
            ++ ((if 20 < t ∧ t < 30 ∧ r < 30 then name1 else name2)
              ++ " offers better vacation weather with comfortable temperatures and fewer rainy days, ideal for outdoor sightseeing and activities.")) := by
  constructor
  · simp only [generateBasicRecommendation, hV, if_true]
  · intro t r ht hr
    simp only [generateBasicRecommendation, hV, if_true, recommendationText, ht, hr, JSNum.lt,
      Bool.and_eq_true, decide_eq_true_eq, and_assoc]

/-- C23 at a pleasant first location: it wins against a second location with
any weather, here one that is pleasant too and one that is not. -/
theorem vacation_recommendation_ignores_second_location_witness :
    isVacationPurpose (toLowerCase "Family vacation") = true ∧
    generateBasicRecommendation "New Delhi" "Shimla" (aggregatesOf 25 10 20)
        (aggregatesOf 24 0 0) "Family vacation"
      = generateBasicRecommendation "New Delhi" "Shimla" (aggregatesOf 25 10 20)
          (aggregatesOf 45 90 90) "Family vacation" ∧
    generateBasicRecommendation "New Delhi" "Shimla" (aggregatesOf 25 10 20)
        (aggregatesOf 24 0 0) "Family vacation"
      = "🏆 WINNER: New Delhi\n\nREASON: New Delhi offers better vacation weather with comfortable temperatures and fewer rainy days, ideal for outdoor sightseeing and activities." := by
  have h := vacation_recommendation_ignores_second_location "New Delhi" "Shimla"
    "Family vacation" (aggregatesOf 25 10 20) (aggregatesOf 24 0 0) (aggregatesOf 45 90 90)
    (by decide)
  refine ⟨by decide, h.1, ?_⟩
  rw [h.2 25 20 rfl rfl]
  have hc : (20 : ℚ) < 25 ∧ (25 : ℚ) < 30 ∧ (20 : ℚ) < 30 := by norm_num
  rw [if_pos hc]
  decide

/-! ## Forecast sentences of the local summary -/

theorem toFixedDigits_zero_error (x : ℚ) : |(toFixedDigits 0 x : ℚ) - abs x| ≤ 1 / 2 := by
  have hcast := toFixedDigits_cast 0 x
  have hlo := Int.floor_le (|x| * 10 ^ 0 + 1 / 2)
  have hhi := Int.lt_floor_add_one (|x| * 10 ^ 0 + 1 / 2)
  rw [← hcast] at hlo hhi
  rw [abs_le]
  constructor <;> linarith

theorem toFixed_text_2 : ((JSNum.fin 2).toFixed 1).text = "2.0" := by
  rw [toFixed_fin_nonneg (f := 1) (x := 2) (n := 20) (by norm_num) (by norm_num)
    (by norm_num)]
  decide

theorem toFixed_text_4 : ((JSNum.fin 4).toFixed 1).text = "4.0" := by
  rw [toFixed_fin_nonneg (f := 1) (x := 4) (n := 40) (by norm_num) (by norm_num)
    (by norm_num)]
  decide

theorem windSection_withoutForecasts (wd : WeatherData) :
    windSection wd = windSection wd.withoutForecasts := rfl

theorem temperatureSection_no_forecast (wd : WeatherData)
    (h : firstForecast wd.forecasts "T2M" = none) :
    temperatureSection wd = temperatureSection wd.withoutForecasts := by
  have h2 : temperatureForecast wd.forecasts = temperatureForecast none := by
    unfold temperatureForecast
    rw [h]
    rfl
  simp only [temperatureSection, WeatherData.withoutForecasts, h2]

theorem precipitationSection_no_forecast (wd : WeatherData)
    (h : firstForecast wd.forecasts "PRECTOTCORR" = none) :
    precipitationSection wd = precipitationSection wd.withoutForecasts := by
  have h2 : precipitationForecast wd.forecasts = precipitationForecast none := by
    unfold precipitationForecast
    rw [h]
    rfl
  simp only [precipitationSection, WeatherData.withoutForecasts, h2]

theorem windSection_present (wd : WeatherData) (hW : "WS2M" ∈ wd.parameters)
    (hn : presentWind wd.data ≠ []) :
    windSection wd
      = (if JSNum.lt (.fin ((presentWind wd.data).sum / (presentWind wd.data).length))
            (.fin 2) then
          "Wind conditions have been generally calm, averaging "
            ++ ((JSNum.fin
                  ((presentWind wd.data).sum / (presentWind wd.data).length)).toFixed 1).text
            ++ " m/s. "
        else if JSNum.lt (.fin ((presentWind wd.data).sum / (presentWind wd.data).length))
            (.fin 5) then
          "There's been a light breeze throughout the period, with average wind speeds of "
            ++ ((JSNum.fin
                  ((presentWind wd.data).sum / (presentWind wd.data).length)).toFixed 1).text
            ++ " m/s. "
        else
          "It's been quite breezy, with average wind speeds reaching "
            ++ ((JSNum.fin
                  ((presentWind wd.data).sum / (presentWind wd.data).length)).toFixed 1).text
            ++ " m/s. ")
        ++ (if JSNum.lt (.fin 10) (mathMax (presentWind wd.data)) then
              "The windiest moment peaked at "
                ++ ((mathMax (presentWind wd.data)).toFixed 1).text ++ " m/s. "
            else "")
        ++ "\n\n" := by
  have hlen : (validReadings (wd.data.map (fun d => d.WS2M))).length
      = (presentWind wd.data).length := validReadings_length _
  have hpos : (presentWind wd.data).length ≠ 0 := fun h0 => hn (List.length_eq_zero.mp h0)
  have hgt : (presentWind wd.data).length > 0 := Nat.pos_of_ne_zero hpos
  have hmap : (validReadings (wd.data.map (fun d => d.WS2M))).map Reading.toNumber
      = presentWind wd.data := validReadings_map _
  simp only [windSection, hW, if_true, hlen, hgt, reduceSum_eq, hmap, jsDiv_nat hpos]

theorem forecastDay_wind :
    windSection forecastDay
      = "There's been a light breeze throughout the period, with average wind speeds of 4.0 m/s. \n\n" := by
  have hq : presentWind forecastDay.data = [4] := rfl
  rw [windSection_present forecastDay (by decide) (by rw [hq]; simp), hq]
  have havg : (([4] : List ℚ).sum / (([4] : List ℚ).length : ℚ)) = 4 := by norm_num
  have hmax : mathMax [4] = .fin 4 := by simp [mathMax, maxStep]
  have h2 : JSNum.lt (.fin 4) (.fin 2) = false := by norm_num [JSNum.lt]
  have h5 : JSNum.lt (.fin 4) (.fin 5) = true := by norm_num [JSNum.lt]
  have h10 : JSNum.lt (.fin 10) (.fin 4) = false := by norm_num [JSNum.lt]
  rw [havg, hmax, h2, h5, h10, toFixed_text_4]
  decide

theorem forecastDay_precipitation :
    precipitationSection forecastDay
      = "This has been a relatively dry period with only 2.0mm of total rainfall. There were 1 days with measurable rainfall, with the heaviest day receiving 2.0mm. Rain is expected in the coming days. \n\n" := by
  have hq : presentPrecip forecastDay.data = [2] := rfl
  rw [precipitationSection_present forecastDay (by decide) (by rw [hq]; simp), hq]
  have hsum : ([2] : List ℚ).sum = 2 := by norm_num
  have hmax : mathMax [2] = .fin 2 := by simp [mathMax, maxStep]
  have hcount : (([2] : List ℚ).filter (fun v => decide (v > 0.1))).length = 1 := by
    norm_num [List.filter_cons]
  have hrain : rainfallSentence 2
      = "This has been a relatively dry period with only 2.0mm of total rainfall. " := by
    have h1 : (2 : ℚ) < 10 := by norm_num
    simp only [rainfallSentence, h1, if_true, toFixed_text_2]
    decide
  have hlt : JSNum.lt (.fin 20) (.fin 2) = false := by norm_num [JSNum.lt]
  have hf : precipitationForecast forecastDay.forecasts
      = "Rain is expected in the coming days. " := by
    have hpt : firstForecast forecastDay.forecasts "PRECTOTCORR"
        = some { value := 8, confidence := 9 / 10 } := rfl
    simp only [precipitationForecast, hpt]
    norm_num
  rw [hsum, hmax, hcount, hrain, hlt, hf, toFixed_text_2]
  decide

/-- C21, the claim as stated fails: with a forecast point for every
parameter, the precipitation section gains a sentence that states neither the
predicted value (8) nor a confidence percentage, and the wind section gains
no sentence at all: it is the text obtained without forecasts. -/
theorem forecast_sentences_differ_by_parameter :
    firstForecast forecastDay.forecasts "PRECTOTCORR"
      = some { value := 8, confidence := 9 / 10 } ∧
    precipitationSection forecastDay
      = "This has been a relatively dry period with only 2.0mm of total rainfall. There were 1 days with measurable rainfall, with the heaviest day receiving 2.0mm. Rain is expected in the coming days. \n\n" ∧
    firstForecast forecastDay.forecasts "WS2M" = some { value := 12, confidence := 9 / 10 } ∧
    windSection forecastDay
      = "There's been a light breeze throughout the period, with average wind speeds of 4.0 m/s. \n\n" ∧
    windSection forecastDay = windSection forecastDay.withoutForecasts :=
  ⟨rfl, forecastDay_precipitation, rfl, forecastDay_wind, rfl⟩

theorem toFixed_text_26_5 : ((JSNum.fin (265 / 10)).toFixed 1).text = "26.5" := by
  rw [toFixed_fin_nonneg (f := 1) (x := 265 / 10) (n := 265) (by norm_num) (by norm_num)
    (by norm_num)]
  decide

theorem toFixed_text_87 : ((JSNum.fin (87 / 100 * 100)).toFixed 0).text = "87" := by
  rw [toFixed_fin_nonneg (f := 0) (x := 87 / 100 * 100) (n := 87) (by norm_num) (by norm_num)
    (by norm_num)]
  decide

theorem forecastDay_temperature :
    temperatureSection forecastDay
      = "The temperature during this period has been quite moderate, averaging 25.0¬∞C. The warmest day reached 25.0¬∞C, while the coolest dropped to 25.0¬∞C. Temperature patterns have remained relatively stable. Looking ahead, our ML model predicts temperatures around 26.5¬∞C with 87% confidence.\n\n" := by
  have hp : presentT2M forecastDay.data = [25] := rfl
  rw [temperatureSection_present forecastDay (by decide) (by rw [hp]; simp)]
  have htrend : summaryTrendSentence (validReadings (forecastDay.data.map (fun d => d.T2M)))
      = "Temperature patterns have remained relatively stable. " :=
    summaryTrendSentence_short _ (by decide) (by decide)
  rw [htrend, hp]
  have havg : (([25] : List ℚ).sum / (([25] : List ℚ).length : ℚ)) = 25 := by norm_num
  have hmin : mathMin [25] = .fin 25 := by simp [mathMin, minStep]
  have hmax : mathMax [25] = .fin 25 := by simp [mathMax, maxStep]
  have hword : summaryTemperatureWord (.fin 25) = "moderate" := by
    norm_num [summaryTemperatureWord, JSNum.lt]
  have hf : temperatureForecast forecastDay.forecasts
      = "Looking ahead, our ML model predicts temperatures around 26.5¬∞C with 87% confidence.\n\n" := by
    have hpt : firstForecast forecastDay.forecasts "T2M"
        = some { value := 265 / 10, confidence := 87 / 100 } := rfl
    simp only [temperatureForecast, hpt, toFixed_text_26_5, toFixed_text_87]
    decide
  rw [havg, hmin, hmax, hword, hf, toFixed_text_25]
  decide

/-- C21 as amended: what a forecast point adds depends on the parameter. In
the temperature section (T2M requested, a value present) a point adds exactly
one sentence, stating the predicted value at one decimal and the confidence
times 100 rounded to an integer, before the closing blank line. In the
precipitation section a point adds one qualitative sentence chosen by the
predicted value (above 5, above 0.1, otherwise), without value or
confidence. The wind section never mentions a forecast. For a parameter
without a forecast point the section is the text obtained with no forecasts
supplied. -/
theorem forecast_sentences (wd : WeatherData) :
    (∀ point : ForecastPoint, firstForecast wd.forecasts "T2M" = some point →
      "T2M" ∈ wd.parameters → presentT2M wd.data ≠ [] →
      ∃ stem : String,
        temperatureSection wd.withoutForecasts = stem ++ "\n\n" ∧
        temperatureSection wd
          = stem ++ ("Looking ahead, our ML model predicts temperatures around "
              ++ ((JSNum.fin point.value).toFixed 1).text ++ "¬∞C with "
              ++ ((JSNum.fin (point.confidence * 100)).toFixed 0).text
              ++ "% confidence.\n\n") ∧
        ∃ n : ℕ,
          (JSNum.fin (point.confidence * 100)).toFixed 0
            = .dec (decide (point.confidence * 100 < 0)) n 0 ∧
          |(n : ℚ) - abs (point.confidence * 100)| ≤ 1 / 2) ∧
    (firstForecast wd.forecasts "T2M" = none →
      temperatureSection wd = temperatureSection wd.withoutForecasts) ∧
    (∀ point : ForecastPoint, firstForecast wd.forecasts "PRECTOTCORR" = some point →
      "PRECTOTCORR" ∈ wd.parameters → presentPrecip wd.data ≠ [] →
      ∃ stem : String,
        precipitationSection wd.withoutForecasts = stem ++ "" ++ "\n\n" ∧
        precipitationSection wd
          = stem ++ (if point.value > 5 then "Rain is expected in the coming days. "
              else if point.value > 0.1 then "Light precipitation is possible in the forecast. "
              else "Dry conditions are expected to continue. ") ++ "\n\n") ∧
    (firstForecast wd.forecasts "PRECTOTCORR" = none →
      precipitationSection wd = precipitationSection wd.withoutForecasts) ∧
    windSection wd = windSection wd.withoutForecasts := by
  refine ⟨?_, temperatureSection_no_forecast wd, ?_, precipitationSection_no_forecast wd,
    windSection_withoutForecasts wd⟩
  · intro point h hT hn
    have e1 := temperatureSection_present wd hT hn
    have e2 := temperatureSection_present wd.withoutForecasts hT hn
    have f1 : temperatureForecast wd.forecasts
        = "Looking ahead, our ML model predicts temperatures around "
            ++ ((JSNum.fin point.value).toFixed 1).text ++ "¬∞C with "
            ++ ((JSNum.fin (point.confidence * 100)).toFixed 0).text
            ++ "% confidence.\n\n" := by
      unfold temperatureForecast
      rw [h]
    have f2 : temperatureForecast wd.withoutForecasts.forecasts = "\n\n" := rfl
    rw [f1] at e1
    rw [f2] at e2
    exact ⟨_, e2, e1, toFixedDigits 0 (point.confidence * 100), rfl,
      toFixedDigits_zero_error _⟩
  · intro point h hP hn
    have e1 := precipitationSection_present wd hP hn
    have e2 := precipitationSection_present wd.withoutForecasts hP hn
    have f1 : precipitationForecast wd.forecasts
        = (if point.value > 5 then "Rain is expected in the coming days. "
            else if point.value > 0.1 then "Light precipitation is possible in the forecast. "
            else "Dry conditions are expected to continue. ") := by
      unfold precipitationForecast
      rw [h]
    have f2 : precipitationForecast wd.withoutForecasts.forecasts = "" := rfl
    rw [f1] at e1
    rw [f2] at e2
    exact ⟨_, e2, e1⟩

/-- C21 as amended, at the day with a forecast point for every parameter:
the temperature section ends with the sentence for 26.5 degrees and 87%. -/
theorem forecast_sentences_witness :
    firstForecast forecastDay.forecasts "T2M"
      = some { value := 265 / 10, confidence := 87 / 100 } ∧
    "T2M" ∈ forecastDay.parameters ∧ presentT2M forecastDay.data ≠ [] ∧
    (∃ stem : String,
      temperatureSection forecastDay.withoutForecasts = stem ++ "\n\n" ∧
      temperatureSection forecastDay
        = stem ++ ("Looking ahead, our ML model predicts temperatures around "
            ++ ((JSNum.fin (265 / 10)).toFixed 1).text ++ "¬∞C with "
            ++ ((JSNum.fin (87 / 100 * 100)).toFixed 0).text ++ "% confidence.\n\n")) ∧
    temperatureSection forecastDay
      = "The temperature during this period has been quite moderate, averaging 25.0¬∞C. The warmest day reached 25.0¬∞C, while the coolest dropped to 25.0¬∞C. Temperature patterns have remained relatively stable. Looking ahead, our ML model predicts temperatures around 26.5¬∞C with 87% confidence.\n\n" := by
  have hp : presentT2M forecastDay.data = [25] := rfl
  have hne : presentT2M forecastDay.data ≠ [] := by rw [hp]; simp
  obtain ⟨stem, h1, h2, _⟩ := (forecast_sentences forecastDay).1
    { value := 265 / 10, confidence := 87 / 100 } rfl (by decide) hne
  exact ⟨rfl, by decide, hne, ⟨stem, h1, h2⟩, forecastDay_temperature⟩

/-! ## Facts about binary64 rounding -/

theorem roundHalfEven_eq_of_near {y : ℚ} {m : ℤ} (h1 : (m : ℚ) - 1 / 2 < y)
    (h2 : y < m + 1 / 2) : roundHalfEven y = m := by
  unfold roundHalfEven
  simp only
  by_cases hm : (m : ℚ) ≤ y
  · have hf : Int.floor y = m := by
      rw [Int.floor_eq_iff]
      constructor
      · exact hm
      · linarith
    rw [hf, if_pos (by linarith)]
  · have hf : Int.floor y = m - 1 := by
      rw [Int.floor_eq_iff]
      push_cast
      constructor
      · linarith
      · linarith
    rw [hf]
    push_cast
    rw [if_neg (by linarith), if_pos (by linarith)]
    ring

theorem roundHalfEven_eq_of_tie_above {y : ℚ} {m : ℤ} (h : y = m - 1 / 2) (he : m % 2 = 0) :
    roundHalfEven y = m := by
  unfold roundHalfEven
  simp only
  have hf : Int.floor y = m - 1 := by
    rw [Int.floor_eq_iff]
    push_cast
    constructor <;> linarith
  rw [hf]
  push_cast
  rw [if_neg (by linarith), if_neg (by linarith), if_neg (by omega)]
  ring

theorem roundHalfEven_eq_of_tie_below {y : ℚ} {m : ℤ} (h : y = m + 1 / 2) (he : m % 2 = 0) :
    roundHalfEven y = m := by
  unfold roundHalfEven
  simp only
  have hf : Int.floor y = m := by
    rw [Int.floor_eq_iff]
    constructor <;> linarith
  rw [hf]
  rw [if_neg (by linarith), if_neg (by linarith), if_pos he]

theorem roundHalfEven_eq {y : ℚ} {m : ℤ}
    (hm : ((m : ℚ) - 1 / 2 < y ∧ y < m + 1 / 2)
        ∨ (y = m - 1 / 2 ∧ m % 2 = 0) ∨ (y = m + 1 / 2 ∧ m % 2 = 0)) :
    roundHalfEven y = m := by
  rcases hm with h | h | h
  · exact roundHalfEven_eq_of_near h.1 h.2
  · exact roundHalfEven_eq_of_tie_above h.1 h.2
  · exact roundHalfEven_eq_of_tie_below h.1 h.2

theorem log_two_eq {x : ℚ} {e : ℤ} (hx : 0 < x) (h1 : (2 : ℚ) ^ e ≤ x)
    (h2 : x < (2 : ℚ) ^ (e + 1)) : Int.log 2 x = e := by
  have ha : e ≤ Int.log 2 x :=
    (Int.zpow_le_iff_le_log (b := 2) (by norm_num) hx (x := e)).mp (by exact_mod_cast h1)
  have hb : Int.log 2 x < e + 1 :=
    (Int.lt_zpow_iff_log_lt (b := 2) (by norm_num) hx (x := e + 1)).mp (by exact_mod_cast h2)
  omega

theorem roundDouble_zero : roundDouble 0 = .fin 0 := by
  simp [roundDouble]

/-- A positive exact result `x` with leading bit `2 ^ e` is stored as
`m * 2 ^ q`, where `q` is the exponent of the last place and `m` the integer
nearest to `x / 2 ^ q` (the even one on a tie). -/
theorem roundDouble_pos {x y : ℚ} (e q m : ℤ) (hx : 0 < x)
    (he1 : (2 : ℚ) ^ e ≤ x) (he2 : x < (2 : ℚ) ^ (e + 1))
    (hq : max (e - 52) (-1074) = q)
    (hm : ((m : ℚ) - 1 / 2 < x / 2 ^ q ∧ x / 2 ^ q < m + 1 / 2)
        ∨ (x / 2 ^ q = m - 1 / 2 ∧ m % 2 = 0) ∨ (x / 2 ^ q = m + 1 / 2 ∧ m % 2 = 0))
    (hy : (m : ℚ) * 2 ^ q = y) (h0 : 0 ≤ y) (hov : y < (2 : ℚ) ^ (1024 : ℤ)) :
    roundDouble x = .fin y := by
  have hlog : Int.log 2 |x| = e := by rw [abs_of_pos hx]; exact log_two_eq hx he1 he2
  have hr : roundHalfEven (x / 2 ^ q) = m := roundHalfEven_eq hm
  unfold roundDouble
  rw [if_neg (ne_of_gt hx)]
  simp only [ulpExponent, hlog, hq, hr, hy]
  rw [if_neg]
  rw [abs_of_nonneg h0]
  exact not_le.mpr hov

/-- A negative exact result, by the magnitude `-x`. -/
theorem roundDouble_neg {x y : ℚ} (e q m : ℤ) (hx : x < 0)
    (he1 : (2 : ℚ) ^ e ≤ -x) (he2 : -x < (2 : ℚ) ^ (e + 1))
    (hq : max (e - 52) (-1074) = q)
    (hm : ((m : ℚ) - 1 / 2 < x / 2 ^ q ∧ x / 2 ^ q < m + 1 / 2)
        ∨ (x / 2 ^ q = m - 1 / 2 ∧ m % 2 = 0) ∨ (x / 2 ^ q = m + 1 / 2 ∧ m % 2 = 0))
    (hy : (m : ℚ) * 2 ^ q = y) (h0 : y ≤ 0) (hov : -y < (2 : ℚ) ^ (1024 : ℤ)) :
    roundDouble x = .fin y := by
  have hlog : Int.log 2 |x| = e := by
    rw [abs_of_neg hx]; exact log_two_eq (by linarith) he1 he2
  have hr : roundHalfEven (x / 2 ^ q) = m := roundHalfEven_eq hm
  unfold roundDouble
  rw [if_neg (ne_of_lt hx)]
  simp only [ulpExponent, hlog, hq, hr, hy]
  rw [if_neg]
  rw [abs_of_nonpos h0]
  exact not_le.mpr hov

/-- A positive exact result whose rounded magnitude reaches `2 ^ 1024` is
stored as `Infinity`. -/
theorem roundDouble_overflow {x : ℚ} (e q m : ℤ) (hx : 0 < x)
    (he1 : (2 : ℚ) ^ e ≤ x) (he2 : x < (2 : ℚ) ^ (e + 1))
    (hq : max (e - 52) (-1074) = q)
    (hm : ((m : ℚ) - 1 / 2 < x / 2 ^ q ∧ x / 2 ^ q < m + 1 / 2)
        ∨ (x / 2 ^ q = m - 1 / 2 ∧ m % 2 = 0) ∨ (x / 2 ^ q = m + 1 / 2 ∧ m % 2 = 0))
    (hov : (2 : ℚ) ^ (1024 : ℤ) ≤ (m : ℚ) * 2 ^ q) :
    roundDouble x = .posInf := by
  have hlog : Int.log 2 |x| = e := by rw [abs_of_pos hx]; exact log_two_eq hx he1 he2
  have hr : roundHalfEven (x / 2 ^ q) = m := roundHalfEven_eq hm
  have h0 : (0 : ℚ) ≤ (m : ℚ) * 2 ^ q := le_trans (by positivity) hov
  unfold roundDouble
  rw [if_neg (ne_of_gt hx)]
  simp only [ulpExponent, hlog, hq, hr]
  rw [if_pos (by rw [abs_of_nonneg h0]; exact hov), if_pos hx]

/-- The stored value of a non-zero exact result `x`, from its leading bit
`2 ^ e`, the exponent `q` of its last place and the integer `m` nearest to
`x / 2 ^ q`, the even one on a tie: all conditions in one hypothesis. -/
theorem binary64_fin {x y : ℚ} (e q m : ℤ)
    (h : ((0 < x ∧ 0 ≤ y ∧ (2 : ℚ) ^ e ≤ x ∧ x < (2 : ℚ) ^ (e + 1)
            ∧ y < (2 : ℚ) ^ (1024 : ℤ)) ∨
          (x < 0 ∧ y ≤ 0 ∧ (2 : ℚ) ^ e ≤ -x ∧ -x < (2 : ℚ) ^ (e + 1)
            ∧ -y < (2 : ℚ) ^ (1024 : ℤ))) ∧
      max (e - 52) (-1074) = q ∧
      (((m : ℚ) - 1 / 2 < x / 2 ^ q ∧ x / 2 ^ q < m + 1 / 2)
        ∨ (x / 2 ^ q = m - 1 / 2 ∧ m % 2 = 0) ∨ (x / 2 ^ q = m + 1 / 2 ∧ m % 2 = 0)) ∧
      (m : ℚ) * 2 ^ q = y) :
    binary64.rnd x = .fin y := by
  obtain ⟨hx, hq, hm, hy⟩ := h
  rcases hx with ⟨h0, hy0, he1, he2, hov⟩ | ⟨h0, hy0, he1, he2, hov⟩
  · exact roundDouble_pos e q m h0 he1 he2 hq hm hy hy0 hov
  · exact roundDouble_neg e q m h0 he1 he2 hq hm hy hy0 hov

/-- A positive exact result stored as `Infinity`: all conditions in one
hypothesis. -/
theorem binary64_inf {x : ℚ} (e q m : ℤ)
    (h : 0 < x ∧ (2 : ℚ) ^ e ≤ x ∧ x < (2 : ℚ) ^ (e + 1) ∧
      max (e - 52) (-1074) = q ∧
      (((m : ℚ) - 1 / 2 < x / 2 ^ q ∧ x / 2 ^ q < m + 1 / 2)
        ∨ (x / 2 ^ q = m - 1 / 2 ∧ m % 2 = 0) ∨ (x / 2 ^ q = m + 1 / 2 ∧ m % 2 = 0)) ∧
      (2 : ℚ) ^ (1024 : ℤ) ≤ (m : ℚ) * 2 ^ q) :
    binary64.rnd x = .posInf := by
  obtain ⟨h0, he1, he2, hq, hm, hov⟩ := h
  exact roundDouble_overflow e q m h0 he1 he2 hq hm hov

/-- A number with at most 53 significant bits and at most 1074 binary places
is stored as it is. -/
theorem roundDouble_dyadic (m k : ℕ) (hm0 : 0 < m) (hm : m < 2 ^ 53) (hk : k ≤ 1074) :
    roundDouble ((m : ℚ) / 2 ^ k) = .fin ((m : ℚ) / 2 ^ k) := by
  have hmq : (0 : ℚ) < m := by exact_mod_cast hm0
  have hx : (0 : ℚ) < (m : ℚ) / 2 ^ k := by positivity
  have h2 : (1 : ℚ) < 2 := by norm_num
  have hle := Int.zpow_log_le_self (b := 2) (by norm_num) hx
  have hlt : (m : ℚ) / 2 ^ k < (2 : ℚ) ^ ((53 : ℤ) - k) := by
    have h53 : (m : ℚ) < (2 : ℚ) ^ (53 : ℤ) := by
      have : (m : ℚ) < ((2 ^ 53 : ℕ) : ℚ) := by exact_mod_cast hm
      calc (m : ℚ) < ((2 ^ 53 : ℕ) : ℚ) := this
        _ = (2 : ℚ) ^ (53 : ℤ) := by norm_num
    rw [zpow_sub₀ (by norm_num), zpow_natCast]
    exact div_lt_div_of_pos_right h53 (by positivity)
  have he : Int.log 2 ((m : ℚ) / 2 ^ k) < 53 - k := by
    have h3 : ((2 : ℕ) : ℚ) ^ Int.log 2 ((m : ℚ) / 2 ^ k) < (2 : ℚ) ^ ((53 : ℤ) - k) :=
      lt_of_le_of_lt hle hlt
    have h4 : (2 : ℚ) ^ Int.log 2 ((m : ℚ) / 2 ^ k) < (2 : ℚ) ^ ((53 : ℤ) - k) := by
      exact_mod_cast h3
    exact (zpow_lt_zpow_iff_right₀ h2).mp h4
  have hq : ulpExponent ((m : ℚ) / 2 ^ k) ≤ -(k : ℤ) := by
    unfold ulpExponent
    rw [abs_of_pos hx]
    apply max_le
    · omega
    · omega
  obtain ⟨d, hd⟩ : ∃ d : ℕ, (d : ℤ) = -(k : ℤ) - ulpExponent ((m : ℚ) / 2 ^ k) :=
    ⟨(-(k : ℤ) - ulpExponent ((m : ℚ) / 2 ^ k)).toNat, Int.toNat_of_nonneg (by omega)⟩
  have hscale : (m : ℚ) / 2 ^ k / 2 ^ ulpExponent ((m : ℚ) / 2 ^ k)
      = ((m * 2 ^ d : ℕ) : ℚ) := by
    have : (2 : ℚ) ^ (d : ℤ) = 2 ^ (-(k : ℤ)) / 2 ^ ulpExponent ((m : ℚ) / 2 ^ k) := by
      rw [hd, zpow_sub₀ (by norm_num)]
    push_cast
    rw [← zpow_natCast (2 : ℚ) d, this, zpow_neg, zpow_natCast]
    field_simp
  have hr : roundHalfEven ((m : ℚ) / 2 ^ k / 2 ^ ulpExponent ((m : ℚ) / 2 ^ k))
      = ((m * 2 ^ d : ℕ) : ℤ) := by
    apply roundHalfEven_eq_of_near
    · rw [hscale]; push_cast; linarith
    · rw [hscale]; push_cast; linarith
  have hback : (((m * 2 ^ d : ℕ) : ℤ) : ℚ) * 2 ^ ulpExponent ((m : ℚ) / 2 ^ k)
      = (m : ℚ) / 2 ^ k := by
    have h5 : (((m * 2 ^ d : ℕ) : ℤ) : ℚ) = ((m * 2 ^ d : ℕ) : ℚ) := by push_cast; ring
    rw [h5, ← hscale]
    field_simp
    ring
  have hsmall : (m : ℚ) / 2 ^ k < (2 : ℚ) ^ (1024 : ℤ) := by
    refine lt_of_lt_of_le hlt ?_
    exact zpow_le_zpow_right₀ (by norm_num) (by omega)
  unfold roundDouble
  rw [if_neg (ne_of_gt hx)]
  simp only [hr, hback]
  rw [if_neg]
  rw [abs_of_pos hx]
  exact not_le.mpr hsmall

theorem binary64_exactOnDyadics : binary64.ExactOnDyadics := by
  intro m k hm hk
  rcases Nat.eq_zero_or_pos m with h | h
  · subst h
    simpa using roundDouble_zero
  · exact roundDouble_dyadic m k h hm hk

theorem exact_on_nat {A : Rounding} (hA : A.ExactOnDyadics) (n : ℕ) (hn : n < 2 ^ 53) :
    A.rnd (n : ℚ) = .fin (n : ℚ) := by
  simpa using hA n 0 hn (by norm_num)

/-! ## Facts about computed sums and means -/

theorem reduceSumWith_eq (A : Rounding) (xs : List Reading) :
    reduceSumWith A xs = A.sum (xs.map Reading.toNumber) := by
  unfold reduceSumWith Rounding.sum
  rw [List.foldl_map]

theorem divNat_fin (A : Rounding) (a : ℚ) {n : ℕ} (h : n ≠ 0) :
    A.divNat (.fin a) n = A.rnd (a / n) := by
  simp only [Rounding.divNat, h, if_false]

theorem lt_asymm_num {x y : JSNum} (h : JSNum.lt x y = true) : JSNum.lt y x = false := by
  cases x <;> cases y <;> simp_all [JSNum.lt]
  exact le_of_lt h

theorem trendLabelOf_iff (R E : JSNum) :
    (trendLabelOf R E = "increasing" ↔ JSNum.lt E R = true) ∧
    (trendLabelOf R E = "decreasing" ↔ JSNum.lt R E = true) ∧
    (trendLabelOf R E = "stable" ↔ JSNum.lt E R = false ∧ JSNum.lt R E = false) := by
  unfold trendLabelOf
  by_cases c1 : JSNum.lt E R = true
  · have c2 : JSNum.lt R E = false := lt_asymm_num c1
    rw [if_pos c1]
    refine ⟨⟨fun _ => c1, fun _ => rfl⟩, ⟨fun h => absurd h (by decide), ?_⟩,
      ⟨fun h => absurd h (by decide), ?_⟩⟩
    · intro h; rw [c2] at h; exact absurd h (by decide)
    · intro h; rw [c1] at h; exact absurd h.1 (by decide)
  · by_cases c2 : JSNum.lt R E = true
    · rw [if_neg c1, if_pos c2]
      refine ⟨⟨fun h => absurd h (by decide), fun h => absurd h c1⟩,
        ⟨fun _ => c2, fun _ => rfl⟩, ⟨fun h => absurd h (by decide), ?_⟩⟩
      intro h; rw [c2] at h; exact absurd h.2 (by decide)
    · rw [if_neg c1, if_neg c2]
      refine ⟨⟨fun h => absurd h (by decide), fun h => absurd h c1⟩,
        ⟨fun h => absurd h (by decide), fun h => absurd h c2⟩, ⟨fun _ => ?_, fun _ => rfl⟩⟩
      exact ⟨by simpa using c1, by simpa using c2⟩

theorem summaryTrendOf_iff (A : Rounding) (R E : JSNum) :
    (summaryTrendOf A R E = "Recently, temperatures have been trending upward. "
      ↔ JSNum.lt (A.add E (.fin 1)) R = true) ∧
    (summaryTrendOf A R E = "Recently, temperatures have been cooling down. "
      ↔ JSNum.lt (A.add E (.fin 1)) R = false ∧ JSNum.lt R (A.sub E (.fin 1)) = true) ∧
    (summaryTrendOf A R E = "Temperature patterns have remained relatively stable. "
      ↔ JSNum.lt (A.add E (.fin 1)) R = false ∧ JSNum.lt R (A.sub E (.fin 1)) = false) := by
  unfold summaryTrendOf
  by_cases c1 : JSNum.lt (A.add E (.fin 1)) R = true
  · rw [if_pos c1]
    refine ⟨⟨fun _ => c1, fun _ => rfl⟩, ⟨fun h => absurd h (by decide), ?_⟩,
      ⟨fun h => absurd h (by decide), ?_⟩⟩
    · intro h; rw [c1] at h; exact absurd h.1 (by decide)
    · intro h; rw [c1] at h; exact absurd h.1 (by decide)
  · have c1f : JSNum.lt (A.add E (.fin 1)) R = false := by simpa using c1
    by_cases c2 : JSNum.lt R (A.sub E (.fin 1)) = true
    · rw [if_neg c1, if_pos c2]
      refine ⟨⟨fun h => absurd h (by decide), fun h => absurd h c1⟩,
        ⟨fun _ => ⟨c1f, c2⟩, fun _ => rfl⟩, ⟨fun h => absurd h (by decide), ?_⟩⟩
      intro h; rw [c2] at h; exact absurd h.2 (by decide)
    · rw [if_neg c1, if_neg c2]
      refine ⟨⟨fun h => absurd h (by decide), fun h => absurd h c1⟩,
        ⟨fun h => absurd h (by decide), fun h => absurd h.2 c2⟩,
        ⟨fun _ => ⟨c1f, by simpa using c2⟩, fun _ => rfl⟩⟩

theorem calculateStatsWith_present (A : Rounding) (values : List Reading)
    (h : presentValues values ≠ []) :
    calculateStatsWith A values =
      { mean := (A.average (presentValues values)).toFixed 2
        min := (mathMin (presentValues values)).toFixed 2
        max := (mathMax (presentValues values)).toFixed 2 } := by
  have hmap := filter_valid_map values
  have hlen : (values.filter (fun v => decide (v ≠ Reading.null) && !isNaN v)).length
      = (presentValues values).length := by
    rw [← hmap, List.length_map]
  have hpos : (presentValues values).length ≠ 0 := by
    intro h0; exact h (List.length_eq_zero.mp h0)
  unfold calculateStatsWith
  simp only [hlen, hpos, if_false, reduceSumWith_eq, hmap, Rounding.average]

/-! ## Structure of the chat fallback in double-precision arithmetic -/

theorem recentMeanWith_eq (A : Rounding) (data : List Observation) :
    recentMeanWith A (tempDataOf data) = A.lastSeven (presentT2M data) := by
  unfold recentMeanWith Rounding.lastSeven
  rw [reduceSumWith_eq, List.map_drop, tempDataOf_map, tempDataOf_length]

theorem earlierMeanWith_eq (A : Rounding) (data : List Observation) :
    earlierMeanWith A (tempDataOf data) = A.firstSeven (presentT2M data) := by
  unfold earlierMeanWith Rounding.firstSeven
  rw [reduceSumWith_eq, List.map_take, tempDataOf_map]

theorem generateSmartFallbackWith_trend (A : Rounding) (wd : WeatherData)
    (insights : Option String) (question : String)
    (hO : isOutdoorQuestion (toLowerCase question) = false)
    (hT : isTemperatureQuestion (toLowerCase question) = false)
    (hP : isPrecipitationQuestion (toLowerCase question) = false ∨ precipDataOf wd.data = [])
    (hF : isForecastQuestion (toLowerCase question) = false)
    (hW : isWindQuestion (toLowerCase question) = false ∨ windDataOf wd.data = [])
    (hTr : isTrendQuestion (toLowerCase question) = true)
    (hlen : 7 < (tempDataOf wd.data).length) :
    generateSmartFallbackWith A wd insights question
      = .ok (trendAnswerWith A (tempDataOf wd.data) insights) := by
  have hP2 : ¬ (isPrecipitationQuestion (toLowerCase question) = true
      ∧ (precipDataOf wd.data).length > 0) := by
    rcases hP with h | h <;> simp [h]
  have hW2 : ¬ (isWindQuestion (toLowerCase question) = true
      ∧ (windDataOf wd.data).length > 0) := by
    rcases hW with h | h <;> simp [h]
  simp only [generateSmartFallbackWith, hO, hT, hP2, hF, hW2, hTr, hlen, Bool.false_eq_true,
    false_and, if_false, true_and, gt_iff_lt, if_true]

theorem trendAnswerWith_eq (A : Rounding) (data : List Observation)
    (insights : Option String) :
    trendAnswerWith A (tempDataOf data) insights
      = "📈 Trend Analysis:\nTemperature is "
          ++ trendLabelOf (A.lastSeven (presentT2M data)) (A.firstSeven (presentT2M data))
          ++ " over the data period ("
          ++ ((A.sub (A.lastSeven (presentT2M data))
                (A.firstSeven (presentT2M data))).abs.toFixed 1).text
          ++ "°C change).\n\n" ++ insightsNote insights := by
  simp only [trendAnswerWith, recentMeanWith_eq, earlierMeanWith_eq]

theorem generateSmartFallbackWith_temperature (A : Rounding) (wd : WeatherData)
    (insights : Option String) (question : String)
    (hO : isOutdoorQuestion (toLowerCase question) = false)
    (hTq : isTemperatureQuestion (toLowerCase question) = true)
    (hn : presentT2M wd.data ≠ []) :
    generateSmartFallbackWith A wd insights question
      = .ok (temperatureAnswerWith A (tempDataOf wd.data)) := by
  have hlen : (tempDataOf wd.data).length > 0 := by
    rw [tempDataOf_length]; exact List.length_pos.mpr hn
  simp only [generateSmartFallbackWith, hO, hTq, hlen, Bool.false_eq_true, if_false, and_self,
    if_true]

theorem temperatureAnswerWith_eq (A : Rounding) (data : List Observation) :
    temperatureAnswerWith A (tempDataOf data)
      = "🌡️ Temperature Analysis:\n• Current: "
          ++ ((JSNum.fin ((tempDataOf data).getLastD Reading.null).toNumber).toFixed 1).text
          ++ "°C\n• Average: " ++ ((A.average (presentT2M data)).toFixed 1).text
          ++ "°C\n• Range: " ++ ((mathMin (presentT2M data)).toFixed 1).text ++ "°C to "
          ++ ((mathMax (presentT2M data)).toFixed 1).text ++ "°C\n\nThe location shows "
          ++ chatTemperatureWord ((A.average (presentT2M data)).toFixed 1)
          ++ " temperatures overall." := by
  simp only [temperatureAnswerWith, reduceSumWith_eq, tempDataOf_map, tempDataOf_length,
    Rounding.average]

/-! ## Structure of the local summary in double-precision arithmetic -/

theorem generateLocalSummaryWith_loaded (A : Rounding) (wd : WeatherData)
    (first last : Observation)
    (hh : wd.data.head? = some first) (hl : wd.data.getLast? = some last) :
    generateLocalSummaryWith A (.loaded wd) = summaryTextWith A wd first last := by
  simp only [generateLocalSummaryWith, hh, hl]

theorem summaryTrendSentenceWith_short (A : Rounding) (values : List Reading)
    (h1 : 0 < values.length) (h7 : values.length ≤ 7) :
    summaryTrendSentenceWith A values
      = summaryTrendOf A (A.average (values.map Reading.toNumber))
          (A.average (values.map Reading.toNumber)) := by
  have hdrop : values.drop (values.length - 7) = values := by
    rw [Nat.sub_eq_zero_of_le h7]; rfl
  have htake : values.take 7 = values := List.take_of_length_le h7
  simp only [summaryTrendSentenceWith, hdrop, htake, h1, gt_iff_lt, and_self, if_true,
    reduceSumWith_eq, summaryTrendOf, Rounding.average, List.length_map]

theorem summaryTrendSentenceWith_long (A : Rounding) (values : List Reading)
    (h : 7 < values.length) :
    summaryTrendSentenceWith A values
      = summaryTrendOf A (A.lastSeven (values.map Reading.toNumber))
          (A.firstSeven (values.map Reading.toNumber)) := by
  have hdrop : (values.drop (values.length - 7)).length = 7 := by
    rw [List.length_drop]; omega
  have htake : (values.take 7).length = 7 := by
    rw [List.length_take]; omega
  simp only [summaryTrendSentenceWith, hdrop, htake, gt_iff_lt, Nat.ofNat_pos, and_self,
    if_true, reduceSumWith_eq, List.map_drop, List.map_take, summaryTrendOf,
    Rounding.lastSeven, Rounding.firstSeven, List.length_map]

theorem summaryTrendWith_long (A : Rounding) (data : List Observation)
    (h : 7 < (presentT2M data).length) :
    summaryTrendWith A data
      = summaryTrendOf A (A.lastSeven (presentT2M data)) (A.firstSeven (presentT2M data)) := by
  have hlen : 7 < (validReadings (data.map (fun d => d.T2M))).length := by
    rw [validReadings_length]; exact h
  rw [summaryTrendWith, summaryTrendSentenceWith_long _ _ hlen, validReadings_map]
  rfl

theorem summaryTrendWith_short (A : Rounding) (data : List Observation)
    (h1 : presentT2M data ≠ []) (h7 : (presentT2M data).length ≤ 7) :
    summaryTrendWith A data
      = summaryTrendOf A (A.average (presentT2M data)) (A.average (presentT2M data)) := by
  have hlen : (validReadings (data.map (fun d => d.T2M))).length = (presentT2M data).length :=
    validReadings_length _
  rw [summaryTrendWith, summaryTrendSentenceWith_short _ _
    (by rw [hlen]; exact List.length_pos.mpr h1) (by rw [hlen]; exact h7), validReadings_map]
  rfl

theorem temperatureSectionWith_present (A : Rounding) (wd : WeatherData)
    (hT : "T2M" ∈ wd.parameters) (hn : presentT2M wd.data ≠ []) :
    temperatureSectionWith A wd
      = "The temperature during this period has been quite "
          ++ summaryTemperatureWord (A.average (presentT2M wd.data))
          ++ ", averaging " ++ ((A.average (presentT2M wd.data)).toFixed 1).text
          ++ "¬∞C. " ++ "The warmest day reached "
          ++ ((mathMax (presentT2M wd.data)).toFixed 1).text
          ++ "¬∞C, while the coolest dropped to "
          ++ ((mathMin (presentT2M wd.data)).toFixed 1).text ++ "¬∞C. "
          ++ summaryTrendWith A wd.data ++ temperatureForecastWith A wd.forecasts := by
  have hlen : (validReadings (wd.data.map (fun d => d.T2M))).length
      = (presentT2M wd.data).length := validReadings_length _
  have hpos : (presentT2M wd.data).length ≠ 0 := fun h0 => hn (List.length_eq_zero.mp h0)
  have hgt : (presentT2M wd.data).length > 0 := Nat.pos_of_ne_zero hpos
  have hmap : (validReadings (wd.data.map (fun d => d.T2M))).map Reading.toNumber
      = presentT2M wd.data := validReadings_map _
  simp only [temperatureSectionWith, hT, if_true, hlen, hgt, reduceSumWith_eq, hmap,
    Rounding.average, summaryTrendWith]

theorem precipitationSectionWith_present (A : Rounding) (wd : WeatherData)
    (hP : "PRECTOTCORR" ∈ wd.parameters) (hn : presentPrecip wd.data ≠ []) :
    precipitationSectionWith A wd
      = rainfallSentenceOf (A.sum (presentPrecip wd.data)) ++ "There were "
          ++ Nat.repr ((presentPrecip wd.data).filter
              (fun v => JSNum.lt (A.rnd (1 / 10)) (.fin v))).length
          ++ " days with measurable rainfall, "
          ++ (if JSNum.lt (.fin 20) (mathMax (presentPrecip wd.data)) then
                "including one particularly heavy day with "
                  ++ ((mathMax (presentPrecip wd.data)).toFixed 1).text ++ "mm. "
              else "with the heaviest day receiving "
                  ++ ((mathMax (presentPrecip wd.data)).toFixed 1).text ++ "mm. ")
          ++ precipitationForecastWith A wd.forecasts ++ "\n\n" := by
  have hlen : (validReadings (wd.data.map (fun d => d.PRECTOTCORR))).length
      = (presentPrecip wd.data).length := validReadings_length _
  have hpos : (presentPrecip wd.data).length ≠ 0 := fun h0 => hn (List.length_eq_zero.mp h0)
  have hgt : (presentPrecip wd.data).length > 0 := Nat.pos_of_ne_zero hpos
  have hmap : (validReadings (wd.data.map (fun d => d.PRECTOTCORR))).map Reading.toNumber
      = presentPrecip wd.data := validReadings_map _
  have hrain : ((validReadings (wd.data.map (fun d => d.PRECTOTCORR))).filter
      (fun v => JSNum.lt (A.rnd (1 / 10)) (.fin v.toNumber))).length
      = ((presentPrecip wd.data).filter
          (fun v => JSNum.lt (A.rnd (1 / 10)) (.fin v))).length := by
    rw [← hmap, List.filter_map, List.length_map]
    rfl
  simp only [precipitationSectionWith, hP, if_true, hlen, hgt, reduceSumWith_eq, hmap, hrain]

theorem overallTempAvgWith_eq (A : Rounding) (wd : WeatherData) :
    overallTempAvgWith A wd
      = if "T2M" ∈ wd.parameters then some (A.average (presentT2M wd.data)) else none := by
  have hlen : (wd.data.filter (fun d => decide (d.T2M ≠ Reading.null))).length
      = (presentT2M wd.data).length := by
    rw [← tempDataOf_length, tempDataOf, List.filter_map, List.length_map]
    rfl
  have hsum : reduceSumWith A ((wd.data.map (fun d => d.T2M)).filter
      (fun v => decide (v ≠ Reading.null))) = A.sum (presentT2M wd.data) := by
    rw [reduceSumWith_eq, filter_present_map]; rfl
  simp only [overallTempAvgWith, hlen, hsum, Rounding.average]

theorem overallRainTotalWith_eq (A : Rounding) (wd : WeatherData) :
    overallRainTotalWith A wd
      = if "PRECTOTCORR" ∈ wd.parameters then some (A.sum (presentPrecip wd.data))
        else none := by
  simp only [overallRainTotalWith, reduceSumWith_eq, filter_present_map, presentPrecip]

theorem overallSentenceOf_table (avg total : ℚ) (h0 : avg ≠ 0) (hr : total ≠ 0) :
    overallSentenceOf (some (.fin avg)) (some (.fin total)) = overallTable avg total := by
  simp only [overallSentenceOf, tempAvgAnd, JSNum.truthy, JSNum.lt, h0, hr, ne_eq,
    not_false_eq_true, decide_True, Bool.true_and, Bool.and_eq_true, decide_eq_true_eq,
    overallTable]

/-! ## The exact reading as the instance without rounding -/

theorem add_unrounded (a b : ℚ) : unrounded.add (.fin a) (.fin b) = .fin (a + b) := rfl

theorem sub_unrounded (a b : ℚ) : unrounded.sub (.fin a) (.fin b) = .fin (a - b) := by
  simp only [Rounding.sub, JSNum.neg, add_unrounded, sub_eq_add_neg]

theorem foldl_add_unrounded (xs : List Reading) (a : ℚ) :
    xs.foldl (fun a b => unrounded.add a (.fin b.toNumber)) (.fin a)
      = .fin (xs.foldl (fun a b => a + b.toNumber) a) := by
  induction xs generalizing a with
  | nil => rfl
  | cons v vs ih => simp only [List.foldl_cons, add_unrounded, ih]

theorem reduceSumWith_unrounded (xs : List Reading) :
    reduceSumWith unrounded xs = .fin (reduceSum xs) :=
  foldl_add_unrounded xs 0

theorem divNat_unrounded (a : ℚ) (n : ℕ) : unrounded.divNat (.fin a) n = jsDiv a n := by
  by_cases h : n = 0
  · subst h; simp [Rounding.divNat]
  · have hq : ((n : ℕ) : ℚ) ≠ 0 := by exact_mod_cast h
    simp only [Rounding.divNat, h, if_false, unrounded, jsDiv, hq]

theorem divNat_unrounded_num (x : JSNum) (n : ℕ) : unrounded.divNat x n = x.divNat n := by
  cases x with
  | fin a => exact divNat_unrounded a n
  | nan => rfl
  | posInf => rfl
  | negInf => rfl

theorem tenth_unrounded (p : ℚ) :
    JSNum.lt (unrounded.rnd (1 / 10)) (.fin p) = decide (p > 0.1) := by
  have h : unrounded.rnd (1 / 10) = .fin (1 / 10) := rfl
  rw [h]
  simp only [JSNum.lt, gt_iff_lt]
  congr 1
  norm_num

theorem parse_unrounded (fig : Figure) : unrounded.parse fig = fig.toNumber := by
  cases fig with
  | dec neg n f => rfl
  | nan => rfl
  | inf neg => cases neg <;> rfl
  | na => rfl

/-- The statistics in exact arithmetic are those of the rounding rule that
stores every result as it is. -/
theorem calculateStatsWith_unrounded (values : List Reading) :
    calculateStatsWith unrounded values = calculateStats values := by
  simp only [calculateStatsWith, calculateStats, reduceSumWith_unrounded, divNat_unrounded]

theorem temperatureAnswerWith_unrounded (td : List Reading) :
    temperatureAnswerWith unrounded td = temperatureAnswer td := by
  simp only [temperatureAnswerWith, temperatureAnswer, reduceSumWith_unrounded,
    divNat_unrounded, chatTemperatureWord]

theorem windAnswerWith_unrounded (td : List Reading) :
    windAnswerWith unrounded td = windAnswer td := by
  simp only [windAnswerWith, windAnswer, reduceSumWith_unrounded, divNat_unrounded]

theorem trendAnswerWith_unrounded (td : List Reading) (insights : Option String) :
    trendAnswerWith unrounded td insights = trendAnswer td insights := by
  have h7 : ∀ a : ℚ, unrounded.divNat (.fin a) 7 = .fin (a / 7) := by
    intro a
    rw [divNat_unrounded, jsDiv_nat (by norm_num)]
    norm_num
  unfold trendAnswerWith trendAnswer recentMeanWith earlierMeanWith recentMean earlierMean
  simp only [reduceSumWith_unrounded, h7, sub_unrounded, JSNum.abs, trendLabelOf, trendLabel,
    JSNum.lt, decide_eq_true_eq, gt_iff_lt]

theorem precipitationAnswerWith_unrounded (pd : List Reading) (n : ℕ) :
    precipitationAnswerWith unrounded pd n = precipitationAnswer pd n := by
  have hm : unrounded.mul (.fin (n : ℚ)) (unrounded.rnd (3 / 10)) = .fin ((n : ℚ) * 0.3) := by
    have h : unrounded.rnd (3 / 10) = .fin (3 / 10) := rfl
    rw [h]
    show JSNum.fin ((n : ℚ) * (3 / 10)) = JSNum.fin ((n : ℚ) * 0.3)
    congr 1
    norm_num
  unfold precipitationAnswerWith precipitationAnswer
  simp only [reduceSumWith_unrounded, parse_unrounded, divNat_unrounded_num, tenth_unrounded, hm]
  simp only [JSNum.lt, gt_iff_lt, decide_eq_true_eq]

theorem forecastAnswerWith_unrounded (fs : Option (List (String × List ForecastPoint))) :
    forecastAnswerWith unrounded fs = forecastAnswer fs := by
  have h : ∀ entry, forecastEntryLineWith unrounded entry = forecastEntryLine entry := by
    intro entry
    unfold forecastEntryLineWith forecastEntryLine
    rfl
  unfold forecastAnswerWith forecastAnswer
  simp only [h]

theorem outdoorAdviceWith_unrounded (latest : Observation) :
    outdoorAdviceWith unrounded latest = outdoorAdvice latest := by
  have h : ∀ p : ℚ, precipitationAdviceWith unrounded p = precipitationAdvice p := by
    intro p
    unfold precipitationAdviceWith precipitationAdvice
    simp only [tenth_unrounded, decide_eq_true_eq]
  have h2 : ∀ r : Reading, precipitationLineWith unrounded r = precipitationLine r := by
    intro r
    cases r with
    | num x => simp only [precipitationLineWith, precipitationLine, h]
    | null => rfl
  simp only [outdoorAdviceWith, outdoorAdvice, h2]

/-- The chat fallback in exact arithmetic is the one of the rounding rule
that stores every result as it is. -/
theorem generateSmartFallbackWith_unrounded (wd : WeatherData) (insights : Option String)
    (question : String) :
    generateSmartFallbackWith unrounded wd insights question
      = generateSmartFallback wd insights question := by
  simp only [generateSmartFallbackWith, generateSmartFallback, outdoorAdviceWith_unrounded,
    temperatureAnswerWith_unrounded, precipitationAnswerWith_unrounded,
    forecastAnswerWith_unrounded, windAnswerWith_unrounded, trendAnswerWith_unrounded]

theorem add_one_unrounded (x : JSNum) : unrounded.add x (.fin 1) = x.addRat 1 := by
  cases x <;> rfl

theorem sub_one_unrounded (x : JSNum) : unrounded.sub x (.fin 1) = x.addRat (-1) := by
  cases x with
  | fin a => simp only [sub_unrounded, JSNum.addRat, sub_eq_add_neg]
  | nan => rfl
  | posInf => rfl
  | negInf => rfl

theorem summaryTrendSentenceWith_unrounded (values : List Reading) :
    summaryTrendSentenceWith unrounded values = summaryTrendSentence values := by
  simp only [summaryTrendSentenceWith, summaryTrendSentence, reduceSumWith_unrounded,
    divNat_unrounded, add_one_unrounded, sub_one_unrounded]

theorem temperatureSectionWith_unrounded (wd : WeatherData) :
    temperatureSectionWith unrounded wd = temperatureSection wd := by
  have hf : temperatureForecastWith unrounded wd.forecasts = temperatureForecast wd.forecasts :=
    rfl
  simp only [temperatureSectionWith, temperatureSection, reduceSumWith_unrounded,
    divNat_unrounded, summaryTrendSentenceWith_unrounded, hf]

theorem rainfallSentenceOf_fin (total : ℚ) :
    rainfallSentenceOf (.fin total) = rainfallSentence total := by
  simp only [rainfallSentenceOf, rainfallSentence, JSNum.lt, decide_eq_true_eq]

theorem precipitationSectionWith_unrounded (wd : WeatherData) :
    precipitationSectionWith unrounded wd = precipitationSection wd := by
  have hf : precipitationForecastWith unrounded wd.forecasts
      = precipitationForecast wd.forecasts := by
    unfold precipitationForecastWith precipitationForecast
    cases firstForecast wd.forecasts "PRECTOTCORR" with
    | none => rfl
    | some point => simp only [tenth_unrounded, decide_eq_true_eq]
  simp only [precipitationSectionWith, precipitationSection, reduceSumWith_unrounded,
    rainfallSentenceOf_fin, tenth_unrounded, hf]

theorem windSectionWith_unrounded (wd : WeatherData) :
    windSectionWith unrounded wd = windSection wd := by
  simp only [windSectionWith, windSection, reduceSumWith_unrounded, divNat_unrounded]

theorem overallSentenceOf_unrounded (wd : WeatherData) :
    overallSentenceOf (overallTempAvgWith unrounded wd) (overallRainTotalWith unrounded wd)
      = overallSentence (overallTempAvg wd) (overallRainTotal wd) := by
  have ht : overallTempAvgWith unrounded wd = overallTempAvg wd := by
    simp only [overallTempAvgWith, overallTempAvg, reduceSumWith_unrounded, divNat_unrounded]
  rw [ht]
  by_cases hP : "PRECTOTCORR" ∈ wd.parameters
  · simp only [overallRainTotalWith, overallRainTotal, hP, if_true, reduceSumWith_unrounded,
      overallSentenceOf, overallSentence, tempAvgAnd, rainTotalAnd, JSNum.truthy, JSNum.lt,
      gt_iff_lt]
  · simp only [overallRainTotalWith, overallRainTotal, hP, if_false, overallSentenceOf,
      overallSentence, tempAvgAnd, rainTotalAnd]

/-- The local summary in exact arithmetic is the one of the rounding rule
that stores every result as it is. -/
theorem generateLocalSummaryWith_unrounded (data : WeatherProp) :
    generateLocalSummaryWith unrounded data = generateLocalSummary data := by
  cases data with
  | absent => rfl
  | noSeries => rfl
  | loaded wd =>
    simp only [generateLocalSummaryWith, generateLocalSummary, summaryTextWith, summaryText,
      temperatureSectionWith_unrounded, precipitationSectionWith_unrounded,
      windSectionWith_unrounded, overallSentenceOf_unrounded]

/-! ## Double-precision rounding keeps the order -/

theorem roundHalfEven_spec (y : ℚ) :
    ((roundHalfEven y : ℚ) - 1 / 2 < y ∧ y < roundHalfEven y + 1 / 2)
      ∨ (y = roundHalfEven y - 1 / 2 ∧ roundHalfEven y % 2 = 0)
      ∨ (y = roundHalfEven y + 1 / 2 ∧ roundHalfEven y % 2 = 0) := by
  have h1 := Int.floor_le y
  have h2 := Int.lt_floor_add_one y
  unfold roundHalfEven
  simp only
  by_cases c1 : y - (Int.floor y : ℚ) < 1 / 2
  · rw [if_pos c1]
    left
    constructor <;> linarith
  · rw [if_neg c1]
    by_cases c2 : 1 / 2 < y - (Int.floor y : ℚ)
    · rw [if_pos c2]
      left
      push_cast
      constructor <;> linarith
    · rw [if_neg c2]
      have he : y - (Int.floor y : ℚ) = 1 / 2 := le_antisymm (not_lt.mp c2) (not_lt.mp c1)
      by_cases c3 : Int.floor y % 2 = 0
      · rw [if_pos c3]
        right; right
        exact ⟨by linarith, c3⟩
      · rw [if_neg c3]
        right; left
        push_cast
        exact ⟨by linarith, by omega⟩

theorem roundHalfEven_mono {a b : ℚ} (h : a ≤ b) : roundHalfEven a ≤ roundHalfEven b := by
  rcases eq_or_lt_of_le h with h0 | h0
  · rw [h0]
  · by_contra hc
    have hlt : roundHalfEven b + 1 ≤ roundHalfEven a := by omega
    have hq : ((roundHalfEven b : ℚ) + 1 ≤ roundHalfEven a) := by exact_mod_cast hlt
    have ha : (roundHalfEven a : ℚ) - 1 / 2 ≤ a := by
      rcases roundHalfEven_spec a with s | s | s
      · exact le_of_lt s.1
      · exact le_of_eq s.1.symm
      · linarith [s.1]
    have hb : b ≤ (roundHalfEven b : ℚ) + 1 / 2 := by
      rcases roundHalfEven_spec b with s | s | s
      · exact le_of_lt s.2
      · linarith [s.1]
      · exact le_of_eq s.1
    linarith

theorem roundHalfEven_neg (y : ℚ) : roundHalfEven (-y) = -roundHalfEven y := by
  apply roundHalfEven_eq
  rcases roundHalfEven_spec y with s | s | s
  · left
    push_cast
    constructor <;> linarith [s.1, s.2]
  · right; right
    push_cast
    exact ⟨by linarith [s.1], by omega⟩
  · right; left
    push_cast
    exact ⟨by linarith [s.1], by omega⟩

theorem roundHalfEven_int (n : ℤ) : roundHalfEven (n : ℚ) = n :=
  roundHalfEven_eq (Or.inl ⟨by linarith, by linarith⟩)

theorem ulpExponent_neg (x : ℚ) : ulpExponent (-x) = ulpExponent x := by
  simp only [ulpExponent, abs_neg]

theorem roundedValue_neg (x : ℚ) : roundedValue (-x) = -roundedValue x := by
  simp only [roundedValue, ulpExponent_neg, neg_div, roundHalfEven_neg]
  push_cast
  ring

theorem roundedValue_nonneg {x : ℚ} (hx : 0 ≤ x) : 0 ≤ roundedValue x := by
  have h0 : (0 : ℚ) ≤ x / 2 ^ ulpExponent x := div_nonneg hx (by positivity)
  have h1 : roundHalfEven ((0 : ℤ) : ℚ) ≤ roundHalfEven (x / 2 ^ ulpExponent x) :=
    roundHalfEven_mono (by simpa using h0)
  rw [roundHalfEven_int] at h1
  have h2 : (0 : ℚ) ≤ (roundHalfEven (x / 2 ^ ulpExponent x) : ℚ) := by exact_mod_cast h1
  exact mul_nonneg h2 (by positivity)

theorem roundedValue_nonpos {x : ℚ} (hx : x ≤ 0) : roundedValue x ≤ 0 := by
  have h := roundedValue_nonneg (x := -x) (by linarith)
  rw [roundedValue_neg] at h
  linarith

theorem roundedValue_zero : roundedValue 0 = 0 :=
  le_antisymm (roundedValue_nonpos le_rfl) (roundedValue_nonneg le_rfl)

theorem ulpExponent_mono {x y : ℚ} (hx : 0 < x) (h : x ≤ y) : ulpExponent x ≤ ulpExponent y := by
  have hy : 0 < y := lt_of_lt_of_le hx h
  have hlog : Int.log 2 x ≤ Int.log 2 y := Int.log_mono_right hx h
  simp only [ulpExponent, abs_of_pos hx, abs_of_pos hy]
  omega

theorem roundedValue_mono_pos {x y : ℚ} (hx : 0 < x) (h : x ≤ y) :
    roundedValue x ≤ roundedValue y := by
  have hy : 0 < y := lt_of_lt_of_le hx h
  have hlog : Int.log 2 x ≤ Int.log 2 y := Int.log_mono_right hx h
  have hqx : ulpExponent x = max (Int.log 2 x - 52) (-1074) := by
    simp only [ulpExponent, abs_of_pos hx]
  have hqy : ulpExponent y = max (Int.log 2 y - 52) (-1074) := by
    simp only [ulpExponent, abs_of_pos hy]
  rcases eq_or_lt_of_le (ulpExponent_mono hx h) with hq | hq
  · -- the same last place
    have hdiv : x / 2 ^ ulpExponent x ≤ y / 2 ^ ulpExponent x :=
      div_le_div_of_nonneg_right h (by positivity)
    have hr := roundHalfEven_mono hdiv
    have hr2 : (roundHalfEven (x / 2 ^ ulpExponent x) : ℚ)
        ≤ roundHalfEven (y / 2 ^ ulpExponent x) := by exact_mod_cast hr
    simp only [roundedValue, ← hq]
    exact mul_le_mul_of_nonneg_right hr2 (by positivity)
  · -- a power of two lies between the two results
    have hqy2 : ulpExponent y = Int.log 2 y - 52 := by omega
    have hk : max (Int.log 2 x + 1) (ulpExponent x) ≤ Int.log 2 y := by omega
    have hkq : 0 ≤ max (Int.log 2 x + 1) (ulpExponent x) - ulpExponent x := by omega
    -- the result for x is at most 2 ^ k
    have hxk : x ≤ (2 : ℚ) ^ (max (Int.log 2 x + 1) (ulpExponent x)) := by
      have h1 : x < (2 : ℚ) ^ (Int.log 2 x + 1) := by
        exact_mod_cast Int.lt_zpow_succ_log_self (b := 2) (by norm_num) x
      have h2 : (2 : ℚ) ^ (Int.log 2 x + 1)
          ≤ (2 : ℚ) ^ (max (Int.log 2 x + 1) (ulpExponent x)) :=
        zpow_le_zpow_right₀ (by norm_num) (le_max_left _ _)
      linarith
    have hpow : (2 : ℚ) ^ (max (Int.log 2 x + 1) (ulpExponent x)) / 2 ^ ulpExponent x
        = (((2 : ℤ) ^ (max (Int.log 2 x + 1) (ulpExponent x) - ulpExponent x).toNat : ℤ) : ℚ) := by
      rw [← zpow_sub₀ (by norm_num)]
      push_cast
      rw [← zpow_natCast]
      congr 1
      exact (Int.toNat_of_nonneg hkq).symm
    have hx1 : (roundHalfEven (x / 2 ^ ulpExponent x) : ℚ)
        ≤ (2 : ℚ) ^ (max (Int.log 2 x + 1) (ulpExponent x)) / 2 ^ ulpExponent x := by
      have hdiv : x / 2 ^ ulpExponent x
          ≤ (2 : ℚ) ^ (max (Int.log 2 x + 1) (ulpExponent x)) / 2 ^ ulpExponent x :=
        div_le_div_of_nonneg_right hxk (by positivity)
      have hr := roundHalfEven_mono hdiv
      rw [hpow, roundHalfEven_int] at hr
      rw [hpow]
      exact_mod_cast hr
    have hx2 : roundedValue x ≤ (2 : ℚ) ^ (max (Int.log 2 x + 1) (ulpExponent x)) := by
      have hpos : (0 : ℚ) < 2 ^ ulpExponent x := by positivity
      have := mul_le_mul_of_nonneg_right hx1 (le_of_lt hpos)
      rwa [div_mul_cancel₀ _ (ne_of_gt hpos)] at this
    -- the result for y is at least 2 ^ log y
    have hyk : (2 : ℚ) ^ (Int.log 2 y) ≤ y := by
      exact_mod_cast Int.zpow_log_le_self (b := 2) (by norm_num) hy
    have hpow2 : (2 : ℚ) ^ (Int.log 2 y) / 2 ^ ulpExponent y = (((2 : ℤ) ^ 52 : ℤ) : ℚ) := by
      rw [← zpow_sub₀ (by norm_num), hqy2]
      have : Int.log 2 y - (Int.log 2 y - 52) = 52 := by ring
      rw [this]
      norm_num
    have hy1 : (2 : ℚ) ^ (Int.log 2 y) / 2 ^ ulpExponent y
        ≤ (roundHalfEven (y / 2 ^ ulpExponent y) : ℚ) := by
      have hdiv : (2 : ℚ) ^ (Int.log 2 y) / 2 ^ ulpExponent y ≤ y / 2 ^ ulpExponent y :=
        div_le_div_of_nonneg_right hyk (by positivity)
      have hr := roundHalfEven_mono hdiv
      rw [hpow2, roundHalfEven_int] at hr
      rw [hpow2]
      exact_mod_cast hr
    have hy2 : (2 : ℚ) ^ (Int.log 2 y) ≤ roundedValue y := by
      have hpos : (0 : ℚ) < 2 ^ ulpExponent y := by positivity
      have := mul_le_mul_of_nonneg_right hy1 (le_of_lt hpos)
      rwa [div_mul_cancel₀ _ (ne_of_gt hpos)] at this
    have hmid : (2 : ℚ) ^ (max (Int.log 2 x + 1) (ulpExponent x)) ≤ (2 : ℚ) ^ (Int.log 2 y) :=
      zpow_le_zpow_right₀ (by norm_num) hk
    linarith

theorem roundedValue_mono {x y : ℚ} (h : x ≤ y) : roundedValue x ≤ roundedValue y := by
  rcases lt_trichotomy 0 x with hx | hx | hx
  · exact roundedValue_mono_pos hx h
  · rw [← hx, roundedValue_zero]
    exact roundedValue_nonneg (by linarith)
  · rcases le_or_lt 0 y with hy | hy
    · exact le_trans (roundedValue_nonpos (le_of_lt hx)) (roundedValue_nonneg hy)
    · have h1 := roundedValue_mono_pos (x := -y) (y := -x) (by linarith) (by linarith)
      rw [roundedValue_neg, roundedValue_neg] at h1
      linarith

theorem roundDouble_eq (x : ℚ) :
    roundDouble x
      = if (2 : ℚ) ^ (1024 : ℤ) ≤ |roundedValue x| then (if 0 < x then .posInf else .negInf)
        else .fin (roundedValue x) := by
  by_cases h0 : x = 0
  · subst h0
    rw [roundDouble_zero, roundedValue_zero, if_neg (by norm_num)]
  · simp only [roundDouble, if_neg h0, roundedValue]

theorem roundDouble_cases (x : ℚ) :
    (roundDouble x = .fin (roundedValue x) ∧ |roundedValue x| < (2 : ℚ) ^ (1024 : ℤ))
      ∨ (roundDouble x = .posInf ∧ 0 < x ∧ (2 : ℚ) ^ (1024 : ℤ) ≤ roundedValue x)
      ∨ (roundDouble x = .negInf ∧ x < 0 ∧ roundedValue x ≤ -(2 : ℚ) ^ (1024 : ℤ)) := by
  rw [roundDouble_eq]
  by_cases hov : (2 : ℚ) ^ (1024 : ℤ) ≤ |roundedValue x|
  · rw [if_pos hov]
    by_cases hx : 0 < x
    · rw [if_pos hx]
      right; left
      refine ⟨rfl, hx, ?_⟩
      rwa [abs_of_nonneg (roundedValue_nonneg (le_of_lt hx))] at hov
    · rw [if_neg hx]
      right; right
      have hx0 : x ≤ 0 := not_lt.mp hx
      have hne : x ≠ 0 := by
        intro h0
        rw [h0, roundedValue_zero] at hov
        norm_num at hov
      rw [abs_of_nonpos (roundedValue_nonpos hx0)] at hov
      exact ⟨rfl, lt_of_le_of_ne hx0 hne, by linarith⟩
  · rw [if_neg hov]
    left
    exact ⟨rfl, not_le.mp hov⟩

/-- Double-precision rounding keeps the order of the exact results. -/
theorem binary64_monotone : binary64.Monotone := by
  intro x y h
  show JSNum.le (roundDouble x) (roundDouble y) = true
  have hm := roundedValue_mono h
  have hpow : (0 : ℚ) < (2 : ℚ) ^ (1024 : ℤ) := by positivity
  rcases roundDouble_cases x with ⟨ex, bx⟩ | ⟨ex, px, bx⟩ | ⟨ex, px, bx⟩
  · rcases roundDouble_cases y with ⟨ey, _⟩ | ⟨ey, _, _⟩ | ⟨ey, py, by1⟩
    · rw [ex, ey]
      simpa [JSNum.le] using hm
    · rw [ex, ey]; rfl
    · exfalso
      have := (abs_lt.mp bx).1
      linarith
  · rcases roundDouble_cases y with ⟨ey, by1⟩ | ⟨ey, _, _⟩ | ⟨ey, py, by1⟩
    · exfalso
      have := (abs_lt.mp by1).2
      linarith
    · rw [ex, ey]; rfl
    · exfalso
      linarith
  · rcases roundDouble_cases y with ⟨ey, _⟩ | ⟨ey, _, _⟩ | ⟨ey, _, _⟩
    · rw [ex, ey]; rfl
    · rw [ex, ey]; rfl
    · rw [ex, ey]; rfl

theorem le_of_le_true {x y : JSNum} (h : JSNum.le x y = true) : JSNum.lt y x = false := by
  cases x <;> cases y <;> simp_all [JSNum.le, JSNum.lt]

theorem rnd_ne_nan (A : Rounding) (hA : A.Monotone) (z : ℚ) : A.rnd z ≠ .nan := by
  intro h
  have h1 := hA z z le_rfl
  rw [h] at h1
  simp [JSNum.le] at h1

theorem le_posInf {x : JSNum} (h : x ≠ .nan) : JSNum.le x .posInf = true := by
  cases x <;> simp_all [JSNum.le]

theorem negInf_le {x : JSNum} (h : x ≠ .nan) : JSNum.le .negInf x = true := by
  cases x <;> simp_all [JSNum.le]

theorem add_mono (A : Rounding) (hA : A.Monotone) {s t : JSNum} {x y : ℚ}
    (hst : JSNum.le s t = true) (hxy : x ≤ y) :
    JSNum.le (A.add s (.fin x)) (A.add t (.fin y)) = true := by
  cases s <;> cases t <;> simp only [JSNum.le, Rounding.add, decide_eq_true_eq] at hst ⊢
  all_goals first
    | exact absurd hst Bool.false_ne_true
    | exact hA _ _ (by linarith)
    | exact le_posInf (rnd_ne_nan A hA _)
    | exact negInf_le (rnd_ne_nan A hA _)

theorem divNat_mono (A : Rounding) (hA : A.Monotone) {s t : JSNum} (n : ℕ) (hn : n ≠ 0)
    (hst : JSNum.le s t = true) : JSNum.le (A.divNat s n) (A.divNat t n) = true := by
  have hpos : (0 : ℚ) < n := by exact_mod_cast Nat.pos_of_ne_zero hn
  cases s <;> cases t <;>
    simp only [JSNum.le, Rounding.divNat, decide_eq_true_eq, if_neg hn] at hst ⊢
  all_goals first
    | exact absurd hst Bool.false_ne_true
    | exact hA _ _ (div_le_div_of_nonneg_right hst (le_of_lt hpos))
    | exact le_posInf (rnd_ne_nan A hA _)
    | exact negInf_le (rnd_ne_nan A hA _)

theorem foldl_add_mono (A : Rounding) (hA : A.Monotone) :
    ∀ (xs ys : List ℚ) (s t : JSNum), List.Forall₂ (fun a b => a ≤ b) xs ys →
      JSNum.le s t = true →
      JSNum.le (xs.foldl (fun a x => A.add a (.fin x)) s)
        (ys.foldl (fun a x => A.add a (.fin x)) t) = true := by
  intro xs ys s t h
  induction h generalizing s t with
  | nil => intro hst; exact hst
  | cons hab _ ih =>
    intro hst
    simp only [List.foldl_cons]
    exact ih _ _ (add_mono A hA hst hab)

theorem sum_mono (A : Rounding) (hA : A.Monotone) (xs ys : List ℚ)
    (h : List.Forall₂ (fun a b => a ≤ b) xs ys) : JSNum.le (A.sum xs) (A.sum ys) = true :=
  foldl_add_mono A hA xs ys _ _ h (by simp [JSNum.le])

/-- For 14 increasing values and a rounding rule that keeps the order, the
computed mean of the last seven is not below the computed mean of the first
seven. -/
theorem windows_not_decreasing (A : Rounding) (hA : A.Monotone) (xs : List ℚ)
    (h14 : xs.length = 14) (hinc : xs.Pairwise (fun a b => a < b)) :
    JSNum.lt (A.lastSeven xs) (A.firstSeven xs) = false := by
  rcases xs with _ | ⟨a0, _ | ⟨a1, _ | ⟨a2, _ | ⟨a3, _ | ⟨a4, _ | ⟨a5, _ | ⟨a6, _ | ⟨a7,
    _ | ⟨a8, _ | ⟨a9, _ | ⟨a10, _ | ⟨a11, _ | ⟨a12, _ | ⟨a13, _ | ⟨a14, xs⟩⟩⟩⟩⟩⟩⟩⟩⟩⟩⟩⟩⟩⟩⟩
  all_goals simp only [List.length_cons, List.length_nil] at h14
  all_goals first
    | omega
    | skip
  simp only [List.pairwise_cons, List.mem_cons, List.mem_singleton, forall_eq_or_imp,
    forall_eq, List.not_mem_nil, false_imp_iff, implies_true, List.Pairwise.nil, and_true] at hinc
  apply le_of_le_true
  have hw : List.Forall₂ (fun a b : ℚ => a ≤ b) [a0, a1, a2, a3, a4, a5, a6]
      [a7, a8, a9, a10, a11, a12, a13] := by
    refine List.Forall₂.cons ?_ (List.Forall₂.cons ?_ (List.Forall₂.cons ?_ (List.Forall₂.cons ?_
      (List.Forall₂.cons ?_ (List.Forall₂.cons ?_ (List.Forall₂.cons ?_ List.Forall₂.nil))))))
    · exact le_of_lt hinc.1.2.2.2.2.2.2.1
    · exact le_of_lt hinc.2.1.2.2.2.2.2.2.1
    · exact le_of_lt hinc.2.2.1.2.2.2.2.2.2.1
    · exact le_of_lt hinc.2.2.2.1.2.2.2.2.2.2.1
    · exact le_of_lt hinc.2.2.2.2.1.2.2.2.2.2.2.1
    · exact le_of_lt hinc.2.2.2.2.2.1.2.2.2.2.2.2.1
    · exact le_of_lt hinc.2.2.2.2.2.2.1.2.2.2.2.2.2
  have hs := sum_mono A hA _ _ hw
  have hd := divNat_mono A hA 7 (by norm_num) hs
  simpa [Rounding.lastSeven, Rounding.firstSeven] using hd

/-! ## Statistics at everyday magnitudes -/

theorem everydayPair_stats (A : Rounding)
    (h0 : A.rnd (3332663724254167 / 2251799813685248) = .fin (3332663724254167 / 2251799813685248))
    (h1 : A.rnd (20108572336209265 / 2251799813685248) = .fin (1256785771013079 / 140737488355328))
    (h2 : A.rnd (1256785771013079 / 281474976710656) = .fin (1256785771013079 / 281474976710656)) :
    calculateStatsWith A everydayPair
      = { mean := .dec false 446 2, min := .dec false 148 2,
          max := .dec false 745 2 } := by
  have hp : presentValues everydayPair
      = [3332663724254167 / 2251799813685248, 8387954305977549 / 1125899906842624] := rfl
  rw [calculateStatsWith_present _ _ (by rw [hp]; simp), hp]
  have havg : A.average [3332663724254167 / 2251799813685248, 8387954305977549 / 1125899906842624]
      = .fin (1256785771013079 / 281474976710656) := by
    norm_num [Rounding.average, Rounding.sum, Rounding.add, Rounding.divNat, h0, h1, h2]
  have hmin : mathMin [3332663724254167 / 2251799813685248, 8387954305977549 / 1125899906842624]
      = .fin (3332663724254167 / 2251799813685248) := by
    norm_num [mathMin, minStep]
  have hmax : mathMax [3332663724254167 / 2251799813685248, 8387954305977549 / 1125899906842624]
      = .fin (8387954305977549 / 1125899906842624) := by
    norm_num [mathMax, maxStep]
  rw [havg, hmin, hmax,
    toFixed_fin_nonneg (f := 2) (x := 1256785771013079 / 281474976710656) (n := 446)
      (by norm_num) (by norm_num) (by norm_num),
    toFixed_fin_nonneg (f := 2) (x := 3332663724254167 / 2251799813685248) (n := 148)
      (by norm_num) (by norm_num) (by norm_num),
    toFixed_fin_nonneg (f := 2) (x := 8387954305977549 / 1125899906842624) (n := 745)
      (by norm_num) (by norm_num) (by norm_num)]

/-- C1, the claim as stated fails: for the readings 1.48 and 7.45 (the
binary64 numbers that JSON delivers for them) the double-precision sum is
rounded down, so `calculateStats` shows the mean 4.46, while the arithmetic
average of the two present values renders as 4.47. -/
theorem mean_is_not_the_exact_average :
    binary64.rnd (148 / 100) = .fin (3332663724254167 / 2251799813685248) ∧
    binary64.rnd (745 / 100) = .fin (8387954305977549 / 1125899906842624) ∧
    (calculateStatsWith binary64 everydayPair).mean.text = "4.46" ∧
    (calculateStatsWith binary64 everydayPair).min.text = "1.48" ∧
    (calculateStatsWith binary64 everydayPair).max.text = "7.45" ∧
    ((JSNum.fin ((presentValues everydayPair).sum
        / (presentValues everydayPair).length)).toFixed 2).text = "4.47" := by
  have hs := everydayPair_stats binary64
    (binary64_fin 0 (-52) 6665327448508334 (by norm_num))
    (binary64_fin 3 (-49) 5027143084052316 (by norm_num))
    (binary64_fin 2 (-50) 5027143084052316 (by norm_num))
  have hp : presentValues everydayPair
      = [3332663724254167 / 2251799813685248, 8387954305977549 / 1125899906842624] := rfl
  refine ⟨binary64_fin 0 (-52) 6665327448508334 (by norm_num),
    binary64_fin 2 (-50) 8387954305977549 (by norm_num), ?_, ?_, ?_, ?_⟩
  · rw [hs]; decide
  · rw [hs]; decide
  · rw [hs]; decide
  · rw [hp]
    rw [toFixed_fin_nonneg (f := 2) (n := 447) (by norm_num) (by norm_num)
      (by norm_num)]
    decide

theorem everydayReadings_stats (A : Rounding)
    (h0 : A.rnd (1346857763560489 / 281474976710656) = .fin (1346857763560489 / 281474976710656))
    (h1 : A.rnd (1346857763560489 / 140737488355328) = .fin (1346857763560489 / 140737488355328))
    (h2 : A.rnd (4040573290681467 / 281474976710656) = .fin (4040573290681467 / 281474976710656))
    (h3 : A.rnd (1346857763560489 / 70368744177664) = .fin (1346857763560489 / 70368744177664))
    (h4 : A.rnd (6734288817802445 / 281474976710656) = .fin (6734288817802445 / 281474976710656))
    (h5 : A.rnd (4040573290681467 / 140737488355328) = .fin (4040573290681467 / 140737488355328))
    (h6 : A.rnd (9428004344923423 / 281474976710656) = .fin (294625135778857 / 8796093022208))
    (h7 : A.rnd (10774862108483913 / 281474976710656) = .fin (1346857763560489 / 35184372088832))
    (h8 : A.rnd (12121719872044401 / 281474976710656) = .fin (757607492002775 / 17592186044416))
    (h9 : A.rnd (13468577635604889 / 281474976710656) = .fin (1683572204450611 / 35184372088832))
    (h10 : A.rnd (1683572204450611 / 351843720888320) = .fin (5387431054241955 / 1125899906842624)) :
    calculateStatsWith A everydayReadings
      = { mean := .dec false 478 2, min := .dec false 479 2,
          max := .dec false 479 2 } := by
  have hp : presentValues everydayReadings
      = List.replicate 10 (1346857763560489 / 281474976710656) := rfl
  rw [calculateStatsWith_present _ _ (by rw [hp]; simp), hp]
  have havg : A.average (List.replicate 10 (1346857763560489 / 281474976710656))
      = .fin (5387431054241955 / 1125899906842624) := by
    norm_num [Rounding.average, Rounding.sum, Rounding.add, Rounding.divNat, List.replicate,
      h0, h1, h2, h3, h4, h5, h6, h7, h8, h9, h10]
  have hmin : mathMin (List.replicate 10 (1346857763560489 / 281474976710656))
      = .fin (1346857763560489 / 281474976710656) := by
    norm_num [mathMin, minStep, List.replicate]
  have hmax : mathMax (List.replicate 10 (1346857763560489 / 281474976710656))
      = .fin (1346857763560489 / 281474976710656) := by
    norm_num [mathMax, maxStep, List.replicate]
  rw [havg, hmin, hmax,
    toFixed_fin_nonneg (f := 2) (x := 5387431054241955 / 1125899906842624) (n := 478)
      (by norm_num) (by norm_num) (by norm_num),
    toFixed_fin_nonneg (f := 2) (x := 1346857763560489 / 281474976710656) (n := 479)
      (by norm_num) (by norm_num) (by norm_num)]

/-- C3, the claim as stated fails: for ten readings of 4.785 (the binary64
number that JSON delivers for it) the double-precision sum is rounded down, so
`calculateStats` shows the mean 4.78 below the min and the max, both 4.79. -/
theorem mean_shown_below_min_shown :
    binary64.rnd (4785 / 1000) = .fin (1346857763560489 / 281474976710656) ∧
    (calculateStatsWith binary64 everydayReadings).mean.text = "4.78" ∧
    (calculateStatsWith binary64 everydayReadings).min.text = "4.79" ∧
    (calculateStatsWith binary64 everydayReadings).max.text = "4.79" ∧
    (calculateStatsWith binary64 everydayReadings).mean.value = some (478 / 100) ∧
    (calculateStatsWith binary64 everydayReadings).min.value = some (479 / 100) ∧
    (478 / 100 : ℚ) < 479 / 100 := by
  have hs := everydayReadings_stats binary64
    (binary64_fin 2 (-50) 5387431054241956 (by norm_num))
    (binary64_fin 3 (-49) 5387431054241956 (by norm_num))
    (binary64_fin 3 (-49) 8081146581362934 (by norm_num))
    (binary64_fin 4 (-48) 5387431054241956 (by norm_num))
    (binary64_fin 4 (-48) 6734288817802445 (by norm_num))
    (binary64_fin 4 (-48) 8081146581362934 (by norm_num))
    (binary64_fin 5 (-47) 4714002172461712 (by norm_num))
    (binary64_fin 5 (-47) 5387431054241956 (by norm_num))
    (binary64_fin 5 (-47) 6060859936022200 (by norm_num))
    (binary64_fin 5 (-47) 6734288817802444 (by norm_num))
    (binary64_fin 2 (-50) 5387431054241955 (by norm_num))
  refine ⟨binary64_fin 2 (-50) 5387431054241956 (by norm_num), ?_, ?_, ?_, ?_, ?_, ?_⟩
  · rw [hs]; decide
  · rw [hs]; decide
  · rw [hs]; decide
  · rw [hs]; norm_num [Figure.value]
  · rw [hs]; norm_num [Figure.value]
  · norm_num

/-! ## Statistics in double-precision arithmetic (WeatherStats.js) -/

theorem absorbedPair_stats (A : Rounding)
    (h0 : A.rnd (0 + 9007199254740992) = .fin 9007199254740992)
    (h1 : A.rnd (9007199254740992 + 1) = .fin 9007199254740992)
    (hd : A.rnd (9007199254740992 / 2) = .fin 4503599627370496) :
    calculateStatsWith A absorbedPair
      = { mean := .dec false 450359962737049600 2, min := .dec false 100 2,
          max := .dec false 900719925474099200 2 } := by
  have hp : presentValues absorbedPair = [9007199254740992, 1] := rfl
  rw [calculateStatsWith_present _ _ (by rw [hp]; simp), hp]
  have havg : A.average [9007199254740992, 1] = .fin 4503599627370496 := by
    simp only [Rounding.average, Rounding.sum, List.foldl_cons, List.foldl_nil,
      List.length_cons, List.length_nil, Rounding.add, h0, h1]
    rw [divNat_fin _ _ (by norm_num)]
    simpa using hd
  have hmin : mathMin [9007199254740992, 1] = .fin 1 := by norm_num [mathMin, minStep]
  have hmax : mathMax [9007199254740992, 1] = .fin 9007199254740992 := by
    norm_num [mathMax, maxStep]
  rw [havg, hmin, hmax,
    toFixed_fin_nonneg (f := 2) (x := 4503599627370496) (n := 450359962737049600)
      (by norm_num) (by norm_num) (by norm_num),
    toFixed_fin_nonneg (f := 2) (x := 1) (n := 100) (by norm_num) (by norm_num)
      (by norm_num),
    toFixed_fin_nonneg (f := 2) (x := 9007199254740992) (n := 900719925474099200)
      (by norm_num) (by norm_num) (by norm_num)]

/-- The failure of C1 on numbers whose arithmetic can be followed by hand: for
the readings 9007199254740992 and 1 the double-precision sum loses the 1 (it
is a tie, rounded to the even neighbour), so `calculateStats` shows the mean
4503599627370496.00, while the arithmetic average of the two present values is
4503599627370496.5 and renders as 4503599627370496.50. -/
theorem absorbed_reading_mean :
    presentValues absorbedPair = [9007199254740992, 1] ∧
    calculateStatsWith binary64 absorbedPair
      = { mean := .dec false 450359962737049600 2, min := .dec false 100 2,
          max := .dec false 900719925474099200 2 } ∧
    (calculateStatsWith binary64 absorbedPair).mean.text = "4503599627370496.00" ∧
    ((JSNum.fin ((presentValues absorbedPair).sum
        / (presentValues absorbedPair).length)).toFixed 2).text = "4503599627370496.50" := by
  have hp : presentValues absorbedPair = [9007199254740992, 1] := rfl
  have hstats := absorbedPair_stats binary64
    (binary64_fin 53 1 4503599627370496 (by norm_num))
    (binary64_fin 53 1 4503599627370496 (by norm_num))
    (binary64_fin 52 0 4503599627370496 (by norm_num))
  refine ⟨hp, hstats, ?_, ?_⟩
  · rw [hstats]; decide
  · rw [hp]
    rw [toFixed_fin_nonneg (f := 2) (n := 450359962737049650) (by norm_num) (by norm_num)
      (by norm_num)]
    decide

/-- C1 as amended: for a sequence with at least one present value,
`calculateStats` shows, at two decimals, the average of the present values as
double-precision arithmetic computes it (the present values added from 0 in
order, the sum divided by their count, every operation rounded), their least
and their greatest element; the `null` entries contribute nothing (the result
is the one for the sequence without them). -/
theorem calculateStats_computed_average (A : Rounding) (values : List Reading)
    (h : presentValues values ≠ []) :
    ∃ lo hi : ℚ,
      lo ∈ presentValues values ∧ (∀ x ∈ presentValues values, lo ≤ x) ∧
      hi ∈ presentValues values ∧ (∀ x ∈ presentValues values, x ≤ hi) ∧
      calculateStatsWith A values =
        { mean := (A.divNat (A.sum (presentValues values)) (presentValues values).length).toFixed 2
          min := (JSNum.fin lo).toFixed 2
          max := (JSNum.fin hi).toFixed 2 } ∧
      calculateStatsWith A values
        = calculateStatsWith A (values.filter (fun v => decide (v ≠ Reading.null))) := by
  obtain ⟨lo, hlo, hlomem, hloall⟩ := mathMin_spec _ h
  obtain ⟨hi, hhi, hhimem, hhiall⟩ := mathMax_spec _ h
  refine ⟨lo, hi, hlomem, hloall, hhimem, hhiall, ?_, ?_⟩
  · rw [calculateStatsWith_present A values h, hlo, hhi]
    rfl
  · have hsame := presentValues_filter values
    rw [calculateStatsWith_present A values h,
      calculateStatsWith_present A _ (by rw [hsame]; exact h), hsame]

theorem scenarioT2M_stats (A : Rounding)
    (h0 : A.rnd (0 + 28) = .fin 28)
    (h1 : A.rnd (28 + 29) = .fin 57)
    (h2 : A.rnd (57 + 30) = .fin 87)
    (h3 : A.rnd (87 + 31) = .fin 118)
    (h4 : A.rnd (118 + 30) = .fin 148)
    (h5 : A.rnd (148 + 29) = .fin 177)
    (h6 : A.rnd (177 + 28) = .fin 205)
    (h7 : A.rnd (205 + 32) = .fin 237)
    (h8 : A.rnd (237 + 33) = .fin 270)
    (h9 : A.rnd (270 + 34) = .fin 304)
    (hd : A.rnd (304 / 10) = .fin (4278419646001971 / 140737488355328)) :
    calculateStatsWith A scenarioT2M
      = { mean := .dec false 3040 2, min := .dec false 2800 2, max := .dec false 3400 2 } := by
  have hp : presentValues scenarioT2M = [28, 29, 30, 31, 30, 29, 28, 32, 33, 34] := rfl
  rw [calculateStatsWith_present _ _ (by rw [hp]; simp), hp]
  have havg : A.average [28, 29, 30, 31, 30, 29, 28, 32, 33, 34]
      = .fin (4278419646001971 / 140737488355328) := by
    simp only [Rounding.average, Rounding.sum, List.foldl_cons, List.foldl_nil,
      List.length_cons, List.length_nil, Rounding.add, h0, h1, h2, h3, h4, h5, h6, h7, h8, h9]
    rw [divNat_fin _ _ (by norm_num)]
    simpa using hd
  have hmin : mathMin [28, 29, 30, 31, 30, 29, 28, 32, 33, 34] = .fin 28 := by
    norm_num [mathMin, minStep]
  have hmax : mathMax [28, 29, 30, 31, 30, 29, 28, 32, 33, 34] = .fin 34 := by
    norm_num [mathMax, maxStep]
  rw [havg, hmin, hmax,
    toFixed_fin_nonneg (f := 2) (x := 4278419646001971 / 140737488355328) (n := 3040)
      (by norm_num) (by norm_num) (by norm_num),
    toFixed_fin_nonneg (f := 2) (x := 28) (n := 2800) (by norm_num) (by norm_num)
      (by norm_num),
    toFixed_fin_nonneg (f := 2) (x := 34) (n := 3400) (by norm_num) (by norm_num)
      (by norm_num)]

/-- C1 as amended, at the series of the end-to-end scenario in binary64
arithmetic: mean 30.40, min 28.00, max 34.00. -/
theorem calculateStats_computed_average_witness :
    presentValues scenarioT2M ≠ [] ∧
    (∃ lo hi : ℚ,
      lo ∈ presentValues scenarioT2M ∧ (∀ x ∈ presentValues scenarioT2M, lo ≤ x) ∧
      hi ∈ presentValues scenarioT2M ∧ (∀ x ∈ presentValues scenarioT2M, x ≤ hi) ∧
      calculateStatsWith binary64 scenarioT2M =
        { mean := (binary64.divNat (binary64.sum (presentValues scenarioT2M))
            (presentValues scenarioT2M).length).toFixed 2
          min := (JSNum.fin lo).toFixed 2
          max := (JSNum.fin hi).toFixed 2 } ∧
      calculateStatsWith binary64 scenarioT2M
        = calculateStatsWith binary64
            (scenarioT2M.filter (fun v => decide (v ≠ Reading.null)))) ∧
    (calculateStatsWith binary64 scenarioT2M).mean.text = "30.40" ∧
    (calculateStatsWith binary64 scenarioT2M).min.text = "28.00" ∧
    (calculateStatsWith binary64 scenarioT2M).max.text = "34.00" := by
  have hne : presentValues scenarioT2M ≠ [] := by simp [presentValues, scenarioT2M]
  have hs := scenarioT2M_stats binary64
    (binary64_fin 4 (-48) 7881299347898368 (by norm_num))
    (binary64_fin 5 (-47) 8022036836253696 (by norm_num))
    (binary64_fin 6 (-46) 6122080743456768 (by norm_num))
    (binary64_fin 6 (-46) 8303511812964352 (by norm_num))
    (binary64_fin 7 (-45) 5207287069147136 (by norm_num))
    (binary64_fin 7 (-45) 6227633859723264 (by norm_num))
    (binary64_fin 7 (-45) 7212796278210560 (by norm_num))
    (binary64_fin 7 (-45) 8338696185053184 (by norm_num))
    (binary64_fin 8 (-44) 4749890231992320 (by norm_num))
    (binary64_fin 8 (-44) 5348024557502464 (by norm_num))
    (binary64_fin 4 (-48) 8556839292003942 (by norm_num))
  refine ⟨hne, calculateStats_computed_average binary64 scenarioT2M hne, ?_, ?_, ?_⟩
  · rw [hs]; decide
  · rw [hs]; decide
  · rw [hs]; decide

theorem sixEqualReadings_stats (A : Rounding)
    (h0 : A.rnd (0 + 4503599627370498) = .fin 4503599627370498)
    (h1 : A.rnd (4503599627370498 + 4503599627370498) = .fin 9007199254740996)
    (h2 : A.rnd (9007199254740996 + 4503599627370498) = .fin 13510798882111494)
    (h3 : A.rnd (13510798882111494 + 4503599627370498) = .fin 18014398509481992)
    (h4 : A.rnd (18014398509481992 + 4503599627370498) = .fin 22517998136852488)
    (h5 : A.rnd (22517998136852488 + 4503599627370498) = .fin 27021597764222984)
    (hd : A.rnd (27021597764222984 / 6) = .fin 4503599627370497) :
    calculateStatsWith A sixEqualReadings
      = { mean := .dec false 450359962737049700 2, min := .dec false 450359962737049800 2,
          max := .dec false 450359962737049800 2 } := by
  have hp : presentValues sixEqualReadings
      = [4503599627370498, 4503599627370498, 4503599627370498, 4503599627370498,
          4503599627370498, 4503599627370498] := rfl
  rw [calculateStatsWith_present _ _ (by rw [hp]; simp), hp]
  have havg : A.average [4503599627370498, 4503599627370498, 4503599627370498,
      4503599627370498, 4503599627370498, 4503599627370498] = .fin 4503599627370497 := by
    simp only [Rounding.average, Rounding.sum, List.foldl_cons, List.foldl_nil,
      List.length_cons, List.length_nil, Rounding.add, h0, h1, h2, h3, h4, h5]
    rw [divNat_fin _ _ (by norm_num)]
    simpa using hd
  have hmin : mathMin [4503599627370498, 4503599627370498, 4503599627370498,
      4503599627370498, 4503599627370498, 4503599627370498] = .fin 4503599627370498 := by
    norm_num [mathMin, minStep]
  have hmax : mathMax [4503599627370498, 4503599627370498, 4503599627370498,
      4503599627370498, 4503599627370498, 4503599627370498] = .fin 4503599627370498 := by
    norm_num [mathMax, maxStep]
  rw [havg, hmin, hmax,
    toFixed_fin_nonneg (f := 2) (x := 4503599627370497) (n := 450359962737049700)
      (by norm_num) (by norm_num) (by norm_num),
    toFixed_fin_nonneg (f := 2) (x := 4503599627370498) (n := 450359962737049800)
      (by norm_num) (by norm_num) (by norm_num)]

/-- The failure of C3 on numbers whose arithmetic can be followed by hand: for
six readings of 4503599627370498 the double-precision sum is rounded down
twice and the quotient once more, so `calculateStats` shows the mean
4503599627370497.00 below the min (and max) 4503599627370498.00. -/
theorem six_equal_readings_mean :
    calculateStatsWith binary64 sixEqualReadings
      = { mean := .dec false 450359962737049700 2, min := .dec false 450359962737049800 2,
          max := .dec false 450359962737049800 2 } ∧
    (calculateStatsWith binary64 sixEqualReadings).mean.text = "4503599627370497.00" ∧
    (calculateStatsWith binary64 sixEqualReadings).min.text = "4503599627370498.00" ∧
    (calculateStatsWith binary64 sixEqualReadings).max.text = "4503599627370498.00" ∧
    (calculateStatsWith binary64 sixEqualReadings).mean.value = some 4503599627370497 ∧
    (calculateStatsWith binary64 sixEqualReadings).min.value = some 4503599627370498 ∧
    (4503599627370497 : ℚ) < 4503599627370498 := by
  have hs := sixEqualReadings_stats binary64
    (binary64_fin 52 0 4503599627370498 (by norm_num))
    (binary64_fin 53 1 4503599627370498 (by norm_num))
    (binary64_fin 53 1 6755399441055747 (by norm_num))
    (binary64_fin 54 2 4503599627370498 (by norm_num))
    (binary64_fin 54 2 5629499534213122 (by norm_num))
    (binary64_fin 54 2 6755399441055746 (by norm_num))
    (binary64_fin 52 0 4503599627370497 (by norm_num))
  refine ⟨hs, ?_, ?_, ?_, ?_, ?_, by norm_num⟩
  · rw [hs]; decide
  · rw [hs]; decide
  · rw [hs]; decide
  · rw [hs]; norm_num [Figure.value]
  · rw [hs]; norm_num [Figure.value]

/-- C3 as amended: for a sequence with at least one present value the min and
the max `calculateStats` shows denote numbers in that order, and whenever the
double-precision average of the present values is free of rounding error (it
equals their exact average) the mean shown lies between the min shown and the
max shown, both included. -/
theorem mean_between_when_average_exact (A : Rounding) (values : List Reading)
    (h : presentValues values ≠ []) :
    ∃ lo hi : ℚ,
      (calculateStatsWith A values).min.value = some lo ∧
      (calculateStatsWith A values).max.value = some hi ∧
      lo ≤ hi ∧
      (A.divNat (A.sum (presentValues values)) (presentValues values).length
          = .fin ((presentValues values).sum / (presentValues values).length) →
        ∃ m : ℚ, (calculateStatsWith A values).mean.value = some m ∧ lo ≤ m ∧ m ≤ hi) := by
  obtain ⟨lo, hlo, hlomem, hloall⟩ := mathMin_spec _ h
  obtain ⟨hi, hhi, _, hhiall⟩ := mathMax_spec _ h
  have hlen : (0 : ℚ) < ((presentValues values).length : ℚ) := by
    have : 0 < (presentValues values).length := List.length_pos.mpr h
    exact_mod_cast this
  have h1 : lo ≤ (presentValues values).sum / (presentValues values).length := by
    rw [le_div_iff₀ hlen]
    have := card_mul_min_le_sum _ lo hloall
    linarith
  have h2 : (presentValues values).sum / (presentValues values).length ≤ hi := by
    rw [div_le_iff₀ hlen]
    have := sum_le_card_mul_max _ hi hhiall
    linarith
  refine ⟨roundValue 2 lo, roundValue 2 hi, ?_, ?_, roundValue_mono 2 (hhiall lo hlomem), ?_⟩
  · rw [calculateStatsWith_present A values h, hlo]; exact toFixed_value 2 lo
  · rw [calculateStatsWith_present A values h, hhi]; exact toFixed_value 2 hi
  · intro hex
    refine ⟨roundValue 2 ((presentValues values).sum / (presentValues values).length), ?_,
      roundValue_mono 2 h1, roundValue_mono 2 h2⟩
    rw [calculateStatsWith_present A values h]
    simp only [Rounding.average, hex]
    exact toFixed_value 2 _

theorem pair_average (A : Rounding) (h0 : A.rnd (0 + 1) = .fin 1)
    (h1 : A.rnd (1 + 2) = .fin 3) (hd : A.rnd (3 / 2) = .fin (3 / 2)) :
    A.divNat (A.sum [1, 2]) ([1, 2] : List ℚ).length = .fin (3 / 2) := by
  simp only [Rounding.sum, List.foldl_cons, List.foldl_nil, List.length_cons, List.length_nil,
    Rounding.add, h0, h1]
  rw [divNat_fin _ _ (by norm_num)]
  simpa using hd

/-- C3 as amended, at a sequence with one absent and two present values in
binary64 arithmetic: the average 1.5 is computed exactly and the mean shown
lies between the min shown and the max shown. -/
theorem mean_between_when_average_exact_witness :
    presentValues [Reading.num 1, Reading.null, Reading.num 2] ≠ [] ∧
    binary64.divNat (binary64.sum (presentValues [Reading.num 1, Reading.null, Reading.num 2]))
        (presentValues [Reading.num 1, Reading.null, Reading.num 2]).length
      = .fin ((presentValues [Reading.num 1, Reading.null, Reading.num 2]).sum
          / (presentValues [Reading.num 1, Reading.null, Reading.num 2]).length) ∧
    ∃ lo hi : ℚ,
      (calculateStatsWith binary64 [Reading.num 1, Reading.null, Reading.num 2]).min.value
        = some lo ∧
      (calculateStatsWith binary64 [Reading.num 1, Reading.null, Reading.num 2]).max.value
        = some hi ∧
      lo ≤ hi ∧
      ∃ m : ℚ,
        (calculateStatsWith binary64 [Reading.num 1, Reading.null, Reading.num 2]).mean.value
          = some m ∧ lo ≤ m ∧ m ≤ hi := by
  have hp : presentValues [Reading.num 1, Reading.null, Reading.num 2] = [1, 2] := rfl
  have hne : presentValues [Reading.num 1, Reading.null, Reading.num 2] ≠ [] := by
    rw [hp]; simp
  have hex : binary64.divNat
      (binary64.sum (presentValues [Reading.num 1, Reading.null, Reading.num 2]))
        (presentValues [Reading.num 1, Reading.null, Reading.num 2]).length
      = .fin ((presentValues [Reading.num 1, Reading.null, Reading.num 2]).sum
          / (presentValues [Reading.num 1, Reading.null, Reading.num 2]).length) := by
    rw [hp, pair_average binary64
      (binary64_fin 0 (-52) 4503599627370496 (by norm_num))
      (binary64_fin 1 (-51) 6755399441055744 (by norm_num))
      (binary64_fin 0 (-52) 6755399441055744 (by norm_num))]
    norm_num
  obtain ⟨lo, hi, h1, h2, h3, h4⟩ :=
    mean_between_when_average_exact binary64 [Reading.num 1, Reading.null, Reading.num 2] hne
  exact ⟨hne, hex, lo, hi, h1, h2, h3, h4 hex⟩

theorem everydaySeries_present :
    presentT2M everydaySeries.data
      = [8660985033386885 / 281474976710656,
        4751297606875873 / 281474976710656,
        2191282693692457 / 140737488355328,
        1116048282657751 / 35184372088832,
        6659697948974121 / 281474976710656,
        121 / 4,
        2116691824864133 / 140737488355328,
        8660985033386885 / 281474976710656] := rfl

/-- The decimal numbers 30.77, 16.88, 15.57, 31.72, 23.66, 30.25 and 15.04 are stored as the readings of `everydaySeries`. -/
theorem everydaySeries_parsed :
    binary64.rnd (3077 / 100) = .fin (8660985033386885 / 281474976710656) ∧
    binary64.rnd (1688 / 100) = .fin (4751297606875873 / 281474976710656) ∧
    binary64.rnd (1557 / 100) = .fin (2191282693692457 / 140737488355328) ∧
    binary64.rnd (3172 / 100) = .fin (1116048282657751 / 35184372088832) ∧
    binary64.rnd (2366 / 100) = .fin (6659697948974121 / 281474976710656) ∧
    binary64.rnd (3025 / 100) = .fin (121 / 4) ∧
    binary64.rnd (1504 / 100) = .fin (2116691824864133 / 140737488355328) :=
  ⟨binary64_fin 4 (-48) 8660985033386885 (by norm_num),
   binary64_fin 4 (-48) 4751297606875873 (by norm_num),
   binary64_fin 3 (-49) 8765130774769828 (by norm_num),
   binary64_fin 4 (-48) 8928386261262008 (by norm_num),
   binary64_fin 4 (-48) 6659697948974121 (by norm_num),
   binary64_fin 4 (-48) 8514618045497344 (by norm_num),
   binary64_fin 3 (-49) 8466767299456532 (by norm_num)⟩

theorem everydaySeries_chat (A : Rounding)
    (h0 : A.rnd (4751297606875873 / 281474976710656) = .fin (4751297606875873 / 281474976710656))
    (h1 : A.rnd (9133862994260787 / 281474976710656) = .fin (2283465748565197 / 70368744177664))
    (h2 : A.rnd (4515562313880699 / 70368744177664) = .fin (4515562313880699 / 70368744177664))
    (h3 : A.rnd (24721947204496917 / 281474976710656) = .fin (6180486801124229 / 70368744177664))
    (h4 : A.rnd (8309141312498565 / 70368744177664) = .fin (8309141312498565 / 70368744177664))
    (h5 : A.rnd (18734974449861263 / 140737488355328) = .fin (1170935903116329 / 8796093022208))
    (h6 : A.rnd (46130933933109413 / 281474976710656) = .fin (5766366741638677 / 35184372088832))
    (h7 : A.rnd (8660985033386885 / 281474976710656) = .fin (8660985033386885 / 281474976710656))
    (h8 : A.rnd (6706141320131379 / 140737488355328) = .fin (6706141320131379 / 140737488355328))
    (h9 : A.rnd (2224356003455959 / 35184372088832) = .fin (2224356003455959 / 35184372088832))
    (h10 : A.rnd (1670202143056855 / 17592186044416) = .fin (1670202143056855 / 17592186044416))
    (h11 : A.rnd (33382932237883801 / 281474976710656) = .fin (4172866529735475 / 35184372088832))
    (h12 : A.rnd (5237193785422643 / 35184372088832) = .fin (5237193785422643 / 35184372088832))
    (h13 : A.rnd (23065466966554705 / 140737488355328) = .fin (1441591685409669 / 8796093022208))
    (h14 : A.rnd (5766366741638677 / 246290604621824) = .fin (6590133419015631 / 281474976710656))
    (h15 : A.rnd (1441591685409669 / 61572651155456) = .fin (3295066709507815 / 140737488355328))
    (h16 : A.rnd (1 / 281474976710656) = .fin (1 / 281474976710656)) :
    generateSmartFallbackWith A everydaySeries none "What is the trend?"
      = .ok "📈 Trend Analysis:\nTemperature is increasing over the data period (0.0°C change).\n\nRun AI analysis for more detailed insights!" := by
  have hR : A.lastSeven [8660985033386885 / 281474976710656,
        4751297606875873 / 281474976710656,
        2191282693692457 / 140737488355328,
        1116048282657751 / 35184372088832,
        6659697948974121 / 281474976710656,
        121 / 4,
        2116691824864133 / 140737488355328,
        8660985033386885 / 281474976710656]
      = .fin (6590133419015631 / 281474976710656) := by
    norm_num [Rounding.lastSeven, Rounding.sum, Rounding.add, Rounding.divNat, h0, h1, h2, h3, h4, h5, h6, h7, h8, h9, h10, h11, h12, h13, h14, h15, h16]
  have hE : A.firstSeven [8660985033386885 / 281474976710656,
        4751297606875873 / 281474976710656,
        2191282693692457 / 140737488355328,
        1116048282657751 / 35184372088832,
        6659697948974121 / 281474976710656,
        121 / 4,
        2116691824864133 / 140737488355328,
        8660985033386885 / 281474976710656]
      = .fin (3295066709507815 / 140737488355328) := by
    norm_num [Rounding.firstSeven, Rounding.sum, Rounding.add, Rounding.divNat, h0, h1, h2, h3, h4, h5, h6, h7, h8, h9, h10, h11, h12, h13, h14, h15, h16]
  have hD : A.sub (.fin (6590133419015631 / 281474976710656)) (.fin (3295066709507815 / 140737488355328))
      = .fin (1 / 281474976710656) := by
    norm_num [Rounding.sub, Rounding.add, JSNum.neg, h0, h1, h2, h3, h4, h5, h6, h7, h8, h9, h10, h11, h12, h13, h14, h15, h16]
  rw [generateSmartFallbackWith_trend A everydaySeries none "What is the trend?" (by decide)
    (by decide) (Or.inl (by decide)) (by decide) (Or.inl (by decide)) (by decide) (by decide),
    trendAnswerWith_eq, everydaySeries_present, hR, hE, hD]
  have hl : trendLabelOf (.fin (6590133419015631 / 281474976710656)) (.fin (3295066709507815 / 140737488355328))
      = "increasing" := by
    norm_num [trendLabelOf, JSNum.lt]
  have ha : (JSNum.fin (1 / 281474976710656)).abs = .fin (1 / 281474976710656) := by
    simp only [JSNum.abs]
    rw [abs_of_pos (by norm_num)]
  have hf : ((JSNum.fin (1 / 281474976710656)).toFixed 1).text = "0.0" := by
    rw [toFixed_fin_nonneg (f := 1) (x := 1 / 281474976710656) (n := 0) (by norm_num) (by norm_num)
      (by norm_num)]
    decide
  rw [hl, ha, hf]
  exact congrArg Except.ok (by decide)

/-- C9, the claim as stated fails: the first seven and the last seven of
these eight temperatures are the same numbers in a different order, so the two
window means are equal, yet the double-precision sums differ in the last
place and the chat fallback answers `increasing` with the magnitude 0.0, not
`stable`. -/
theorem equal_means_reported_increasing :
    lastSevenMean (presentT2M everydaySeries.data)
      = firstSevenMean (presentT2M everydaySeries.data) ∧
    generateSmartFallbackWith binary64 everydaySeries none "What is the trend?"
      = .ok "📈 Trend Analysis:\nTemperature is increasing over the data period (0.0°C change).\n\nRun AI analysis for more detailed insights!" := by
  refine ⟨?_, ?_⟩
  · rw [everydaySeries_present]
    norm_num [lastSevenMean, firstSevenMean]
  · exact everydaySeries_chat binary64
      (binary64_fin 4 (-48) 4751297606875873 (by norm_num))
      (binary64_fin 5 (-47) 4566931497130394 (by norm_num))
      (binary64_fin 6 (-46) 4515562313880699 (by norm_num))
      (binary64_fin 6 (-46) 6180486801124229 (by norm_num))
      (binary64_fin 6 (-46) 8309141312498565 (by norm_num))
      (binary64_fin 7 (-45) 4683743612465316 (by norm_num))
      (binary64_fin 7 (-45) 5766366741638677 (by norm_num))
      (binary64_fin 4 (-48) 8660985033386885 (by norm_num))
      (binary64_fin 5 (-47) 6706141320131379 (by norm_num))
      (binary64_fin 5 (-47) 8897424013823836 (by norm_num))
      (binary64_fin 6 (-46) 6680808572227420 (by norm_num))
      (binary64_fin 6 (-46) 8345733059470950 (by norm_num))
      (binary64_fin 7 (-45) 5237193785422643 (by norm_num))
      (binary64_fin 7 (-45) 5766366741638676 (by norm_num))
      (binary64_fin 4 (-48) 6590133419015631 (by norm_num))
      (binary64_fin 4 (-48) 6590133419015630 (by norm_num))
      (binary64_fin (-48) (-100) 4503599627370496 (by norm_num))

/-! ## Trend of the chat fallback in double-precision arithmetic -/

theorem reorderedSeries_present :
    presentT2M reorderedSeries.data = [1, 1, 9007199254740992, 0, 0, 0, 0, 1] := rfl

theorem reorderedSeries_windows (A : Rounding)
    (h1 : A.rnd 1 = .fin 1) (h2 : A.rnd 2 = .fin 2)
    (h3 : A.rnd 9007199254740994 = .fin 9007199254740994)
    (h4 : A.rnd 9007199254740993 = .fin 9007199254740992)
    (h5 : A.rnd 9007199254740992 = .fin 9007199254740992)
    (h6 : A.rnd (9007199254740994 / 7) = .fin (5146971002709139 / 4))
    (h7 : A.rnd (9007199254740992 / 7) = .fin (2573485501354569 / 2))
    (h8 : A.rnd (-(1 / 4)) = .fin (-(1 / 4))) :
    A.lastSeven [1, 1, 9007199254740992, 0, 0, 0, 0, 1] = .fin (2573485501354569 / 2) ∧
    A.firstSeven [1, 1, 9007199254740992, 0, 0, 0, 0, 1] = .fin (5146971002709139 / 4) ∧
    A.sub (.fin (2573485501354569 / 2)) (.fin (5146971002709139 / 4)) = .fin (-(1 / 4)) := by
  refine ⟨?_, ?_, ?_⟩
  · norm_num [Rounding.lastSeven, Rounding.sum, Rounding.add, Rounding.divNat, h1, h2, h3, h4,
      h5, h7]
  · norm_num [Rounding.firstSeven, Rounding.sum, Rounding.add, Rounding.divNat, h1, h2, h3, h4,
      h5, h6]
  · norm_num [Rounding.sub, Rounding.add, JSNum.neg, h8]

theorem reorderedSeries_chat (A : Rounding)
    (h1 : A.rnd 1 = .fin 1) (h2 : A.rnd 2 = .fin 2)
    (h3 : A.rnd 9007199254740994 = .fin 9007199254740994)
    (h4 : A.rnd 9007199254740993 = .fin 9007199254740992)
    (h5 : A.rnd 9007199254740992 = .fin 9007199254740992)
    (h6 : A.rnd (9007199254740994 / 7) = .fin (5146971002709139 / 4))
    (h7 : A.rnd (9007199254740992 / 7) = .fin (2573485501354569 / 2))
    (h8 : A.rnd (-(1 / 4)) = .fin (-(1 / 4))) :
    generateSmartFallbackWith A reorderedSeries none "What is the trend?"
      = .ok "📈 Trend Analysis:\nTemperature is decreasing over the data period (0.3°C change).\n\nRun AI analysis for more detailed insights!" := by
  obtain ⟨hR, hE, hD⟩ := reorderedSeries_windows A h1 h2 h3 h4 h5 h6 h7 h8
  rw [generateSmartFallbackWith_trend A reorderedSeries none "What is the trend?" (by decide)
    (by decide) (Or.inl (by decide)) (by decide) (Or.inl (by decide)) (by decide) (by decide),
    trendAnswerWith_eq, reorderedSeries_present, hR, hE, hD]
  have hl : trendLabelOf (.fin (2573485501354569 / 2)) (.fin (5146971002709139 / 4))
      = "decreasing" := by
    norm_num [trendLabelOf, JSNum.lt]
  have ha : (JSNum.fin (-(1 / 4))).abs = .fin (1 / 4) := by
    simp only [JSNum.abs]
    rw [abs_of_neg (by norm_num)]
    norm_num
  have hf : ((JSNum.fin (1 / 4)).toFixed 1).text = "0.3" := by
    rw [toFixed_fin_nonneg (f := 1) (x := 1 / 4) (n := 3) (by norm_num) (by norm_num)
      (by norm_num)]
    decide
  rw [hl, ha, hf]
  exact congrArg Except.ok (by decide)

/-- The failure of C9 on numbers whose arithmetic can be followed by hand: the
first seven and the last seven temperatures of this eight-day series are the
same numbers in a different order, so the two window means are equal, yet the
double-precision sums differ (9007199254740994 and 9007199254740992) and the
chat fallback answers `decreasing`, not `stable`. -/
theorem equal_means_reported_decreasing :
    presentT2M reorderedSeries.data = [1, 1, 9007199254740992, 0, 0, 0, 0, 1] ∧
    lastSevenMean (presentT2M reorderedSeries.data)
      = firstSevenMean (presentT2M reorderedSeries.data) ∧
    generateSmartFallbackWith binary64 reorderedSeries none "What is the trend?"
      = .ok "📈 Trend Analysis:\nTemperature is decreasing over the data period (0.3°C change).\n\nRun AI analysis for more detailed insights!" := by
  refine ⟨rfl, ?_, ?_⟩
  · rw [reorderedSeries_present]
    norm_num [lastSevenMean, firstSevenMean]
  · exact reorderedSeries_chat binary64
      (binary64_fin 0 (-52) 4503599627370496 (by norm_num))
      (binary64_fin 1 (-51) 4503599627370496 (by norm_num))
      (binary64_fin 53 1 4503599627370497 (by norm_num))
      (binary64_fin 53 1 4503599627370496 (by norm_num))
      (binary64_fin 53 1 4503599627370496 (by norm_num))
      (binary64_fin 50 (-2) 5146971002709139 (by norm_num))
      (binary64_fin 50 (-2) 5146971002709138 (by norm_num))
      (binary64_fin (-2) (-54) (-4503599627370496) (by norm_num))

/-- C9 as amended: whenever the chat fallback reaches its trend reply, the
label in it is chosen by comparing the two window means as double-precision
arithmetic computes them (each window added from 0 in order and divided by 7):
`increasing` exactly when the computed mean of the last 7 present T2M values
is greater than the computed mean of the first 7, `decreasing` exactly when it
is smaller, and `stable` exactly when neither holds, which for two finite
computed means is when they are equal. -/
theorem trend_label_compares_computed_means (A : Rounding) (wd : WeatherData)
    (insights : Option String) (question : String)
    (hO : isOutdoorQuestion (toLowerCase question) = false)
    (hT : isTemperatureQuestion (toLowerCase question) = false)
    (hP : isPrecipitationQuestion (toLowerCase question) = false ∨ precipDataOf wd.data = [])
    (hF : isForecastQuestion (toLowerCase question) = false)
    (hW : isWindQuestion (toLowerCase question) = false ∨ windDataOf wd.data = [])
    (hTr : isTrendQuestion (toLowerCase question) = true)
    (hlen : 7 < (tempDataOf wd.data).length) :
    generateSmartFallbackWith A wd insights question
      = .ok ("📈 Trend Analysis:\nTemperature is "
          ++ trendLabelOf (A.lastSeven (presentT2M wd.data)) (A.firstSeven (presentT2M wd.data))
          ++ " over the data period ("
          ++ ((A.sub (A.lastSeven (presentT2M wd.data))
                (A.firstSeven (presentT2M wd.data))).abs.toFixed 1).text
          ++ "°C change).\n\n" ++ insightsNote insights) ∧
    (trendLabelOf (A.lastSeven (presentT2M wd.data)) (A.firstSeven (presentT2M wd.data))
        = "increasing"
      ↔ JSNum.lt (A.firstSeven (presentT2M wd.data)) (A.lastSeven (presentT2M wd.data))
          = true) ∧
    (trendLabelOf (A.lastSeven (presentT2M wd.data)) (A.firstSeven (presentT2M wd.data))
        = "decreasing"
      ↔ JSNum.lt (A.lastSeven (presentT2M wd.data)) (A.firstSeven (presentT2M wd.data))
          = true) ∧
    (trendLabelOf (A.lastSeven (presentT2M wd.data)) (A.firstSeven (presentT2M wd.data))
        = "stable"
      ↔ JSNum.lt (A.firstSeven (presentT2M wd.data)) (A.lastSeven (presentT2M wd.data))
            = false ∧
          JSNum.lt (A.lastSeven (presentT2M wd.data)) (A.firstSeven (presentT2M wd.data))
            = false) ∧
    (∀ r e : ℚ, A.lastSeven (presentT2M wd.data) = .fin r →
      A.firstSeven (presentT2M wd.data) = .fin e →
      (trendLabelOf (A.lastSeven (presentT2M wd.data)) (A.firstSeven (presentT2M wd.data))
          = "increasing" ↔ e < r) ∧
      (trendLabelOf (A.lastSeven (presentT2M wd.data)) (A.firstSeven (presentT2M wd.data))
          = "decreasing" ↔ r < e) ∧
      (trendLabelOf (A.lastSeven (presentT2M wd.data)) (A.firstSeven (presentT2M wd.data))
          = "stable" ↔ r = e)) := by
  obtain ⟨k1, k2, k3⟩ := trendLabelOf_iff (A.lastSeven (presentT2M wd.data))
    (A.firstSeven (presentT2M wd.data))
  refine ⟨?_, k1, k2, k3, ?_⟩
  · rw [generateSmartFallbackWith_trend A wd insights question hO hT hP hF hW hTr hlen,
      trendAnswerWith_eq]
  · intro r e hr he
    rw [hr, he] at k1 k2 k3
    rw [hr, he]
    refine ⟨?_, ?_, ?_⟩
    · rw [k1]; simp [JSNum.lt]
    · rw [k2]; simp [JSNum.lt]
    · rw [k3]
      simp only [JSNum.lt, decide_eq_false_iff_not, not_lt]
      constructor
      · intro h; exact le_antisymm h.1 h.2
      · intro h; rw [h]; exact ⟨le_refl _, le_refl _⟩

theorem risingSeries_computed (A : Rounding) (hA : A.ExactOnDyadics) :
    A.lastSeven [1, 2, 3, 4, 5, 6, 7, 8, 9, 10, 11, 12, 13, 14] = .fin 11 ∧
    A.firstSeven [1, 2, 3, 4, 5, 6, 7, 8, 9, 10, 11, 12, 13, 14] = .fin 4 ∧
    A.sub (.fin 11) (.fin 4) = .fin 7 := by
  have e1 : A.rnd 1 = .fin 1 := by simpa using exact_on_nat hA 1 (by norm_num)
  have e3 : A.rnd 3 = .fin 3 := by simpa using exact_on_nat hA 3 (by norm_num)
  have e4 : A.rnd 4 = .fin 4 := by simpa using exact_on_nat hA 4 (by norm_num)
  have e6 : A.rnd 6 = .fin 6 := by simpa using exact_on_nat hA 6 (by norm_num)
  have e7 : A.rnd 7 = .fin 7 := by simpa using exact_on_nat hA 7 (by norm_num)
  have e8 : A.rnd 8 = .fin 8 := by simpa using exact_on_nat hA 8 (by norm_num)
  have e10 : A.rnd 10 = .fin 10 := by simpa using exact_on_nat hA 10 (by norm_num)
  have e11 : A.rnd 11 = .fin 11 := by simpa using exact_on_nat hA 11 (by norm_num)
  have e15 : A.rnd 15 = .fin 15 := by simpa using exact_on_nat hA 15 (by norm_num)
  have e17 : A.rnd 17 = .fin 17 := by simpa using exact_on_nat hA 17 (by norm_num)
  have e21 : A.rnd 21 = .fin 21 := by simpa using exact_on_nat hA 21 (by norm_num)
  have e27 : A.rnd 27 = .fin 27 := by simpa using exact_on_nat hA 27 (by norm_num)
  have e28 : A.rnd 28 = .fin 28 := by simpa using exact_on_nat hA 28 (by norm_num)
  have e38 : A.rnd 38 = .fin 38 := by simpa using exact_on_nat hA 38 (by norm_num)
  have e50 : A.rnd 50 = .fin 50 := by simpa using exact_on_nat hA 50 (by norm_num)
  have e63 : A.rnd 63 = .fin 63 := by simpa using exact_on_nat hA 63 (by norm_num)
  have e77 : A.rnd 77 = .fin 77 := by simpa using exact_on_nat hA 77 (by norm_num)
  refine ⟨?_, ?_, ?_⟩
  · norm_num [Rounding.lastSeven, Rounding.sum, Rounding.add, Rounding.divNat, e1, e3, e4, e6, e7, e8, e10, e11, e15, e17, e21, e27, e28, e38, e50, e63, e77]
  · norm_num [Rounding.firstSeven, Rounding.sum, Rounding.add, Rounding.divNat, e1, e3, e4, e6, e7, e8, e10, e11, e15, e17, e21, e27, e28, e38, e50, e63, e77]
  · norm_num [Rounding.sub, Rounding.add, JSNum.neg, e1, e3, e4, e6, e7, e8, e10, e11, e15, e17, e21, e27, e28, e38, e50, e63, e77]

theorem risingSeries_chat (A : Rounding) (hA : A.ExactOnDyadics) :
    generateSmartFallbackWith A risingSeries none "What is the trend?"
      = .ok "📈 Trend Analysis:\nTemperature is increasing over the data period (7.0°C change).\n\nRun AI analysis for more detailed insights!" := by
  obtain ⟨hR, hE, hD⟩ := risingSeries_computed A hA
  rw [generateSmartFallbackWith_trend A risingSeries none "What is the trend?" (by decide)
    (by decide) (Or.inl (by decide)) (by decide) (Or.inl (by decide)) (by decide) (by decide),
    trendAnswerWith_eq, risingSeries_present, hR, hE, hD]
  have hl : trendLabelOf (.fin 11) (.fin 4) = "increasing" := by
    norm_num [trendLabelOf, JSNum.lt]
  have ha : (JSNum.fin 7).abs = .fin 7 := by
    simp only [JSNum.abs]
    rw [abs_of_pos (by norm_num)]
  rw [hl, ha, toFixed_text_7]
  exact congrArg Except.ok (by decide)

/-- C9 as amended, at the series 1, 2, ..., 14 in binary64 arithmetic: the
computed window means are 11 and 4 and the label is `increasing`. -/
theorem trend_label_compares_computed_means_witness :
    isTrendQuestion (toLowerCase "What is the trend?") = true ∧
    7 < (tempDataOf risingSeries.data).length ∧
    generateSmartFallbackWith binary64 risingSeries none "What is the trend?"
      = .ok "📈 Trend Analysis:\nTemperature is increasing over the data period (7.0°C change).\n\nRun AI analysis for more detailed insights!" ∧
    binary64.lastSeven (presentT2M risingSeries.data) = .fin 11 ∧
    binary64.firstSeven (presentT2M risingSeries.data) = .fin 4 ∧
    (trendLabelOf (binary64.lastSeven (presentT2M risingSeries.data))
        (binary64.firstSeven (presentT2M risingSeries.data)) = "increasing"
      ↔ JSNum.lt (binary64.firstSeven (presentT2M risingSeries.data))
          (binary64.lastSeven (presentT2M risingSeries.data)) = true) := by
  have h := trend_label_compares_computed_means binary64 risingSeries none "What is the trend?"
    (by decide) (by decide) (Or.inl (by decide)) (by decide) (Or.inl (by decide))
    (by decide) (by decide)
  obtain ⟨hR, hE, _⟩ := risingSeries_computed binary64 binary64_exactOnDyadics
  refine ⟨by decide, by decide, risingSeries_chat binary64 binary64_exactOnDyadics, ?_, ?_,
    h.2.1⟩
  · rw [risingSeries_present]; exact hR
  · rw [risingSeries_present]; exact hE

/-! ## Increasing series in double-precision arithmetic -/

theorem overflowSeries_present :
    presentT2M overflowSeries.data
      = [hugeReading 0, hugeReading 1, hugeReading 2, hugeReading 3, hugeReading 4,
          hugeReading 5, hugeReading 6, hugeReading 7, hugeReading 8, hugeReading 9,
          hugeReading 10, hugeReading 11, hugeReading 12, hugeReading 13] := rfl

theorem overflowSeries_chat (A : Rounding)
    (h0 : A.rnd (hugeReading 0) = .fin (hugeReading 0))
    (h1 : A.rnd (hugeReading 0 + hugeReading 1) = .posInf)
    (h7 : A.rnd (hugeReading 7) = .fin (hugeReading 7))
    (h8 : A.rnd (hugeReading 7 + hugeReading 8) = .posInf) :
    generateSmartFallbackWith A overflowSeries none "What is the trend?"
      = .ok "📈 Trend Analysis:\nTemperature is stable over the data period (NaN°C change).\n\nRun AI analysis for more detailed insights!" := by
  have hR : A.lastSeven [hugeReading 0, hugeReading 1, hugeReading 2, hugeReading 3,
      hugeReading 4, hugeReading 5, hugeReading 6, hugeReading 7, hugeReading 8, hugeReading 9,
      hugeReading 10, hugeReading 11, hugeReading 12, hugeReading 13] = .posInf := by
    norm_num [Rounding.lastSeven, Rounding.sum, Rounding.add, Rounding.divNat, h7, h8]
  have hE : A.firstSeven [hugeReading 0, hugeReading 1, hugeReading 2, hugeReading 3,
      hugeReading 4, hugeReading 5, hugeReading 6, hugeReading 7, hugeReading 8, hugeReading 9,
      hugeReading 10, hugeReading 11, hugeReading 12, hugeReading 13] = .posInf := by
    norm_num [Rounding.firstSeven, Rounding.sum, Rounding.add, Rounding.divNat, h0, h1]
  rw [generateSmartFallbackWith_trend A overflowSeries none "What is the trend?" (by decide)
    (by decide) (Or.inl (by decide)) (by decide) (Or.inl (by decide)) (by decide) (by decide),
    trendAnswerWith_eq, overflowSeries_present, hR, hE]
  have hD : A.sub .posInf .posInf = .nan := rfl
  rw [hD]
  exact congrArg Except.ok (by decide)

theorem hugeReading_stored :
    binary64.rnd (hugeReading 0) = .fin (hugeReading 0) ∧
    binary64.rnd (hugeReading 1) = .fin (hugeReading 1) ∧
    binary64.rnd (hugeReading 2) = .fin (hugeReading 2) ∧
    binary64.rnd (hugeReading 3) = .fin (hugeReading 3) ∧
    binary64.rnd (hugeReading 4) = .fin (hugeReading 4) ∧
    binary64.rnd (hugeReading 5) = .fin (hugeReading 5) ∧
    binary64.rnd (hugeReading 6) = .fin (hugeReading 6) ∧
    binary64.rnd (hugeReading 7) = .fin (hugeReading 7) ∧
    binary64.rnd (hugeReading 8) = .fin (hugeReading 8) ∧
    binary64.rnd (hugeReading 9) = .fin (hugeReading 9) ∧
    binary64.rnd (hugeReading 10) = .fin (hugeReading 10) ∧
    binary64.rnd (hugeReading 11) = .fin (hugeReading 11) ∧
    binary64.rnd (hugeReading 12) = .fin (hugeReading 12) ∧
    binary64.rnd (hugeReading 13) = .fin (hugeReading 13) :=
  ⟨binary64_fin 1023 971 4503599627370496 (by norm_num [hugeReading]),
binary64_fin 1023 971 4503599627370497 (by norm_num [hugeReading]),
binary64_fin 1023 971 4503599627370498 (by norm_num [hugeReading]),
binary64_fin 1023 971 4503599627370499 (by norm_num [hugeReading]),
binary64_fin 1023 971 4503599627370500 (by norm_num [hugeReading]),
binary64_fin 1023 971 4503599627370501 (by norm_num [hugeReading]),
binary64_fin 1023 971 4503599627370502 (by norm_num [hugeReading]),
binary64_fin 1023 971 4503599627370503 (by norm_num [hugeReading]),
binary64_fin 1023 971 4503599627370504 (by norm_num [hugeReading]),
binary64_fin 1023 971 4503599627370505 (by norm_num [hugeReading]),
binary64_fin 1023 971 4503599627370506 (by norm_num [hugeReading]),
binary64_fin 1023 971 4503599627370507 (by norm_num [hugeReading]),
binary64_fin 1023 971 4503599627370508 (by norm_num [hugeReading]),
binary64_fin 1023 971 4503599627370509 (by norm_num [hugeReading])⟩

/-- C10, the claim as stated fails: for these 14 strictly increasing binary64
numbers the double-precision sum of either window exceeds the binary64 range,
both computed means are `Infinity`, and the chat fallback answers `stable`
with the magnitude `NaN`. -/
theorem increasing_series_reported_stable :
    (presentT2M overflowSeries.data).length = 14 ∧
    (presentT2M overflowSeries.data).Pairwise (fun a b => a < b) ∧
    (∀ x ∈ presentT2M overflowSeries.data, binary64.rnd x = .fin x) ∧
    generateSmartFallbackWith binary64 overflowSeries none "What is the trend?"
      = .ok "📈 Trend Analysis:\nTemperature is stable over the data period (NaN°C change).\n\nRun AI analysis for more detailed insights!" := by
  refine ⟨by rw [overflowSeries_present]; rfl, ?_, ?_, ?_⟩
  · rw [overflowSeries_present]
    norm_num [List.pairwise_cons, hugeReading]
  · rw [overflowSeries_present]
    intro x hx
    simp only [List.mem_cons, List.mem_singleton, List.not_mem_nil, or_false] at hx
    rcases hx with h | h | h | h | h | h | h | h | h | h | h | h | h | h
    all_goals rw [h]
    exacts [hugeReading_stored.1,
      hugeReading_stored.2.1,
      hugeReading_stored.2.2.1,
      hugeReading_stored.2.2.2.1,
      hugeReading_stored.2.2.2.2.1,
      hugeReading_stored.2.2.2.2.2.1,
      hugeReading_stored.2.2.2.2.2.2.1,
      hugeReading_stored.2.2.2.2.2.2.2.1,
      hugeReading_stored.2.2.2.2.2.2.2.2.1,
      hugeReading_stored.2.2.2.2.2.2.2.2.2.1,
      hugeReading_stored.2.2.2.2.2.2.2.2.2.2.1,
      hugeReading_stored.2.2.2.2.2.2.2.2.2.2.2.1,
      hugeReading_stored.2.2.2.2.2.2.2.2.2.2.2.2.1,
      hugeReading_stored.2.2.2.2.2.2.2.2.2.2.2.2.2]
  · exact overflowSeries_chat binary64 hugeReading_stored.1
      (binary64_inf 1024 972 4503599627370496 (by norm_num [hugeReading]))
      hugeReading_stored.2.2.2.2.2.2.2.1
      (binary64_inf 1024 972 4503599627370504 (by norm_num [hugeReading]))

/-- C10 as amended: for a series whose present T2M values are 14 strictly
increasing numbers, and arithmetic whose rounding keeps the order of the exact
results (as double precision does), the trend reply of the chat fallback never
carries the label `decreasing`: the label is `increasing` exactly when the
computed mean of the last 7 is greater than the computed mean of the first 7,
and `stable` otherwise. Whenever the computed difference of the two means is
finite, the magnitude shown denotes a number within 0.05 of its absolute
value. When the two window means and their difference are computed without
rounding error, the label is `increasing` and the magnitude shown is within
0.05 of the exact difference mean(last 7) - mean(first 7). -/
theorem increasing_series_trend_computed (A : Rounding) (hA : A.Monotone) (wd : WeatherData)
    (insights : Option String) (question : String)
    (hO : isOutdoorQuestion (toLowerCase question) = false)
    (hT : isTemperatureQuestion (toLowerCase question) = false)
    (hP : isPrecipitationQuestion (toLowerCase question) = false ∨ precipDataOf wd.data = [])
    (hF : isForecastQuestion (toLowerCase question) = false)
    (hW : isWindQuestion (toLowerCase question) = false ∨ windDataOf wd.data = [])
    (hTr : isTrendQuestion (toLowerCase question) = true)
    (h14 : (presentT2M wd.data).length = 14)
    (hinc : (presentT2M wd.data).Pairwise (fun a b => a < b)) :
    generateSmartFallbackWith A wd insights question
      = .ok ("📈 Trend Analysis:\nTemperature is "
          ++ trendLabelOf (A.lastSeven (presentT2M wd.data)) (A.firstSeven (presentT2M wd.data))
          ++ " over the data period ("
          ++ ((A.sub (A.lastSeven (presentT2M wd.data))
                (A.firstSeven (presentT2M wd.data))).abs.toFixed 1).text
          ++ "°C change).\n\n" ++ insightsNote insights) ∧
    trendLabelOf (A.lastSeven (presentT2M wd.data)) (A.firstSeven (presentT2M wd.data))
      ≠ "decreasing" ∧
    (trendLabelOf (A.lastSeven (presentT2M wd.data)) (A.firstSeven (presentT2M wd.data))
        = "increasing"
      ↔ JSNum.lt (A.firstSeven (presentT2M wd.data)) (A.lastSeven (presentT2M wd.data))
          = true) ∧
    (trendLabelOf (A.lastSeven (presentT2M wd.data)) (A.firstSeven (presentT2M wd.data))
        = "stable"
      ↔ JSNum.lt (A.firstSeven (presentT2M wd.data)) (A.lastSeven (presentT2M wd.data))
          = false) ∧
    (∀ d : ℚ, A.sub (A.lastSeven (presentT2M wd.data)) (A.firstSeven (presentT2M wd.data))
        = .fin d →
      ∃ v : ℚ, ((A.sub (A.lastSeven (presentT2M wd.data))
          (A.firstSeven (presentT2M wd.data))).abs.toFixed 1).value = some v ∧
        |v - abs d| ≤ 1 / 20) ∧
    (A.lastSeven (presentT2M wd.data) = .fin (lastSevenMean (presentT2M wd.data)) →
      A.firstSeven (presentT2M wd.data) = .fin (firstSevenMean (presentT2M wd.data)) →
      A.sub (.fin (lastSevenMean (presentT2M wd.data)))
          (.fin (firstSevenMean (presentT2M wd.data)))
        = .fin (lastSevenMean (presentT2M wd.data) - firstSevenMean (presentT2M wd.data)) →
      trendLabelOf (A.lastSeven (presentT2M wd.data)) (A.firstSeven (presentT2M wd.data))
        = "increasing" ∧
      ∃ v : ℚ, ((A.sub (A.lastSeven (presentT2M wd.data))
          (A.firstSeven (presentT2M wd.data))).abs.toFixed 1).value = some v ∧
        |v - (lastSevenMean (presentT2M wd.data) - firstSevenMean (presentT2M wd.data))|
          ≤ 1 / 20) := by
  have hlen : 7 < (tempDataOf wd.data).length := by
    rw [tempDataOf_length, h14]; norm_num
  have hnd := windows_not_decreasing A hA _ h14 hinc
  obtain ⟨k1, k2, k3⟩ := trendLabelOf_iff (A.lastSeven (presentT2M wd.data))
    (A.firstSeven (presentT2M wd.data))
  refine ⟨?_, ?_, k1, ?_, ?_, ?_⟩
  · rw [generateSmartFallbackWith_trend A wd insights question hO hT hP hF hW hTr hlen,
      trendAnswerWith_eq]
  · intro hdec
    have := k2.mp hdec
    rw [hnd] at this
    exact absurd this (by decide)
  · constructor
    · intro h; exact (k3.mp h).1
    · intro h; exact k3.mpr ⟨h, hnd⟩
  · intro d hd
    refine ⟨roundValue 1 |d|, ?_, roundValue_one_error (abs_nonneg d)⟩
    rw [hd]
    exact toFixed_value 1 _
  · intro hR hE hD
    have hlt := increasing_windows _ h14 hinc
    have hpos : 0 ≤ lastSevenMean (presentT2M wd.data)
        - firstSevenMean (presentT2M wd.data) := by linarith
    refine ⟨?_, roundValue 1 |lastSevenMean (presentT2M wd.data)
        - firstSevenMean (presentT2M wd.data)|, ?_, ?_⟩
    · rw [hR, hE]
      simp only [trendLabelOf, JSNum.lt, hlt, decide_True, if_true]
    · rw [hR, hE, hD]
      exact toFixed_value 1 _
    · rw [abs_of_nonneg hpos]
      exact roundValue_one_error hpos

/-- C10 as amended, at the series 1, 2, ..., 14 in binary64 arithmetic: the
window means 11 and 4 and their difference 7 are computed exactly, the label
is `increasing` and the reply shows the magnitude 7.0. -/
theorem increasing_series_trend_computed_witness :
    binary64.Monotone ∧
    isTrendQuestion (toLowerCase "What is the trend?") = true ∧
    (presentT2M risingSeries.data).length = 14 ∧
    (presentT2M risingSeries.data).Pairwise (fun a b => a < b) ∧
    binary64.lastSeven (presentT2M risingSeries.data) = .fin 11 ∧
    binary64.firstSeven (presentT2M risingSeries.data) = .fin 4 ∧
    trendLabelOf (binary64.lastSeven (presentT2M risingSeries.data))
      (binary64.firstSeven (presentT2M risingSeries.data)) = "increasing" ∧
    generateSmartFallbackWith binary64 risingSeries none "What is the trend?"
      = .ok "📈 Trend Analysis:\nTemperature is increasing over the data period (7.0°C change).\n\nRun AI analysis for more detailed insights!" := by
  have hp : (presentT2M risingSeries.data).Pairwise (fun a b => a < b) := by
    rw [risingSeries_present]
    norm_num [List.pairwise_cons]
  have h := increasing_series_trend_computed binary64 binary64_monotone risingSeries none
    "What is the trend?" (by decide) (by decide) (Or.inl (by decide)) (by decide)
    (Or.inl (by decide)) (by decide) (by rw [risingSeries_present]; rfl) hp
  obtain ⟨cR, cE, _⟩ := risingSeries_computed binary64 binary64_exactOnDyadics
  have hR : binary64.lastSeven (presentT2M risingSeries.data) = .fin 11 := by
    rw [risingSeries_present]; exact cR
  have hE : binary64.firstSeven (presentT2M risingSeries.data) = .fin 4 := by
    rw [risingSeries_present]; exact cE
  refine ⟨binary64_monotone, by decide, by rw [risingSeries_present]; rfl, hp, hR, hE, ?_,
    risingSeries_chat binary64 binary64_exactOnDyadics⟩
  apply h.2.2.1.mpr
  rw [hR, hE]
  norm_num [JSNum.lt]

theorem coldSpell_present :
    presentT2M coldSpell.data
      = [-(7574491623283753 / 281474976710656),
        -(3785838436758323 / 140737488355328),
        -(3715469692580659 / 140737488355328),
        -(3645100948402995 / 140737488355328),
        -(3504363460047667 / 140737488355328),
        -(1751478042582057 / 70368744177664),
        -(1749366980256727 / 70368744177664),
        -(6991838421492695 / 281474976710656),
        -(3493104460979241 / 140737488355328),
        -(869757678035927 / 35184372088832),
        -(3477623337260155 / 140737488355328),
        -(1731774794212311 / 70368744177664),
        -(6898951679178179 / 281474976710656),
        -(49 / 2)] := rfl

/-- The decimal numbers -26.91, -26.9, ..., -24.5 are stored as the readings of `coldSpell`. -/
theorem coldSpell_parsed :
    binary64.rnd (-(2691 / 100)) = .fin (-(7574491623283753 / 281474976710656)) ∧
    binary64.rnd (-(269 / 10)) = .fin (-(3785838436758323 / 140737488355328)) ∧
    binary64.rnd (-(264 / 10)) = .fin (-(3715469692580659 / 140737488355328)) ∧
    binary64.rnd (-(259 / 10)) = .fin (-(3645100948402995 / 140737488355328)) ∧
    binary64.rnd (-(249 / 10)) = .fin (-(3504363460047667 / 140737488355328)) ∧
    binary64.rnd (-(2489 / 100)) = .fin (-(1751478042582057 / 70368744177664)) ∧
    binary64.rnd (-(2486 / 100)) = .fin (-(1749366980256727 / 70368744177664)) ∧
    binary64.rnd (-(2484 / 100)) = .fin (-(6991838421492695 / 281474976710656)) ∧
    binary64.rnd (-(2482 / 100)) = .fin (-(3493104460979241 / 140737488355328)) ∧
    binary64.rnd (-(2472 / 100)) = .fin (-(869757678035927 / 35184372088832)) ∧
    binary64.rnd (-(2471 / 100)) = .fin (-(3477623337260155 / 140737488355328)) ∧
    binary64.rnd (-(2461 / 100)) = .fin (-(1731774794212311 / 70368744177664)) ∧
    binary64.rnd (-(2451 / 100)) = .fin (-(6898951679178179 / 281474976710656)) ∧
    binary64.rnd (-(245 / 10)) = .fin (-(49 / 2)) :=
  ⟨binary64_fin 4 (-48) (-7574491623283753) (by norm_num),
   binary64_fin 4 (-48) (-7571676873516646) (by norm_num),
   binary64_fin 4 (-48) (-7430939385161318) (by norm_num),
   binary64_fin 4 (-48) (-7290201896805990) (by norm_num),
   binary64_fin 4 (-48) (-7008726920095334) (by norm_num),
   binary64_fin 4 (-48) (-7005912170328228) (by norm_num),
   binary64_fin 4 (-48) (-6997467921026908) (by norm_num),
   binary64_fin 4 (-48) (-6991838421492695) (by norm_num),
   binary64_fin 4 (-48) (-6986208921958482) (by norm_num),
   binary64_fin 4 (-48) (-6958061424287416) (by norm_num),
   binary64_fin 4 (-48) (-6955246674520310) (by norm_num),
   binary64_fin 4 (-48) (-6927099176849244) (by norm_num),
   binary64_fin 4 (-48) (-6898951679178179) (by norm_num),
   binary64_fin 4 (-48) (-6896136929411072) (by norm_num)⟩

theorem coldSpell_chat (A : Rounding)
    (h0 : A.rnd (-(6991838421492695 / 281474976710656)) = .fin (-(6991838421492695 / 281474976710656)))
    (h1 : A.rnd (-(13978047343451177 / 281474976710656)) = .fin (-(1747255917931397 / 35184372088832)))
    (h2 : A.rnd (-(654253398991831 / 8796093022208)) = .fin (-(654253398991831 / 8796093022208)))
    (h3 : A.rnd (-(13945677721129451 / 140737488355328)) = .fin (-(3486419430282363 / 35184372088832)))
    (h4 : A.rnd (-(8704613654777037 / 70368744177664)) = .fin (-(8704613654777037 / 70368744177664)))
    (h5 : A.rnd (-(41717406298286327 / 281474976710656)) = .fin (-(5214675787285791 / 35184372088832)))
    (h6 : A.rnd (-(6076692903462175 / 35184372088832)) = .fin (-(6076692903462175 / 35184372088832)))
    (h7 : A.rnd (-(6076692903462175 / 246290604621824)) = .fin (-(6944791889671057 / 281474976710656)))
    (h8 : A.rnd (-(7574491623283753 / 281474976710656)) = .fin (-(7574491623283753 / 281474976710656)))
    (h9 : A.rnd (-(15146168496800399 / 281474976710656)) = .fin (-(946635531050025 / 17592186044416)))
    (h10 : A.rnd (-(11288553940980859 / 140737488355328)) = .fin (-(2822138485245215 / 35184372088832)))
    (h11 : A.rnd (-(14933654889383855 / 140737488355328)) = .fin (-(933353430586491 / 8796093022208)))
    (h12 : A.rnd (-(18438018349431523 / 140737488355328)) = .fin (-(4609504587357881 / 35184372088832)))
    (h13 : A.rnd (-(10970487217297819 / 70368744177664)) = .fin (-(2742621804324455 / 17592186044416)))
    (h14 : A.rnd (-(12719854197554547 / 70368744177664)) = .fin (-(3179963549388637 / 17592186044416)))
    (h15 : A.rnd (-(3179963549388637 / 123145302310912)) = .fin (-(7268488112888313 / 281474976710656)))
    (h16 : A.rnd (40462027902157 / 35184372088832) = .fin (40462027902157 / 35184372088832)) :
    generateSmartFallbackWith A coldSpell none "What is the trend?"
      = .ok "📈 Trend Analysis:\nTemperature is increasing over the data period (1.2°C change).\n\nRun AI analysis for more detailed insights!" := by
  have hR : A.lastSeven [-(7574491623283753 / 281474976710656),
        -(3785838436758323 / 140737488355328),
        -(3715469692580659 / 140737488355328),
        -(3645100948402995 / 140737488355328),
        -(3504363460047667 / 140737488355328),
        -(1751478042582057 / 70368744177664),
        -(1749366980256727 / 70368744177664),
        -(6991838421492695 / 281474976710656),
        -(3493104460979241 / 140737488355328),
        -(869757678035927 / 35184372088832),
        -(3477623337260155 / 140737488355328),
        -(1731774794212311 / 70368744177664),
        -(6898951679178179 / 281474976710656),
        -(49 / 2)]
      = .fin (-(6944791889671057 / 281474976710656)) := by
    norm_num [Rounding.lastSeven, Rounding.sum, Rounding.add, Rounding.divNat, h0, h1, h2, h3, h4, h5, h6, h7, h8, h9, h10, h11, h12, h13, h14, h15, h16]
  have hE : A.firstSeven [-(7574491623283753 / 281474976710656),
        -(3785838436758323 / 140737488355328),
        -(3715469692580659 / 140737488355328),
        -(3645100948402995 / 140737488355328),
        -(3504363460047667 / 140737488355328),
        -(1751478042582057 / 70368744177664),
        -(1749366980256727 / 70368744177664),
        -(6991838421492695 / 281474976710656),
        -(3493104460979241 / 140737488355328),
        -(869757678035927 / 35184372088832),
        -(3477623337260155 / 140737488355328),
        -(1731774794212311 / 70368744177664),
        -(6898951679178179 / 281474976710656),
        -(49 / 2)]
      = .fin (-(7268488112888313 / 281474976710656)) := by
    norm_num [Rounding.firstSeven, Rounding.sum, Rounding.add, Rounding.divNat, h0, h1, h2, h3, h4, h5, h6, h7, h8, h9, h10, h11, h12, h13, h14, h15, h16]
  have hD : A.sub (.fin (-(6944791889671057 / 281474976710656))) (.fin (-(7268488112888313 / 281474976710656)))
      = .fin (40462027902157 / 35184372088832) := by
    norm_num [Rounding.sub, Rounding.add, JSNum.neg, h0, h1, h2, h3, h4, h5, h6, h7, h8, h9, h10, h11, h12, h13, h14, h15, h16]
  rw [generateSmartFallbackWith_trend A coldSpell none "What is the trend?" (by decide)
    (by decide) (Or.inl (by decide)) (by decide) (Or.inl (by decide)) (by decide) (by decide),
    trendAnswerWith_eq, coldSpell_present, hR, hE, hD]
  have hl : trendLabelOf (.fin (-(6944791889671057 / 281474976710656))) (.fin (-(7268488112888313 / 281474976710656)))
      = "increasing" := by
    norm_num [trendLabelOf, JSNum.lt]
  have ha : (JSNum.fin (40462027902157 / 35184372088832)).abs = .fin (40462027902157 / 35184372088832) := by
    simp only [JSNum.abs]
    rw [abs_of_pos (by norm_num)]
  have hf : ((JSNum.fin (40462027902157 / 35184372088832)).toFixed 1).text = "1.2" := by
    rw [toFixed_fin_nonneg (f := 1) (x := 40462027902157 / 35184372088832) (n := 12) (by norm_num) (by norm_num)
      (by norm_num)]
    decide
  rw [hl, ha, hf]
  exact congrArg Except.ok (by decide)

/-- The magnitude clause of C10 fails at everyday magnitudes: for these 14
strictly increasing temperatures the label is `increasing`, but the rounded
window means differ by 1.1500000000000057, so the reply shows the magnitude
1.2, which is more than 0.05 away from the exact difference of the window
means, 1.149999999999999. -/
theorem increasing_series_magnitude_off :
    (presentT2M coldSpell.data).length = 14 ∧
    (presentT2M coldSpell.data).Pairwise (fun a b => a < b) ∧
    generateSmartFallbackWith binary64 coldSpell none "What is the trend?"
      = .ok "📈 Trend Analysis:\nTemperature is increasing over the data period (1.2°C change).\n\nRun AI analysis for more detailed insights!" ∧
    1 / 20 < |(12 / 10 : ℚ) - (lastSevenMean (presentT2M coldSpell.data)
      - firstSevenMean (presentT2M coldSpell.data))| := by
  refine ⟨by rw [coldSpell_present]; rfl, ?_, ?_, ?_⟩
  · rw [coldSpell_present]
    norm_num [List.pairwise_cons]
  · exact coldSpell_chat binary64
      (binary64_fin 4 (-48) (-6991838421492695) (by norm_num))
      (binary64_fin 5 (-47) (-6989023671725588) (by norm_num))
      (binary64_fin 6 (-46) (-5234027191934648) (by norm_num))
      (binary64_fin 6 (-46) (-6972838860564726) (by norm_num))
      (binary64_fin 6 (-46) (-8704613654777037) (by norm_num))
      (binary64_fin 7 (-45) (-5214675787285791) (by norm_num))
      (binary64_fin 7 (-45) (-6076692903462175) (by norm_num))
      (binary64_fin 4 (-48) (-6944791889671057) (by norm_num))
      (binary64_fin 4 (-48) (-7574491623283753) (by norm_num))
      (binary64_fin 5 (-47) (-7573084248400200) (by norm_num))
      (binary64_fin 6 (-46) (-5644276970490430) (by norm_num))
      (binary64_fin 6 (-46) (-7466827444691928) (by norm_num))
      (binary64_fin 7 (-45) (-4609504587357881) (by norm_num))
      (binary64_fin 7 (-45) (-5485243608648910) (by norm_num))
      (binary64_fin 7 (-45) (-6359927098777274) (by norm_num))
      (binary64_fin 4 (-48) (-7268488112888313) (by norm_num))
      (binary64_fin 0 (-52) 5179139571476096 (by norm_num))
  · rw [coldSpell_present]
    norm_num [lastSevenMean, firstSevenMean, abs_of_pos]

/-! ## Trend: chat fallback against local summary, in double-precision arithmetic -/

theorem precipitationSectionWith_absent (A : Rounding) (wd : WeatherData)
    (hn : presentPrecip wd.data = []) : precipitationSectionWith A wd = "" := by
  have hlen : (validReadings (wd.data.map (fun d => d.PRECTOTCORR))).length = 0 := by
    rw [validReadings_length]; exact List.length_eq_zero.mpr hn
  simp only [precipitationSectionWith, hlen, gt_iff_lt, lt_self_iff_false, if_false, ite_self]

theorem windSectionWith_absent (A : Rounding) (wd : WeatherData)
    (hn : presentWind wd.data = []) : windSectionWith A wd = "" := by
  have hlen : (validReadings (wd.data.map (fun d => d.WS2M))).length = 0 := by
    rw [validReadings_length]; exact List.length_eq_zero.mpr hn
  simp only [windSectionWith, hlen, gt_iff_lt, lt_self_iff_false, if_false, ite_self]

theorem stepSeries_computed (A : Rounding) (hA : A.ExactOnDyadics) :
    A.lastSeven [10, 10, 10, 10, 10, 10, 10, 17] = .fin 11 ∧
    A.firstSeven [10, 10, 10, 10, 10, 10, 10, 17] = .fin 10 ∧
    A.sub (.fin 11) (.fin 10) = .fin 1 ∧
    A.add (.fin 10) (.fin 1) = .fin 11 ∧
    A.sub (.fin 10) (.fin 1) = .fin 9 ∧
    A.average [10, 10, 10, 10, 10, 10, 10, 17] = .fin (87 / 8) := by
  have e1 : A.rnd 1 = .fin 1 := by simpa using exact_on_nat hA 1 (by norm_num)
  have e9 : A.rnd 9 = .fin 9 := by simpa using exact_on_nat hA 9 (by norm_num)
  have e10 : A.rnd 10 = .fin 10 := by simpa using exact_on_nat hA 10 (by norm_num)
  have e11 : A.rnd 11 = .fin 11 := by simpa using exact_on_nat hA 11 (by norm_num)
  have e20 : A.rnd 20 = .fin 20 := by simpa using exact_on_nat hA 20 (by norm_num)
  have e30 : A.rnd 30 = .fin 30 := by simpa using exact_on_nat hA 30 (by norm_num)
  have e40 : A.rnd 40 = .fin 40 := by simpa using exact_on_nat hA 40 (by norm_num)
  have e50 : A.rnd 50 = .fin 50 := by simpa using exact_on_nat hA 50 (by norm_num)
  have e60 : A.rnd 60 = .fin 60 := by simpa using exact_on_nat hA 60 (by norm_num)
  have e70 : A.rnd 70 = .fin 70 := by simpa using exact_on_nat hA 70 (by norm_num)
  have e77 : A.rnd 77 = .fin 77 := by simpa using exact_on_nat hA 77 (by norm_num)
  have e87 : A.rnd 87 = .fin 87 := by simpa using exact_on_nat hA 87 (by norm_num)
  have e87_8 : A.rnd (87 / 8) = .fin (87 / 8) := by
    have h := hA 87 3 (by norm_num) (by norm_num)
    norm_num at h
    exact h
  refine ⟨?_, ?_, ?_, ?_, ?_, ?_⟩
  · norm_num [Rounding.lastSeven, Rounding.sum, Rounding.add, Rounding.divNat, e1, e9, e10, e11, e20, e30, e40, e50, e60, e70, e77, e87]
  · norm_num [Rounding.firstSeven, Rounding.sum, Rounding.add, Rounding.divNat, e1, e9, e10, e11, e20, e30, e40, e50, e60, e70, e77, e87]
  · norm_num [Rounding.sub, Rounding.add, JSNum.neg, e1, e9, e10, e11, e20, e30, e40, e50, e60, e70, e77, e87]
  · norm_num [Rounding.add, e1, e9, e10, e11, e20, e30, e40, e50, e60, e70, e77, e87]
  · norm_num [Rounding.sub, Rounding.add, JSNum.neg, e1, e9, e10, e11, e20, e30, e40, e50, e60, e70, e77, e87]
  · norm_num [Rounding.average, Rounding.sum, Rounding.add, Rounding.divNat, e1, e9, e10, e11, e20, e30, e40, e50, e60, e70, e77, e87, e87_8]

theorem stepSeries_chat_computed (A : Rounding) (hA : A.ExactOnDyadics) :
    generateSmartFallbackWith A stepSeries none "What is the trend?"
      = .ok "📈 Trend Analysis:\nTemperature is increasing over the data period (1.0°C change).\n\nRun AI analysis for more detailed insights!" := by
  obtain ⟨hR, hE, hD, _, _, _⟩ := stepSeries_computed A hA
  rw [generateSmartFallbackWith_trend A stepSeries none "What is the trend?" (by decide)
    (by decide) (Or.inl (by decide)) (by decide) (Or.inl (by decide)) (by decide) (by decide),
    trendAnswerWith_eq, stepSeries_present, hR, hE, hD]
  have hl : trendLabelOf (.fin 11) (.fin 10) = "increasing" := by
    norm_num [trendLabelOf, JSNum.lt]
  have ha : (JSNum.fin 1).abs = .fin 1 := by
    simp only [JSNum.abs]
    rw [abs_of_pos (by norm_num)]
  rw [hl, ha, toFixed_text_1]
  exact congrArg Except.ok (by decide)

theorem stepSeries_summary_computed (A : Rounding) (hA : A.ExactOnDyadics) :
    generateLocalSummaryWith A (.loaded stepSeries)
      = "This weather analysis covers the period from 01/01/2025 to 01/01/2025 for the location at 28.6¬∞N, 77.2¬∞E.\n\nThe temperature during this period has been quite cool, averaging 10.9¬∞C. The warmest day reached 17.0¬∞C, while the coolest dropped to 10.0¬∞C. Temperature patterns have remained relatively stable. \n\nOverall, this location has experienced cooler weather conditions." := by
  obtain ⟨hR, hE, _, hup, hdown, havg⟩ := stepSeries_computed A hA
  rw [generateLocalSummaryWith_loaded A stepSeries (dayWith (.num 10) .null .null)
    (dayWith (.num 17) .null .null) rfl rfl]
  have hp : precipitationSectionWith A stepSeries = "" :=
    precipitationSectionWith_absent A stepSeries rfl
  have hw : windSectionWith A stepSeries = "" := windSectionWith_absent A stepSeries rfl
  have hh : summaryHeader (dayWith (.num 10) .null .null) (dayWith (.num 17) .null .null)
      stepSeries.location
      = "This weather analysis covers the period from 01/01/2025 to 01/01/2025 for the location at 28.6¬∞N, 77.2¬∞E.\n\n" := by
    decide
  have htrend : summaryTrendWith A stepSeries.data
      = "Temperature patterns have remained relatively stable. " := by
    rw [summaryTrendWith_long A _ (by rw [stepSeries_present]; decide), stepSeries_present, hR,
      hE]
    simp only [summaryTrendOf, hup, hdown]
    norm_num [JSNum.lt]
  have hts : temperatureSectionWith A stepSeries
      = "The temperature during this period has been quite cool, averaging 10.9¬∞C. The warmest day reached 17.0¬∞C, while the coolest dropped to 10.0¬∞C. Temperature patterns have remained relatively stable. \n\n" := by
    rw [temperatureSectionWith_present A stepSeries (by decide)
      (by rw [stepSeries_present]; simp), htrend, stepSeries_present, havg]
    have hmin : mathMin [10, 10, 10, 10, 10, 10, 10, 17] = .fin 10 := by
      norm_num [mathMin, minStep]
    have hmax : mathMax [10, 10, 10, 10, 10, 10, 10, 17] = .fin 17 := by
      norm_num [mathMax, maxStep]
    have hword : summaryTemperatureWord (.fin (87 / 8)) = "cool" := by
      norm_num [summaryTemperatureWord, JSNum.lt]
    have hf : temperatureForecastWith A stepSeries.forecasts = "\n\n" := rfl
    rw [hmin, hmax, hword, hf, toFixed_text_10_875, toFixed_text_17, toFixed_text_10]
    decide
  have ho : overallSentenceOf (overallTempAvgWith A stepSeries) (overallRainTotalWith A stepSeries)
      = "cooler weather conditions." := by
    have hq : presentPrecip stepSeries.data = [] := rfl
    rw [overallTempAvgWith_eq, overallRainTotalWith_eq, if_pos (by decide), if_pos (by decide),
      stepSeries_present, hq, havg]
    norm_num [overallSentenceOf, tempAvgAnd, JSNum.truthy, JSNum.lt, Rounding.sum]
  rw [summaryTextWith, hh, hts, hp, hw, ho]
  decide

/-- C13, the claim as stated fails: on eight days whose computed last-7 mean
(11) is one degree above the computed first-7 mean (10) the chat fallback says
`increasing` and the summary says the patterns have remained relatively
stable; all sums and quotients of this series are exact in binary64. -/
theorem chat_increasing_where_summary_stable :
    generateSmartFallbackWith binary64 stepSeries none "What is the trend?"
      = .ok "📈 Trend Analysis:\nTemperature is increasing over the data period (1.0°C change).\n\nRun AI analysis for more detailed insights!" ∧
    generateLocalSummaryWith binary64 (.loaded stepSeries)
      = "This weather analysis covers the period from 01/01/2025 to 01/01/2025 for the location at 28.6¬∞N, 77.2¬∞E.\n\nThe temperature during this period has been quite cool, averaging 10.9¬∞C. The warmest day reached 17.0¬∞C, while the coolest dropped to 10.0¬∞C. Temperature patterns have remained relatively stable. \n\nOverall, this location has experienced cooler weather conditions." :=
  ⟨stepSeries_chat_computed binary64 binary64_exactOnDyadics,
   stepSeries_summary_computed binary64 binary64_exactOnDyadics⟩

/-- C13 as amended: on a series with more than 7 present T2M values, for
which both the chat fallback (on a trend question that reaches the trend
branch) and the summary (with T2M requested) report a trend, both compare the
same two window means as double-precision arithmetic computes them, with
different thresholds. The chat says `increasing` exactly when the computed
mean of the last 7 is greater than that of the first 7 and `decreasing`
exactly when it is smaller; the summary says trending upward exactly when the
computed mean of the last 7 is greater than the computed mean of the first 7
plus 1, cooling down exactly when that fails and it is smaller than the
computed mean of the first 7 minus 1, and stable otherwise. -/
theorem trend_chat_versus_summary_computed (A : Rounding) (wd : WeatherData)
    (insights : Option String) (question : String)
    (hO : isOutdoorQuestion (toLowerCase question) = false)
    (hT : isTemperatureQuestion (toLowerCase question) = false)
    (hP : isPrecipitationQuestion (toLowerCase question) = false ∨ precipDataOf wd.data = [])
    (hF : isForecastQuestion (toLowerCase question) = false)
    (hW : isWindQuestion (toLowerCase question) = false ∨ windDataOf wd.data = [])
    (hTr : isTrendQuestion (toLowerCase question) = true)
    (hTp : "T2M" ∈ wd.parameters)
    (hlen : 7 < (presentT2M wd.data).length) :
    generateSmartFallbackWith A wd insights question
      = .ok ("📈 Trend Analysis:\nTemperature is "
          ++ trendLabelOf (A.lastSeven (presentT2M wd.data)) (A.firstSeven (presentT2M wd.data))
          ++ " over the data period ("
          ++ ((A.sub (A.lastSeven (presentT2M wd.data))
                (A.firstSeven (presentT2M wd.data))).abs.toFixed 1).text
          ++ "°C change).\n\n" ++ insightsNote insights) ∧
    temperatureSectionWith A wd
      = "The temperature during this period has been quite "
          ++ summaryTemperatureWord (A.average (presentT2M wd.data))
          ++ ", averaging " ++ ((A.average (presentT2M wd.data)).toFixed 1).text
          ++ "¬∞C. " ++ "The warmest day reached "
          ++ ((mathMax (presentT2M wd.data)).toFixed 1).text
          ++ "¬∞C, while the coolest dropped to "
          ++ ((mathMin (presentT2M wd.data)).toFixed 1).text ++ "¬∞C. "
          ++ summaryTrendWith A wd.data ++ temperatureForecastWith A wd.forecasts ∧
    (trendLabelOf (A.lastSeven (presentT2M wd.data)) (A.firstSeven (presentT2M wd.data))
        = "increasing"
      ↔ JSNum.lt (A.firstSeven (presentT2M wd.data)) (A.lastSeven (presentT2M wd.data))
          = true) ∧
    (trendLabelOf (A.lastSeven (presentT2M wd.data)) (A.firstSeven (presentT2M wd.data))
        = "decreasing"
      ↔ JSNum.lt (A.lastSeven (presentT2M wd.data)) (A.firstSeven (presentT2M wd.data))
          = true) ∧
    (summaryTrendWith A wd.data = "Recently, temperatures have been trending upward. "
      ↔ JSNum.lt (A.add (A.firstSeven (presentT2M wd.data)) (.fin 1))
          (A.lastSeven (presentT2M wd.data)) = true) ∧
    (summaryTrendWith A wd.data = "Recently, temperatures have been cooling down. "
      ↔ JSNum.lt (A.add (A.firstSeven (presentT2M wd.data)) (.fin 1))
            (A.lastSeven (presentT2M wd.data)) = false ∧
          JSNum.lt (A.lastSeven (presentT2M wd.data))
            (A.sub (A.firstSeven (presentT2M wd.data)) (.fin 1)) = true) ∧
    (summaryTrendWith A wd.data = "Temperature patterns have remained relatively stable. "
      ↔ JSNum.lt (A.add (A.firstSeven (presentT2M wd.data)) (.fin 1))
            (A.lastSeven (presentT2M wd.data)) = false ∧
          JSNum.lt (A.lastSeven (presentT2M wd.data))
            (A.sub (A.firstSeven (presentT2M wd.data)) (.fin 1)) = false) := by
  have hne : presentT2M wd.data ≠ [] := by
    intro h0; rw [h0] at hlen; simp at hlen
  have hlen2 : 7 < (tempDataOf wd.data).length := by rw [tempDataOf_length]; exact hlen
  obtain ⟨k1, k2, _⟩ := trendLabelOf_iff (A.lastSeven (presentT2M wd.data))
    (A.firstSeven (presentT2M wd.data))
  obtain ⟨s1, s2, s3⟩ := summaryTrendOf_iff A (A.lastSeven (presentT2M wd.data))
    (A.firstSeven (presentT2M wd.data))
  rw [← summaryTrendWith_long A wd.data hlen] at s1 s2 s3
  refine ⟨?_, temperatureSectionWith_present A wd hTp hne, k1, k2, s1, s2, s3⟩
  rw [generateSmartFallbackWith_trend A wd insights question hO hT hP hF hW hTr hlen2,
    trendAnswerWith_eq]

/-- C13 as amended, at the eight-day series in binary64 arithmetic: the
computed window means are 11 and 10, the chat label is `increasing` and the
summary states the stable sentence. -/
theorem trend_chat_versus_summary_computed_witness :
    isTrendQuestion (toLowerCase "What is the trend?") = true ∧
    "T2M" ∈ stepSeries.parameters ∧ 7 < (presentT2M stepSeries.data).length ∧
    binary64.lastSeven (presentT2M stepSeries.data) = .fin 11 ∧
    binary64.firstSeven (presentT2M stepSeries.data) = .fin 10 ∧
    trendLabelOf (binary64.lastSeven (presentT2M stepSeries.data))
      (binary64.firstSeven (presentT2M stepSeries.data)) = "increasing" ∧
    summaryTrendWith binary64 stepSeries.data
      = "Temperature patterns have remained relatively stable. " := by
  have hlen : 7 < (presentT2M stepSeries.data).length := by
    rw [stepSeries_present]; decide
  have h := trend_chat_versus_summary_computed binary64 stepSeries none "What is the trend?"
    (by decide) (by decide) (Or.inl (by decide)) (by decide) (Or.inl (by decide)) (by decide)
    (by decide) hlen
  obtain ⟨cR, cE, _, cup, cdown, _⟩ := stepSeries_computed binary64 binary64_exactOnDyadics
  have hR : binary64.lastSeven (presentT2M stepSeries.data) = .fin 11 := by
    rw [stepSeries_present]; exact cR
  have hE : binary64.firstSeven (presentT2M stepSeries.data) = .fin 10 := by
    rw [stepSeries_present]; exact cE
  refine ⟨by decide, by decide, hlen, hR, hE, ?_, ?_⟩
  · apply h.2.2.1.mpr
    rw [hR, hE]
    norm_num [JSNum.lt]
  · apply h.2.2.2.2.2.2.mpr
    rw [hR, hE, cup, cdown]
    norm_num [JSNum.lt]

theorem marginSeries_present :
    presentT2M marginSeries.data
      = [83 / 4,
        3497326585629901 / 140737488355328,
        1311673391471657 / 70368744177664,
        4517673376206029 / 140737488355328,
        4368491638549381 / 281474976710656,
        942237484538921 / 35184372088832,
        6116451243922555 / 281474976710656,
        111 / 4] := rfl

/-- The decimal numbers 20.75, 24.85, 18.64, 32.1, 15.52, 26.78, 21.73 and 27.75 are stored as the readings of `marginSeries`. -/
theorem marginSeries_parsed :
    binary64.rnd (2075 / 100) = .fin (83 / 4) ∧
    binary64.rnd (2485 / 100) = .fin (3497326585629901 / 140737488355328) ∧
    binary64.rnd (1864 / 100) = .fin (1311673391471657 / 70368744177664) ∧
    binary64.rnd (321 / 10) = .fin (4517673376206029 / 140737488355328) ∧
    binary64.rnd (1552 / 100) = .fin (4368491638549381 / 281474976710656) ∧
    binary64.rnd (2678 / 100) = .fin (942237484538921 / 35184372088832) ∧
    binary64.rnd (2173 / 100) = .fin (6116451243922555 / 281474976710656) ∧
    binary64.rnd (2775 / 100) = .fin (111 / 4) :=
  ⟨binary64_fin 4 (-48) 5840605766746112 (by norm_num),
   binary64_fin 4 (-48) 6994653171259802 (by norm_num),
   binary64_fin 4 (-48) 5246693565886628 (by norm_num),
   binary64_fin 5 (-47) 4517673376206029 (by norm_num),
   binary64_fin 3 (-49) 8736983277098762 (by norm_num),
   binary64_fin 4 (-48) 7537899876311368 (by norm_num),
   binary64_fin 4 (-48) 6116451243922555 (by norm_num),
   binary64_fin 4 (-48) 7810930603720704 (by norm_num)⟩

theorem marginSeries_summary (A : Rounding)
    (h0 : A.rnd (3497326585629901 / 140737488355328) = .fin (3497326585629901 / 140737488355328))
    (h1 : A.rnd (6120673368573215 / 140737488355328) = .fin (6120673368573215 / 140737488355328))
    (h2 : A.rnd (2659586686194811 / 35184372088832) = .fin (2659586686194811 / 35184372088832))
    (h3 : A.rnd (25645185128107869 / 281474976710656) = .fin (6411296282026967 / 70368744177664))
    (h4 : A.rnd (8295771251104809 / 70368744177664) = .fin (8295771251104809 / 70368744177664))
    (h5 : A.rnd (39299536248341791 / 281474976710656) = .fin (1228110507760681 / 8796093022208))
    (h6 : A.rnd (1472202089126953 / 8796093022208) = .fin (1472202089126953 / 8796093022208))
    (h7 : A.rnd (1472202089126953 / 61572651155456) = .fin (6730066693151785 / 281474976710656))
    (h8 : A.rnd (83 / 4) = .fin (83 / 4))
    (h9 : A.rnd (6417629469002957 / 140737488355328) = .fin (6417629469002957 / 140737488355328))
    (h10 : A.rnd (9040976251946271 / 140737488355328) = .fin (282530507873321 / 4398046511104))
    (h11 : A.rnd (13558649628152301 / 140737488355328) = .fin (3389662407038075 / 35184372088832))
    (h12 : A.rnd (31485790894853981 / 281474976710656) = .fin (7871447723713495 / 70368744177664))
    (h13 : A.rnd (9755922692791337 / 70368744177664) = .fin (1219490336598917 / 8796093022208))
    (h14 : A.rnd (45140142015087899 / 281474976710656) = .fin (5642517751885987 / 35184372088832))
    (h15 : A.rnd (806073964555141 / 35184372088832) = .fin (806073964555141 / 35184372088832))
    (h16 : A.rnd (841258336643973 / 35184372088832) = .fin (841258336643973 / 35184372088832))
    (h17 : A.rnd (6618884077351075 / 35184372088832) = .fin (6618884077351075 / 35184372088832))
    (h18 : A.rnd (6618884077351075 / 281474976710656) = .fin (6618884077351075 / 281474976710656)) :
    generateLocalSummaryWith A (.loaded marginSeries)
      = "This weather analysis covers the period from 01/01/2025 to 01/01/2025 for the location at 28.6¬∞N, 77.2¬∞E.\n\nThe temperature during this period has been quite moderate, averaging 23.5¬∞C. The warmest day reached 32.1¬∞C, while the coolest dropped to 15.5¬∞C. Recently, temperatures have been trending upward. \n\nOverall, this location has experienced typical seasonal weather patterns for this geographic region." := by
  have hR : A.lastSeven [83 / 4,
        3497326585629901 / 140737488355328,
        1311673391471657 / 70368744177664,
        4517673376206029 / 140737488355328,
        4368491638549381 / 281474976710656,
        942237484538921 / 35184372088832,
        6116451243922555 / 281474976710656,
        111 / 4]
      = .fin (6730066693151785 / 281474976710656) := by
    norm_num [Rounding.lastSeven, Rounding.sum, Rounding.add, Rounding.divNat, h0, h1, h2, h3, h4, h5, h6, h7, h8, h9, h10, h11, h12, h13, h14, h15, h16, h17, h18]
  have hE : A.firstSeven [83 / 4,
        3497326585629901 / 140737488355328,
        1311673391471657 / 70368744177664,
        4517673376206029 / 140737488355328,
        4368491638549381 / 281474976710656,
        942237484538921 / 35184372088832,
        6116451243922555 / 281474976710656,
        111 / 4]
      = .fin (806073964555141 / 35184372088832) := by
    norm_num [Rounding.firstSeven, Rounding.sum, Rounding.add, Rounding.divNat, h0, h1, h2, h3, h4, h5, h6, h7, h8, h9, h10, h11, h12, h13, h14, h15, h16, h17, h18]
  have hup : A.add (.fin (806073964555141 / 35184372088832)) (.fin 1) = .fin (841258336643973 / 35184372088832) := by
    norm_num [Rounding.add, h0, h1, h2, h3, h4, h5, h6, h7, h8, h9, h10, h11, h12, h13, h14, h15, h16, h17, h18]
  have havg : A.average [83 / 4,
        3497326585629901 / 140737488355328,
        1311673391471657 / 70368744177664,
        4517673376206029 / 140737488355328,
        4368491638549381 / 281474976710656,
        942237484538921 / 35184372088832,
        6116451243922555 / 281474976710656,
        111 / 4]
      = .fin (6618884077351075 / 281474976710656) := by
    norm_num [Rounding.average, Rounding.sum, Rounding.add, Rounding.divNat, h0, h1, h2, h3, h4, h5, h6, h7, h8, h9, h10, h11, h12, h13, h14, h15, h16, h17, h18]
  rw [generateLocalSummaryWith_loaded A marginSeries (dayWith (.num (83 / 4)) .null .null)
    (dayWith (.num (111 / 4)) .null .null) rfl rfl]
  have hp : precipitationSectionWith A marginSeries = "" :=
    precipitationSectionWith_absent A marginSeries rfl
  have hw : windSectionWith A marginSeries = "" := windSectionWith_absent A marginSeries rfl
  have hh : summaryHeader (dayWith (.num (83 / 4)) .null .null)
      (dayWith (.num (111 / 4)) .null .null) marginSeries.location
      = "This weather analysis covers the period from 01/01/2025 to 01/01/2025 for the location at 28.6¬∞N, 77.2¬∞E.\n\n" := by
    decide
  have htrend : summaryTrendWith A marginSeries.data
      = "Recently, temperatures have been trending upward. " := by
    rw [summaryTrendWith_long A _ (by rw [marginSeries_present]; decide), marginSeries_present,
      hR, hE]
    simp only [summaryTrendOf, hup]
    norm_num [JSNum.lt]
  have hts : temperatureSectionWith A marginSeries
      = "The temperature during this period has been quite moderate, averaging 23.5¬∞C. The warmest day reached 32.1¬∞C, while the coolest dropped to 15.5¬∞C. Recently, temperatures have been trending upward. \n\n" := by
    rw [temperatureSectionWith_present A marginSeries (by decide)
      (by rw [marginSeries_present]; simp), htrend, marginSeries_present, havg]
    have hmin : mathMin [83 / 4,
        3497326585629901 / 140737488355328,
        1311673391471657 / 70368744177664,
        4517673376206029 / 140737488355328,
        4368491638549381 / 281474976710656,
        942237484538921 / 35184372088832,
        6116451243922555 / 281474976710656,
        111 / 4]
        = .fin (4368491638549381 / 281474976710656) := by
      norm_num [mathMin, minStep]
    have hmax : mathMax [83 / 4,
        3497326585629901 / 140737488355328,
        1311673391471657 / 70368744177664,
        4517673376206029 / 140737488355328,
        4368491638549381 / 281474976710656,
        942237484538921 / 35184372088832,
        6116451243922555 / 281474976710656,
        111 / 4]
        = .fin (4517673376206029 / 140737488355328) := by
      norm_num [mathMax, maxStep]
    have hword : summaryTemperatureWord (.fin (6618884077351075 / 281474976710656)) = "moderate" := by
      norm_num [summaryTemperatureWord, JSNum.lt]
    have hf : temperatureForecastWith A marginSeries.forecasts = "\n\n" := rfl
    have t1 : ((JSNum.fin (6618884077351075 / 281474976710656)).toFixed 1).text = "23.5" := by
      rw [toFixed_fin_nonneg (f := 1) (x := 6618884077351075 / 281474976710656) (n := 235) (by norm_num) (by norm_num)
        (by norm_num)]
      decide
    have t2 : ((JSNum.fin (4517673376206029 / 140737488355328)).toFixed 1).text = "32.1" := by
      rw [toFixed_fin_nonneg (f := 1) (x := 4517673376206029 / 140737488355328) (n := 321) (by norm_num) (by norm_num)
        (by norm_num)]
      decide
    have t3 : ((JSNum.fin (4368491638549381 / 281474976710656)).toFixed 1).text = "15.5" := by
      rw [toFixed_fin_nonneg (f := 1) (x := 4368491638549381 / 281474976710656) (n := 155) (by norm_num) (by norm_num)
        (by norm_num)]
      decide
    rw [hmin, hmax, hword, hf, t1, t2, t3]
    decide
  have ho : overallSentenceOf (overallTempAvgWith A marginSeries) (overallRainTotalWith A marginSeries)
      = "typical seasonal weather patterns for this geographic region." := by
    have hq : presentPrecip marginSeries.data = [] := rfl
    rw [overallTempAvgWith_eq, overallRainTotalWith_eq, if_pos (by decide), if_pos (by decide),
      marginSeries_present, hq, havg]
    norm_num [overallSentenceOf, tempAvgAnd, JSNum.truthy, JSNum.lt, Rounding.sum]
  rw [summaryTextWith, hh, hts, hp, hw, ho]
  decide

/-- A margin of exactly one degree reported as a trend: the mean of the last
seven of these temperatures is exactly 1 above the mean of the first seven, so
the margin of the summary is not exceeded, but in binary64 the first-7 mean
plus 1 is stored as 23.909999999999997 and the last-7 mean as 23.91, and the
summary states an upward trend. -/
theorem margin_of_one_reported_upward :
    lastSevenMean (presentT2M marginSeries.data)
      = firstSevenMean (presentT2M marginSeries.data) + 1 ∧
    generateLocalSummaryWith binary64 (.loaded marginSeries)
      = "This weather analysis covers the period from 01/01/2025 to 01/01/2025 for the location at 28.6¬∞N, 77.2¬∞E.\n\nThe temperature during this period has been quite moderate, averaging 23.5¬∞C. The warmest day reached 32.1¬∞C, while the coolest dropped to 15.5¬∞C. Recently, temperatures have been trending upward. \n\nOverall, this location has experienced typical seasonal weather patterns for this geographic region." := by
  refine ⟨?_, ?_⟩
  · rw [marginSeries_present]
    norm_num [lastSevenMean, firstSevenMean]
  · exact marginSeries_summary binary64
      (binary64_fin 4 (-48) 6994653171259802 (by norm_num))
      (binary64_fin 5 (-47) 6120673368573215 (by norm_num))
      (binary64_fin 6 (-46) 5319173372389622 (by norm_num))
      (binary64_fin 6 (-46) 6411296282026967 (by norm_num))
      (binary64_fin 6 (-46) 8295771251104809 (by norm_num))
      (binary64_fin 7 (-45) 4912442031042724 (by norm_num))
      (binary64_fin 7 (-45) 5888808356507812 (by norm_num))
      (binary64_fin 4 (-48) 6730066693151785 (by norm_num))
      (binary64_fin 4 (-48) 5840605766746112 (by norm_num))
      (binary64_fin 5 (-47) 6417629469002957 (by norm_num))
      (binary64_fin 6 (-46) 4520488125973136 (by norm_num))
      (binary64_fin 6 (-46) 6779324814076150 (by norm_num))
      (binary64_fin 6 (-46) 7871447723713495 (by norm_num))
      (binary64_fin 7 (-45) 4877961346395668 (by norm_num))
      (binary64_fin 7 (-45) 5642517751885987 (by norm_num))
      (binary64_fin 4 (-48) 6448591716441128 (by norm_num))
      (binary64_fin 4 (-48) 6730066693151784 (by norm_num))
      (binary64_fin 7 (-45) 6618884077351075 (by norm_num))
      (binary64_fin 4 (-48) 6618884077351075 (by norm_num))

/-! ## Temperature band: chat fallback against local summary, in double-precision arithmetic -/

theorem chatTemperatureWord_fin (a : ℚ) :
    chatTemperatureWord ((JSNum.fin a).toFixed 1) = temperatureBand (roundValue 1 a) := by
  simp only [chatTemperatureWord, toFixed_toNumber, JSNum.lt, decide_eq_true_eq, temperatureBand]

theorem chatTemperatureWord_not_fin (x : JSNum) (h : ∀ a : ℚ, x ≠ .fin a) :
    chatTemperatureWord (x.toFixed 1) = summaryTemperatureWord x := by
  cases x with
  | fin a => exact absurd rfl (h a)
  | nan => rfl
  | posInf => rfl
  | negInf => rfl

theorem toFixed_text_25_03125 : ((JSNum.fin (801 / 32)).toFixed 1).text = "25.0" := by
  rw [toFixed_fin_nonneg (f := 1) (x := 801 / 32) (n := 250) (by norm_num) (by norm_num)
    (by norm_num)]
  decide

theorem borderlineDyadicDay_present : presentT2M borderlineDyadicDay.data = [801 / 32] := rfl

theorem borderlineDyadicDay_computed (A : Rounding) (hA : A.ExactOnDyadics) :
    A.average [801 / 32] = .fin (801 / 32) ∧
    A.add (.fin (801 / 32)) (.fin 1) = .fin (833 / 32) ∧
    A.sub (.fin (801 / 32)) (.fin 1) = .fin (769 / 32) := by
  have e1 : A.rnd (801 / 32) = .fin (801 / 32) := by
    have h := hA 801 5 (by norm_num) (by norm_num)
    norm_num at h
    exact h
  have e2 : A.rnd (833 / 32) = .fin (833 / 32) := by
    have h := hA 833 5 (by norm_num) (by norm_num)
    norm_num at h
    exact h
  have e3 : A.rnd (769 / 32) = .fin (769 / 32) := by
    have h := hA 769 5 (by norm_num) (by norm_num)
    norm_num at h
    exact h
  refine ⟨?_, ?_, ?_⟩
  · norm_num [Rounding.average, Rounding.sum, Rounding.add, Rounding.divNat, e1]
  · norm_num [Rounding.add, e2]
  · norm_num [Rounding.sub, Rounding.add, JSNum.neg, e3]

theorem borderlineDyadicDay_chat (A : Rounding) (hA : A.ExactOnDyadics) :
    generateSmartFallbackWith A borderlineDyadicDay none "What is the temperature?"
      = .ok "🌡️ Temperature Analysis:\n• Current: 25.0°C\n• Average: 25.0°C\n• Range: 25.0°C to 25.0°C\n\nThe location shows moderate temperatures overall." := by
  obtain ⟨havg, _, _⟩ := borderlineDyadicDay_computed A hA
  have hne : presentT2M borderlineDyadicDay.data ≠ [] := by
    rw [borderlineDyadicDay_present]; simp
  rw [generateSmartFallbackWith_temperature A borderlineDyadicDay none
    "What is the temperature?" (by decide) (by decide) hne, temperatureAnswerWith_eq,
    borderlineDyadicDay_present, havg, chatTemperatureWord_fin]
  have hlast : ((tempDataOf borderlineDyadicDay.data).getLastD Reading.null).toNumber
      = 801 / 32 := rfl
  have hmin : mathMin [801 / 32] = .fin (801 / 32) := by simp [mathMin, minStep]
  have hmax : mathMax [801 / 32] = .fin (801 / 32) := by simp [mathMax, maxStep]
  have hround : roundValue 1 (801 / 32) = 25 := by
    rw [roundValue_nonneg_eq (f := 1) (x := 801 / 32) (n := 250) (by norm_num)
      (by norm_num) (by norm_num)]
    norm_num
  have hband : temperatureBand 25 = "moderate" := by norm_num [temperatureBand]
  rw [hlast, hmin, hmax, hround, hband, toFixed_text_25_03125]
  exact congrArg Except.ok (by decide)

theorem borderlineDyadicDay_summary (A : Rounding) (hA : A.ExactOnDyadics) :
    generateLocalSummaryWith A (.loaded borderlineDyadicDay)
      = "This weather analysis covers the period from 01/01/2025 to 01/01/2025 for the location at 28.6¬∞N, 77.2¬∞E.\n\nThe temperature during this period has been quite warm, averaging 25.0¬∞C. The warmest day reached 25.0¬∞C, while the coolest dropped to 25.0¬∞C. Temperature patterns have remained relatively stable. \n\nOverall, this location has experienced typical seasonal weather patterns for this geographic region." := by
  obtain ⟨havg, hup, hdown⟩ := borderlineDyadicDay_computed A hA
  have hne : presentT2M borderlineDyadicDay.data ≠ [] := by
    rw [borderlineDyadicDay_present]; simp
  rw [generateLocalSummaryWith_loaded A borderlineDyadicDay
    (dayWith (.num (801 / 32)) .null .null) (dayWith (.num (801 / 32)) .null .null) rfl rfl]
  have hp : precipitationSectionWith A borderlineDyadicDay = "" :=
    precipitationSectionWith_absent A borderlineDyadicDay rfl
  have hw : windSectionWith A borderlineDyadicDay = "" :=
    windSectionWith_absent A borderlineDyadicDay rfl
  have hh : summaryHeader (dayWith (.num (801 / 32)) .null .null)
      (dayWith (.num (801 / 32)) .null .null) borderlineDyadicDay.location
      = "This weather analysis covers the period from 01/01/2025 to 01/01/2025 for the location at 28.6¬∞N, 77.2¬∞E.\n\n" := by
    decide
  have htrend : summaryTrendWith A borderlineDyadicDay.data
      = "Temperature patterns have remained relatively stable. " := by
    rw [summaryTrendWith_short A _ hne (by rw [borderlineDyadicDay_present]; decide),
      borderlineDyadicDay_present, havg]
    simp only [summaryTrendOf, hup, hdown]
    norm_num [JSNum.lt]
  have hts : temperatureSectionWith A borderlineDyadicDay
      = "The temperature during this period has been quite warm, averaging 25.0¬∞C. The warmest day reached 25.0¬∞C, while the coolest dropped to 25.0¬∞C. Temperature patterns have remained relatively stable. \n\n" := by
    rw [temperatureSectionWith_present A borderlineDyadicDay (by decide) hne, htrend,
      borderlineDyadicDay_present, havg]
    have hmin : mathMin [801 / 32] = .fin (801 / 32) := by simp [mathMin, minStep]
    have hmax : mathMax [801 / 32] = .fin (801 / 32) := by simp [mathMax, maxStep]
    have hword : summaryTemperatureWord (.fin (801 / 32)) = "warm" := by
      norm_num [summaryTemperatureWord, JSNum.lt]
    have hf : temperatureForecastWith A borderlineDyadicDay.forecasts = "\n\n" := rfl
    rw [hmin, hmax, hword, hf, toFixed_text_25_03125]
    decide
  have ho : overallSentenceOf (overallTempAvgWith A borderlineDyadicDay)
      (overallRainTotalWith A borderlineDyadicDay)
      = "typical seasonal weather patterns for this geographic region." := by
    have hq : presentPrecip borderlineDyadicDay.data = [] := rfl
    rw [overallTempAvgWith_eq, overallRainTotalWith_eq, if_pos (by decide), if_pos (by decide),
      borderlineDyadicDay_present, hq, havg]
    norm_num [overallSentenceOf, tempAvgAnd, JSNum.truthy, JSNum.lt, Rounding.sum]
  rw [summaryTextWith, hh, hts, hp, hw, ho]
  decide

/-- C14, the claim as stated fails: for one day at 25.03125 degrees (a
binary64 number) the chat fallback's temperature analysis says moderate and the
summary's temperature section says warm, both showing the average as 25.0. -/
theorem chat_moderate_where_summary_warm :
    generateSmartFallbackWith binary64 borderlineDyadicDay none "What is the temperature?"
      = .ok "🌡️ Temperature Analysis:\n• Current: 25.0°C\n• Average: 25.0°C\n• Range: 25.0°C to 25.0°C\n\nThe location shows moderate temperatures overall." ∧
    generateLocalSummaryWith binary64 (.loaded borderlineDyadicDay)
      = "This weather analysis covers the period from 01/01/2025 to 01/01/2025 for the location at 28.6¬∞N, 77.2¬∞E.\n\nThe temperature during this period has been quite warm, averaging 25.0¬∞C. The warmest day reached 25.0¬∞C, while the coolest dropped to 25.0¬∞C. Temperature patterns have remained relatively stable. \n\nOverall, this location has experienced typical seasonal weather patterns for this geographic region." :=
  ⟨borderlineDyadicDay_chat binary64 binary64_exactOnDyadics,
   borderlineDyadicDay_summary binary64 binary64_exactOnDyadics⟩

/-- C14 as amended: for a series with at least one present T2M value, the
chat fallback's temperature analysis (on a temperature question that is not an
outdoor question) and the summary's temperature section (with T2M requested)
start from the same double-precision average; the chat chooses the band of
that average rounded to one decimal, the figure it displays, and the summary
the band of the average itself. For a finite computed average the two words
are equal exactly when it is neither in the open interval (25, 25.05) nor in
(15, 15.05); inside those intervals the chat names the lower band. When the
computed average is not finite the two words are equal. -/
theorem temperature_word_chat_versus_summary (A : Rounding) (wd : WeatherData)
    (insights : Option String) (question : String)
    (hO : isOutdoorQuestion (toLowerCase question) = false)
    (hTq : isTemperatureQuestion (toLowerCase question) = true)
    (hTp : "T2M" ∈ wd.parameters)
    (hn : presentT2M wd.data ≠ []) :
    generateSmartFallbackWith A wd insights question
      = .ok ("🌡️ Temperature Analysis:\n• Current: "
          ++ ((JSNum.fin ((tempDataOf wd.data).getLastD Reading.null).toNumber).toFixed 1).text
          ++ "°C\n• Average: " ++ ((A.average (presentT2M wd.data)).toFixed 1).text
          ++ "°C\n• Range: " ++ ((mathMin (presentT2M wd.data)).toFixed 1).text ++ "°C to "
          ++ ((mathMax (presentT2M wd.data)).toFixed 1).text ++ "°C\n\nThe location shows "
          ++ chatTemperatureWord ((A.average (presentT2M wd.data)).toFixed 1)
          ++ " temperatures overall.") ∧
    temperatureSectionWith A wd
      = "The temperature during this period has been quite "
          ++ summaryTemperatureWord (A.average (presentT2M wd.data))
          ++ ", averaging " ++ ((A.average (presentT2M wd.data)).toFixed 1).text
          ++ "¬∞C. " ++ "The warmest day reached "
          ++ ((mathMax (presentT2M wd.data)).toFixed 1).text
          ++ "¬∞C, while the coolest dropped to "
          ++ ((mathMin (presentT2M wd.data)).toFixed 1).text ++ "¬∞C. "
          ++ summaryTrendWith A wd.data ++ temperatureForecastWith A wd.forecasts ∧
    (∀ a : ℚ, A.average (presentT2M wd.data) = .fin a →
      chatTemperatureWord ((A.average (presentT2M wd.data)).toFixed 1)
        = temperatureBand (roundValue 1 a) ∧
      summaryTemperatureWord (A.average (presentT2M wd.data)) = temperatureBand a ∧
      (chatTemperatureWord ((A.average (presentT2M wd.data)).toFixed 1)
          = summaryTemperatureWord (A.average (presentT2M wd.data))
        ↔ ¬ (25 < a ∧ a < 25 + 1 / 20) ∧ ¬ (15 < a ∧ a < 15 + 1 / 20))) ∧
    ((∀ a : ℚ, A.average (presentT2M wd.data) ≠ .fin a) →
      chatTemperatureWord ((A.average (presentT2M wd.data)).toFixed 1)
        = summaryTemperatureWord (A.average (presentT2M wd.data))) := by
  refine ⟨?_, temperatureSectionWith_present A wd hTp hn, ?_,
    chatTemperatureWord_not_fin _⟩
  · rw [generateSmartFallbackWith_temperature A wd insights question hO hTq hn,
      temperatureAnswerWith_eq]
  · intro a ha
    rw [ha, chatTemperatureWord_fin, summaryTemperatureWord_fin]
    exact ⟨rfl, rfl, temperatureBand_round_iff a⟩

/-- C14 as amended, at one day of 20 degrees in binary64 arithmetic: the
computed average is 20 and both components say moderate. -/
theorem temperature_word_chat_versus_summary_witness :
    isTemperatureQuestion (toLowerCase "What is the temperature?") = true ∧
    presentT2M (weatherOf (rowsOf [20])).data ≠ [] ∧
    binary64.average (presentT2M (weatherOf (rowsOf [20])).data) = .fin 20 ∧
    chatTemperatureWord ((binary64.average (presentT2M (weatherOf (rowsOf [20])).data)).toFixed 1)
      = summaryTemperatureWord (binary64.average (presentT2M (weatherOf (rowsOf [20])).data)) ∧
    summaryTemperatureWord (binary64.average (presentT2M (weatherOf (rowsOf [20])).data))
      = "moderate" := by
  have hp : presentT2M (weatherOf (rowsOf [20])).data = [20] := rfl
  have hne : presentT2M (weatherOf (rowsOf [20])).data ≠ [] := by rw [hp]; simp
  have key : ∀ A : Rounding, A.ExactOnDyadics → A.average [20] = .fin 20 := by
    intro A hA
    have e20 : A.rnd 20 = .fin 20 := by simpa using exact_on_nat hA 20 (by norm_num)
    norm_num [Rounding.average, Rounding.sum, Rounding.add, Rounding.divNat, e20]
  have havg : binary64.average (presentT2M (weatherOf (rowsOf [20])).data) = .fin 20 := by
    rw [hp]; exact key binary64 binary64_exactOnDyadics
  have h := temperature_word_chat_versus_summary binary64 (weatherOf (rowsOf [20])) none
    "What is the temperature?" (by decide) (by decide) (by decide) hne
  obtain ⟨_, h2, h3⟩ := h.2.2.1 20 havg
  refine ⟨by decide, hne, havg, h3.mpr ?_, ?_⟩
  · constructor
    · intro hc; norm_num at hc
    · intro hc; norm_num at hc
  · rw [h2]; norm_num [temperatureBand]

theorem thresholdDays_present :
    presentT2M thresholdDays.data
      = [7464716382366597 / 281474976710656,
        3880132553956393 / 140737488355328,
        3196148360549499 / 140737488355328,
        6530219459687219 / 281474976710656] := rfl

/-- The decimal numbers 26.52, 27.57, 22.71 and 23.2 are stored as the readings of `thresholdDays`. -/
theorem thresholdDays_parsed :
    binary64.rnd (2652 / 100) = .fin (7464716382366597 / 281474976710656) ∧
    binary64.rnd (2757 / 100) = .fin (3880132553956393 / 140737488355328) ∧
    binary64.rnd (2271 / 100) = .fin (3196148360549499 / 140737488355328) ∧
    binary64.rnd (232 / 10) = .fin (6530219459687219 / 281474976710656) :=
  ⟨binary64_fin 4 (-48) 7464716382366597 (by norm_num),
   binary64_fin 4 (-48) 7760265107912786 (by norm_num),
   binary64_fin 4 (-48) 6392296721098998 (by norm_num),
   binary64_fin 4 (-48) 6530219459687219 (by norm_num)⟩

theorem thresholdDays_computed (A : Rounding)
    (h0 : A.rnd (7464716382366597 / 281474976710656) = .fin (7464716382366597 / 281474976710656))
    (h1 : A.rnd (15224981490279383 / 281474976710656) = .fin (1903122686284923 / 35184372088832))
    (h2 : A.rnd (10808639105689191 / 140737488355328) = .fin (1351079888211149 / 17592186044416))
    (h3 : A.rnd (28147497671065603 / 281474976710656) = .fin (7036874417766401 / 70368744177664))
    (h4 : A.rnd (7036874417766401 / 281474976710656) = .fin (7036874417766401 / 281474976710656))
    (h5 : A.rnd (7318349394477057 / 281474976710656) = .fin (7318349394477057 / 281474976710656))
    (h6 : A.rnd (6755399441055745 / 281474976710656) = .fin (6755399441055745 / 281474976710656)) :
    A.average [7464716382366597 / 281474976710656,
        3880132553956393 / 140737488355328,
        3196148360549499 / 140737488355328,
        6530219459687219 / 281474976710656]
      = .fin (7036874417766401 / 281474976710656) ∧
    A.add (.fin (7036874417766401 / 281474976710656)) (.fin 1) = .fin (7318349394477057 / 281474976710656) ∧
    A.sub (.fin (7036874417766401 / 281474976710656)) (.fin 1) = .fin (6755399441055745 / 281474976710656) := by
  refine ⟨?_, ?_, ?_⟩
  · norm_num [Rounding.average, Rounding.sum, Rounding.add, Rounding.divNat, h0, h1, h2, h3, h4, h5, h6]
  · norm_num [Rounding.add, h0, h1, h2, h3, h4, h5, h6]
  · norm_num [Rounding.sub, Rounding.add, JSNum.neg, h0, h1, h2, h3, h4, h5, h6]

theorem thresholdDays_figures :
    ((JSNum.fin (7036874417766401 / 281474976710656)).toFixed 1).text = "25.0" ∧
    ((JSNum.fin (3880132553956393 / 140737488355328)).toFixed 1).text = "27.6" ∧
    ((JSNum.fin (3196148360549499 / 140737488355328)).toFixed 1).text = "22.7" ∧
    ((JSNum.fin (6530219459687219 / 281474976710656)).toFixed 1).text = "23.2" ∧
    mathMin [7464716382366597 / 281474976710656,
        3880132553956393 / 140737488355328,
        3196148360549499 / 140737488355328,
        6530219459687219 / 281474976710656]
      = .fin (3196148360549499 / 140737488355328) ∧
    mathMax [7464716382366597 / 281474976710656,
        3880132553956393 / 140737488355328,
        3196148360549499 / 140737488355328,
        6530219459687219 / 281474976710656]
      = .fin (3880132553956393 / 140737488355328) := by
  have t1 : ((JSNum.fin (7036874417766401 / 281474976710656)).toFixed 1).text = "25.0" := by
    rw [toFixed_fin_nonneg (f := 1) (x := 7036874417766401 / 281474976710656) (n := 250) (by norm_num) (by norm_num)
      (by norm_num)]
    decide
  have t2 : ((JSNum.fin (3880132553956393 / 140737488355328)).toFixed 1).text = "27.6" := by
    rw [toFixed_fin_nonneg (f := 1) (x := 3880132553956393 / 140737488355328) (n := 276) (by norm_num) (by norm_num)
      (by norm_num)]
    decide
  have t3 : ((JSNum.fin (3196148360549499 / 140737488355328)).toFixed 1).text = "22.7" := by
    rw [toFixed_fin_nonneg (f := 1) (x := 3196148360549499 / 140737488355328) (n := 227) (by norm_num) (by norm_num)
      (by norm_num)]
    decide
  have t4 : ((JSNum.fin (6530219459687219 / 281474976710656)).toFixed 1).text = "23.2" := by
    rw [toFixed_fin_nonneg (f := 1) (x := 6530219459687219 / 281474976710656) (n := 232) (by norm_num) (by norm_num)
      (by norm_num)]
    decide
  refine ⟨t1, t2, t3, t4, ?_, ?_⟩
  · norm_num [mathMin, minStep]
  · norm_num [mathMax, maxStep]

theorem thresholdDays_chat (A : Rounding)
    (h0 : A.rnd (7464716382366597 / 281474976710656) = .fin (7464716382366597 / 281474976710656))
    (h1 : A.rnd (15224981490279383 / 281474976710656) = .fin (1903122686284923 / 35184372088832))
    (h2 : A.rnd (10808639105689191 / 140737488355328) = .fin (1351079888211149 / 17592186044416))
    (h3 : A.rnd (28147497671065603 / 281474976710656) = .fin (7036874417766401 / 70368744177664))
    (h4 : A.rnd (7036874417766401 / 281474976710656) = .fin (7036874417766401 / 281474976710656))
    (h5 : A.rnd (7318349394477057 / 281474976710656) = .fin (7318349394477057 / 281474976710656))
    (h6 : A.rnd (6755399441055745 / 281474976710656) = .fin (6755399441055745 / 281474976710656)) :
    generateSmartFallbackWith A thresholdDays none "What is the temperature?"
      = .ok "🌡️ Temperature Analysis:\n• Current: 23.2°C\n• Average: 25.0°C\n• Range: 22.7°C to 27.6°C\n\nThe location shows moderate temperatures overall." := by
  obtain ⟨havg, _, _⟩ := thresholdDays_computed A h0 h1 h2 h3 h4 h5 h6
  obtain ⟨t1, t2, t3, t4, hmin, hmax⟩ := thresholdDays_figures
  have hne : presentT2M thresholdDays.data ≠ [] := by
    rw [thresholdDays_present]; simp
  rw [generateSmartFallbackWith_temperature A thresholdDays none
    "What is the temperature?" (by decide) (by decide) hne, temperatureAnswerWith_eq,
    thresholdDays_present, havg, chatTemperatureWord_fin]
  have hlast : ((tempDataOf thresholdDays.data).getLastD Reading.null).toNumber
      = 6530219459687219 / 281474976710656 := rfl
  have hround : roundValue 1 (7036874417766401 / 281474976710656) = 25 := by
    rw [roundValue_nonneg_eq (f := 1) (x := 7036874417766401 / 281474976710656) (n := 250) (by norm_num)
      (by norm_num) (by norm_num)]
    norm_num
  have hband : temperatureBand 25 = "moderate" := by norm_num [temperatureBand]
  rw [hlast, hmin, hmax, hround, hband, t1, t2, t3, t4]
  exact congrArg Except.ok (by decide)

theorem thresholdDays_summary (A : Rounding)
    (h0 : A.rnd (7464716382366597 / 281474976710656) = .fin (7464716382366597 / 281474976710656))
    (h1 : A.rnd (15224981490279383 / 281474976710656) = .fin (1903122686284923 / 35184372088832))
    (h2 : A.rnd (10808639105689191 / 140737488355328) = .fin (1351079888211149 / 17592186044416))
    (h3 : A.rnd (28147497671065603 / 281474976710656) = .fin (7036874417766401 / 70368744177664))
    (h4 : A.rnd (7036874417766401 / 281474976710656) = .fin (7036874417766401 / 281474976710656))
    (h5 : A.rnd (7318349394477057 / 281474976710656) = .fin (7318349394477057 / 281474976710656))
    (h6 : A.rnd (6755399441055745 / 281474976710656) = .fin (6755399441055745 / 281474976710656)) :
    generateLocalSummaryWith A (.loaded thresholdDays)
      = "This weather analysis covers the period from 01/01/2025 to 01/01/2025 for the location at 28.6¬∞N, 77.2¬∞E.\n\nThe temperature during this period has been quite warm, averaging 25.0¬∞C. The warmest day reached 27.6¬∞C, while the coolest dropped to 22.7¬∞C. Temperature patterns have remained relatively stable. \n\nOverall, this location has experienced typical seasonal weather patterns for this geographic region." := by
  obtain ⟨havg, hup, hdown⟩ := thresholdDays_computed A h0 h1 h2 h3 h4 h5 h6
  obtain ⟨t1, t2, t3, _, hmin, hmax⟩ := thresholdDays_figures
  have hne : presentT2M thresholdDays.data ≠ [] := by
    rw [thresholdDays_present]; simp
  rw [generateLocalSummaryWith_loaded A thresholdDays
    (dayWith (.num (7464716382366597 / 281474976710656)) .null .null) (dayWith (.num (6530219459687219 / 281474976710656)) .null .null) rfl rfl]
  have hp : precipitationSectionWith A thresholdDays = "" :=
    precipitationSectionWith_absent A thresholdDays rfl
  have hw : windSectionWith A thresholdDays = "" :=
    windSectionWith_absent A thresholdDays rfl
  have hh : summaryHeader (dayWith (.num (7464716382366597 / 281474976710656)) .null .null)
      (dayWith (.num (6530219459687219 / 281474976710656)) .null .null) thresholdDays.location
      = "This weather analysis covers the period from 01/01/2025 to 01/01/2025 for the location at 28.6¬∞N, 77.2¬∞E.\n\n" := by
    decide
  have htrend : summaryTrendWith A thresholdDays.data
      = "Temperature patterns have remained relatively stable. " := by
    rw [summaryTrendWith_short A _ hne (by rw [thresholdDays_present]; decide),
      thresholdDays_present, havg]
    simp only [summaryTrendOf, hup, hdown]
    norm_num [JSNum.lt]
  have hts : temperatureSectionWith A thresholdDays
      = "The temperature during this period has been quite warm, averaging 25.0¬∞C. The warmest day reached 27.6¬∞C, while the coolest dropped to 22.7¬∞C. Temperature patterns have remained relatively stable. \n\n" := by
    rw [temperatureSectionWith_present A thresholdDays (by decide) hne, htrend,
      thresholdDays_present, havg]
    have hword : summaryTemperatureWord (.fin (7036874417766401 / 281474976710656)) = "warm" := by
      norm_num [summaryTemperatureWord, JSNum.lt]
    have hf : temperatureForecastWith A thresholdDays.forecasts = "\n\n" := rfl
    rw [hmin, hmax, hword, hf, t1, t2, t3]
    decide
  have ho : overallSentenceOf (overallTempAvgWith A thresholdDays)
      (overallRainTotalWith A thresholdDays)
      = "typical seasonal weather patterns for this geographic region." := by
    have hq : presentPrecip thresholdDays.data = [] := rfl
    rw [overallTempAvgWith_eq, overallRainTotalWith_eq, if_pos (by decide), if_pos (by decide),
      thresholdDays_present, hq, havg]
    norm_num [overallSentenceOf, tempAvgAnd, JSNum.truthy, JSNum.lt, Rounding.sum]
  rw [summaryTextWith, hh, hts, hp, hw, ho]
  decide

/-- An average of exactly 25 degrees named warm: the four temperatures average
25 exactly, which is not above the threshold, but their binary64 sum divided
by 4 is 25.000000000000004, so the summary says warm; the chat fallback, which
compares the displayed 25.0, says moderate. -/
theorem average_of_25_reported_warm :
    (presentT2M thresholdDays.data).sum / (presentT2M thresholdDays.data).length = 25 ∧
    generateSmartFallbackWith binary64 thresholdDays none "What is the temperature?"
      = .ok "🌡️ Temperature Analysis:\n• Current: 23.2°C\n• Average: 25.0°C\n• Range: 22.7°C to 27.6°C\n\nThe location shows moderate temperatures overall." ∧
    generateLocalSummaryWith binary64 (.loaded thresholdDays)
      = "This weather analysis covers the period from 01/01/2025 to 01/01/2025 for the location at 28.6¬∞N, 77.2¬∞E.\n\nThe temperature during this period has been quite warm, averaging 25.0¬∞C. The warmest day reached 27.6¬∞C, while the coolest dropped to 22.7¬∞C. Temperature patterns have remained relatively stable. \n\nOverall, this location has experienced typical seasonal weather patterns for this geographic region." := by
  refine ⟨?_, ?_, ?_⟩
  · rw [thresholdDays_present]
    norm_num
  · exact thresholdDays_chat binary64
      (binary64_fin 4 (-48) 7464716382366597 (by norm_num))
      (binary64_fin 5 (-47) 7612490745139692 (by norm_num))
      (binary64_fin 6 (-46) 5404319552844596 (by norm_num))
      (binary64_fin 6 (-46) 7036874417766401 (by norm_num))
      (binary64_fin 4 (-48) 7036874417766401 (by norm_num))
      (binary64_fin 4 (-48) 7318349394477057 (by norm_num))
      (binary64_fin 4 (-48) 6755399441055745 (by norm_num))
  · exact thresholdDays_summary binary64
      (binary64_fin 4 (-48) 7464716382366597 (by norm_num))
      (binary64_fin 5 (-47) 7612490745139692 (by norm_num))
      (binary64_fin 6 (-46) 5404319552844596 (by norm_num))
      (binary64_fin 6 (-46) 7036874417766401 (by norm_num))
      (binary64_fin 4 (-48) 7036874417766401 (by norm_num))
      (binary64_fin 4 (-48) 7318349394477057 (by norm_num))
      (binary64_fin 4 (-48) 6755399441055745 (by norm_num))

/-! ## Overall assessment of the local summary, in double-precision arithmetic -/

theorem warmDay_computed (A : Rounding) (hA : A.ExactOnDyadics) :
    A.average [30] = .fin 30 ∧
    A.add (.fin 30) (.fin 1) = .fin 31 ∧
    A.sub (.fin 30) (.fin 1) = .fin 29 ∧
    A.sum [15] = .fin 15 ∧
    A.sum [25] = .fin 25 := by
  have e30 : A.rnd 30 = .fin 30 := by simpa using exact_on_nat hA 30 (by norm_num)
  have e31 : A.rnd 31 = .fin 31 := by simpa using exact_on_nat hA 31 (by norm_num)
  have e29 : A.rnd 29 = .fin 29 := by simpa using exact_on_nat hA 29 (by norm_num)
  have e15 : A.rnd 15 = .fin 15 := by simpa using exact_on_nat hA 15 (by norm_num)
  have e25 : A.rnd 25 = .fin 25 := by simpa using exact_on_nat hA 25 (by norm_num)
  refine ⟨?_, ?_, ?_, ?_, ?_⟩
  · norm_num [Rounding.average, Rounding.sum, Rounding.add, Rounding.divNat, e30]
  · norm_num [Rounding.add, e31]
  · norm_num [Rounding.sub, Rounding.add, JSNum.neg, e29]
  · norm_num [Rounding.sum, Rounding.add, e15]
  · norm_num [Rounding.sum, Rounding.add, e25]

theorem warmDay_temperatureSectionWith (A : Rounding) (hA : A.ExactOnDyadics) (p : Reading) :
    temperatureSectionWith A (weatherOf [dayWith (.num 30) p .null])
      = "The temperature during this period has been quite warm, averaging 30.0¬∞C. The warmest day reached 30.0¬∞C, while the coolest dropped to 30.0¬∞C. Temperature patterns have remained relatively stable. \n\n" := by
  obtain ⟨havg, hup, hdown, _, _⟩ := warmDay_computed A hA
  have hp : presentT2M (weatherOf [dayWith (.num 30) p .null]).data = [30] := rfl
  have hne : presentT2M (weatherOf [dayWith (.num 30) p .null]).data ≠ [] := by
    rw [hp]; simp
  have htrend : summaryTrendWith A (weatherOf [dayWith (.num 30) p .null]).data
      = "Temperature patterns have remained relatively stable. " := by
    rw [summaryTrendWith_short A _ hne (by rw [hp]; decide), hp, havg]
    simp only [summaryTrendOf, hup, hdown]
    norm_num [JSNum.lt]
  rw [temperatureSectionWith_present A _ (by simp [weatherOf]) hne, htrend, hp, havg]
  have hmin : mathMin [30] = .fin 30 := by simp [mathMin, minStep]
  have hmax : mathMax [30] = .fin 30 := by simp [mathMax, maxStep]
  have hword : summaryTemperatureWord (.fin 30) = "warm" := by
    norm_num [summaryTemperatureWord, JSNum.lt]
  have hf : temperatureForecastWith A (weatherOf [dayWith (.num 30) p .null]).forecasts
      = "\n\n" := rfl
  rw [hmin, hmax, hword, hf, toFixed_text_30]
  decide

theorem warmDay15_summaryWith (A : Rounding) (hA : A.ExactOnDyadics)
    (h01 : A.rnd (1 / 10) = .fin (3602879701896397 / 36028797018963968)) :
    generateLocalSummaryWith A (.loaded warmDay15)
      = "This weather analysis covers the period from 01/01/2025 to 01/01/2025 for the location at 28.6¬∞N, 77.2¬∞E.\n\nThe temperature during this period has been quite warm, averaging 30.0¬∞C. The warmest day reached 30.0¬∞C, while the coolest dropped to 30.0¬∞C. Temperature patterns have remained relatively stable. \n\nRainfall has been moderate during this period, totaling 15.0mm. There were 1 days with measurable rainfall, with the heaviest day receiving 15.0mm. \n\nOverall, this location has experienced warm and dry conditions, ideal for outdoor activities." := by
  obtain ⟨havg, _, _, hsum, _⟩ := warmDay_computed A hA
  rw [generateLocalSummaryWith_loaded A warmDay15 (dayWith (.num 30) (.num 15) .null)
    (dayWith (.num 30) (.num 15) .null) rfl rfl, summaryTextWith]
  have hq : presentPrecip warmDay15.data = [15] := rfl
  have hp : precipitationSectionWith A warmDay15
      = "Rainfall has been moderate during this period, totaling 15.0mm. There were 1 days with measurable rainfall, with the heaviest day receiving 15.0mm. \n\n" := by
    rw [precipitationSectionWith_present A warmDay15 (by decide) (by rw [hq]; simp), hq, hsum,
      h01]
    have hmax : mathMax [15] = .fin 15 := by simp [mathMax, maxStep]
    have hrain : rainfallSentenceOf (.fin 15)
        = "Rainfall has been moderate during this period, totaling 15.0mm. " := by
      have h1 : JSNum.lt (.fin 15) (.fin 10) = false := by norm_num [JSNum.lt]
      have h2 : JSNum.lt (.fin 15) (.fin 50) = true := by norm_num [JSNum.lt]
      simp only [rainfallSentenceOf, h1, h2, if_true, Bool.false_eq_true, if_false,
        toFixed_text_15]
      decide
    have hcount : (([15] : List ℚ).filter
        (fun v => JSNum.lt (.fin (3602879701896397 / 36028797018963968)) (.fin v))).length
        = 1 := by
      norm_num [List.filter_cons, JSNum.lt]
    have hlt : JSNum.lt (.fin 20) (.fin 15) = false := by norm_num [JSNum.lt]
    have hf : precipitationForecastWith A warmDay15.forecasts = "" := rfl
    rw [hmax, hrain, hcount, hlt, hf, toFixed_text_15]
    decide
  have hw : windSectionWith A warmDay15 = "" := windSectionWith_absent A warmDay15 rfl
  have ho : overallSentenceOf (overallTempAvgWith A warmDay15) (overallRainTotalWith A warmDay15)
      = "warm and dry conditions, ideal for outdoor activities." := by
    have ht : presentT2M warmDay15.data = [30] := rfl
    rw [overallTempAvgWith_eq, overallRainTotalWith_eq, if_pos (by decide), if_pos (by decide),
      ht, hq, havg, hsum, overallSentenceOf_table _ _ (by norm_num) (by norm_num)]
    norm_num [overallTable]
  have hh := warmDay_header (.num 15)
  have hts := warmDay_temperatureSectionWith A hA (.num 15)
  rw [warmDay15, hh, hts, ← warmDay15, hp, hw, ho]
  decide

theorem warmDay25_summaryWith (A : Rounding) (hA : A.ExactOnDyadics)
    (h01 : A.rnd (1 / 10) = .fin (3602879701896397 / 36028797018963968)) :
    generateLocalSummaryWith A (.loaded warmDay25)
      = "This weather analysis covers the period from 01/01/2025 to 01/01/2025 for the location at 28.6¬∞N, 77.2¬∞E.\n\nThe temperature during this period has been quite warm, averaging 30.0¬∞C. The warmest day reached 30.0¬∞C, while the coolest dropped to 30.0¬∞C. Temperature patterns have remained relatively stable. \n\nRainfall has been moderate during this period, totaling 25.0mm. There were 1 days with measurable rainfall, including one particularly heavy day with 25.0mm. \n\nOverall, this location has experienced typical seasonal weather patterns for this geographic region." := by
  obtain ⟨havg, _, _, _, hsum⟩ := warmDay_computed A hA
  rw [generateLocalSummaryWith_loaded A warmDay25 (dayWith (.num 30) (.num 25) .null)
    (dayWith (.num 30) (.num 25) .null) rfl rfl, summaryTextWith]
  have hq : presentPrecip warmDay25.data = [25] := rfl
  have hp : precipitationSectionWith A warmDay25
      = "Rainfall has been moderate during this period, totaling 25.0mm. There were 1 days with measurable rainfall, including one particularly heavy day with 25.0mm. \n\n" := by
    rw [precipitationSectionWith_present A warmDay25 (by decide) (by rw [hq]; simp), hq, hsum,
      h01]
    have hmax : mathMax [25] = .fin 25 := by simp [mathMax, maxStep]
    have hrain : rainfallSentenceOf (.fin 25)
        = "Rainfall has been moderate during this period, totaling 25.0mm. " := by
      have h1 : JSNum.lt (.fin 25) (.fin 10) = false := by norm_num [JSNum.lt]
      have h2 : JSNum.lt (.fin 25) (.fin 50) = true := by norm_num [JSNum.lt]
      simp only [rainfallSentenceOf, h1, h2, if_true, Bool.false_eq_true, if_false,
        toFixed_text_25]
      decide
    have hcount : (([25] : List ℚ).filter
        (fun v => JSNum.lt (.fin (3602879701896397 / 36028797018963968)) (.fin v))).length
        = 1 := by
      norm_num [List.filter_cons, JSNum.lt]
    have hlt : JSNum.lt (.fin 20) (.fin 25) = true := by norm_num [JSNum.lt]
    have hf : precipitationForecastWith A warmDay25.forecasts = "" := rfl
    rw [hmax, hrain, hcount, hlt, hf, toFixed_text_25]
    decide
  have hw : windSectionWith A warmDay25 = "" := windSectionWith_absent A warmDay25 rfl
  have ho : overallSentenceOf (overallTempAvgWith A warmDay25) (overallRainTotalWith A warmDay25)
      = "typical seasonal weather patterns for this geographic region." := by
    have ht : presentT2M warmDay25.data = [30] := rfl
    rw [overallTempAvgWith_eq, overallRainTotalWith_eq, if_pos (by decide), if_pos (by decide),
      ht, hq, havg, hsum, overallSentenceOf_table _ _ (by norm_num) (by norm_num)]
    norm_num [overallTable]
  have hh := warmDay_header (.num 25)
  have hts := warmDay_temperatureSectionWith A hA (.num 25)
  rw [warmDay25, hh, hts, ← warmDay25, hp, hw, ho]
  decide

theorem binary64_tenth :
    binary64.rnd (1 / 10) = .fin (3602879701896397 / 36028797018963968) :=
  binary64_fin (-4) (-56) 7205759403792794 (by norm_num)

/-- C15, the claim as stated fails: two one-day series, both warm (30
degrees) and both with moderate rainfall (15 mm and 25 mm), get different
overall assessments, warm and dry against typical seasonal patterns. -/
theorem same_bands_with_different_overall :
    temperatureBand 30 = "warm" ∧ rainfallBand 15 = "moderate" ∧ rainfallBand 25 = "moderate" ∧
    generateLocalSummaryWith binary64 (.loaded warmDay15)
      = "This weather analysis covers the period from 01/01/2025 to 01/01/2025 for the location at 28.6¬∞N, 77.2¬∞E.\n\nThe temperature during this period has been quite warm, averaging 30.0¬∞C. The warmest day reached 30.0¬∞C, while the coolest dropped to 30.0¬∞C. Temperature patterns have remained relatively stable. \n\nRainfall has been moderate during this period, totaling 15.0mm. There were 1 days with measurable rainfall, with the heaviest day receiving 15.0mm. \n\nOverall, this location has experienced warm and dry conditions, ideal for outdoor activities." ∧
    generateLocalSummaryWith binary64 (.loaded warmDay25)
      = "This weather analysis covers the period from 01/01/2025 to 01/01/2025 for the location at 28.6¬∞N, 77.2¬∞E.\n\nThe temperature during this period has been quite warm, averaging 30.0¬∞C. The warmest day reached 30.0¬∞C, while the coolest dropped to 30.0¬∞C. Temperature patterns have remained relatively stable. \n\nRainfall has been moderate during this period, totaling 25.0mm. There were 1 days with measurable rainfall, including one particularly heavy day with 25.0mm. \n\nOverall, this location has experienced typical seasonal weather patterns for this geographic region." := by
  refine ⟨?_, ?_, ?_, warmDay15_summaryWith binary64 binary64_exactOnDyadics binary64_tenth,
    warmDay25_summaryWith binary64 binary64_exactOnDyadics binary64_tenth⟩
  · norm_num [temperatureBand]
  · norm_num [rainfallBand]
  · norm_num [rainfallBand]

/-- C15 as amended: the overall-assessment sentence is a total function of
the average temperature and the rainfall total as double-precision arithmetic
computes them, not of the section bands. With T2M and PRECTOTCORR requested
and the computed average and total both finite and other than 0, the summary
ends with the sentence of the table: warm and dry when avg > 25 and
total < 20, warm and humid when avg > 25 and total > 50, cool and wet when
avg < 15 and total > 30, cooler when avg < 15 otherwise, typical seasonal
patterns in every other case. -/
theorem overall_assessment_computed (A : Rounding) (wd : WeatherData)
    (first last : Observation)
    (hh : wd.data.head? = some first) (hl : wd.data.getLast? = some last)
    (hT : "T2M" ∈ wd.parameters) (hP : "PRECTOTCORR" ∈ wd.parameters)
    (avg total : ℚ)
    (ha : A.divNat (A.sum (presentT2M wd.data)) (presentT2M wd.data).length = .fin avg)
    (ht : A.sum (presentPrecip wd.data) = .fin total)
    (h0 : avg ≠ 0) (hr : total ≠ 0) :
    generateLocalSummaryWith A (.loaded wd)
      = summaryHeader first last wd.location ++ temperatureSectionWith A wd
          ++ precipitationSectionWith A wd ++ windSectionWith A wd
          ++ "Overall, this location has experienced "
          ++ overallTable avg total ∧
    (overallTable avg total
      = (if 25 < avg ∧ total < 20 then
          "warm and dry conditions, ideal for outdoor activities."
        else if 25 < avg ∧ 50 < total then
          "warm and humid conditions with significant rainfall."
        else if avg < 15 ∧ 30 < total then "cool and wet weather patterns."
        else if avg < 15 then "cooler weather conditions."
        else "typical seasonal weather patterns for this geographic region.")) := by
  refine ⟨?_, rfl⟩
  rw [generateLocalSummaryWith_loaded A wd first last hh hl, summaryTextWith,
    overallTempAvgWith_eq, overallRainTotalWith_eq, if_pos hT, if_pos hP, Rounding.average, ha,
    ht, overallSentenceOf_table _ _ h0 hr]

/-- C15 as amended, at the warm day with 15 mm of rain in binary64
arithmetic: the computed average 30 and total 15 give warm and dry. -/
theorem overall_assessment_computed_witness :
    "T2M" ∈ warmDay15.parameters ∧ "PRECTOTCORR" ∈ warmDay15.parameters ∧
    binary64.divNat (binary64.sum (presentT2M warmDay15.data)) (presentT2M warmDay15.data).length
      = .fin 30 ∧
    binary64.sum (presentPrecip warmDay15.data) = .fin 15 ∧
    generateLocalSummaryWith binary64 (.loaded warmDay15)
      = summaryHeader (dayWith (.num 30) (.num 15) .null) (dayWith (.num 30) (.num 15) .null)
          warmDay15.location ++ temperatureSectionWith binary64 warmDay15
          ++ precipitationSectionWith binary64 warmDay15 ++ windSectionWith binary64 warmDay15
          ++ "Overall, this location has experienced "
          ++ overallTable 30 15 ∧
    overallTable 30 15 = "warm and dry conditions, ideal for outdoor activities." := by
  obtain ⟨havg, _, _, hsum, _⟩ := warmDay_computed binary64 binary64_exactOnDyadics
  have ht : presentT2M warmDay15.data = [30] := rfl
  have hq : presentPrecip warmDay15.data = [15] := rfl
  have ha : binary64.divNat (binary64.sum (presentT2M warmDay15.data))
      (presentT2M warmDay15.data).length = .fin 30 := by
    rw [ht]; exact havg
  have hs : binary64.sum (presentPrecip warmDay15.data) = .fin 15 := by
    rw [hq]; exact hsum
  refine ⟨by decide, by decide, ha, hs,
    (overall_assessment_computed binary64 warmDay15 (dayWith (.num 30) (.num 15) .null)
      (dayWith (.num 30) (.num 15) .null) rfl rfl (by decide) (by decide) 30 15 ha hs
      (by norm_num) (by norm_num)).1, ?_⟩
  norm_num [overallTable]

theorem showeryDays_present :
    presentT2M showeryDays.data = [30, 30, 30, 30] ∧
    presentPrecip showeryDays.data
      = [2758454771764429 / 562949953421312,
        12,
        5404319552844595 / 4503599627370496,
        4278419646001971 / 2251799813685248] := ⟨rfl, rfl⟩

/-- The decimal numbers 4.9, 12, 1.2 and 1.9 are stored as the readings of `showeryDays`. -/
theorem showeryDays_parsed :
    binary64.rnd (49 / 10) = .fin (2758454771764429 / 562949953421312) ∧
    binary64.rnd (12) = .fin 12 ∧
    binary64.rnd (12 / 10) = .fin (5404319552844595 / 4503599627370496) ∧
    binary64.rnd (19 / 10) = .fin (4278419646001971 / 2251799813685248) :=
  ⟨binary64_fin 2 (-50) 5516909543528858 (by norm_num),
   binary64_fin 3 (-49) 6755399441055744 (by norm_num),
   binary64_fin 0 (-52) 5404319552844595 (by norm_num),
   binary64_fin 0 (-52) 8556839292003942 (by norm_num)⟩

theorem showeryDays_computed (A : Rounding)
    (h0 : A.rnd 30 = .fin 30)
    (h1 : A.rnd 60 = .fin 60)
    (h2 : A.rnd 90 = .fin 90)
    (h3 : A.rnd 120 = .fin 120)
    (h4 : A.rnd 31 = .fin 31)
    (h5 : A.rnd 29 = .fin 29)
    (h6 : A.rnd (2758454771764429 / 562949953421312) = .fin (2758454771764429 / 562949953421312))
    (h7 : A.rnd (9513854212820173 / 562949953421312) = .fin (2378463553205043 / 140737488355328))
    (h8 : A.rnd (81515153255405971 / 4503599627370496) = .fin (5094697078462873 / 281474976710656))
    (h9 : A.rnd (45035996273704955 / 2251799813685248) = .fin (5629499534213119 / 281474976710656)) :
    A.average [30, 30, 30, 30] = .fin 30 ∧
    A.add (.fin 30) (.fin 1) = .fin 31 ∧
    A.sub (.fin 30) (.fin 1) = .fin 29 ∧
    A.sum [2758454771764429 / 562949953421312,
        12,
        5404319552844595 / 4503599627370496,
        4278419646001971 / 2251799813685248]
      = .fin (5629499534213119 / 281474976710656) := by
  refine ⟨?_, ?_, ?_, ?_⟩
  · norm_num [Rounding.average, Rounding.sum, Rounding.add, Rounding.divNat, h0, h1, h2, h3, h4, h5, h6, h7, h8, h9]
  · norm_num [Rounding.add, h0, h1, h2, h3, h4, h5, h6, h7, h8, h9]
  · norm_num [Rounding.sub, Rounding.add, JSNum.neg, h0, h1, h2, h3, h4, h5, h6, h7, h8, h9]
  · norm_num [Rounding.sum, Rounding.add, h0, h1, h2, h3, h4, h5, h6, h7, h8, h9]

theorem showeryDays_summary (A : Rounding)
    (h0 : A.rnd 30 = .fin 30)
    (h1 : A.rnd 60 = .fin 60)
    (h2 : A.rnd 90 = .fin 90)
    (h3 : A.rnd 120 = .fin 120)
    (h4 : A.rnd 31 = .fin 31)
    (h5 : A.rnd 29 = .fin 29)
    (h6 : A.rnd (2758454771764429 / 562949953421312) = .fin (2758454771764429 / 562949953421312))
    (h7 : A.rnd (9513854212820173 / 562949953421312) = .fin (2378463553205043 / 140737488355328))
    (h8 : A.rnd (81515153255405971 / 4503599627370496) = .fin (5094697078462873 / 281474976710656))
    (h9 : A.rnd (45035996273704955 / 2251799813685248) = .fin (5629499534213119 / 281474976710656))
    (h10 : A.rnd (1 / 10) = .fin (3602879701896397 / 36028797018963968)) :
    generateLocalSummaryWith A (.loaded showeryDays)
      = "This weather analysis covers the period from 01/01/2025 to 01/01/2025 for the location at 28.6¬∞N, 77.2¬∞E.\n\nThe temperature during this period has been quite warm, averaging 30.0¬∞C. The warmest day reached 30.0¬∞C, while the coolest dropped to 30.0¬∞C. Temperature patterns have remained relatively stable. \n\nRainfall has been moderate during this period, totaling 20.0mm. There were 4 days with measurable rainfall, with the heaviest day receiving 12.0mm. \n\nOverall, this location has experienced warm and dry conditions, ideal for outdoor activities." := by
  obtain ⟨havg, hup, hdown, hsum⟩ := showeryDays_computed A h0 h1 h2 h3 h4 h5 h6 h7 h8 h9
  obtain ⟨ht, hq⟩ := showeryDays_present
  have hne : presentT2M showeryDays.data ≠ [] := by rw [ht]; simp
  rw [generateLocalSummaryWith_loaded A showeryDays (dayWith (.num 30) (.num (2758454771764429 / 562949953421312)) .null)
    (dayWith (.num 30) (.num (4278419646001971 / 2251799813685248)) .null) rfl rfl, summaryTextWith]
  have hh : summaryHeader (dayWith (.num 30) (.num (2758454771764429 / 562949953421312)) .null)
      (dayWith (.num 30) (.num (4278419646001971 / 2251799813685248)) .null) showeryDays.location
      = "This weather analysis covers the period from 01/01/2025 to 01/01/2025 for the location at 28.6¬∞N, 77.2¬∞E.\n\n" := by
    decide
  have htrend : summaryTrendWith A showeryDays.data
      = "Temperature patterns have remained relatively stable. " := by
    rw [summaryTrendWith_short A _ hne (by rw [ht]; decide), ht, havg]
    simp only [summaryTrendOf, hup, hdown]
    norm_num [JSNum.lt]
  have hts : temperatureSectionWith A showeryDays
      = "The temperature during this period has been quite warm, averaging 30.0¬∞C. The warmest day reached 30.0¬∞C, while the coolest dropped to 30.0¬∞C. Temperature patterns have remained relatively stable. \n\n" := by
    rw [temperatureSectionWith_present A showeryDays (by decide) hne, htrend, ht, havg]
    have hmin : mathMin [30, 30, 30, 30] = .fin 30 := by norm_num [mathMin, minStep]
    have hmax : mathMax [30, 30, 30, 30] = .fin 30 := by norm_num [mathMax, maxStep]
    have hword : summaryTemperatureWord (.fin 30) = "warm" := by
      norm_num [summaryTemperatureWord, JSNum.lt]
    have hf : temperatureForecastWith A showeryDays.forecasts = "\n\n" := rfl
    rw [hmin, hmax, hword, hf, toFixed_text_30]
    decide
  have ttot : ((JSNum.fin (5629499534213119 / 281474976710656)).toFixed 1).text = "20.0" := by
    rw [toFixed_fin_nonneg (f := 1) (x := 5629499534213119 / 281474976710656) (n := 200) (by norm_num) (by norm_num)
      (by norm_num)]
    decide
  have tmax : ((JSNum.fin 12).toFixed 1).text = "12.0" := by
    rw [toFixed_fin_nonneg (f := 1) (x := 12) (n := 120) (by norm_num) (by norm_num)
      (by norm_num)]
    decide
  have hp : precipitationSectionWith A showeryDays
      = "Rainfall has been moderate during this period, totaling 20.0mm. There were 4 days with measurable rainfall, with the heaviest day receiving 12.0mm. \n\n" := by
    rw [precipitationSectionWith_present A showeryDays (by decide) (by rw [hq]; simp), hq, hsum,
      h10]
    have hmax : mathMax [2758454771764429 / 562949953421312,
        12,
        5404319552844595 / 4503599627370496,
        4278419646001971 / 2251799813685248]
        = .fin 12 := by
      norm_num [mathMax, maxStep]
    have hrain : rainfallSentenceOf (.fin (5629499534213119 / 281474976710656))
        = "Rainfall has been moderate during this period, totaling 20.0mm. " := by
      have h1 : JSNum.lt (.fin (5629499534213119 / 281474976710656)) (.fin 10) = false := by norm_num [JSNum.lt]
      have h2 : JSNum.lt (.fin (5629499534213119 / 281474976710656)) (.fin 50) = true := by norm_num [JSNum.lt]
      simp only [rainfallSentenceOf, h1, h2, if_true, Bool.false_eq_true, if_false, ttot]
      decide
    have hcount : (([2758454771764429 / 562949953421312,
        12,
        5404319552844595 / 4503599627370496,
        4278419646001971 / 2251799813685248] : List ℚ).filter
        (fun v => JSNum.lt (.fin (3602879701896397 / 36028797018963968)) (.fin v))).length
        = 4 := by
      norm_num [List.filter_cons, JSNum.lt]
    have hlt : JSNum.lt (.fin 20) (.fin 12) = false := by norm_num [JSNum.lt]
    have hf : precipitationForecastWith A showeryDays.forecasts = "" := rfl
    rw [hmax, hrain, hcount, hlt, hf, tmax]
    decide
  have hw : windSectionWith A showeryDays = "" := windSectionWith_absent A showeryDays rfl
  have ho : overallSentenceOf (overallTempAvgWith A showeryDays)
      (overallRainTotalWith A showeryDays)
      = "warm and dry conditions, ideal for outdoor activities." := by
    rw [overallTempAvgWith_eq, overallRainTotalWith_eq, if_pos (by decide), if_pos (by decide),
      ht, hq, havg, hsum, overallSentenceOf_table _ _ (by norm_num) (by norm_num)]
    norm_num [overallTable]
  rw [hh, hts, hp, hw, ho]
  decide

/-- A rainfall total of 20 mm assessed as dry: the four amounts add up to
20 mm and a little more, which is not below the threshold of the overall
assessment, but their binary64 sum is 19.999999999999996, so the summary ends
with warm and dry while it shows the total as 20.0mm. -/
theorem total_of_20_reported_dry :
    20 ≤ (presentPrecip showeryDays.data).sum ∧
    generateLocalSummaryWith binary64 (.loaded showeryDays)
      = "This weather analysis covers the period from 01/01/2025 to 01/01/2025 for the location at 28.6¬∞N, 77.2¬∞E.\n\nThe temperature during this period has been quite warm, averaging 30.0¬∞C. The warmest day reached 30.0¬∞C, while the coolest dropped to 30.0¬∞C. Temperature patterns have remained relatively stable. \n\nRainfall has been moderate during this period, totaling 20.0mm. There were 4 days with measurable rainfall, with the heaviest day receiving 12.0mm. \n\nOverall, this location has experienced warm and dry conditions, ideal for outdoor activities." := by
  refine ⟨?_, ?_⟩
  · rw [showeryDays_present.2]
    norm_num
  · exact showeryDays_summary binary64
      (binary64_fin 4 (-48) 8444249301319680 (by norm_num))
      (binary64_fin 5 (-47) 8444249301319680 (by norm_num))
      (binary64_fin 6 (-46) 6333186975989760 (by norm_num))
      (binary64_fin 6 (-46) 8444249301319680 (by norm_num))
      (binary64_fin 4 (-48) 8725724278030336 (by norm_num))
      (binary64_fin 4 (-48) 8162774324609024 (by norm_num))
      (binary64_fin 2 (-50) 5516909543528858 (by norm_num))
      (binary64_fin 4 (-48) 4756927106410086 (by norm_num))
      (binary64_fin 4 (-48) 5094697078462873 (by norm_num))
      (binary64_fin 4 (-48) 5629499534213119 (by norm_num))
      (binary64_fin (-4) (-56) 7205759403792794 (by norm_num))

end NasaWeather
